import Mathlib

/-! # rtw89 packet-path core (`src/core.c`): a shallow embedding

The definitions below follow the functions of `src/core.c` one by one and keep
their names. Machine integers are natural numbers, reduced modulo `2 ^ w`
where the C code can wrap. Headers of the driver (`core.h`, `txrx.h`) are not
part of the sources at hand: the constants and accessor macros they declare
are taken as parameters, grouped in small records that carry the macro names.
-/

namespace Rtw89

/-! ## Channel geometry: `rtw89_get_channel_params` -/

/-- Kernel enumeration `enum nl80211_chan_width`. -/
inductive nl80211_chan_width
  | NL80211_CHAN_WIDTH_20_NOHT
  | NL80211_CHAN_WIDTH_20
  | NL80211_CHAN_WIDTH_40
  | NL80211_CHAN_WIDTH_80
  | NL80211_CHAN_WIDTH_80P80
  | NL80211_CHAN_WIDTH_160
  | NL80211_CHAN_WIDTH_5
  | NL80211_CHAN_WIDTH_10
  | NL80211_CHAN_WIDTH_1
  | NL80211_CHAN_WIDTH_2
  | NL80211_CHAN_WIDTH_4
  | NL80211_CHAN_WIDTH_8
  | NL80211_CHAN_WIDTH_16
  deriving DecidableEq, Repr

/-- Fields of `struct ieee80211_channel` read by the driver: the band,
`center_freq` in MHz and the 16-bit `hw_value`. -/
structure ieee80211_channel where
  band : Nat := 0
  center_freq : Nat := 0
  hw_value : Nat := 0
  deriving DecidableEq, Repr

/-- Fields of `struct cfg80211_chan_def` read by the driver. -/
structure cfg80211_chan_def where
  chan : ieee80211_channel := {}
  width : nl80211_chan_width := nl80211_chan_width.NL80211_CHAN_WIDTH_20_NOHT
  center_freq1 : Nat := 0
  deriving DecidableEq, Repr

/-- Constants of `core.h` used by the channel code: the bandwidth tiers
(`enum rtw89_bandwidth`, used as indices of `cch_by_bw`), the highest tier and
the sub-channel indices (`enum rtw89_sc_offset`). The header is not among the
sources, so the values are parameters. -/
structure rtw89_chan_consts where
  RTW89_CHANNEL_WIDTH_20 : Nat
  RTW89_CHANNEL_WIDTH_40 : Nat
  RTW89_CHANNEL_WIDTH_80 : Nat
  RTW89_MAX_CHANNEL_WIDTH : Nat
  RTW89_SC_DONT_CARE : Nat
  RTW89_SC_20_UPPER : Nat
  RTW89_SC_20_LOWER : Nat
  RTW89_SC_20_UPMOST : Nat
  RTW89_SC_20_LOWEST : Nat
  deriving DecidableEq, Repr

/-- The `struct rtw89_channel_params` output record. All fields are `u8`;
`cch_by_bw` is the array of center channels per bandwidth tier. -/
structure rtw89_channel_params where
  center_chan : Nat
  primary_chan : Nat
  bandwidth : Nat
  pri_ch_idx : Nat
  cch_by_bw : Nat → Nat

/-- Truncation of a C integer expression to `u8`. -/
def u8 (x : Int) : Nat := (x % 256).toNat

/-- Store into one array cell: `a[i] = v`. -/
def arr_set (a : Nat → Nat) (i v : Nat) : Nat → Nat :=
  fun j => if j = i then v else a j

/-- The loop `for (i = first; i <= last; i++) cch_by_bw[i] = 0;`, unrolled
over `n` remaining iterations starting at index `i`. -/
def clear_cch_loop (a : Nat → Nat) : Nat → Nat → Nat → Nat
  | _, 0 => a
  | i, n + 1 => clear_cch_loop (arr_set a i 0) (i + 1) n

/-- Local variables of `rtw89_get_channel_params` after the `switch (width)`. -/
structure chan_switch_result where
  bandwidth : Nat
  primary_chan_idx : Nat
  center_chan : Nat
  cch_by_bw : Nat → Nat

/-- The `switch (width)` of `rtw89_get_channel_params` (lines 135-182), entered
with `center_chan = (u8)channel->hw_value`, `bandwidth = RTW89_CHANNEL_WIDTH_20`
and `primary_chan_idx = 0`. -/
def rtw89_get_channel_params_switch (K : rtw89_chan_consts) (width : nl80211_chan_width)
    (primary_freq center_freq : Nat) (center_chan : Nat) (cch_by_bw : Nat → Nat) :
    chan_switch_result :=
  match width with
  | nl80211_chan_width.NL80211_CHAN_WIDTH_20_NOHT
  | nl80211_chan_width.NL80211_CHAN_WIDTH_20 =>
    { bandwidth := K.RTW89_CHANNEL_WIDTH_20
      primary_chan_idx := K.RTW89_SC_DONT_CARE
      center_chan := center_chan
      cch_by_bw := cch_by_bw }
  | nl80211_chan_width.NL80211_CHAN_WIDTH_40 =>
    if primary_freq > center_freq then
      { bandwidth := K.RTW89_CHANNEL_WIDTH_40
        primary_chan_idx := K.RTW89_SC_20_UPPER
        center_chan := u8 ((center_chan : Int) - 2)
        cch_by_bw := cch_by_bw }
    else
      { bandwidth := K.RTW89_CHANNEL_WIDTH_40
        primary_chan_idx := K.RTW89_SC_20_LOWER
        center_chan := u8 ((center_chan : Int) + 2)
        cch_by_bw := cch_by_bw }
  | nl80211_chan_width.NL80211_CHAN_WIDTH_80 =>
    if primary_freq > center_freq then
      let idx := if primary_freq - center_freq = 10 then K.RTW89_SC_20_UPPER
                 else K.RTW89_SC_20_UPMOST
      let cc := if primary_freq - center_freq = 10 then u8 ((center_chan : Int) - 2)
                else u8 ((center_chan : Int) - 6)
      { bandwidth := K.RTW89_CHANNEL_WIDTH_80
        primary_chan_idx := idx
        center_chan := cc
        cch_by_bw := arr_set cch_by_bw K.RTW89_CHANNEL_WIDTH_40 (u8 ((cc : Int) + 4)) }
    else
      let idx := if center_freq - primary_freq = 10 then K.RTW89_SC_20_LOWER
                 else K.RTW89_SC_20_LOWEST
      let cc := if center_freq - primary_freq = 10 then u8 ((center_chan : Int) + 2)
                else u8 ((center_chan : Int) + 6)
      { bandwidth := K.RTW89_CHANNEL_WIDTH_80
        primary_chan_idx := idx
        center_chan := cc
        cch_by_bw := arr_set cch_by_bw K.RTW89_CHANNEL_WIDTH_40 (u8 ((cc : Int) - 4)) }
  | _ =>
    { bandwidth := K.RTW89_CHANNEL_WIDTH_20
      primary_chan_idx := 0
      center_chan := 0
      cch_by_bw := cch_by_bw }

/-- The function `rtw89_get_channel_params` (lines 116-194). `chan_param` is
the caller's record, whose previous content is arbitrary; the result is its
content on return. -/
def rtw89_get_channel_params (K : rtw89_chan_consts) (chandef : cfg80211_chan_def)
    (chan_param : rtw89_channel_params) : rtw89_channel_params :=
  let channel := chandef.chan
  let primary_freq := channel.center_freq
  let center_freq := chandef.center_freq1
  let cch0 := arr_set chan_param.cch_by_bw K.RTW89_CHANNEL_WIDTH_20 (u8 channel.hw_value)
  let r := rtw89_get_channel_params_switch K chandef.width primary_freq center_freq
    (u8 channel.hw_value) cch0
  let cch1 := arr_set r.cch_by_bw r.bandwidth r.center_chan
  { center_chan := r.center_chan
    primary_chan := u8 channel.hw_value
    bandwidth := r.bandwidth
    pri_ch_idx := r.primary_chan_idx
    cch_by_bw := clear_cch_loop cch1 (r.bandwidth + 1) (K.RTW89_MAX_CHANNEL_WIDTH - r.bandwidth) }

/-- No 8-bit wrap-around in the 80 MHz branch: the offset applied to the
primary channel number (and the 4 applied to the resulting center) stays
within `0 .. 255`. -/
def chan80_no_wrap (chandef : cfg80211_chan_def) : Prop :=
  if chandef.chan.center_freq > chandef.center_freq1 then
    if chandef.chan.center_freq - chandef.center_freq1 = 10 then
      2 ≤ u8 chandef.chan.hw_value ∧ u8 chandef.chan.hw_value + 2 ≤ 255
    else 6 ≤ u8 chandef.chan.hw_value
  else
    if chandef.center_freq1 - chandef.chan.center_freq = 10 then
      2 ≤ u8 chandef.chan.hw_value ∧ u8 chandef.chan.hw_value + 2 ≤ 255
    else u8 chandef.chan.hw_value + 6 ≤ 255

instance (chandef : cfg80211_chan_def) : Decidable (chan80_no_wrap chandef) := by
  unfold chan80_no_wrap
  infer_instance

/-- Example values of the channel constants: tiers 20/40/80 MHz numbered
0, 1, 2 and the sub-channel indices numbered 0 to 4. -/
def chan_consts_example : rtw89_chan_consts :=
  { RTW89_CHANNEL_WIDTH_20 := 0
    RTW89_CHANNEL_WIDTH_40 := 1
    RTW89_CHANNEL_WIDTH_80 := 2
    RTW89_MAX_CHANNEL_WIDTH := 2
    RTW89_SC_DONT_CARE := 0
    RTW89_SC_20_UPPER := 1
    RTW89_SC_20_LOWER := 2
    RTW89_SC_20_UPMOST := 3
    RTW89_SC_20_LOWEST := 4 }

/-- The scenario of the specification: primary channel 40 (5200 MHz),
`center_freq1` = 5210 MHz, width 40 MHz. -/
def chandef_5200_ht40 : cfg80211_chan_def :=
  { chan := { center_freq := 5200, hw_value := 40 }
    width := nl80211_chan_width.NL80211_CHAN_WIDTH_40
    center_freq1 := 5210 }

/-- Primary channel 36 (5180 MHz) in the 80 MHz block centered at 5210 MHz. -/
def chandef_5180_vht80 : cfg80211_chan_def :=
  { chan := { center_freq := 5180, hw_value := 36 }
    width := nl80211_chan_width.NL80211_CHAN_WIDTH_80
    center_freq1 := 5210 }

/-- An arbitrary previous content of the caller's `rtw89_channel_params`. -/
def chan_param_garbage : rtw89_channel_params :=
  { center_chan := 77, primary_chan := 78, bandwidth := 79, pri_ch_idx := 80
    cch_by_bw := fun i => 90 + i }


/-! ## Physical-status report: the sub-element walk -/

/-- The kernel error number `EINVAL`. -/
def EINVAL : Int := 22

/-- Byte `i` of a buffer. The list holds the bytes that exist in memory from
the start of the buffer on; a byte beyond them reads as 0. -/
def byte_at (mem : List Nat) (i : Nat) : Nat := mem.getD i 0 % 256

/-- The 32-bit little-endian load `*(__le32 *)(mem + p)`. -/
def le32_at (mem : List Nat) (p : Nat) : Nat :=
  byte_at mem p + 256 * byte_at mem (p + 1) + 65536 * byte_at mem (p + 2) +
    16777216 * byte_at mem (p + 3)

/-- One bit field of a fixed-offset, bit-packed record: the field
`GENMASK(lo + width - 1, lo)` of the 32-bit little-endian word number `dword`
of the record. -/
structure le32_field where
  dword : Nat
  lo : Nat
  width : Nat
  deriving DecidableEq, Repr

/-- The accessor `le32_get_bits(*((__le32 *)(mem + p) + f.dword), mask of f)`. -/
def le32_get_bits (f : le32_field) (mem : List Nat) (p : Nat) : Nat :=
  (le32_at mem (p + 4 * f.dword) / 2 ^ f.lo) % 2 ^ f.width

/-- Byte offset of the 32-bit load an accessor performs on the record at `p`. -/
def le32_field_addr (f : le32_field) (p : Nat) : Nat := p + 4 * f.dword

/-- Accessor macros and constants of `txrx.h` and `core.h` used on a
physical-status report. The headers are not among the sources: the spec fixes
that the records are fixed-offset and bit-packed, the positions are
parameters. The sub-element type code is 5 bits wide (codes 0 to 31). -/
structure rtw89_phy_sts_h where
  PHY_STS_HDR_LEN : Nat
  RTW89_GET_PHY_STS_IE_TYPE : le32_field
  RTW89_GET_PHY_STS_IE_LEN : le32_field
  RTW89_GET_PHY_STS_IE0_CFO : le32_field
  RTW89_PHYSTS_IE01_CMN_OFDM : Nat
  RTW89_GET_PHY_STS_LEN : le32_field
  RTW89_GET_PHY_STS_RSSI_AVG : le32_field
  RTW89_GET_PHY_STS_RSSI_A : le32_field
  RTW89_GET_PHY_STS_RSSI_B : le32_field
  RTW89_GET_PHY_STS_RSSI_C : le32_field
  RTW89_GET_PHY_STS_RSSI_D : le32_field
  MAX_RSSI : Nat
  deriving DecidableEq, Repr

/-- The constant `VAR_LEN` (line 569). -/
def VAR_LEN : Nat := 0xff

/-- The constant `VAR_LEN_UNIT` (line 570). -/
def VAR_LEN_UNIT : Nat := 8

/-- The table `physts_ie_len_tab[32]` (lines 573-577). -/
def physts_ie_len_tab : List Nat :=
  [16, 32, 24, 24, 8, 8, 8, 8, VAR_LEN, 8, VAR_LEN, 176, VAR_LEN,
   VAR_LEN, VAR_LEN, VAR_LEN, VAR_LEN, VAR_LEN, 16, 24, VAR_LEN,
   VAR_LEN, VAR_LEN, 0, 24, 24, 24, 24, 32, 32, 32, 32]

/-- The function `rtw89_core_get_phy_status_ie_len` (lines 571-588): the `u16`
length of the sub-element at `addr`. A type code within 0..31 indexes the
table; an index outside the table, which a 5-bit code excludes, reads as 0. -/
def rtw89_core_get_phy_status_ie_len (H : rtw89_phy_sts_h) (mem : List Nat) (addr : Nat) : Nat :=
  let ie := le32_get_bits H.RTW89_GET_PHY_STS_IE_TYPE mem addr % 256
  if physts_ie_len_tab.getD ie 0 ≠ VAR_LEN then
    physts_ie_len_tab.getD ie 0
  else
    (le32_get_bits H.RTW89_GET_PHY_STS_IE_LEN mem addr * VAR_LEN_UNIT) % 65536

/-- The 32-bit loads of `rtw89_core_get_phy_status_ie_len`, in program order. -/
def rtw89_core_get_phy_status_ie_len_reads (H : rtw89_phy_sts_h) (mem : List Nat)
    (addr : Nat) : List Nat :=
  let ie := le32_get_bits H.RTW89_GET_PHY_STS_IE_TYPE mem addr % 256
  if physts_ie_len_tab.getD ie 0 ≠ VAR_LEN then
    [le32_field_addr H.RTW89_GET_PHY_STS_IE_TYPE addr]
  else
    [le32_field_addr H.RTW89_GET_PHY_STS_IE_TYPE addr,
     le32_field_addr H.RTW89_GET_PHY_STS_IE_LEN addr]

/-- The kernel helper `sign_extend32(value, index)`: bit `index` of the 32-bit
`value` becomes the sign bit. -/
def sign_extend32 (value : Nat) (index : Nat) : Int :=
  let shift := 31 - index
  let v : Nat := (value * 2 ^ shift) % 2 ^ 32
  let s : Int := if v < 2 ^ 31 then (v : Int) else (v : Int) - 2 ^ 32
  s / 2 ^ shift

/-- Conversion of a C integer to `s16`. -/
def s16 (x : Int) : Int := (x + 32768) % 65536 - 32768

/-- The value `rtw89_core_parse_phy_status_ie01` (lines 590-598) hands to
`rtw89_phy_cfo_parse`: the CFO field, sign-converted as S(12,2). -/
def rtw89_core_parse_phy_status_ie01 (H : rtw89_phy_sts_h) (mem : List Nat) (addr : Nat) : Int :=
  s16 (sign_extend32 (le32_get_bits H.RTW89_GET_PHY_STS_IE0_CFO mem addr) 11)

/-- What `rtw89_core_process_phy_status_ie` (lines 600-615) does on the
sub-element at `addr`: its 32-bit loads, and the CFO values handed to
`rtw89_phy_cfo_parse` (one for a sub-element of type
`RTW89_PHYSTS_IE01_CMN_OFDM`, none otherwise). The function returns 0. -/
def rtw89_core_process_phy_status_ie (H : rtw89_phy_sts_h) (mem : List Nat) (addr : Nat) :
    List Nat × List Int :=
  let ie := le32_get_bits H.RTW89_GET_PHY_STS_IE_TYPE mem addr % 256
  if ie = H.RTW89_PHYSTS_IE01_CMN_OFDM then
    ([le32_field_addr H.RTW89_GET_PHY_STS_IE_TYPE addr,
      le32_field_addr H.RTW89_GET_PHY_STS_IE0_CFO addr],
     [rtw89_core_parse_phy_status_ie01 H mem addr])
  else
    ([le32_field_addr H.RTW89_GET_PHY_STS_IE_TYPE addr], [])

/-- Outcome of `rtw89_core_rx_parse_phy_sts`: the return value, the byte
offsets (from `phy_ppdu->buf`) of the 32-bit loads performed, in program
order, and the CFO values handed to `rtw89_phy_cfo_parse`. -/
structure phy_sts_parse where
  ret : Int
  reads : List Nat
  cfo : List Int
  deriving DecidableEq, Repr

/-- The `while (pos < end)` loop of `rtw89_core_rx_parse_phy_sts` (lines
658-667). `pos` and `end_` are byte offsets from `phy_ppdu->buf`; the first
argument bounds the number of iterations, `none` meaning that the bound was
reached before the loop ended. -/
def rtw89_core_rx_parse_phy_sts_loop (H : rtw89_phy_sts_h) (mem : List Nat) (end_ : Nat) :
    Nat → Nat → Option phy_sts_parse
  | 0, _ => none
  | fuel + 1, pos =>
    if pos < end_ then
      let ie_len := rtw89_core_get_phy_status_ie_len H mem pos
      let r1 := rtw89_core_get_phy_status_ie_len_reads H mem pos
      let p := rtw89_core_process_phy_status_ie H mem pos
      let pos' := pos + ie_len
      if pos' > end_ ∨ ie_len = 0 then
        some { ret := -EINVAL, reads := r1 ++ p.1, cfo := p.2 }
      else
        match rtw89_core_rx_parse_phy_sts_loop H mem end_ fuel pos' with
        | none => none
        | some r => some { ret := r.ret, reads := r1 ++ p.1 ++ r.reads, cfo := p.2 ++ r.cfo }
    else
      some { ret := 0, reads := [], cfo := [] }

/-- The function `rtw89_core_rx_parse_phy_sts` (lines 647-670) on a report
whose bytes from `phy_ppdu->buf` on are `mem`, with declared length `len` and
flag `to_self`. The loop is given `len + 1` iterations, which always suffice. -/
def rtw89_core_rx_parse_phy_sts (H : rtw89_phy_sts_h) (mem : List Nat) (len : Nat)
    (to_self : Bool) : Option phy_sts_parse :=
  if !to_self then
    some { ret := 0, reads := [], cfo := [] }
  else
    rtw89_core_rx_parse_phy_sts_loop H mem len (len + 1) H.PHY_STS_HDR_LEN

/-- Example positions of the physical-status fields: an 8-byte header, the
type code in bits 4..0 and the length in bits 11..5 of the first word of a
sub-element, the CFO in bits 19..8 of its second word. -/
def phy_sts_h_example : rtw89_phy_sts_h :=
  { PHY_STS_HDR_LEN := 8
    RTW89_GET_PHY_STS_IE_TYPE := { dword := 0, lo := 0, width := 5 }
    RTW89_GET_PHY_STS_IE_LEN := { dword := 0, lo := 5, width := 7 }
    RTW89_GET_PHY_STS_IE0_CFO := { dword := 1, lo := 8, width := 12 }
    RTW89_PHYSTS_IE01_CMN_OFDM := 1
    RTW89_GET_PHY_STS_LEN := { dword := 0, lo := 8, width := 8 }
    RTW89_GET_PHY_STS_RSSI_AVG := { dword := 0, lo := 24, width := 8 }
    RTW89_GET_PHY_STS_RSSI_A := { dword := 1, lo := 0, width := 8 }
    RTW89_GET_PHY_STS_RSSI_B := { dword := 1, lo := 8, width := 8 }
    RTW89_GET_PHY_STS_RSSI_C := { dword := 1, lo := 16, width := 8 }
    RTW89_GET_PHY_STS_RSSI_D := { dword := 1, lo := 24, width := 8 }
    MAX_RSSI := 110 }

/-- The consecutive sub-elements found from offset `start` on have the lengths
`ls`: each length is the one `rtw89_core_get_phy_status_ie_len` gives at the
offset where the previous sub-element ends. -/
def sub_elements_from (H : rtw89_phy_sts_h) (mem : List Nat) : Nat → List Nat → Prop
  | _, [] => True
  | start, l :: ls =>
    l = rtw89_core_get_phy_status_ie_len H mem start ∧ sub_elements_from H mem (start + l) ls

/-! ## Receive path: `rtw89_core_rx` and the reassembly queues -/

/-- The radio paths `RTW89_PHY_0` and `RTW89_PHY_1` (`RTW89_PHY_MAX` is 2). -/
inductive rtw89_phy_idx
  | RTW89_PHY_0
  | RTW89_PHY_1
  deriving DecidableEq, Repr

/-- An array indexed by the radio path. -/
structure per_phy (α : Type) where
  phy0 : α
  phy1 : α
  deriving DecidableEq, Repr

/-- Read of `a[band]`. -/
def per_phy.get {α : Type} (a : per_phy α) : rtw89_phy_idx → α
  | rtw89_phy_idx.RTW89_PHY_0 => a.phy0
  | rtw89_phy_idx.RTW89_PHY_1 => a.phy1

/-- Store `a[band] = v`. -/
def per_phy.set {α : Type} (a : per_phy α) (band : rtw89_phy_idx) (v : α) : per_phy α :=
  match band with
  | rtw89_phy_idx.RTW89_PHY_0 => { a with phy0 := v }
  | rtw89_phy_idx.RTW89_PHY_1 => { a with phy1 := v }

/-- The report kinds of `enum rtw89_core_rx_type` that `core.c` tells apart;
every other kind is `RTW89_CORE_RX_TYPE_OTHER`. -/
inductive rtw89_core_rx_type
  | RTW89_CORE_RX_TYPE_WIFI
  | RTW89_CORE_RX_TYPE_PPDU_STAT
  | RTW89_CORE_RX_TYPE_C2H
  | RTW89_CORE_RX_TYPE_OTHER
  deriving DecidableEq, Repr

/-- The record `struct rtw89_rx_desc_info`, as filled by
`rtw89_core_query_rxdesc` and by the bus code (`bb_sel`). -/
structure rtw89_rx_desc_info where
  pkt_size : Nat := 0
  drv_info_size : Nat := 0
  long_rxdesc : Bool := false
  pkt_type : rtw89_core_rx_type := rtw89_core_rx_type.RTW89_CORE_RX_TYPE_WIFI
  mac_info_valid : Bool := false
  bw : Nat := 0
  data_rate : Nat := 0
  gi_ltf : Nat := 0
  user_id : Nat := 0
  sr_en : Bool := false
  ppdu_cnt : Nat := 0
  ppdu_type : Nat := 0
  free_run_cnt : Nat := 0
  icv_err : Bool := false
  crc32_err : Bool := false
  hw_dec : Bool := false
  sw_dec : Bool := false
  addr1_match : Bool := false
  shift : Nat := 0
  offset : Nat := 0
  ready : Bool := false
  frame_type : Nat := 0
  addr_cam_valid : Bool := false
  addr_cam_id : Nat := 0
  sec_cam_id : Nat := 0
  mac_id : Nat := 0
  rx_pl_id : Nat := 0
  bb_sel : Bool := false
  deriving DecidableEq, Repr

/-- Fields of the kernel record `struct ieee80211_rx_status` that the driver
writes. `rate_idx` and `nss` are `u8`, `encoding` and `he_gi` are 2-bit and
`bw` is a 3-bit field. `signal`, `chains` and `chain_signal` are written by
the chip's `query_ppdu` only. -/
structure ieee80211_rx_status where
  mactime : Nat := 0
  freq : Nat := 0
  band : Nat := 0
  flag : Nat := 0
  bw : Nat := 0
  encoding : Nat := 0
  rate_idx : Nat := 0
  nss : Nat := 0
  he_gi : Nat := 0
  signal : Int := 0
  chains : Nat := 0
  chain_signal : List Int := []
  deriving DecidableEq, Repr

/-- A socket buffer: the bytes `skb->data[0 .. skb->len)` and, in the control
buffer, the receive status (`IEEE80211_SKB_RXCB`). -/
structure sk_buff where
  data : List Nat := []
  cb : ieee80211_rx_status := {}
  deriving DecidableEq, Repr

/-- The length `skb->len`. -/
def sk_buff.len (skb : sk_buff) : Nat := skb.data.length

/-- Constants and macros of `core.h` and of the kernel headers used on the
receive path. None of them is declared in `core.c`; they are parameters. -/
structure rtw89_rx_consts where
  RTW89_MAX_PPDU_CNT : Nat
  PPDU_FILTER_BITMAP : Nat
  RTW89_CHANNEL_WIDTH_40 : Nat
  RTW89_CHANNEL_WIDTH_80 : Nat
  RATE_INFO_BW_20 : Nat
  RATE_INFO_BW_40 : Nat
  RATE_INFO_BW_80 : Nat
  NL80211_BAND_5GHZ : Nat
  RX_FLAG_FAILED_FCS_CRC : Nat
  RX_FLAG_DECRYPTED : Nat
  RX_FLAG_MACTIME_START : Nat
  RX_ENC_LEGACY : Nat
  RX_ENC_HT : Nat
  RX_ENC_VHT : Nat
  RX_ENC_HE : Nat
  DATA_RATE_MODE_NON_HT : Nat
  DATA_RATE_MODE_HT : Nat
  DATA_RATE_MODE_VHT : Nat
  DATA_RATE_MODE_HE : Nat
  GET_DATA_RATE_MODE : Nat → Nat
  GET_DATA_RATE_NOT_HT_IDX : Nat → Nat
  GET_DATA_RATE_HT_IDX : Nat → Nat
  GET_DATA_RATE_VHT_HE_IDX : Nat → Nat
  GET_DATA_RATE_NSS : Nat → Nat
  RTW89_GILTF_LGI_4XHE32 : Nat
  RTW89_GILTF_SGI_4XHE08 : Nat
  RTW89_GILTF_2XHE16 : Nat
  RTW89_GILTF_2XHE08 : Nat
  RTW89_GILTF_1XHE16 : Nat
  RTW89_GILTF_1XHE08 : Nat
  NL80211_RATE_INFO_HE_GI_0_8 : Nat
  NL80211_RATE_INFO_HE_GI_1_6 : Nat
  NL80211_RATE_INFO_HE_GI_3_2 : Nat

/-- Accessor macros and sizes of `txrx.h` for the MAC-info block that opens a
physical-status report, and the width in bits of the unsigned field `len` of
`struct rtw89_rx_phy_ppdu` (declared in `core.h`). Parameters, as the headers
are not among the sources. -/
structure rtw89_rxinfo_h where
  RTW89_GET_RXINFO_RX_CNT_VLD : le32_field
  RTW89_GET_RXINFO_PLCP_LEN : le32_field
  RTW89_GET_RXINFO_USR_NUM : le32_field
  RTW89_PPDU_MAX_USR : Nat
  RTW89_PPDU_MAC_INFO_SIZE : Nat
  RTW89_PPDU_MAC_INFO_USR_SIZE : Nat
  RTW89_PPDU_MAC_RX_CNT_SIZE : Nat
  PHY_PPDU_LEN_BITS : Nat
  deriving DecidableEq, Repr

/-- The record `struct rtw89_rx_phy_ppdu`. `buf` is kept as the byte offset of
the pointer `buf` from `skb->data`; `rssi` holds the four `s8` entries of the
paths A to D. -/
structure rtw89_rx_phy_ppdu where
  buf : Nat := 0
  len : Nat := 0
  rssi_avg : Nat := 0
  rssi : List Int := [0, 0, 0, 0]
  mac_id : Nat := 0
  to_self : Bool := false
  valid : Bool := false
  deriving DecidableEq, Repr

/-- What the receive path needs from outside `core.c`: the header constants
and the chip operation `rtw89_chip_query_ppdu`, which writes the telemetry of
a status report into a frame's receive status. -/
structure rtw89_rx_env where
  C : rtw89_rx_consts
  H : rtw89_phy_sts_h
  R : rtw89_rxinfo_h
  rtw89_chip_query_ppdu : rtw89_rx_phy_ppdu → ieee80211_rx_status → ieee80211_rx_status

/-- One entry of `ppdu_sts.rx_queue[band]`: the queued frame and, as ghost
state that the driver does not store, the ppdu count of the descriptor the
frame was enqueued from. -/
structure rx_queue_entry where
  skb : sk_buff
  ppdu_cnt : Nat
  deriving DecidableEq, Repr

/-- The record `struct rtw89_ppdu_sts_info`: per radio path the reassembly
queue and the recorded epoch (`u8`). -/
structure rtw89_ppdu_sts_info where
  rx_queue : per_phy (List rx_queue_entry)
  curr_rx_ppdu_cnt : per_phy Nat
  deriving DecidableEq, Repr

/-- The part of `struct rtw89_dev` the receive path uses: the current channel
of `hw->conf.chandef` and `ppdu_sts`. -/
structure rtw89_dev where
  hw_conf_chan : ieee80211_channel := {}
  ppdu_sts : rtw89_ppdu_sts_info
  deriving DecidableEq, Repr

/-- What the receive path does to its collaborators, in program order. -/
inductive rx_event
  | ieee80211_rx_irqsafe (skb : sk_buff)
  | rtw89_fw_c2h_irqsafe (skb : sk_buff)
  | dev_kfree_skb_any (skb : sk_buff)
  | ewma_rssi_add (mac_id : Nat) (rssi_avg : Nat)
  | rtw89_phy_cfo_parse (cfo : Int)
  deriving DecidableEq, Repr

/-- The kernel constant `U8_MAX`. -/
def U8_MAX : Nat := 255

/-- The mask `MASKBYTE0`. -/
def MASKBYTE0 : Nat := 0xff

/-- Conversion of a C integer to `s8`. -/
def s8 (x : Int) : Int := (x + 128) % 256 - 128

/-- The path of a descriptor: `desc_info->bb_sel ? RTW89_PHY_1 : RTW89_PHY_0`. -/
def rx_band (desc_info : rtw89_rx_desc_info) : rtw89_phy_idx :=
  if desc_info.bb_sel then rtw89_phy_idx.RTW89_PHY_1 else rtw89_phy_idx.RTW89_PHY_0

/-- The function `rtw89_core_ppdu_sts_init` (lines 1541-1549): both queues
empty, both epochs `U8_MAX`. -/
def rtw89_core_ppdu_sts_init : rtw89_ppdu_sts_info :=
  { rx_queue := { phy0 := [], phy1 := [] }
    curr_rx_ppdu_cnt := { phy0 := U8_MAX, phy1 := U8_MAX } }

/-- The function `rtw89_core_rx_process_mac_ppdu` (lines 527-557): the return
value and the report record on return. -/
def rtw89_core_rx_process_mac_ppdu (R : rtw89_rxinfo_h) (skb : sk_buff)
    (phy_ppdu : rtw89_rx_phy_ppdu) : Int × rtw89_rx_phy_ppdu :=
  let rx_cnt_valid := le32_get_bits R.RTW89_GET_RXINFO_RX_CNT_VLD skb.data 0 ≠ 0
  let plcp_size := (le32_get_bits R.RTW89_GET_RXINFO_PLCP_LEN skb.data 0 * 8) % 256
  let usr_num := le32_get_bits R.RTW89_GET_RXINFO_USR_NUM skb.data 0 % 256
  if usr_num > R.RTW89_PPDU_MAX_USR then
    (-EINVAL, phy_ppdu)
  else
    let phy_sts := R.RTW89_PPDU_MAC_INFO_SIZE + usr_num * R.RTW89_PPDU_MAC_INFO_USR_SIZE
    let phy_sts := if usr_num % 2 = 1 then phy_sts + R.RTW89_PPDU_MAC_INFO_USR_SIZE else phy_sts
    let phy_sts := if rx_cnt_valid then phy_sts + R.RTW89_PPDU_MAC_RX_CNT_SIZE else phy_sts
    let phy_sts := phy_sts + plcp_size
    (0, { phy_ppdu with
          buf := phy_sts
          len := (((skb.len : Int) - (phy_sts : Int)) % 2 ^ R.PHY_PPDU_LEN_BITS).toNat })

/-- The function `rtw89_core_update_phy_ppdu` (lines 617-630). -/
def rtw89_core_update_phy_ppdu (H : rtw89_phy_sts_h) (skb : sk_buff)
    (phy_ppdu : rtw89_rx_phy_ppdu) : rtw89_rx_phy_ppdu :=
  let path := fun (f : le32_field) =>
    s8 (s8 ((le32_get_bits f skb.data phy_ppdu.buf / 2 : Nat) : Int) - (H.MAX_RSSI : Int))
  { phy_ppdu with
    rssi_avg := le32_get_bits H.RTW89_GET_PHY_STS_RSSI_AVG skb.data phy_ppdu.buf % 256
    rssi := [path H.RTW89_GET_PHY_STS_RSSI_A, path H.RTW89_GET_PHY_STS_RSSI_B,
             path H.RTW89_GET_PHY_STS_RSSI_C, path H.RTW89_GET_PHY_STS_RSSI_D] }

/-- The function `rtw89_core_rx_process_phy_ppdu` (lines 632-645): return
value, report record and events. `ieee80211_iterate_stations_atomic` with
`rtw89_core_rx_process_phy_ppdu_iter` adds `rssi_avg` to the average of every
station whose `mac_id` is the report's; this is the event `ewma_rssi_add`. -/
def rtw89_core_rx_process_phy_ppdu (H : rtw89_phy_sts_h) (skb : sk_buff)
    (phy_ppdu : rtw89_rx_phy_ppdu) : Int × rtw89_rx_phy_ppdu × List rx_event :=
  if (le32_get_bits H.RTW89_GET_PHY_STS_LEN skb.data phy_ppdu.buf * 8) % 2 ^ 32 ≠ phy_ppdu.len then
    (-EINVAL, phy_ppdu, [])
  else
    let p := rtw89_core_update_phy_ppdu H skb phy_ppdu
    (0, p, [rx_event.ewma_rssi_add p.mac_id p.rssi_avg])

/-- The function `rtw89_core_rx_process_phy_sts` (lines 672-682): the report
record on return and the calls of `rtw89_phy_cfo_parse`. The walk reads the
bytes from `phy_ppdu->buf` on. -/
def rtw89_core_rx_process_phy_sts (H : rtw89_phy_sts_h) (skb : sk_buff)
    (phy_ppdu : rtw89_rx_phy_ppdu) : rtw89_rx_phy_ppdu × List rx_event :=
  match rtw89_core_rx_parse_phy_sts H (skb.data.drop phy_ppdu.buf) phy_ppdu.len
      phy_ppdu.to_self with
  | some r =>
    (if r.ret ≠ 0 then phy_ppdu else { phy_ppdu with valid := true },
     r.cfo.map rx_event.rtw89_phy_cfo_parse)
  | none => (phy_ppdu, [])

/-- The function `rtw89_core_rx_ppdu_match` (lines 684-739): does the queued
frame with receive status `status` belong to the report described by
`desc_info`? -/
def rtw89_core_rx_ppdu_match (C : rtw89_rx_consts) (rtwdev : rtw89_dev)
    (desc_info : rtw89_rx_desc_info) (status : ieee80211_rx_status) : Bool :=
  let band := rx_band desc_info
  let data_rate := desc_info.data_rate
  let data_rate_mode := C.GET_DATA_RATE_MODE data_rate % 256
  let rate_idx : Nat :=
    if data_rate_mode = C.DATA_RATE_MODE_NON_HT then
      let idx := C.GET_DATA_RATE_NOT_HT_IDX data_rate % 256
      if status.band = C.NL80211_BAND_5GHZ then u8 ((idx : Int) - 4) else idx
    else if data_rate_mode = C.DATA_RATE_MODE_HT then
      C.GET_DATA_RATE_HT_IDX data_rate % 256
    else if data_rate_mode = C.DATA_RATE_MODE_VHT then
      C.GET_DATA_RATE_VHT_HE_IDX data_rate % 256
    else if data_rate_mode = C.DATA_RATE_MODE_HE then
      C.GET_DATA_RATE_VHT_HE_IDX data_rate % 256
    else MASKBYTE0
  let bw : Nat :=
    if desc_info.bw = C.RTW89_CHANNEL_WIDTH_80 then C.RATE_INFO_BW_80
    else if desc_info.bw = C.RTW89_CHANNEL_WIDTH_40 then C.RATE_INFO_BW_40
    else C.RATE_INFO_BW_20
  let gi_ltf : Nat :=
    if desc_info.gi_ltf = C.RTW89_GILTF_SGI_4XHE08 ∨ desc_info.gi_ltf = C.RTW89_GILTF_2XHE08 ∨
        desc_info.gi_ltf = C.RTW89_GILTF_1XHE08 then C.NL80211_RATE_INFO_HE_GI_0_8
    else if desc_info.gi_ltf = C.RTW89_GILTF_2XHE16 ∨
        desc_info.gi_ltf = C.RTW89_GILTF_1XHE16 then C.NL80211_RATE_INFO_HE_GI_1_6
    else if desc_info.gi_ltf = C.RTW89_GILTF_LGI_4XHE32 then C.NL80211_RATE_INFO_HE_GI_3_2
    else U8_MAX
  decide (rtwdev.ppdu_sts.curr_rx_ppdu_cnt.get band = desc_info.ppdu_cnt ∧
    status.rate_idx = rate_idx ∧ status.he_gi = gi_ltf % 256 ∧ status.bw = bw % 256)

/-- The loop of `rtw89_core_rx_pending_skb` (lines 754-760) over the queued
frames in queue order: each one is unlinked, enriched by
`rtw89_chip_query_ppdu` when it matches the report, and delivered. -/
def rtw89_core_rx_pending_skb_walk (E : rtw89_rx_env) (rtwdev : rtw89_dev)
    (phy_ppdu : rtw89_rx_phy_ppdu) (desc_info : rtw89_rx_desc_info) :
    List rx_queue_entry → List rx_event
  | [] => []
  | e :: rest =>
    let skb_ppdu :=
      if rtw89_core_rx_ppdu_match E.C rtwdev desc_info e.skb.cb then
        { e.skb with cb := E.rtw89_chip_query_ppdu phy_ppdu e.skb.cb }
      else e.skb
    rx_event.ieee80211_rx_irqsafe skb_ppdu ::
      rtw89_core_rx_pending_skb_walk E rtwdev phy_ppdu desc_info rest

/-- The function `rtw89_core_rx_pending_skb` (lines 741-761). -/
def rtw89_core_rx_pending_skb (E : rtw89_rx_env) (rtwdev : rtw89_dev)
    (phy_ppdu : rtw89_rx_phy_ppdu) (desc_info : rtw89_rx_desc_info) :
    rtw89_dev × List rx_event :=
  let band := rx_band desc_info
  let curr := rtwdev.ppdu_sts.curr_rx_ppdu_cnt.get band
  if curr > E.C.RTW89_MAX_PPDU_CNT then
    (rtwdev, [])
  else
    ({ rtwdev with
       ppdu_sts := { rtwdev.ppdu_sts with rx_queue := rtwdev.ppdu_sts.rx_queue.set band [] } },
     rtw89_core_rx_pending_skb_walk E rtwdev phy_ppdu desc_info
       (rtwdev.ppdu_sts.rx_queue.get band))

/-- The function `rtw89_core_rx_process_ppdu_sts` (lines 763-782). -/
def rtw89_core_rx_process_ppdu_sts (E : rtw89_rx_env) (rtwdev : rtw89_dev)
    (desc_info : rtw89_rx_desc_info) (skb : sk_buff) : rtw89_dev × List rx_event :=
  let phy_ppdu : rtw89_rx_phy_ppdu :=
    { buf := 0, valid := false, len := skb.len % 2 ^ E.R.PHY_PPDU_LEN_BITS
      to_self := desc_info.addr1_match, mac_id := desc_info.mac_id }
  let phy_ppdu :=
    if desc_info.mac_info_valid then (rtw89_core_rx_process_mac_ppdu E.R skb phy_ppdu).2
    else phy_ppdu
  let r1 := rtw89_core_rx_process_phy_ppdu E.H skb phy_ppdu
  let r2 := rtw89_core_rx_process_phy_sts E.H skb r1.2.1
  let r3 := rtw89_core_rx_pending_skb E rtwdev r2.1 desc_info
  (r3.1, r1.2.2 ++ r2.2 ++ r3.2 ++ [rx_event.dev_kfree_skb_any skb])

/-- The function `rtw89_core_rx_process_report` (lines 784-801). -/
def rtw89_core_rx_process_report (E : rtw89_rx_env) (rtwdev : rtw89_dev)
    (desc_info : rtw89_rx_desc_info) (skb : sk_buff) : rtw89_dev × List rx_event :=
  match desc_info.pkt_type with
  | rtw89_core_rx_type.RTW89_CORE_RX_TYPE_C2H => (rtwdev, [rx_event.rtw89_fw_c2h_irqsafe skb])
  | rtw89_core_rx_type.RTW89_CORE_RX_TYPE_PPDU_STAT =>
    rtw89_core_rx_process_ppdu_sts E rtwdev desc_info skb
  | _ => (rtwdev, [rx_event.dev_kfree_skb_any skb])

/-- The function `rtw89_core_update_rx_status` (lines 849-917), on the status
cleared by `memset`. -/
def rtw89_core_update_rx_status (C : rtw89_rx_consts) (rtwdev : rtw89_dev)
    (desc_info : rtw89_rx_desc_info) (rx_status : ieee80211_rx_status) : ieee80211_rx_status :=
  let s := { rx_status with
             freq := rtwdev.hw_conf_chan.center_freq, band := rtwdev.hw_conf_chan.band }
  let s := if desc_info.icv_err ∨ desc_info.crc32_err
    then { s with flag := s.flag ||| C.RX_FLAG_FAILED_FCS_CRC } else s
  let s := if desc_info.hw_dec ∧ ¬ (desc_info.sw_dec ∨ desc_info.icv_err)
    then { s with flag := s.flag ||| C.RX_FLAG_DECRYPTED } else s
  let s := { s with
             bw := (if desc_info.bw = C.RTW89_CHANNEL_WIDTH_80 then C.RATE_INFO_BW_80
                    else if desc_info.bw = C.RTW89_CHANNEL_WIDTH_40 then C.RATE_INFO_BW_40
                    else C.RATE_INFO_BW_20) % 8 }
  let data_rate := desc_info.data_rate
  let data_rate_mode := C.GET_DATA_RATE_MODE data_rate % 256
  let s :=
    if data_rate_mode = C.DATA_RATE_MODE_NON_HT then
      let idx := C.GET_DATA_RATE_NOT_HT_IDX data_rate % 256
      { s with encoding := C.RX_ENC_LEGACY % 4
               rate_idx := if s.band = C.NL80211_BAND_5GHZ then u8 ((idx : Int) - 4) else idx }
    else if data_rate_mode = C.DATA_RATE_MODE_HT then
      { s with encoding := C.RX_ENC_HT % 4
               rate_idx := C.GET_DATA_RATE_HT_IDX data_rate % 256 }
    else if data_rate_mode = C.DATA_RATE_MODE_VHT then
      { s with encoding := C.RX_ENC_VHT % 4
               rate_idx := C.GET_DATA_RATE_VHT_HE_IDX data_rate % 256
               nss := (C.GET_DATA_RATE_NSS data_rate + 1) % 256 }
    else if data_rate_mode = C.DATA_RATE_MODE_HE then
      { s with encoding := C.RX_ENC_HE % 4
               rate_idx := C.GET_DATA_RATE_VHT_HE_IDX data_rate % 256
               nss := (C.GET_DATA_RATE_NSS data_rate + 1) % 256 }
    else s
  let s :=
    if desc_info.gi_ltf = C.RTW89_GILTF_SGI_4XHE08 ∨ desc_info.gi_ltf = C.RTW89_GILTF_2XHE08 ∨
        desc_info.gi_ltf = C.RTW89_GILTF_1XHE08 then
      { s with he_gi := C.NL80211_RATE_INFO_HE_GI_0_8 % 4 }
    else if desc_info.gi_ltf = C.RTW89_GILTF_2XHE16 ∨
        desc_info.gi_ltf = C.RTW89_GILTF_1XHE16 then
      { s with he_gi := C.NL80211_RATE_INFO_HE_GI_1_6 % 4 }
    else if desc_info.gi_ltf = C.RTW89_GILTF_LGI_4XHE32 then
      { s with he_gi := C.NL80211_RATE_INFO_HE_GI_3_2 % 4 }
    else s
  { s with flag := s.flag ||| C.RX_FLAG_MACTIME_START, mactime := desc_info.free_run_cnt }

/-- The function `rtw89_core_flush_ppdu_rx_queue` (lines 919-930): every frame
queued on the descriptor's path is unlinked and delivered, in queue order. -/
def rtw89_core_flush_ppdu_rx_queue (rtwdev : rtw89_dev) (desc_info : rtw89_rx_desc_info) :
    rtw89_dev × List rx_event :=
  let band := rx_band desc_info
  ({ rtwdev with
     ppdu_sts := { rtwdev.ppdu_sts with rx_queue := rtwdev.ppdu_sts.rx_queue.set band [] } },
   (rtwdev.ppdu_sts.rx_queue.get band).map (fun e => rx_event.ieee80211_rx_irqsafe e.skb))

/-- The kernel macro `BIT(n)`. -/
def BIT (n : Nat) : Nat := 2 ^ n

/-- The test of line 954-955: is the frame to be held for a status report? -/
def rx_ppdu_eligible (C : rtw89_rx_consts) (desc_info : rtw89_rx_desc_info) : Bool :=
  desc_info.long_rxdesc && (BIT desc_info.frame_type &&& C.PPDU_FILTER_BITMAP != 0)

/-- The function `rtw89_core_rx` (lines 932-960): the device state on return
and the events, in program order. -/
def rtw89_core_rx (E : rtw89_rx_env) (rtwdev : rtw89_dev) (desc_info : rtw89_rx_desc_info)
    (skb : sk_buff) : rtw89_dev × List rx_event :=
  let ppdu_cnt := desc_info.ppdu_cnt
  let band := rx_band desc_info
  if desc_info.pkt_type ≠ rtw89_core_rx_type.RTW89_CORE_RX_TYPE_WIFI then
    rtw89_core_rx_process_report E rtwdev desc_info skb
  else
    let f : rtw89_dev × List rx_event :=
      if rtwdev.ppdu_sts.curr_rx_ppdu_cnt.get band ≠ ppdu_cnt then
        let r := rtw89_core_flush_ppdu_rx_queue rtwdev desc_info
        ({ r.1 with
           ppdu_sts := { r.1.ppdu_sts with
                         curr_rx_ppdu_cnt := r.1.ppdu_sts.curr_rx_ppdu_cnt.set band ppdu_cnt } },
         r.2)
      else (rtwdev, [])
    let rtwdev := f.1
    let skb := { skb with cb := rtw89_core_update_rx_status E.C rtwdev desc_info {} }
    if rx_ppdu_eligible E.C desc_info then
      ({ rtwdev with
         ppdu_sts := { rtwdev.ppdu_sts with
                       rx_queue := rtwdev.ppdu_sts.rx_queue.set band
                         (rtwdev.ppdu_sts.rx_queue.get band ++
                           [{ skb := skb, ppdu_cnt := ppdu_cnt }]) } },
       f.2)
    else
      (rtwdev, f.2 ++ [rx_event.ieee80211_rx_irqsafe skb])

/-- One call of `rtw89_core_rx`: the descriptor and the buffer. -/
structure rx_input where
  desc_info : rtw89_rx_desc_info
  skb : sk_buff
  deriving DecidableEq, Repr

/-- A sequence of `rtw89_core_rx` calls: the final device state and all
events, in program order. -/
def rtw89_core_rx_run (E : rtw89_rx_env) : rtw89_dev → List rx_input → rtw89_dev × List rx_event
  | rtwdev, [] => (rtwdev, [])
  | rtwdev, i :: rest =>
    let r := rtw89_core_rx E rtwdev i.desc_info i.skb
    let r' := rtw89_core_rx_run E r.1 rest
    (r'.1, r.2 ++ r'.2)

/-- The frames handed to the receive interface among a list of events, in
order. -/
def rx_delivered : List rx_event → List sk_buff
  | [] => []
  | rx_event.ieee80211_rx_irqsafe skb :: rest => skb :: rx_delivered rest
  | _ :: rest => rx_delivered rest

/-- The frame as `rtw89_core_rx` passes it on: the buffer with the receive
status built from its descriptor by `rtw89_core_update_rx_status`. -/
def rx_frame_skb (E : rtw89_rx_env) (rtwdev : rtw89_dev) (desc_info : rtw89_rx_desc_info)
    (skb : sk_buff) : sk_buff :=
  { skb with cb := rtw89_core_update_rx_status E.C rtwdev desc_info {} }

/-- The device state with the queue of path `band` emptied and its epoch set
to `ppdu_cnt`. -/
def rx_dev_flushed (rtwdev : rtw89_dev) (band : rtw89_phy_idx) (ppdu_cnt : Nat) : rtw89_dev :=
  { rtwdev with
    ppdu_sts := { rx_queue := rtwdev.ppdu_sts.rx_queue.set band []
                  curr_rx_ppdu_cnt := rtwdev.ppdu_sts.curr_rx_ppdu_cnt.set band ppdu_cnt } }

/-- Reassembly-queue invariant: every queued frame was enqueued from a
descriptor whose ppdu count is the epoch recorded for its path. -/
def ppdu_queue_inv (rtwdev : rtw89_dev) : Prop :=
  ∀ band, ∀ e ∈ rtwdev.ppdu_sts.rx_queue.get band,
    e.ppdu_cnt = rtwdev.ppdu_sts.curr_rx_ppdu_cnt.get band

/-- Example values of the receive-path constants. -/
def rx_consts_example : rtw89_rx_consts :=
  { RTW89_MAX_PPDU_CNT := 8
    PPDU_FILTER_BITMAP := 4
    RTW89_CHANNEL_WIDTH_40 := 1
    RTW89_CHANNEL_WIDTH_80 := 2
    RATE_INFO_BW_20 := 0
    RATE_INFO_BW_40 := 3
    RATE_INFO_BW_80 := 4
    NL80211_BAND_5GHZ := 1
    RX_FLAG_FAILED_FCS_CRC := 32
    RX_FLAG_DECRYPTED := 2
    RX_FLAG_MACTIME_START := 4
    RX_ENC_LEGACY := 0
    RX_ENC_HT := 1
    RX_ENC_VHT := 2
    RX_ENC_HE := 3
    DATA_RATE_MODE_NON_HT := 0
    DATA_RATE_MODE_HT := 1
    DATA_RATE_MODE_VHT := 2
    DATA_RATE_MODE_HE := 3
    GET_DATA_RATE_MODE := fun r => (r / 128) % 4
    GET_DATA_RATE_NOT_HT_IDX := fun r => r % 16
    GET_DATA_RATE_HT_IDX := fun r => r % 32
    GET_DATA_RATE_VHT_HE_IDX := fun r => r % 16
    GET_DATA_RATE_NSS := fun r => (r / 16) % 8
    RTW89_GILTF_LGI_4XHE32 := 0
    RTW89_GILTF_SGI_4XHE08 := 1
    RTW89_GILTF_2XHE16 := 2
    RTW89_GILTF_2XHE08 := 3
    RTW89_GILTF_1XHE16 := 4
    RTW89_GILTF_1XHE08 := 5
    NL80211_RATE_INFO_HE_GI_0_8 := 0
    NL80211_RATE_INFO_HE_GI_1_6 := 1
    NL80211_RATE_INFO_HE_GI_3_2 := 2 }

/-- Example positions of the MAC-info fields and sizes. -/
def rxinfo_h_example : rtw89_rxinfo_h :=
  { RTW89_GET_RXINFO_RX_CNT_VLD := { dword := 0, lo := 29, width := 1 }
    RTW89_GET_RXINFO_PLCP_LEN := { dword := 1, lo := 16, width := 8 }
    RTW89_GET_RXINFO_USR_NUM := { dword := 0, lo := 0, width := 4 }
    RTW89_PPDU_MAX_USR := 4
    RTW89_PPDU_MAC_INFO_SIZE := 8
    RTW89_PPDU_MAC_INFO_USR_SIZE := 4
    RTW89_PPDU_MAC_RX_CNT_SIZE := 96
    PHY_PPDU_LEN_BITS := 32 }

/-- An example environment of the receive path; its `query_ppdu` writes the
average signal level of the report into the frame's status. -/
def rx_env_example : rtw89_rx_env :=
  { C := rx_consts_example
    H := phy_sts_h_example
    R := rxinfo_h_example
    rtw89_chip_query_ppdu := fun p s => { s with signal := (p.rssi_avg : Int) } }

/-- The device right after `rtw89_core_ppdu_sts_init`. -/
def rtw89_dev_init : rtw89_dev :=
  { hw_conf_chan := {}, ppdu_sts := rtw89_core_ppdu_sts_init }

/-- A data frame with a long descriptor and a frame type of the allow-list
(held for the status report), ppdu count 3. -/
def rx_input_held : rx_input :=
  { desc_info := { long_rxdesc := true, frame_type := 2, ppdu_cnt := 3 }
    skb := { data := [1] } }

/-- A data frame with a short descriptor (delivered at once), ppdu count 3. -/
def rx_input_direct : rx_input :=
  { desc_info := { long_rxdesc := false, ppdu_cnt := 3 }
    skb := { data := [2] } }

/-- A physical-status report with ppdu count 3. -/
def rx_input_report : rx_input :=
  { desc_info := { pkt_type := rtw89_core_rx_type.RTW89_CORE_RX_TYPE_PPDU_STAT, ppdu_cnt := 3 }
    skb := { data := [] } }

/-- The device after the held frame `rx_input_held` has arrived: that frame
waits in the queue of path 0, whose epoch is 3. -/
def rtw89_dev_holding : rtw89_dev :=
  (rtw89_core_rx_run rx_env_example rtw89_dev_init [rx_input_held]).1

/-- A held data frame of the next epoch, ppdu count 4. -/
def rx_input_next_epoch : rx_input :=
  { desc_info := { long_rxdesc := true, frame_type := 2, ppdu_cnt := 4 }
    skb := { data := [3] } }

/-- A report addressed to self whose declared length is 12: the 8-byte header
and the first four bytes of a sub-element of type 1
(`RTW89_PHYSTS_IE01_CMN_OFDM`, table length 32). -/
def phy_sts_short_report : List Nat := [0, 0, 0, 0, 0, 0, 0, 0, 1, 0, 0, 0]

/-! ## Transmit queues and block-ack negotiation -/

/-- The kernel constant `IEEE80211_AC_VO`. -/
def IEEE80211_AC_VO : Nat := 0

/-- The kernel constant `ETH_P_PAE`. -/
def ETH_P_PAE : Nat := 0x888E

/-- The kernel flag `IEEE80211_TX_CTL_AMPDU`. -/
def IEEE80211_TX_CTL_AMPDU : Nat := BIT 6

/-- Fields of `struct ieee80211_key_conf` read by the driver. -/
structure ieee80211_key_conf where
  cipher : Nat := 0
  hw_key_idx : Nat := 0
  deriving DecidableEq, Repr

/-- An outbound frame: the queue mapping (`skb_get_queue_mapping`), the
ethertype held in `skb->protocol`, the flags of `IEEE80211_SKB_CB(skb)`, the
bytes, `skb->priority` and the key `IEEE80211_SKB_CB(skb)->control.hw_key`
(absent when NULL). -/
structure tx_skb where
  queue_mapping : Nat := 0
  protocol : Nat := 0
  flags : Nat := 0
  data : List Nat := []
  priority : Nat := 0
  hw_key : Option ieee80211_key_conf := none
  deriving DecidableEq, Repr

/-- A software queue: the fields of `struct ieee80211_txq` that `core.c`
reads (`sta`, absent when NULL, `vif`, `tid`), the frames mac80211 holds for
it, head first, and the two bits of `rtwtxq->flags`. -/
structure ieee80211_txq where
  sta : Option Nat := none
  vif : Nat := 0
  tid : Nat := 0
  frames : List tx_skb := []
  RTW89_TXQ_F_AMPDU : Bool := false
  RTW89_TXQ_F_BLOCK_BA : Bool := false
  deriving DecidableEq, Repr

/-- The part of `struct rtw89_dev` the transmit scheduler uses. Queues are
named by a handle; `ba_list` holds the handles of the queues linked on
`rtwdev->ba_list`, head first; `ext` is the state of the collaborators outside
`core.c` (bus, mac80211). -/
structure rtw89_tx_dev (σ : Type) where
  txqs : Nat → ieee80211_txq
  ba_list : List Nat
  ext : σ

/-- The operations of the collaborators, as functions of their state: the bus
operations behind `rtw89_hci_*`, the queue mapping helpers of `txrx.h` and
`ieee80211_start_tx_ba_session`. `rtw89_hci_tx_write` is given the arguments of
`rtw89_core_tx_write`, from which the transmit request is built. -/
structure rtw89_tx_ops (σ : Type) where
  rtw89_hci_tx_write : σ → Nat → Option Nat → tx_skb → Int × σ
  rtw89_hci_check_and_reclaim_tx_resource : σ → Nat → Nat × σ
  rtw89_hci_tx_kick_off : σ → Nat → σ
  rtw89_core_get_qsel : Nat → Nat
  rtw89_core_get_ch_dma : Nat → Nat
  ieee80211_start_tx_ba_session : σ → Nat → Nat → Int × σ

/-- What the transmit path does to its collaborators, in program order. -/
inductive tx_event
  | ieee80211_queue_work_ba_work
  | ieee80211_start_tx_ba_session (sta : Nat) (tid : Nat) (ret : Int)
  | rtw89_hci_tx_write (skb : tx_skb) (ret : Int)
  | ieee80211_free_txskb (skb : tx_skb)
  | rtw89_hci_tx_kick_off (ch_dma : Nat)
  deriving DecidableEq, Repr

/-- Update of one queue of the device. -/
def rtw89_tx_dev.set_txq {σ : Type} (rtwdev : rtw89_tx_dev σ) (q : Nat) (t : ieee80211_txq) :
    rtw89_tx_dev σ :=
  { rtwdev with txqs := fun j => if j = q then t else rtwdev.txqs j }

/-- The kernel helper `list_del_init(&rtwtxq->list)` for the queue `q`. -/
def list_del_init (l : List Nat) (q : Nat) : List Nat := l.filter (fun j => j ≠ q)

/-- The function `rtw89_core_ba_work` (lines 962-992), as the walk of
`list_for_each_entry_safe` over the entries that were on `ba_list`. -/
def rtw89_core_ba_work_walk {σ : Type} (ops : rtw89_tx_ops σ) :
    List Nat → rtw89_tx_dev σ → rtw89_tx_dev σ × List tx_event
  | [], rtwdev => (rtwdev, [])
  | q :: rest, rtwdev =>
    let txq := rtwdev.txqs q
    match txq.sta with
    | none =>
      rtw89_core_ba_work_walk ops rest { rtwdev with ba_list := list_del_init rtwdev.ba_list q }
    | some sta =>
      let r := ops.ieee80211_start_tx_ba_session rtwdev.ext sta txq.tid
      let rtwdev := { rtwdev with ext := r.2 }
      let rtwdev :=
        if r.1 ≠ 0 ∧ r.1 = -EINVAL then
          rtwdev.set_txq q { txq with RTW89_TXQ_F_BLOCK_BA := true }
        else rtwdev
      let rtwdev := { rtwdev with ba_list := list_del_init rtwdev.ba_list q }
      let w := rtw89_core_ba_work_walk ops rest rtwdev
      (w.1, tx_event.ieee80211_start_tx_ba_session sta txq.tid r.1 :: w.2)

/-- The function `rtw89_core_ba_work` (lines 962-992). -/
def rtw89_core_ba_work {σ : Type} (ops : rtw89_tx_ops σ) (rtwdev : rtw89_tx_dev σ) :
    rtw89_tx_dev σ × List tx_event :=
  rtw89_core_ba_work_walk ops rtwdev.ba_list rtwdev

/-- The walk of `rtw89_core_free_sta_pending_ba` over the entries that were on
`ba_list`. -/
def rtw89_core_free_sta_pending_ba_walk {σ : Type} (sta : Nat) :
    List Nat → rtw89_tx_dev σ → rtw89_tx_dev σ
  | [], rtwdev => rtwdev
  | q :: rest, rtwdev =>
    if (rtwdev.txqs q).sta = some sta then
      rtw89_core_free_sta_pending_ba_walk sta rest
        { rtwdev with ba_list := list_del_init rtwdev.ba_list q }
    else
      rtw89_core_free_sta_pending_ba_walk sta rest rtwdev

/-- The function `rtw89_core_free_sta_pending_ba` (lines 994-1007). -/
def rtw89_core_free_sta_pending_ba {σ : Type} (rtwdev : rtw89_tx_dev σ) (sta : Nat) :
    rtw89_tx_dev σ :=
  rtw89_core_free_sta_pending_ba_walk sta rtwdev.ba_list rtwdev

/-- The function `rtw89_core_txq_check_agg` (lines 1009-1039) for the queue
`q` and the frame `skb`: the device, the frame and the events on return.
`list_empty(&rtwtxq->list)` holds when `q` is not linked on `ba_list`. -/
def rtw89_core_txq_check_agg {σ : Type} (rtwdev : rtw89_tx_dev σ) (q : Nat) (skb : tx_skb) :
    rtw89_tx_dev σ × tx_skb × List tx_event :=
  let txq := rtwdev.txqs q
  if skb.queue_mapping = IEEE80211_AC_VO then (rtwdev, skb, [])
  else if skb.protocol = ETH_P_PAE then (rtwdev, skb, [])
  else if txq.sta = none then (rtwdev, skb, [])
  else if txq.RTW89_TXQ_F_BLOCK_BA then (rtwdev, skb, [])
  else if txq.RTW89_TXQ_F_AMPDU then
    (rtwdev, { skb with flags := skb.flags ||| IEEE80211_TX_CTL_AMPDU }, [])
  else if q ∉ rtwdev.ba_list then
    ({ rtwdev with ba_list := rtwdev.ba_list ++ [q] }, skb,
     [tx_event.ieee80211_queue_work_ba_work])
  else (rtwdev, skb, [])

/-- The function `rtw89_core_tx_write` (lines 473-494) as the scheduler sees
it: the return value is that of `rtw89_hci_tx_write`. The request handed to
the bus is built from `vif`, `sta` and `skb` (`rtw89_core_tx_write_request`
below). -/
def rtw89_core_tx_write {σ : Type} (ops : rtw89_tx_ops σ) (rtwdev : rtw89_tx_dev σ)
    (vif : Nat) (sta : Option Nat) (skb : tx_skb) : Int × rtw89_tx_dev σ × List tx_event :=
  let r := ops.rtw89_hci_tx_write rtwdev.ext vif sta skb
  (r.1, { rtwdev with ext := r.2 }, [tx_event.rtw89_hci_tx_write skb r.1])

/-- The function `rtw89_core_txq_push` (lines 1041-1067): the loop over
`frame_cnt` iterations. `ieee80211_tx_dequeue` takes the head of the frames
held for the queue and gives NULL when there is none. -/
def rtw89_core_txq_push {σ : Type} (ops : rtw89_tx_ops σ) (q : Nat) :
    Nat → rtw89_tx_dev σ → rtw89_tx_dev σ × List tx_event
  | 0, rtwdev => (rtwdev, [])
  | frame_cnt + 1, rtwdev =>
    let txq := rtwdev.txqs q
    match txq.frames with
    | [] => (rtwdev, [])
    | skb :: rest =>
      let rtwdev := rtwdev.set_txq q { txq with frames := rest }
      let a := rtw89_core_txq_check_agg rtwdev q skb
      let w := rtw89_core_tx_write ops a.1 txq.vif txq.sta a.2.1
      if w.1 ≠ 0 then
        (w.2.1, a.2.2 ++ w.2.2 ++ [tx_event.ieee80211_free_txskb a.2.1])
      else
        let p := rtw89_core_txq_push ops q frame_cnt w.2.1
        (p.1, a.2.2 ++ w.2.2 ++ p.2)

/-- The function `rtw89_check_and_reclaim_tx_resource` (lines 1069-1077). -/
def rtw89_check_and_reclaim_tx_resource {σ : Type} (ops : rtw89_tx_ops σ)
    (rtwdev : rtw89_tx_dev σ) (tid : Nat) : Nat × rtw89_tx_dev σ :=
  let qsel := ops.rtw89_core_get_qsel tid
  let ch_dma := ops.rtw89_core_get_ch_dma qsel
  let r := ops.rtw89_hci_check_and_reclaim_tx_resource rtwdev.ext ch_dma
  (r.1 % 2 ^ 32, { rtwdev with ext := r.2 })

/-- The function `rtw89_core_tx_kick_off` (lines 438-445). -/
def rtw89_core_tx_kick_off {σ : Type} (ops : rtw89_tx_ops σ) (rtwdev : rtw89_tx_dev σ)
    (qsel : Nat) : rtw89_tx_dev σ × List tx_event :=
  let ch_dma := ops.rtw89_core_get_ch_dma qsel
  ({ rtwdev with ext := ops.rtw89_hci_tx_kick_off rtwdev.ext ch_dma },
   [tx_event.rtw89_hci_tx_kick_off ch_dma])

/-- The function `rtw89_core_txq_schedule` (lines 1079-1101); the list holds
the queues that `ieee80211_next_txq` yields in this pass, in order. -/
def rtw89_core_txq_schedule {σ : Type} (ops : rtw89_tx_ops σ) :
    List Nat → rtw89_tx_dev σ → rtw89_tx_dev σ × List tx_event
  | [], rtwdev => (rtwdev, [])
  | q :: rest, rtwdev =>
    let tid := (rtwdev.txqs q).tid
    let r := rtw89_check_and_reclaim_tx_resource ops rtwdev tid
    let tx_resource := r.1
    let rtwdev := r.2
    let frame_cnt := (rtwdev.txqs q).frames.length
    let frame_cnt := min frame_cnt tx_resource
    let p := rtw89_core_txq_push ops q frame_cnt rtwdev
    let k :=
      if frame_cnt ≠ 0 then rtw89_core_tx_kick_off ops p.1 (ops.rtw89_core_get_qsel tid)
      else (p.1, [])
    let s := rtw89_core_txq_schedule ops rest k.1
    (s.1, p.2 ++ k.2 ++ s.2)

/-- The frames the bus accepted among a list of events, in order. -/
def tx_submitted : List tx_event → List tx_skb
  | [] => []
  | tx_event.rtw89_hci_tx_write skb ret :: rest =>
    if ret = 0 then skb :: tx_submitted rest else tx_submitted rest
  | _ :: rest => tx_submitted rest

/-- The frames handed to `rtw89_hci_tx_write` among a list of events, in
order, accepted or not: the frames that were dequeued. -/
def tx_dequeued : List tx_event → List tx_skb
  | [] => []
  | tx_event.rtw89_hci_tx_write skb _ :: rest => skb :: tx_dequeued rest
  | _ :: rest => tx_dequeued rest

/-- One whole step of the block-ack negotiation machinery. -/
inductive ba_action
  | check_agg (q : Nat) (skb : tx_skb)
  | ba_work
  | free_sta_pending_ba (sta : Nat)
  deriving DecidableEq, Repr

/-- The device after one step. -/
def ba_step {σ : Type} (ops : rtw89_tx_ops σ) (rtwdev : rtw89_tx_dev σ) :
    ba_action → rtw89_tx_dev σ
  | ba_action.check_agg q skb => (rtw89_core_txq_check_agg rtwdev q skb).1
  | ba_action.ba_work => (rtw89_core_ba_work ops rtwdev).1
  | ba_action.free_sta_pending_ba sta => rtw89_core_free_sta_pending_ba rtwdev sta

/-- The device after a sequence of steps. -/
def ba_run {σ : Type} (ops : rtw89_tx_ops σ) : rtw89_tx_dev σ → List ba_action → rtw89_tx_dev σ
  | rtwdev, [] => rtwdev
  | rtwdev, a :: rest => ba_run ops (ba_step ops rtwdev a) rest

/-- Example collaborators. The state is the number of free bus credits; a
frame is accepted while a credit is left; every block-ack session start for
traffic identifier 5 is refused with `-EINVAL`, every other one succeeds. -/
def tx_ops_example : rtw89_tx_ops Nat :=
  { rtw89_hci_tx_write := fun s _ _ _ => if s = 0 then (-1, s) else (0, s - 1)
    rtw89_hci_check_and_reclaim_tx_resource := fun s _ => (s, s)
    rtw89_hci_tx_kick_off := fun s _ => s
    rtw89_core_get_qsel := fun tid => tid
    rtw89_core_get_ch_dma := fun qsel => qsel
    ieee80211_start_tx_ba_session := fun s _ tid => if tid = 5 then (-EINVAL, s) else (0, s) }

/-- Example device: queue 0 (peer 7, traffic identifier 5) holds three frames,
queue 1 (peer 7, traffic identifier 2) holds one; two bus credits are free. -/
def tx_dev_example : rtw89_tx_dev Nat :=
  { txqs := fun q =>
      if q = 0 then
        { sta := some 7, tid := 5
          frames := [{ queue_mapping := 2, data := [1] }, { queue_mapping := 2, data := [2] },
                     { queue_mapping := 2, data := [3] }] }
      else if q = 1 then
        { sta := some 7, tid := 2, frames := [{ queue_mapping := 2, data := [4] }] }
      else {}
    ba_list := []
    ext := 2 }

/-- Example collaborators whose bus accepts every frame; the state is the
number of credits the bus reports. -/
def tx_ops_accepting : rtw89_tx_ops Nat :=
  { rtw89_hci_tx_write := fun s _ _ _ => (0, s)
    rtw89_hci_check_and_reclaim_tx_resource := fun s _ => (s, s)
    rtw89_hci_tx_kick_off := fun s _ => s
    rtw89_core_get_qsel := fun tid => tid
    rtw89_core_get_ch_dma := fun qsel => qsel
    ieee80211_start_tx_ba_session := fun s _ _ => (0, s) }

/-- A non-voice data frame. -/
def tx_skb_example : tx_skb := { queue_mapping := 2, data := [9] }

/-- Example collaborators whose bus reports its credits but refuses every
frame with error -1. -/
def tx_ops_failing : rtw89_tx_ops Nat :=
  { rtw89_hci_tx_write := fun s _ _ _ => (-1, s)
    rtw89_hci_check_and_reclaim_tx_resource := fun s _ => (s, s)
    rtw89_hci_tx_kick_off := fun s _ => s
    rtw89_core_get_qsel := fun tid => tid
    rtw89_core_get_ch_dma := fun qsel => qsel
    ieee80211_start_tx_ba_session := fun s _ _ => (0, s) }

/-- A frame mapped to the voice access category. -/
def tx_skb_voice : tx_skb := { queue_mapping := 0, data := [8] }

/-- An event of a round without failure: neither a refused submission nor a
freed frame. -/
def tx_event_clean : tx_event → Bool
  | tx_event.rtw89_hci_tx_write _ ret => decide (ret = 0)
  | tx_event.ieee80211_free_txskb _ => false
  | _ => true

/-- A physical-status report of the next epoch (ppdu count 4) arriving while
the frame of epoch 3 is held. -/
def rx_desc_report_next_epoch : rtw89_rx_desc_info :=
  { pkt_type := rtw89_core_rx_type.RTW89_CORE_RX_TYPE_PPDU_STAT, ppdu_cnt := 4 }

/-- A held data frame of epoch 3 whose descriptor carries the guard-interval
code 6, which is none of the six `RTW89_GILTF_*` codes of
`rx_consts_example`. -/
def rx_input_gi_ltf_unknown : rx_input :=
  { desc_info := { long_rxdesc := true, frame_type := 2, ppdu_cnt := 3, gi_ltf := 6 }
    skb := { data := [1] } }

/-- A physical-status report of epoch 3 with the same rate, bandwidth and
guard-interval codes as `rx_input_gi_ltf_unknown`. -/
def rx_desc_report_gi_ltf_unknown : rtw89_rx_desc_info :=
  { pkt_type := rtw89_core_rx_type.RTW89_CORE_RX_TYPE_PPDU_STAT, ppdu_cnt := 3, gi_ltf := 6 }

/-- The rate mode of a descriptor, as `rtw89_core_update_rx_status` and
`rtw89_core_rx_ppdu_match` read it into their `u8 data_rate_mode`. -/
def rx_data_rate_mode (C : rtw89_rx_consts) (desc_info : rtw89_rx_desc_info) : Nat :=
  C.GET_DATA_RATE_MODE desc_info.data_rate % 256

/-- The rate mode is one of the four modes both functions decode. -/
def rx_rate_mode_known (C : rtw89_rx_consts) (desc_info : rtw89_rx_desc_info) : Prop :=
  rx_data_rate_mode C desc_info = C.DATA_RATE_MODE_NON_HT ∨
  rx_data_rate_mode C desc_info = C.DATA_RATE_MODE_HT ∨
  rx_data_rate_mode C desc_info = C.DATA_RATE_MODE_VHT ∨
  rx_data_rate_mode C desc_info = C.DATA_RATE_MODE_HE

/-- The guard-interval code is one of the six cases of the `switch` on
`desc_info->gi_ltf`. -/
def rx_gi_ltf_known (C : rtw89_rx_consts) (desc_info : rtw89_rx_desc_info) : Prop :=
  desc_info.gi_ltf = C.RTW89_GILTF_SGI_4XHE08 ∨ desc_info.gi_ltf = C.RTW89_GILTF_2XHE08 ∨
  desc_info.gi_ltf = C.RTW89_GILTF_1XHE08 ∨ desc_info.gi_ltf = C.RTW89_GILTF_2XHE16 ∨
  desc_info.gi_ltf = C.RTW89_GILTF_1XHE16 ∨ desc_info.gi_ltf = C.RTW89_GILTF_LGI_4XHE32

/-- The kernel constants written to the bit-fields `bw` (3 bits) and `he_gi`
(2 bits) of the receive status fit these fields. -/
def rx_status_consts_fit (C : rtw89_rx_consts) : Prop :=
  C.RATE_INFO_BW_20 < 8 ∧ C.RATE_INFO_BW_40 < 8 ∧ C.RATE_INFO_BW_80 < 8 ∧
  C.NL80211_RATE_INFO_HE_GI_0_8 < 4 ∧ C.NL80211_RATE_INFO_HE_GI_1_6 < 4 ∧
  C.NL80211_RATE_INFO_HE_GI_3_2 < 4

instance (C : rtw89_rx_consts) (d : rtw89_rx_desc_info) : Decidable (rx_rate_mode_known C d) :=
  inferInstanceAs (Decidable (_ ∨ _ ∨ _ ∨ _))

instance (C : rtw89_rx_consts) (d : rtw89_rx_desc_info) : Decidable (rx_gi_ltf_known C d) :=
  inferInstanceAs (Decidable (_ ∨ _ ∨ _ ∨ _ ∨ _ ∨ _))

instance (C : rtw89_rx_consts) : Decidable (rx_status_consts_fit C) :=
  inferInstanceAs (Decidable (_ ∧ _ ∧ _ ∧ _ ∧ _ ∧ _))

/-! ## Channel switch: `rtw89_set_channel` -/

/-- Constants of `core.h` used by `rtw89_set_channel`: the band types
(`enum rtw89_band`) and the sub-bands (`enum rtw89_subband`). The header is
not among the sources, so the values are parameters. -/
structure rtw89_band_consts where
  RTW89_BAND_2G : Nat
  RTW89_BAND_5G : Nat
  RTW89_CH_2G : Nat
  RTW89_CH_5G_BAND_1 : Nat
  RTW89_CH_5G_BAND_3 : Nat
  RTW89_CH_5G_BAND_4 : Nat
  deriving DecidableEq, Repr

/-- Fields of `struct rtw89_hal` written by `rtw89_set_channel`. -/
structure rtw89_hal where
  current_band_width : Nat
  current_channel : Nat
  current_primary_channel : Nat
  current_band_type : Nat
  current_subband : Nat
  cch_by_bw : Nat → Nat

/-- Calls `rtw89_set_channel` makes out of `core.c`, with their arguments. -/
inductive set_channel_event
  | rtw89_chip_set_channel_prepare
  | chip_ops_set_channel (ch_param : rtw89_channel_params)
  | rtw89_btc_ntfy_switch_band (phy_idx : rtw89_phy_idx) (band : Nat)
  | rtw89_chip_set_txpwr
  | rtw89_chip_set_channel_done

/-- Is the event a call of the chip operation `set_channel`? -/
def set_channel_event.is_chip_set_channel : set_channel_event → Bool
  | set_channel_event.chip_ops_set_channel _ => true
  | _ => false

/-- The loop `for (i = first; i <= last; i++) dst[i] = src[i];`, unrolled over
`n` remaining iterations starting at index `i`. -/
def copy_cch_loop (dst src : Nat → Nat) : Nat → Nat → Nat → Nat
  | _, 0 => dst
  | i, n + 1 => copy_cch_loop (arr_set dst i (src i)) src (i + 1) n

/-- The `switch (center_chan)` of `rtw89_set_channel` (lines 222-235): the new
value of `hal->current_subband`. -/
def rtw89_set_channel_subband (B : rtw89_band_consts) (center_chan : Nat) (current : Nat) : Nat :=
  if 1 ≤ center_chan ∧ center_chan ≤ 14 then B.RTW89_CH_2G
  else if 36 ≤ center_chan ∧ center_chan ≤ 64 then B.RTW89_CH_5G_BAND_1
  else if 100 ≤ center_chan ∧ center_chan ≤ 144 then B.RTW89_CH_5G_BAND_3
  else if 149 ≤ center_chan ∧ center_chan ≤ 177 then B.RTW89_CH_5G_BAND_4
  else current

/-- The function `rtw89_set_channel` (lines 196-250): the content of
`rtwdev->hal` on return and the calls made, in program order. `chandef` is
`hw->conf.chandef`; `ch_param` is the uninitialised local record handed to
`rtw89_get_channel_params`. -/
def rtw89_set_channel (K : rtw89_chan_consts) (B : rtw89_band_consts)
    (chandef : cfg80211_chan_def) (ch_param : rtw89_channel_params) (hal : rtw89_hal) :
    rtw89_hal × List set_channel_event :=
  let ch_param := rtw89_get_channel_params K chandef ch_param
  if ch_param.center_chan = 0 then
    (hal, [])
  else
    let center_chan := ch_param.center_chan
    let bandwidth := ch_param.bandwidth
    let band_type := (if center_chan > 14 then B.RTW89_BAND_5G else B.RTW89_BAND_2G) % 256
    let band_changed := decide (hal.current_band_type ≠ band_type)
    let hal1 : rtw89_hal :=
      { hal with
        current_band_width := bandwidth
        current_channel := center_chan
        current_primary_channel := ch_param.primary_chan
        current_band_type := band_type
        current_subband := rtw89_set_channel_subband B center_chan hal.current_subband
        cch_by_bw := copy_cch_loop hal.cch_by_bw ch_param.cch_by_bw K.RTW89_CHANNEL_WIDTH_20
          (K.RTW89_MAX_CHANNEL_WIDTH + 1 - K.RTW89_CHANNEL_WIDTH_20) }
    (hal1,
     [set_channel_event.rtw89_chip_set_channel_prepare,
      set_channel_event.chip_ops_set_channel ch_param] ++
     (if band_changed then
        [set_channel_event.rtw89_btc_ntfy_switch_band rtw89_phy_idx.RTW89_PHY_0
          hal1.current_band_type]
      else []) ++
     [set_channel_event.rtw89_chip_set_txpwr, set_channel_event.rtw89_chip_set_channel_done])

/-- Example values of the band constants. -/
def band_consts_example : rtw89_band_consts :=
  { RTW89_BAND_2G := 0
    RTW89_BAND_5G := 1
    RTW89_CH_2G := 0
    RTW89_CH_5G_BAND_1 := 1
    RTW89_CH_5G_BAND_3 := 2
    RTW89_CH_5G_BAND_4 := 3 }

/-- Primary channel 36 (5180 MHz) in the 160 MHz block centered at 5250 MHz. -/
def chandef_5180_160 : cfg80211_chan_def :=
  { chan := { center_freq := 5180, hw_value := 36 }
    width := nl80211_chan_width.NL80211_CHAN_WIDTH_160
    center_freq1 := 5250 }

/-- The driver state after a switch to channel 6 at 20 MHz. -/
def hal_example : rtw89_hal :=
  { current_band_width := 0
    current_channel := 6
    current_primary_channel := 6
    current_band_type := 0
    current_subband := 0
    cch_by_bw := fun i => if i = 0 then 6 else 0 }

/-! ## Receive descriptor: `rtw89_core_query_rxdesc` -/

/-- Accessor macros `RTW89_GET_RXWD_*` of `txrx.h` for the receive descriptor,
the numbers of the report kinds (`enum rtw89_core_rx_type` of `core.h`) and
the width in bits of the field `offset` of `struct rtw89_rx_desc_info`. The
headers are not among the sources, so all of them are parameters.
`RTW89_GET_RXWD_SHIFT` is the accessor of the header-extension length the
descriptor declares; `core.c` does not use it. -/
structure rtw89_rxwd_h where
  RTW89_GET_RXWD_PKT_SIZE : le32_field
  RTW89_GET_RXWD_SHIFT : le32_field
  RTW89_GET_RXWD_DRV_INFO_SIZE : le32_field
  RTW89_GET_RXWD_LONG_RXD : le32_field
  RTW89_GET_RXWD_RPKT_TYPE : le32_field
  RTW89_GET_RXWD_MAC_INFO_VALID : le32_field
  RTW89_GET_RXWD_BW : le32_field
  RTW89_GET_RXWD_DATA_RATE : le32_field
  RTW89_GET_RXWD_GI_LTF : le32_field
  RTW89_GET_RXWD_USER_ID : le32_field
  RTW89_GET_RXWD_SR_EN : le32_field
  RTW89_GET_RXWD_PPDU_CNT : le32_field
  RTW89_GET_RXWD_PPDU_TYPE : le32_field
  RTW89_GET_RXWD_FREE_RUN_CNT : le32_field
  RTW89_GET_RXWD_ICV_ERR : le32_field
  RTW89_GET_RXWD_CRC32_ERR : le32_field
  RTW89_GET_RXWD_HW_DEC : le32_field
  RTW89_GET_RXWD_SW_DEC : le32_field
  RTW89_GET_RXWD_A1_MATCH : le32_field
  RTW89_GET_RXWD_TYPE : le32_field
  RTW89_GET_RXWD_ADDR_CAM_VLD : le32_field
  RTW89_GET_RXWD_ADDR_CAM_ID : le32_field
  RTW89_GET_RXWD_SEC_CAM_ID : le32_field
  RTW89_GET_RXWD_MAC_ID : le32_field
  RTW89_GET_RXWD_RX_PL_ID : le32_field
  RTW89_CORE_RX_TYPE_WIFI : Nat
  RTW89_CORE_RX_TYPE_PPDU_STAT : Nat
  RTW89_CORE_RX_TYPE_C2H : Nat
  DESC_INFO_OFFSET_BITS : Nat

/-- The report kind stored in `desc_info->pkt_type`, from its number. -/
def rx_type_of_nat (H : rtw89_rxwd_h) (n : Nat) : rtw89_core_rx_type :=
  if n = H.RTW89_CORE_RX_TYPE_WIFI then rtw89_core_rx_type.RTW89_CORE_RX_TYPE_WIFI
  else if n = H.RTW89_CORE_RX_TYPE_PPDU_STAT then rtw89_core_rx_type.RTW89_CORE_RX_TYPE_PPDU_STAT
  else if n = H.RTW89_CORE_RX_TYPE_C2H then rtw89_core_rx_type.RTW89_CORE_RX_TYPE_C2H
  else rtw89_core_rx_type.RTW89_CORE_RX_TYPE_OTHER

/-- The function `rtw89_core_query_rxdesc` (lines 803-847): the content of
`*desc_info` on return. `desc_info` is the caller's record as found on entry,
`data` the buffer and `data_offset` the offset of the descriptor in it. The
locals `shift_len` and `drv_info_len` are `u8`, the sum is 32-bit. -/
def rtw89_core_query_rxdesc (H : rtw89_rxwd_h) (desc_info : rtw89_rx_desc_info)
    (data : List Nat) (data_offset : Nat) : rtw89_rx_desc_info :=
  let rxd := data_offset
  let d : rtw89_rx_desc_info :=
    { desc_info with
      pkt_size := le32_get_bits H.RTW89_GET_RXWD_PKT_SIZE data rxd
      drv_info_size := le32_get_bits H.RTW89_GET_RXWD_DRV_INFO_SIZE data rxd
      long_rxdesc := decide (le32_get_bits H.RTW89_GET_RXWD_LONG_RXD data rxd ≠ 0)
      pkt_type := rx_type_of_nat H (le32_get_bits H.RTW89_GET_RXWD_RPKT_TYPE data rxd)
      mac_info_valid := decide (le32_get_bits H.RTW89_GET_RXWD_MAC_INFO_VALID data rxd ≠ 0)
      bw := le32_get_bits H.RTW89_GET_RXWD_BW data rxd
      data_rate := le32_get_bits H.RTW89_GET_RXWD_DATA_RATE data rxd
      gi_ltf := le32_get_bits H.RTW89_GET_RXWD_GI_LTF data rxd
      user_id := le32_get_bits H.RTW89_GET_RXWD_USER_ID data rxd
      sr_en := decide (le32_get_bits H.RTW89_GET_RXWD_SR_EN data rxd ≠ 0)
      ppdu_cnt := le32_get_bits H.RTW89_GET_RXWD_PPDU_CNT data rxd
      ppdu_type := le32_get_bits H.RTW89_GET_RXWD_PPDU_TYPE data rxd
      free_run_cnt := le32_get_bits H.RTW89_GET_RXWD_FREE_RUN_CNT data rxd
      icv_err := decide (le32_get_bits H.RTW89_GET_RXWD_ICV_ERR data rxd ≠ 0)
      crc32_err := decide (le32_get_bits H.RTW89_GET_RXWD_CRC32_ERR data rxd ≠ 0)
      hw_dec := decide (le32_get_bits H.RTW89_GET_RXWD_HW_DEC data rxd ≠ 0)
      sw_dec := decide (le32_get_bits H.RTW89_GET_RXWD_SW_DEC data rxd ≠ 0)
      addr1_match := decide (le32_get_bits H.RTW89_GET_RXWD_A1_MATCH data rxd ≠ 0) }
  let shift_len := (d.shift * 2) % 256
  let drv_info_len := (d.drv_info_size * 8) % 256
  let d : rtw89_rx_desc_info :=
    { d with
      offset := ((data_offset + shift_len + drv_info_len) % 2 ^ 32) % 2 ^ H.DESC_INFO_OFFSET_BITS
      ready := true }
  if ¬ d.long_rxdesc then d
  else
    { d with
      frame_type := le32_get_bits H.RTW89_GET_RXWD_TYPE data rxd
      addr_cam_valid := decide (le32_get_bits H.RTW89_GET_RXWD_ADDR_CAM_VLD data rxd ≠ 0)
      addr_cam_id := le32_get_bits H.RTW89_GET_RXWD_ADDR_CAM_ID data rxd
      sec_cam_id := le32_get_bits H.RTW89_GET_RXWD_SEC_CAM_ID data rxd
      mac_id := le32_get_bits H.RTW89_GET_RXWD_MAC_ID data rxd
      rx_pl_id := le32_get_bits H.RTW89_GET_RXWD_RX_PL_ID data rxd }

/-- Example positions of the receive-descriptor fields. -/
def rxwd_h_example : rtw89_rxwd_h :=
  { RTW89_GET_RXWD_PKT_SIZE := { dword := 0, lo := 0, width := 14 }
    RTW89_GET_RXWD_SHIFT := { dword := 0, lo := 14, width := 2 }
    RTW89_GET_RXWD_MAC_INFO_VALID := { dword := 0, lo := 23, width := 1 }
    RTW89_GET_RXWD_RPKT_TYPE := { dword := 0, lo := 24, width := 4 }
    RTW89_GET_RXWD_DRV_INFO_SIZE := { dword := 0, lo := 28, width := 3 }
    RTW89_GET_RXWD_LONG_RXD := { dword := 0, lo := 31, width := 1 }
    RTW89_GET_RXWD_PPDU_TYPE := { dword := 1, lo := 0, width := 4 }
    RTW89_GET_RXWD_PPDU_CNT := { dword := 1, lo := 4, width := 3 }
    RTW89_GET_RXWD_SR_EN := { dword := 1, lo := 7, width := 1 }
    RTW89_GET_RXWD_USER_ID := { dword := 1, lo := 8, width := 8 }
    RTW89_GET_RXWD_DATA_RATE := { dword := 1, lo := 16, width := 9 }
    RTW89_GET_RXWD_GI_LTF := { dword := 1, lo := 25, width := 3 }
    RTW89_GET_RXWD_BW := { dword := 1, lo := 30, width := 2 }
    RTW89_GET_RXWD_FREE_RUN_CNT := { dword := 2, lo := 0, width := 32 }
    RTW89_GET_RXWD_A1_MATCH := { dword := 3, lo := 0, width := 1 }
    RTW89_GET_RXWD_SW_DEC := { dword := 3, lo := 1, width := 1 }
    RTW89_GET_RXWD_HW_DEC := { dword := 3, lo := 2, width := 1 }
    RTW89_GET_RXWD_ICV_ERR := { dword := 3, lo := 10, width := 1 }
    RTW89_GET_RXWD_CRC32_ERR := { dword := 3, lo := 11, width := 1 }
    RTW89_GET_RXWD_TYPE := { dword := 4, lo := 0, width := 2 }
    RTW89_GET_RXWD_RX_PL_ID := { dword := 4, lo := 28, width := 4 }
    RTW89_GET_RXWD_MAC_ID := { dword := 5, lo := 0, width := 8 }
    RTW89_GET_RXWD_SEC_CAM_ID := { dword := 5, lo := 8, width := 8 }
    RTW89_GET_RXWD_ADDR_CAM_ID := { dword := 5, lo := 16, width := 8 }
    RTW89_GET_RXWD_ADDR_CAM_VLD := { dword := 5, lo := 24, width := 1 }
    RTW89_CORE_RX_TYPE_WIFI := 0
    RTW89_CORE_RX_TYPE_PPDU_STAT := 1
    RTW89_CORE_RX_TYPE_C2H := 10
    DESC_INFO_OFFSET_BITS := 16 }

/-- A short descriptor of a data frame that declares a header extension of
one 2-byte unit (bits 15..14 of word 0 hold 1) and no driver info. -/
def rxdesc_shift_one : List Nat :=
  [0x00, 0x40, 0x00, 0x00, 0, 0, 0, 0, 0, 0, 0, 0, 0, 0, 0, 0]

/-! ## Transmit descriptor: building the request -/

/-- The 16-bit little-endian load `le16_to_cpu(*(__le16 *)(mem + p))`. -/
def le16_at (mem : List Nat) (p : Nat) : Nat := byte_at mem p + 256 * byte_at mem (p + 1)

/-- The kernel constant `IEEE80211_FCTL_FTYPE`. -/
def IEEE80211_FCTL_FTYPE : Nat := 0x000c

/-- The kernel constant `IEEE80211_FCTL_STYPE`. -/
def IEEE80211_FCTL_STYPE : Nat := 0x00f0

/-- The kernel constant `IEEE80211_FTYPE_MGMT`. -/
def IEEE80211_FTYPE_MGMT : Nat := 0x0000

/-- The kernel constant `IEEE80211_FTYPE_DATA`. -/
def IEEE80211_FTYPE_DATA : Nat := 0x0008

/-- The kernel constant `IEEE80211_STYPE_NULLFUNC`. -/
def IEEE80211_STYPE_NULLFUNC : Nat := 0x0040

/-- The kernel constant `IEEE80211_SCTL_SEQ`. -/
def IEEE80211_SCTL_SEQ : Nat := 0xFFF0

/-- The kernel constant `IEEE80211_QOS_CTL_TAG1D_MASK`. -/
def IEEE80211_QOS_CTL_TAG1D_MASK : Nat := 0x0007

/-- The kernel constant `WLAN_CIPHER_SUITE_WEP40`. -/
def WLAN_CIPHER_SUITE_WEP40 : Nat := 0x000FAC01

/-- The kernel constant `WLAN_CIPHER_SUITE_TKIP`. -/
def WLAN_CIPHER_SUITE_TKIP : Nat := 0x000FAC02

/-- The kernel constant `WLAN_CIPHER_SUITE_CCMP`. -/
def WLAN_CIPHER_SUITE_CCMP : Nat := 0x000FAC04

/-- The kernel constant `WLAN_CIPHER_SUITE_WEP104`. -/
def WLAN_CIPHER_SUITE_WEP104 : Nat := 0x000FAC05

/-- The kernel constant `WLAN_CIPHER_SUITE_GCMP`. -/
def WLAN_CIPHER_SUITE_GCMP : Nat := 0x000FAC08

/-- The kernel helper `ieee80211_is_mgmt(fc)`. -/
def ieee80211_is_mgmt (fc : Nat) : Bool :=
  (fc &&& IEEE80211_FCTL_FTYPE) == IEEE80211_FTYPE_MGMT

/-- The kernel helper `ieee80211_is_nullfunc(fc)`. -/
def ieee80211_is_nullfunc (fc : Nat) : Bool :=
  (fc &&& (IEEE80211_FCTL_FTYPE ||| IEEE80211_FCTL_STYPE)) ==
    (IEEE80211_FTYPE_DATA ||| IEEE80211_STYPE_NULLFUNC)

/-- The kernel helper `is_broadcast_ether_addr` on the six bytes at `p`. -/
def is_broadcast_ether_addr (mem : List Nat) (p : Nat) : Bool :=
  (List.range 6).all (fun i => byte_at mem (p + i) == 0xff)

/-- The kernel helper `is_multicast_ether_addr` on the six bytes at `p`. -/
def is_multicast_ether_addr (mem : List Nat) (p : Nat) : Bool :=
  (byte_at mem p &&& 1) != 0

/-- Offset of `addr1` in `struct ieee80211_hdr`. -/
def hdr_addr1 : Nat := 4

/-- Offset of `seq_ctrl` in `struct ieee80211_hdr`. -/
def hdr_seq_ctrl : Nat := 22

/-- Constants and inline helpers of `core.h` and `txrx.h` used to build a
transmit request. The headers are not among the sources, so the values are
parameters. -/
structure rtw89_tx_consts where
  RTW89_CORE_TX_TYPE_DATA : Nat
  RTW89_CORE_TX_TYPE_MGMT : Nat
  RTW89_CORE_TX_TYPE_FWCMD : Nat
  RTW89_SEC_KEY_TYPE_NONE : Nat
  RTW89_SEC_KEY_TYPE_WEP40 : Nat
  RTW89_SEC_KEY_TYPE_WEP104 : Nat
  RTW89_SEC_KEY_TYPE_TKIP : Nat
  RTW89_SEC_KEY_TYPE_CCMP128 : Nat
  RTW89_TX_QSEL_B0_MGMT : Nat
  RTW89_DMA_H2C : Nat
  rtw89_core_get_tid_indicate : Nat → Nat

/-- What the request builders read through the `vif` and `sta` pointers:
`rtwvif->addr_cam.sec_entries[idx]` (absent when NULL; the value is the
entry's `sec_cam_idx`), `rtwsta->ampdu_params[tid].agg_num`,
`sta->ht_cap.ampdu_factor` and `sta->ht_cap.ampdu_density`. -/
structure rtw89_tx_peers where
  sec_entries : Nat → Nat → Option Nat
  agg_num : Nat → Nat → Nat
  ampdu_factor : Nat → Nat
  ampdu_density : Nat → Nat

/-- The record `struct rtw89_tx_desc_info`. -/
structure rtw89_tx_desc_info where
  wp_offset : Nat := 0
  pkt_size : Nat := 0
  qsel : Nat := 0
  ch_dma : Nat := 0
  hdr_llc_len : Nat := 0
  is_bmc : Bool := false
  en_wd_info : Bool := false
  wd_page : Bool := false
  use_rate : Bool := false
  dis_data_fb : Bool := false
  tid_indicate : Nat := 0
  agg_en : Bool := false
  ampdu_density : Nat := 0
  ampdu_num : Nat := 0
  sec_en : Bool := false
  sec_type : Nat := 0
  sec_cam_idx : Nat := 0
  data_rate : Nat := 0
  fw_dl : Bool := false
  seq : Nat := 0
  deriving DecidableEq, Repr

/-- The record `struct rtw89_core_tx_request`; the default is the zeroed
record (`= {0}`). -/
structure rtw89_core_tx_request where
  skb : tx_skb
  vif : Option Nat := none
  sta : Option Nat := none
  desc_info : rtw89_tx_desc_info := {}
  tx_type : Nat := 0
  deriving DecidableEq, Repr

/-- The function `rtw89_core_get_tx_type` (lines 252-263). -/
def rtw89_core_get_tx_type (C : rtw89_tx_consts) (skb : tx_skb) : Nat :=
  let fc := le16_at skb.data 0
  if ieee80211_is_mgmt fc || ieee80211_is_nullfunc fc then C.RTW89_CORE_TX_TYPE_MGMT
  else C.RTW89_CORE_TX_TYPE_DATA

/-- The function `rtw89_core_tx_update_ampdu_info` (lines 265-288). -/
def rtw89_core_tx_update_ampdu_info (P : rtw89_tx_peers) (tx_req : rtw89_core_tx_request)
    (tid : Nat) : rtw89_core_tx_request :=
  match tx_req.sta with
  | none => tx_req
  | some sta =>
    let ampdu_num := u8 (((if P.agg_num sta tid ≠ 0 then P.agg_num sta tid
                           else 4 <<< P.ampdu_factor sta : Nat) : Int) - 1)
    { tx_req with
      desc_info := { tx_req.desc_info with
                     agg_en := true
                     ampdu_density := P.ampdu_density sta
                     ampdu_num := ampdu_num } }

/-- The `switch (key->cipher)` of `rtw89_core_tx_update_sec_key` (lines
320-336): the value of `sec_type` after it, or nothing when the `default`
case returns. -/
def rtw89_core_tx_update_sec_key_switch (C : rtw89_tx_consts) (cipher : Nat) : Option Nat :=
  if cipher = WLAN_CIPHER_SUITE_WEP40 then some (C.RTW89_SEC_KEY_TYPE_WEP40 % 256)
  else if cipher = WLAN_CIPHER_SUITE_WEP104 then some (C.RTW89_SEC_KEY_TYPE_WEP104 % 256)
  else if cipher = WLAN_CIPHER_SUITE_TKIP then some (C.RTW89_SEC_KEY_TYPE_TKIP % 256)
  else if cipher = WLAN_CIPHER_SUITE_CCMP then some (C.RTW89_SEC_KEY_TYPE_CCMP128 % 256)
  else none

/-- The function `rtw89_core_tx_update_sec_key` (lines 290-341). `key` is
`info->control.hw_key`, which the only caller has tested to be non-NULL. -/
def rtw89_core_tx_update_sec_key (C : rtw89_tx_consts) (P : rtw89_tx_peers)
    (tx_req : rtw89_core_tx_request) (key : ieee80211_key_conf) : rtw89_core_tx_request :=
  match tx_req.vif with
  | none => tx_req
  | some vif =>
    match P.sec_entries vif key.hw_key_idx with
    | none => tx_req
    | some sec_cam_idx =>
      match rtw89_core_tx_update_sec_key_switch C key.cipher with
      | none => tx_req
      | some sec_type =>
        { tx_req with
          desc_info := { tx_req.desc_info with
                         sec_en := true
                         sec_type := sec_type
                         sec_cam_idx := sec_cam_idx } }

/-- The function `rtw89_core_tx_update_mgmt_info` (lines 343-361). -/
def rtw89_core_tx_update_mgmt_info {σ : Type} (C : rtw89_tx_consts) (ops : rtw89_tx_ops σ)
    (tx_req : rtw89_core_tx_request) : rtw89_core_tx_request :=
  let qsel := C.RTW89_TX_QSEL_B0_MGMT % 256
  let ch_dma := ops.rtw89_core_get_ch_dma qsel % 256
  { tx_req with
    desc_info := { tx_req.desc_info with
                   qsel := C.RTW89_TX_QSEL_B0_MGMT
                   ch_dma := ch_dma
                   en_wd_info := true
                   use_rate := true
                   dis_data_fb := true
                   data_rate := 0x00 } }

/-- The function `rtw89_core_tx_update_h2c_info` (lines 363-372). -/
def rtw89_core_tx_update_h2c_info (C : rtw89_tx_consts) (tx_req : rtw89_core_tx_request) :
    rtw89_core_tx_request :=
  { tx_req with
    desc_info := { tx_req.desc_info with
                   is_bmc := false
                   wd_page := false
                   ch_dma := C.RTW89_DMA_H2C } }

/-- The function `rtw89_core_tx_update_data_info` (lines 374-399). -/
def rtw89_core_tx_update_data_info {σ : Type} (C : rtw89_tx_consts) (P : rtw89_tx_peers)
    (ops : rtw89_tx_ops σ) (tx_req : rtw89_core_tx_request) : rtw89_core_tx_request :=
  let skb := tx_req.skb
  let tid := (skb.priority &&& IEEE80211_QOS_CTL_TAG1D_MASK) % 256
  let tid_indicate := C.rtw89_core_get_tid_indicate tid % 256
  let qsel := ops.rtw89_core_get_qsel tid % 256
  let ch_dma := ops.rtw89_core_get_ch_dma qsel % 256
  let tx_req : rtw89_core_tx_request :=
    { tx_req with
      desc_info := { tx_req.desc_info with
                     ch_dma := ch_dma
                     tid_indicate := tid_indicate
                     qsel := qsel
                     en_wd_info := true } }
  let tx_req :=
    if skb.flags &&& IEEE80211_TX_CTL_AMPDU ≠ 0 then rtw89_core_tx_update_ampdu_info P tx_req tid
    else tx_req
  match skb.hw_key with
  | some key => rtw89_core_tx_update_sec_key C P tx_req key
  | none => tx_req

/-- The function `rtw89_core_tx_update_desc_info` (lines 401-436). -/
def rtw89_core_tx_update_desc_info {σ : Type} (C : rtw89_tx_consts) (P : rtw89_tx_peers)
    (ops : rtw89_tx_ops σ) (tx_req : rtw89_core_tx_request) : rtw89_core_tx_request :=
  let skb := tx_req.skb
  let seq := (le16_at skb.data hdr_seq_ctrl &&& IEEE80211_SCTL_SEQ) >>> 4
  let tx_req : rtw89_core_tx_request :=
    if tx_req.tx_type ≠ C.RTW89_CORE_TX_TYPE_FWCMD then
      { tx_req with tx_type := rtw89_core_get_tx_type C skb }
    else tx_req
  let is_bmc := is_broadcast_ether_addr skb.data hdr_addr1 ||
    is_multicast_ether_addr skb.data hdr_addr1
  let tx_req : rtw89_core_tx_request :=
    { tx_req with
      desc_info := { tx_req.desc_info with
                     seq := seq
                     pkt_size := skb.data.length
                     is_bmc := is_bmc
                     wd_page := true } }
  if tx_req.tx_type = C.RTW89_CORE_TX_TYPE_MGMT then rtw89_core_tx_update_mgmt_info C ops tx_req
  else if tx_req.tx_type = C.RTW89_CORE_TX_TYPE_DATA then
    rtw89_core_tx_update_data_info C P ops tx_req
  else if tx_req.tx_type = C.RTW89_CORE_TX_TYPE_FWCMD then rtw89_core_tx_update_h2c_info C tx_req
  else tx_req

/-- The request `rtw89_core_tx_write` hands to `rtw89_hci_tx_write` (lines
476-483): the zeroed request with `skb`, `sta` and `vif` set, completed by
`rtw89_core_tx_update_desc_info`. -/
def rtw89_core_tx_write_request {σ : Type} (C : rtw89_tx_consts) (P : rtw89_tx_peers)
    (ops : rtw89_tx_ops σ) (vif : Nat) (sta : Option Nat) (skb : tx_skb) :
    rtw89_core_tx_request :=
  rtw89_core_tx_update_desc_info C P ops { skb := skb, sta := sta, vif := some vif }

/-- The request `rtw89_h2c_tx` hands to `rtw89_hci_tx_write` (lines 450-458). -/
def rtw89_h2c_tx_request {σ : Type} (C : rtw89_tx_consts) (P : rtw89_tx_peers)
    (ops : rtw89_tx_ops σ) (skb : tx_skb) (fwdl : Bool) : rtw89_core_tx_request :=
  rtw89_core_tx_update_desc_info C P ops
    { skb := skb
      tx_type := C.RTW89_CORE_TX_TYPE_FWCMD
      desc_info := { fw_dl := fwdl } }

/-- The cipher suites the `switch` of `rtw89_core_tx_update_sec_key` knows. -/
def tx_cipher_supported (cipher : Nat) : Prop :=
  cipher = WLAN_CIPHER_SUITE_WEP40 ∨ cipher = WLAN_CIPHER_SUITE_WEP104 ∨
  cipher = WLAN_CIPHER_SUITE_TKIP ∨ cipher = WLAN_CIPHER_SUITE_CCMP

instance (cipher : Nat) : Decidable (tx_cipher_supported cipher) :=
  inferInstanceAs (Decidable (_ ∨ _ ∨ _ ∨ _))

/-- Example values of the transmit constants. -/
def tx_consts_example : rtw89_tx_consts :=
  { RTW89_CORE_TX_TYPE_DATA := 0
    RTW89_CORE_TX_TYPE_MGMT := 1
    RTW89_CORE_TX_TYPE_FWCMD := 2
    RTW89_SEC_KEY_TYPE_NONE := 0
    RTW89_SEC_KEY_TYPE_WEP40 := 1
    RTW89_SEC_KEY_TYPE_WEP104 := 2
    RTW89_SEC_KEY_TYPE_TKIP := 3
    RTW89_SEC_KEY_TYPE_CCMP128 := 6
    RTW89_TX_QSEL_B0_MGMT := 18
    RTW89_DMA_H2C := 12
    rtw89_core_get_tid_indicate := fun tid => if tid = 3 ∨ tid = 2 ∨ tid = 5 ∨ tid = 7 then 1 else 0 }

/-- Example peers: every key index of every interface has the security CAM
entry 9; no aggregation size agreed, `ampdu_factor` 3, `ampdu_density` 5. -/
def tx_peers_example : rtw89_tx_peers :=
  { sec_entries := fun _ _ => some 9
    agg_num := fun _ _ => 0
    ampdu_factor := fun _ => 3
    ampdu_density := fun _ => 5 }

/-- The 24 header bytes of a QoS data frame (frame control `0x0088`) to the
unicast address `02:00:00:00:00:01`, sequence number 5. -/
def tx_hdr_unicast : List Nat :=
  [0x88, 0x00, 0, 0, 0x02, 0, 0, 0, 0, 0x01, 0, 0, 0, 0, 0, 0, 0, 0, 0, 0, 0, 0, 0x50, 0x00]

/-- The same header to the broadcast address. -/
def tx_hdr_broadcast : List Nat :=
  [0x88, 0x00, 0, 0, 0xff, 0xff, 0xff, 0xff, 0xff, 0xff, 0, 0, 0, 0, 0, 0, 0, 0, 0, 0, 0, 0,
   0x50, 0x00]

/-- A unicast data frame whose key uses GCMP, a cipher suite the `switch` of
`rtw89_core_tx_update_sec_key` does not know. -/
def tx_skb_gcmp : tx_skb :=
  { queue_mapping := 2, data := tx_hdr_unicast, priority := 5
    hw_key := some { cipher := WLAN_CIPHER_SUITE_GCMP, hw_key_idx := 0 } }

/-- A unicast data frame without key. -/
def tx_skb_unicast : tx_skb := { queue_mapping := 2, data := tx_hdr_unicast, priority := 5 }

/-- A broadcast data frame without key, of the same length. -/
def tx_skb_broadcast : tx_skb := { queue_mapping := 2, data := tx_hdr_broadcast, priority := 5 }

/-! ## Transmit descriptor: `rtw89_core_fill_txdesc` -/

/-- The macros `RTW89_SET_TXWD_*` of `txrx.h` that `rtw89_core_fill_txdesc`
uses: each one replaces one bit field of one 32-bit little-endian word of the
descriptor (`le32p_replace_bits`). The header is not among the sources, so the
positions are parameters. -/
structure rtw89_txwd_h where
  RTW89_SET_TXWD_BODY_WP_OFFSET : le32_field
  RTW89_SET_TXWD_BODY_WD_INFO_EN : le32_field
  RTW89_SET_TXWD_BODY_CHANNEL_DMA : le32_field
  RTW89_SET_TXWD_BODY_HDR_LLC_LEN : le32_field
  RTW89_SET_TXWD_BODY_WD_PAGE : le32_field
  RTW89_SET_TXWD_BODY_FW_DL : le32_field
  RTW89_SET_TXWD_BODY_SW_SEQ : le32_field
  RTW89_SET_TXWD_BODY_TID_INDICATE : le32_field
  RTW89_SET_TXWD_BODY_QSEL : le32_field
  RTW89_SET_TXWD_BODY_TXPKT_SIZE : le32_field
  RTW89_SET_TXWD_BODY_AGG_EN : le32_field
  RTW89_SET_TXWD_INFO_USE_RATE : le32_field
  RTW89_SET_TXWD_INFO_DATA_RATE : le32_field
  RTW89_SET_TXWD_INFO_DISDATAFB : le32_field
  RTW89_SET_TXWD_INFO_MAX_AGGNUM : le32_field
  RTW89_SET_TXWD_INFO_AMPDU_DENSITY : le32_field
  RTW89_SET_TXWD_INFO_SEC_TYPE : le32_field
  RTW89_SET_TXWD_INFO_SEC_HW_ENC : le32_field
  RTW89_SET_TXWD_INFO_SEC_CAM_IDX : le32_field
  deriving DecidableEq, Repr

/-- The mask `GENMASK(f.lo + f.width - 1, f.lo)` of a field. -/
def le32_field.mask (f : le32_field) : Nat := (2 ^ f.width - 1) <<< f.lo

/-- The kernel helper `le32p_replace_bits((__le32 *)txdesc + f.dword, val, mask
of f)` on a descriptor given by its 32-bit words:
`*p = (*p & ~mask) | ((val << lo) & mask)`. -/
def le32p_replace_bits (f : le32_field) (val : Nat) (txdesc : Nat → Nat) : Nat → Nat :=
  fun i =>
    if i = f.dword then
      ((txdesc i &&& (0xFFFFFFFF ^^^ (f.mask % 2 ^ 32))) ||| ((val <<< f.lo) &&& f.mask)) % 2 ^ 32
    else txdesc i

/-- The accessor matching a `RTW89_SET_TXWD_*` macro:
`le32_get_bits(*((__le32 *)txdesc + f.dword), mask of f)`. -/
def txwd_get_bits (f : le32_field) (txdesc : Nat → Nat) : Nat :=
  (txdesc f.dword / 2 ^ f.lo) % 2 ^ f.width

/-- The function `rtw89_core_fill_txdesc` (lines 496-525): the words of the
descriptor on return. -/
def rtw89_core_fill_txdesc (H : rtw89_txwd_h) (desc_info : rtw89_tx_desc_info)
    (txdesc : Nat → Nat) : Nat → Nat :=
  let t := le32p_replace_bits H.RTW89_SET_TXWD_BODY_WP_OFFSET desc_info.wp_offset txdesc
  let t := le32p_replace_bits H.RTW89_SET_TXWD_BODY_WD_INFO_EN desc_info.en_wd_info.toNat t
  let t := le32p_replace_bits H.RTW89_SET_TXWD_BODY_CHANNEL_DMA desc_info.ch_dma t
  let t := le32p_replace_bits H.RTW89_SET_TXWD_BODY_HDR_LLC_LEN desc_info.hdr_llc_len t
  let t := le32p_replace_bits H.RTW89_SET_TXWD_BODY_WD_PAGE desc_info.wd_page.toNat t
  let t := le32p_replace_bits H.RTW89_SET_TXWD_BODY_FW_DL desc_info.fw_dl.toNat t
  let t := le32p_replace_bits H.RTW89_SET_TXWD_BODY_SW_SEQ desc_info.seq t
  let t := le32p_replace_bits H.RTW89_SET_TXWD_BODY_TID_INDICATE desc_info.tid_indicate t
  let t := le32p_replace_bits H.RTW89_SET_TXWD_BODY_QSEL desc_info.qsel t
  let t := le32p_replace_bits H.RTW89_SET_TXWD_BODY_TXPKT_SIZE desc_info.pkt_size t
  let t := le32p_replace_bits H.RTW89_SET_TXWD_BODY_AGG_EN desc_info.agg_en.toNat t
  if ¬ desc_info.en_wd_info then t
  else
    let t := le32p_replace_bits H.RTW89_SET_TXWD_INFO_USE_RATE desc_info.use_rate.toNat t
    let t := le32p_replace_bits H.RTW89_SET_TXWD_INFO_DATA_RATE desc_info.data_rate t
    let t := le32p_replace_bits H.RTW89_SET_TXWD_INFO_DISDATAFB desc_info.dis_data_fb.toNat t
    let t := le32p_replace_bits H.RTW89_SET_TXWD_INFO_MAX_AGGNUM desc_info.ampdu_num t
    let t := le32p_replace_bits H.RTW89_SET_TXWD_INFO_AMPDU_DENSITY desc_info.ampdu_density t
    let t := le32p_replace_bits H.RTW89_SET_TXWD_INFO_SEC_TYPE desc_info.sec_type t
    let t := le32p_replace_bits H.RTW89_SET_TXWD_INFO_SEC_HW_ENC desc_info.sec_en.toNat t
    le32p_replace_bits H.RTW89_SET_TXWD_INFO_SEC_CAM_IDX desc_info.sec_cam_idx t

/-- The fields `rtw89_core_fill_txdesc` writes before it tests `en_wd_info`
(lines 500-511), in program order, each with the value written. -/
def txwd_body_writes (H : rtw89_txwd_h) (d : rtw89_tx_desc_info) : List (le32_field × Nat) :=
  [(H.RTW89_SET_TXWD_BODY_WP_OFFSET, d.wp_offset),
   (H.RTW89_SET_TXWD_BODY_WD_INFO_EN, d.en_wd_info.toNat),
   (H.RTW89_SET_TXWD_BODY_CHANNEL_DMA, d.ch_dma),
   (H.RTW89_SET_TXWD_BODY_HDR_LLC_LEN, d.hdr_llc_len),
   (H.RTW89_SET_TXWD_BODY_WD_PAGE, d.wd_page.toNat),
   (H.RTW89_SET_TXWD_BODY_FW_DL, d.fw_dl.toNat),
   (H.RTW89_SET_TXWD_BODY_SW_SEQ, d.seq),
   (H.RTW89_SET_TXWD_BODY_TID_INDICATE, d.tid_indicate),
   (H.RTW89_SET_TXWD_BODY_QSEL, d.qsel),
   (H.RTW89_SET_TXWD_BODY_TXPKT_SIZE, d.pkt_size),
   (H.RTW89_SET_TXWD_BODY_AGG_EN, d.agg_en.toNat)]

/-- The fields `rtw89_core_fill_txdesc` writes when `en_wd_info` is set (lines
516-523), in program order, each with the value written. -/
def txwd_info_writes (H : rtw89_txwd_h) (d : rtw89_tx_desc_info) : List (le32_field × Nat) :=
  [(H.RTW89_SET_TXWD_INFO_USE_RATE, d.use_rate.toNat),
   (H.RTW89_SET_TXWD_INFO_DATA_RATE, d.data_rate),
   (H.RTW89_SET_TXWD_INFO_DISDATAFB, d.dis_data_fb.toNat),
   (H.RTW89_SET_TXWD_INFO_MAX_AGGNUM, d.ampdu_num),
   (H.RTW89_SET_TXWD_INFO_AMPDU_DENSITY, d.ampdu_density),
   (H.RTW89_SET_TXWD_INFO_SEC_TYPE, d.sec_type),
   (H.RTW89_SET_TXWD_INFO_SEC_HW_ENC, d.sec_en.toNat),
   (H.RTW89_SET_TXWD_INFO_SEC_CAM_IDX, d.sec_cam_idx)]

/-- A sequence of `le32p_replace_bits` calls. -/
def txwd_apply_writes (ws : List (le32_field × Nat)) (txdesc : Nat → Nat) : Nat → Nat :=
  ws.foldl (fun t w => le32p_replace_bits w.1 w.2 t) txdesc

/-- Two fields share no bit: they lie in different words or their bit ranges
do not overlap. -/
def le32_field.disjoint (f g : le32_field) : Prop :=
  f.dword ≠ g.dword ∨ f.lo + f.width ≤ g.lo ∨ g.lo + g.width ≤ f.lo

instance (f g : le32_field) : Decidable (f.disjoint g) :=
  inferInstanceAs (Decidable (_ ∨ _ ∨ _))

/-- The field lies within its 32-bit word. -/
def le32_field.valid (f : le32_field) : Prop := f.lo + f.width ≤ 32

instance (f : le32_field) : Decidable f.valid := inferInstanceAs (Decidable (_ ≤ _))

/-- The 19 fields written by `rtw89_core_fill_txdesc` lie within their words
and no two of them share a bit. -/
def txwd_layout_ok (H : rtw89_txwd_h) : Prop :=
  ((txwd_body_writes H {} ++ txwd_info_writes H {}).map Prod.fst).Pairwise le32_field.disjoint ∧
  ∀ f ∈ (txwd_body_writes H {} ++ txwd_info_writes H {}).map Prod.fst, f.valid

instance (H : rtw89_txwd_h) : Decidable (txwd_layout_ok H) :=
  inferInstanceAs (Decidable (_ ∧ _))

/-- The zeroed descriptor buffer. -/
def txdesc_zero : Nat → Nat := fun _ => 0

/-- Example positions of the transmit-descriptor fields: the body in words 0
to 2, the info part in words 6 and 7. -/
def txwd_h_example : rtw89_txwd_h :=
  { RTW89_SET_TXWD_BODY_WP_OFFSET := { dword := 0, lo := 24, width := 8 }
    RTW89_SET_TXWD_BODY_WD_INFO_EN := { dword := 0, lo := 22, width := 1 }
    RTW89_SET_TXWD_BODY_CHANNEL_DMA := { dword := 0, lo := 16, width := 4 }
    RTW89_SET_TXWD_BODY_HDR_LLC_LEN := { dword := 0, lo := 11, width := 5 }
    RTW89_SET_TXWD_BODY_WD_PAGE := { dword := 0, lo := 7, width := 1 }
    RTW89_SET_TXWD_BODY_FW_DL := { dword := 0, lo := 20, width := 1 }
    RTW89_SET_TXWD_BODY_SW_SEQ := { dword := 1, lo := 0, width := 12 }
    RTW89_SET_TXWD_BODY_TID_INDICATE := { dword := 2, lo := 23, width := 1 }
    RTW89_SET_TXWD_BODY_QSEL := { dword := 2, lo := 17, width := 6 }
    RTW89_SET_TXWD_BODY_TXPKT_SIZE := { dword := 2, lo := 0, width := 14 }
    RTW89_SET_TXWD_BODY_AGG_EN := { dword := 3, lo := 31, width := 1 }
    RTW89_SET_TXWD_INFO_USE_RATE := { dword := 6, lo := 30, width := 1 }
    RTW89_SET_TXWD_INFO_DATA_RATE := { dword := 6, lo := 16, width := 9 }
    RTW89_SET_TXWD_INFO_DISDATAFB := { dword := 6, lo := 10, width := 1 }
    RTW89_SET_TXWD_INFO_MAX_AGGNUM := { dword := 7, lo := 24, width := 8 }
    RTW89_SET_TXWD_INFO_AMPDU_DENSITY := { dword := 10, lo := 18, width := 3 }
    RTW89_SET_TXWD_INFO_SEC_TYPE := { dword := 9, lo := 9, width := 4 }
    RTW89_SET_TXWD_INFO_SEC_HW_ENC := { dword := 9, lo := 8, width := 1 }
    RTW89_SET_TXWD_INFO_SEC_CAM_IDX := { dword := 9, lo := 0, width := 8 } }

/-- The descriptor info `rtw89_core_tx_write` builds for the unicast data
frame. -/
def tx_desc_info_unicast : rtw89_tx_desc_info :=
  (rtw89_core_tx_write_request tx_consts_example tx_peers_example tx_ops_example 0 (some 7)
    tx_skb_unicast).desc_info

/-- The descriptor info `rtw89_core_tx_write` builds for the broadcast data
frame. -/
def tx_desc_info_broadcast : rtw89_tx_desc_info :=
  (rtw89_core_tx_write_request tx_consts_example tx_peers_example tx_ops_example 0 (some 7)
    tx_skb_broadcast).desc_info

/-- The peers and traffic identifiers of the block-ack session starts among a
list of events, in order. -/
def ba_session_starts : List tx_event → List (Nat × Nat)
  | [] => []
  | tx_event.ieee80211_start_tx_ba_session sta tid _ :: rest =>
    (sta, tid) :: ba_session_starts rest
  | _ :: rest => ba_session_starts rest

/-- The device with queues 0 and 1 on the pending list, as left by two
eligibility checks. -/
def tx_dev_pending : rtw89_tx_dev Nat :=
  ba_run tx_ops_example tx_dev_example
    [ba_action.check_agg 0 tx_skb_example, ba_action.check_agg 1 tx_skb_example]

/-- The device after one iteration of the loop of `rtw89_core_ba_work` (lines
974-989) on the entry `q` whose queue has the peer `sta`. -/
def rtw89_core_ba_work_iter {σ : Type} (ops : rtw89_tx_ops σ) (rtwdev : rtw89_tx_dev σ)
    (q sta : Nat) : rtw89_tx_dev σ :=
  let txq := rtwdev.txqs q
  let r := ops.ieee80211_start_tx_ba_session rtwdev.ext sta txq.tid
  let rtwdev := { rtwdev with ext := r.2 }
  let rtwdev :=
    if r.1 ≠ 0 ∧ r.1 = -EINVAL then
      rtwdev.set_txq q { txq with RTW89_TXQ_F_BLOCK_BA := true }
    else rtwdev
  { rtwdev with ba_list := list_del_init rtwdev.ba_list q }

/-! ## Peer disconnect: `rtw89_core_sta_disconnect` -/

/-- The firmware commands of `fw.c` that `rtw89_core_sta_disconnect` sends, as
functions of the state of the collaborators: each gives its return value and
the new state. -/
structure rtw89_fw_ops (σ : Type) where
  rtw89_fw_h2c_assoc_cmac_tbl : σ → Nat → Nat → Int × σ
  rtw89_fw_h2c_join_info : σ → Nat → Nat → Int × σ
  rtw89_fw_h2c_cam : σ → Nat → Int × σ

/-- Calls `rtw89_core_sta_disconnect` makes after the purge of the pending
list, in program order. `rtw89_vif_type_mapping` (lines 1180-1224) writes
fields of the interface record only. -/
inductive sta_event
  | rtw89_vif_type_mapping (vif : Nat) (assoc : Bool)
  | rtw89_fw_h2c_assoc_cmac_tbl (vif sta : Nat) (ret : Int)
  | rtw89_fw_h2c_join_info (vif : Nat) (dis_conn : Nat) (ret : Int)
  | rtw89_fw_h2c_cam (vif : Nat) (ret : Int)
  deriving DecidableEq, Repr

/-- The function `rtw89_core_sta_disconnect` (lines 1256-1287): the return
value, the device and the calls made. The test after `rtw89_fw_h2c_cam` reads
`ret`, which still holds the return value of `rtw89_fw_h2c_join_info`. -/
def rtw89_core_sta_disconnect {σ : Type} (F : rtw89_fw_ops σ) (rtwdev : rtw89_tx_dev σ)
    (vif sta : Nat) : Int × rtw89_tx_dev σ × List sta_event :=
  let rtwdev := rtw89_core_free_sta_pending_ba rtwdev sta
  let e0 := [sta_event.rtw89_vif_type_mapping vif false]
  let r1 := F.rtw89_fw_h2c_assoc_cmac_tbl rtwdev.ext vif sta
  let rtwdev := { rtwdev with ext := r1.2 }
  let e1 := e0 ++ [sta_event.rtw89_fw_h2c_assoc_cmac_tbl vif sta r1.1]
  if r1.1 ≠ 0 then (r1.1, rtwdev, e1)
  else
    let r2 := F.rtw89_fw_h2c_join_info rtwdev.ext vif 1
    let rtwdev := { rtwdev with ext := r2.2 }
    let e2 := e1 ++ [sta_event.rtw89_fw_h2c_join_info vif 1 r2.1]
    if r2.1 ≠ 0 then (r2.1, rtwdev, e2)
    else
      let r3 := F.rtw89_fw_h2c_cam rtwdev.ext vif
      let rtwdev := { rtwdev with ext := r3.2 }
      let e3 := e2 ++ [sta_event.rtw89_fw_h2c_cam vif r3.1]
      if r2.1 ≠ 0 then (r2.1, rtwdev, e3)
      else (r2.1, rtwdev, e3)

/-- A sub-element of a variable-length type (type code 8) that declares a
length of 3 units: bits 4..0 of word 0 hold 8, bits 11..5 hold 3. -/
def phy_sts_ie_var_len : List Nat := [104, 0, 0, 0]

/-- A physical-status report of 300 bytes whose MAC-info block declares no
user, no receive-count block and a PLCP length of 32 units (bits 23..16 of
word 1). -/
def rx_skb_plcp_32 : sk_buff := { data := [0, 0, 0, 0, 0, 0, 32, 0] ++ List.replicate 292 0 }

/-- A report whose physical-status segment starts at offset 0: average level
100 (byte 3), raw levels 120, 130, 0 and 255 of the paths A to D (bytes 4 to
7). -/
def rx_skb_rssi : sk_buff := { data := [0, 0, 0, 100, 120, 130, 0, 255] }

/-- The 24 header bytes of a beacon (frame control `0x0080`, a management
frame) to the broadcast address, sequence number 5. -/
def tx_hdr_beacon : List Nat :=
  [0x80, 0x00, 0, 0, 0xff, 0xff, 0xff, 0xff, 0xff, 0xff, 0, 0, 0, 0, 0, 0, 0, 0, 0, 0, 0, 0,
   0x50, 0x00]

/-- A beacon frame. -/
def tx_skb_beacon : tx_skb := { data := tx_hdr_beacon }

/-- A unicast data frame flagged `IEEE80211_TX_CTL_AMPDU`, without key. -/
def tx_skb_ampdu : tx_skb :=
  { queue_mapping := 2, data := tx_hdr_unicast, priority := 5, flags := IEEE80211_TX_CTL_AMPDU }

/-! ## Channel tables -/

/-- The table `rtw89_channels_2ghz` (lines 19-34). The entries set
`center_freq` and `hw_value` only. -/
def rtw89_channels_2ghz : List ieee80211_channel :=
  [{ center_freq := 2412, hw_value := 1 },
   { center_freq := 2417, hw_value := 2 },
   { center_freq := 2422, hw_value := 3 },
   { center_freq := 2427, hw_value := 4 },
   { center_freq := 2432, hw_value := 5 },
   { center_freq := 2437, hw_value := 6 },
   { center_freq := 2442, hw_value := 7 },
   { center_freq := 2447, hw_value := 8 },
   { center_freq := 2452, hw_value := 9 },
   { center_freq := 2457, hw_value := 10 },
   { center_freq := 2462, hw_value := 11 },
   { center_freq := 2467, hw_value := 12 },
   { center_freq := 2472, hw_value := 13 },
   { center_freq := 2484, hw_value := 14 }]

/-- The table `rtw89_channels_5ghz` (lines 36-63). The entries set
`center_freq` and `hw_value`; the last one also sets the flag
`IEEE80211_CHAN_NO_HT40MINUS`, which `core.c` does not read. -/
def rtw89_channels_5ghz : List ieee80211_channel :=
  [{ center_freq := 5180, hw_value := 36 },
   { center_freq := 5200, hw_value := 40 },
   { center_freq := 5220, hw_value := 44 },
   { center_freq := 5240, hw_value := 48 },
   { center_freq := 5260, hw_value := 52 },
   { center_freq := 5280, hw_value := 56 },
   { center_freq := 5300, hw_value := 60 },
   { center_freq := 5320, hw_value := 64 },
   { center_freq := 5500, hw_value := 100 },
   { center_freq := 5520, hw_value := 104 },
   { center_freq := 5540, hw_value := 108 },
   { center_freq := 5560, hw_value := 112 },
   { center_freq := 5580, hw_value := 116 },
   { center_freq := 5600, hw_value := 120 },
   { center_freq := 5620, hw_value := 124 },
   { center_freq := 5640, hw_value := 128 },
   { center_freq := 5660, hw_value := 132 },
   { center_freq := 5680, hw_value := 136 },
   { center_freq := 5700, hw_value := 140 },
   { center_freq := 5720, hw_value := 144 },
   { center_freq := 5745, hw_value := 149 },
   { center_freq := 5765, hw_value := 153 },
   { center_freq := 5785, hw_value := 157 },
   { center_freq := 5805, hw_value := 161 },
   { center_freq := 5825, hw_value := 165 }]

/-- Primary channel 1 (2412 MHz) with the 40 MHz block centered 10 MHz below
it, at 2402 MHz. -/
def chandef_2412_ht40_minus : cfg80211_chan_def :=
  { chan := { center_freq := 2412, hw_value := 1 }
    width := nl80211_chan_width.NL80211_CHAN_WIDTH_40
    center_freq1 := 2402 }

/-! ## Physical-status report: the record inside `rtw89_core_rx_process_ppdu_sts` -/

/-- The local `phy_ppdu` of `rtw89_core_rx_process_ppdu_sts` (lines 763-782)
before the call of `rtw89_core_rx_process_phy_ppdu`: the initialised record
(lines 768-771), passed through `rtw89_core_rx_process_mac_ppdu` when the
descriptor has `mac_info_valid` (lines 774-775). -/
def rx_report_mac_ppdu (E : rtw89_rx_env) (desc_info : rtw89_rx_desc_info) (skb : sk_buff) :
    rtw89_rx_phy_ppdu :=
  let phy_ppdu : rtw89_rx_phy_ppdu :=
    { buf := 0, valid := false, len := skb.len % 2 ^ E.R.PHY_PPDU_LEN_BITS
      to_self := desc_info.addr1_match, mac_id := desc_info.mac_id }
  if desc_info.mac_info_valid then (rtw89_core_rx_process_mac_ppdu E.R skb phy_ppdu).2
  else phy_ppdu

/-- The local `phy_ppdu` of `rtw89_core_rx_process_ppdu_sts` after the call of
`rtw89_core_rx_process_phy_sts` (line 779), as it is handed to
`rtw89_core_rx_pending_skb`. -/
def rx_report_phy_ppdu (E : rtw89_rx_env) (desc_info : rtw89_rx_desc_info) (skb : sk_buff) :
    rtw89_rx_phy_ppdu :=
  (rtw89_core_rx_process_phy_sts E.H skb
    (rtw89_core_rx_process_phy_ppdu E.H skb (rx_report_mac_ppdu E desc_info skb)).2.1).1

/-- A data frame with a short descriptor whose frame type is in the allow-list
of `rx_consts_example`, ppdu count 3. -/
def rx_input_short_listed : rx_input :=
  { desc_info := { long_rxdesc := false, frame_type := 2, ppdu_cnt := 3 }
    skb := { data := [4] } }

/-- A malformed report with ppdu count 3, addressed to self and with MAC
information: the user count 5 is above `RTW89_PPDU_MAX_USR`, the declared
length 0 is not the length 12 of the buffer, and the sub-element of type 1 at
offset 8 (32 bytes) ends beyond the buffer. -/
def rx_input_malformed_report : rx_input :=
  { desc_info := { pkt_type := rtw89_core_rx_type.RTW89_CORE_RX_TYPE_PPDU_STAT, ppdu_cnt := 3
                   mac_info_valid := true, addr1_match := true }
    skb := { data := [5, 0, 0, 0, 0, 0, 0, 0, 1, 0, 0, 0] } }

/-- A report with ppdu count 3, addressed to self: 8 header bytes that declare
the length 0, and one sub-element of type 1 (32 bytes) that ends where the
40-byte buffer ends. -/
def rx_input_undeclared_report : rx_input :=
  { desc_info := { pkt_type := rtw89_core_rx_type.RTW89_CORE_RX_TYPE_PPDU_STAT, ppdu_cnt := 3
                   addr1_match := true }
    skb := { data := [0, 0, 0, 0, 0, 0, 0, 0, 1, 0, 0, 0, 0, 0, 0, 0, 0, 0, 0, 0,
                      0, 0, 0, 0, 0, 0, 0, 0, 0, 0, 0, 0, 0, 0, 0, 0, 0, 0, 0, 0] } }

/-- A unicast data frame whose key uses CCMP, key index 1. -/
def tx_skb_ccmp : tx_skb :=
  { queue_mapping := 2, data := tx_hdr_unicast, priority := 5
    hw_key := some { cipher := WLAN_CIPHER_SUITE_CCMP, hw_key_idx := 1 } }

/-- The constants of `rx_consts_example` with a 3-bit rate-mode field, so
that the modes 4 to 7 are none of the four `DATA_RATE_MODE_*` values. -/
def rx_consts_wide_mode : rtw89_rx_consts :=
  { rx_consts_example with GET_DATA_RATE_MODE := fun r => (r / 128) % 8 }

/-- The environment `rx_env_example` with the constants `rx_consts_wide_mode`. -/
def rx_env_wide_mode : rtw89_rx_env := { rx_env_example with C := rx_consts_wide_mode }

/-- A held data frame of epoch 3 whose data rate 512 has the rate mode 4 under
`rx_consts_wide_mode`. -/
def rx_input_mode_unknown : rx_input :=
  { desc_info := { long_rxdesc := true, frame_type := 2, ppdu_cnt := 3, data_rate := 512 }
    skb := { data := [1] } }

/-- A physical-status report of epoch 3 with the same rate, bandwidth and
guard-interval codes as `rx_input_mode_unknown`. -/
def rx_desc_report_mode_unknown : rtw89_rx_desc_info :=
  { pkt_type := rtw89_core_rx_type.RTW89_CORE_RX_TYPE_PPDU_STAT, ppdu_cnt := 3
    data_rate := 512 }

/-! # Theorems -/

/-! ## Channel geometry -/

theorem arr_set_same (a : Nat → Nat) (i v : Nat) : arr_set a i v i = v := by
  simp [arr_set]

theorem arr_set_other (a : Nat → Nat) (i v j : Nat) (h : j ≠ i) : arr_set a i v j = a j := by
  simp [arr_set, h]

theorem clear_cch_loop_spec (a : Nat → Nat) (i n j : Nat) :
    clear_cch_loop a i n j = if i ≤ j ∧ j < i + n then 0 else a j := by
  induction n generalizing a i with
  | zero =>
    have h : ¬ (i ≤ j ∧ j < i) := by omega
    simp [clear_cch_loop, h]
  | succ n ih =>
    rw [clear_cch_loop, ih]
    by_cases h1 : j = i
    · subst h1
      by_cases h2 : j + 1 ≤ j ∧ j < j + 1 + n
      · omega
      · simp [arr_set]
    · by_cases h2 : i + 1 ≤ j ∧ j < i + 1 + n
      · have h3 : i ≤ j ∧ j < i + (n + 1) := by omega
        simp [h2, h3]
      · have h3 : ¬ (i ≤ j ∧ j < i + (n + 1)) := by omega
        simp [h2, h3, arr_set, h1]

theorem u8_lt (x : Int) : u8 x < 256 := by
  unfold u8
  omega

theorem u8_of_nat_lt (n : Nat) (h : n < 256) : u8 (n : Int) = n := by
  unfold u8
  omega

/-- C8. For a channel definition of width 40 MHz `rtw89_get_channel_params`
selects the 40 MHz tier; when the primary frequency is above `center_freq1` it
records sub-channel `upper` and center channel = primary channel - 2, otherwise
sub-channel `lower` and center channel = primary channel + 2. The channel
numbers are `u8` fields: the equations hold in `u8` arithmetic for every input
and as plain integer equations whenever the shifted number is a `u8`. -/
theorem get_channel_params_width_40 (K : rtw89_chan_consts) (chandef : cfg80211_chan_def)
    (chan_param : rtw89_channel_params)
    (hw : chandef.width = nl80211_chan_width.NL80211_CHAN_WIDTH_40) :
    (rtw89_get_channel_params K chandef chan_param).bandwidth = K.RTW89_CHANNEL_WIDTH_40 ∧
    (chandef.chan.center_freq > chandef.center_freq1 →
      (rtw89_get_channel_params K chandef chan_param).pri_ch_idx = K.RTW89_SC_20_UPPER ∧
      (rtw89_get_channel_params K chandef chan_param).center_chan =
        u8 (((rtw89_get_channel_params K chandef chan_param).primary_chan : Int) - 2) ∧
      (2 ≤ (rtw89_get_channel_params K chandef chan_param).primary_chan →
        (rtw89_get_channel_params K chandef chan_param).center_chan + 2 =
          (rtw89_get_channel_params K chandef chan_param).primary_chan)) ∧
    (¬ chandef.chan.center_freq > chandef.center_freq1 →
      (rtw89_get_channel_params K chandef chan_param).pri_ch_idx = K.RTW89_SC_20_LOWER ∧
      (rtw89_get_channel_params K chandef chan_param).center_chan =
        u8 (((rtw89_get_channel_params K chandef chan_param).primary_chan : Int) + 2) ∧
      ((rtw89_get_channel_params K chandef chan_param).primary_chan + 2 < 256 →
        (rtw89_get_channel_params K chandef chan_param).center_chan =
          (rtw89_get_channel_params K chandef chan_param).primary_chan + 2)) := by
  have hp := u8_lt (chandef.chan.hw_value : Int)
  by_cases hgt : chandef.chan.center_freq > chandef.center_freq1
  · simp only [rtw89_get_channel_params, rtw89_get_channel_params_switch, hw, hgt, if_true]
    refine ⟨trivial, fun _ => ⟨trivial, trivial, ?_⟩, fun h => absurd trivial h⟩
    intro h2
    generalize u8 (chandef.chan.hw_value : Int) = p at hp h2 ⊢
    unfold u8
    omega
  · simp only [rtw89_get_channel_params, rtw89_get_channel_params_switch, hw, hgt, if_false]
    refine ⟨trivial, fun h => absurd h (by simp), fun _ => ⟨trivial, trivial, ?_⟩⟩
    intro h2
    generalize u8 (chandef.chan.hw_value : Int) = p at hp h2 ⊢
    unfold u8
    omega


/-- Witness of C8: the scenario of the specification, primary channel 40 at
5200 MHz with `center_freq1` = 5210 MHz, gives sub-channel `lower` and center
channel 42. -/
theorem get_channel_params_width_40_witness :
    chandef_5200_ht40.width = nl80211_chan_width.NL80211_CHAN_WIDTH_40 ∧
    (rtw89_get_channel_params chan_consts_example chandef_5200_ht40
      chan_param_garbage).pri_ch_idx = chan_consts_example.RTW89_SC_20_LOWER ∧
    (rtw89_get_channel_params chan_consts_example chandef_5200_ht40
      chan_param_garbage).center_chan = 42 :=
  ⟨rfl,
    ((get_channel_params_width_40 chan_consts_example chandef_5200_ht40 chan_param_garbage
      rfl).2.2 (by decide)).1,
    (((get_channel_params_width_40 chan_consts_example chandef_5200_ht40 chan_param_garbage
      rfl).2.2 (by decide)).2.2 (by decide)).trans (by decide)⟩

/-- C9. For a channel definition of width 80 MHz, with no 8-bit wrap-around of
the channel number: primary 10 MHz above `center_freq1` gives `upper` and
center = primary - 2, primary above by another amount gives `upmost` and
center = primary - 6, `center_freq1` 10 MHz above primary gives `lower` and
center = primary + 2, otherwise `lowest` and center = primary + 6. The 40 MHz
entry is center + 4 when the primary is above the center and center - 4
otherwise; it differs from the primary channel by exactly 2 or 6 and lies on
the same side of the 80 MHz center as the primary channel. -/
theorem get_channel_params_width_80 (K : rtw89_chan_consts) (chandef : cfg80211_chan_def)
    (chan_param cp : rtw89_channel_params) (pf cf : Nat)
    (hw : chandef.width = nl80211_chan_width.NL80211_CHAN_WIDTH_80)
    (hK : K.RTW89_CHANNEL_WIDTH_40 < K.RTW89_CHANNEL_WIDTH_80)
    (hnw : chan80_no_wrap chandef)
    (hpf : pf = chandef.chan.center_freq) (hcf : cf = chandef.center_freq1)
    (hcp : cp = rtw89_get_channel_params K chandef chan_param) :
    cp.bandwidth = K.RTW89_CHANNEL_WIDTH_80 ∧
    (pf = cf + 10 → cp.pri_ch_idx = K.RTW89_SC_20_UPPER ∧ cp.center_chan + 2 = cp.primary_chan) ∧
    (pf > cf → pf ≠ cf + 10 →
      cp.pri_ch_idx = K.RTW89_SC_20_UPMOST ∧ cp.center_chan + 6 = cp.primary_chan) ∧
    (cf = pf + 10 → cp.pri_ch_idx = K.RTW89_SC_20_LOWER ∧ cp.center_chan = cp.primary_chan + 2) ∧
    (pf ≤ cf → cf ≠ pf + 10 →
      cp.pri_ch_idx = K.RTW89_SC_20_LOWEST ∧ cp.center_chan = cp.primary_chan + 6) ∧
    (pf > cf → cp.cch_by_bw K.RTW89_CHANNEL_WIDTH_40 = cp.center_chan + 4) ∧
    (pf ≤ cf → cp.cch_by_bw K.RTW89_CHANNEL_WIDTH_40 + 4 = cp.center_chan) ∧
    (cp.cch_by_bw K.RTW89_CHANNEL_WIDTH_40 = cp.primary_chan + 2 ∨
      cp.cch_by_bw K.RTW89_CHANNEL_WIDTH_40 + 2 = cp.primary_chan ∨
      cp.cch_by_bw K.RTW89_CHANNEL_WIDTH_40 = cp.primary_chan + 6 ∨
      cp.cch_by_bw K.RTW89_CHANNEL_WIDTH_40 + 6 = cp.primary_chan) ∧
    (pf > cf → cp.center_chan < cp.primary_chan ∧
      cp.center_chan < cp.cch_by_bw K.RTW89_CHANNEL_WIDTH_40) ∧
    (pf ≤ cf → cp.primary_chan < cp.center_chan ∧
      cp.cch_by_bw K.RTW89_CHANNEL_WIDTH_40 < cp.center_chan) := by
  have hp := u8_lt (chandef.chan.hw_value : Int)
  have h40 : K.RTW89_CHANNEL_WIDTH_40 ≠ K.RTW89_CHANNEL_WIDTH_80 := by omega
  have hclr : ¬ (K.RTW89_CHANNEL_WIDTH_80 + 1 ≤ K.RTW89_CHANNEL_WIDTH_40 ∧
      K.RTW89_CHANNEL_WIDTH_40 <
        K.RTW89_CHANNEL_WIDTH_80 + 1 + (K.RTW89_MAX_CHANNEL_WIDTH - K.RTW89_CHANNEL_WIDTH_80)) := by
    omega
  subst hpf hcf hcp
  unfold chan80_no_wrap at hnw
  generalize hpe : u8 (chandef.chan.hw_value : Int) = p at hp hnw
  by_cases hgt : chandef.chan.center_freq > chandef.center_freq1
  · by_cases h10 : chandef.chan.center_freq - chandef.center_freq1 = 10
    · simp only [hgt, h10, if_true] at hnw
      simp only [rtw89_get_channel_params, rtw89_get_channel_params_switch, hw, hgt, h10,
        if_true, clear_cch_loop_spec, hclr, if_false, arr_set_other _ _ _ _ h40, arr_set_same, hpe]
      unfold u8
      refine ⟨trivial, ?_, ?_, ?_, ?_, ?_, ?_, ?_, ?_, ?_⟩ <;> intros <;>
        first | contradiction | omega | (constructor <;> first | trivial | omega)
    · simp only [hgt, h10, if_true, if_false] at hnw
      simp only [rtw89_get_channel_params, rtw89_get_channel_params_switch, hw, hgt, h10,
        if_true, clear_cch_loop_spec, hclr, if_false, arr_set_other _ _ _ _ h40, arr_set_same, hpe]
      unfold u8
      refine ⟨trivial, ?_, ?_, ?_, ?_, ?_, ?_, ?_, ?_, ?_⟩ <;> intros <;>
        first | contradiction | omega | (constructor <;> first | trivial | omega)
  · by_cases h10 : chandef.center_freq1 - chandef.chan.center_freq = 10
    · simp only [hgt, h10, if_true, if_false] at hnw
      simp only [rtw89_get_channel_params, rtw89_get_channel_params_switch, hw, hgt, h10,
        if_true, clear_cch_loop_spec, hclr, if_false, arr_set_other _ _ _ _ h40, arr_set_same, hpe]
      unfold u8
      refine ⟨trivial, ?_, ?_, ?_, ?_, ?_, ?_, ?_, ?_, ?_⟩ <;> intros <;>
        first | contradiction | omega | (constructor <;> first | trivial | omega)
    · simp only [hgt, h10, if_true, if_false] at hnw
      simp only [rtw89_get_channel_params, rtw89_get_channel_params_switch, hw, hgt, h10,
        if_true, clear_cch_loop_spec, hclr, if_false, arr_set_other _ _ _ _ h40, arr_set_same, hpe]
      unfold u8
      refine ⟨trivial, ?_, ?_, ?_, ?_, ?_, ?_, ?_, ?_, ?_⟩ <;> intros <;>
        first | contradiction | omega | (constructor <;> first | trivial | omega)


/-- Witness of C9: primary channel 36 at 5180 MHz in the 80 MHz block centered
at 5210 MHz gives sub-channel `lowest` and center = primary + 6. -/
theorem get_channel_params_width_80_witness :
    chan80_no_wrap chandef_5180_vht80 ∧
    (rtw89_get_channel_params chan_consts_example chandef_5180_vht80
      chan_param_garbage).pri_ch_idx = chan_consts_example.RTW89_SC_20_LOWEST ∧
    (rtw89_get_channel_params chan_consts_example chandef_5180_vht80
      chan_param_garbage).center_chan =
    (rtw89_get_channel_params chan_consts_example chandef_5180_vht80
      chan_param_garbage).primary_chan + 6 :=
  ⟨by decide,
    (get_channel_params_width_80 chan_consts_example chandef_5180_vht80 chan_param_garbage
      _ 5180 5210 rfl (by decide) (by decide) rfl rfl rfl).2.2.2.2.1 (by decide) (by decide)⟩

/-- The caller's loop over the tiers never changes an entry at or below the
starting tier. -/
theorem clear_cch_loop_below (a : Nat → Nat) (i n j : Nat) (h : j < i) :
    clear_cch_loop a i n j = a j := by
  rw [clear_cch_loop_spec]
  have h1 : ¬ (i ≤ j ∧ j < i + n) := by omega
  simp [h1]

/-- C10. After `rtw89_get_channel_params` every `cch_by_bw` entry above the
resulting tier, up to `RTW89_MAX_CHANNEL_WIDTH`, is 0 and the entry of the
resulting tier is `center_chan`. With the tiers ordered 20 < 40 < 80, for the
supported widths the 20 MHz entry is the primary channel and for 80 MHz the
40 MHz entry is the nested 40 MHz center (center + 4 or center - 4 in `u8`
arithmetic); for width 20 MHz, HT or not, `center_chan` is the primary channel
and the sub-channel index is `don't care`. -/
theorem get_channel_params_cch_by_bw (K : rtw89_chan_consts) (chandef : cfg80211_chan_def)
    (chan_param cp : rtw89_channel_params)
    (hcp : cp = rtw89_get_channel_params K chandef chan_param) :
    (∀ i, cp.bandwidth < i → i ≤ K.RTW89_MAX_CHANNEL_WIDTH → cp.cch_by_bw i = 0) ∧
    cp.cch_by_bw cp.bandwidth = cp.center_chan ∧
    (K.RTW89_CHANNEL_WIDTH_20 < K.RTW89_CHANNEL_WIDTH_40 →
      K.RTW89_CHANNEL_WIDTH_40 < K.RTW89_CHANNEL_WIDTH_80 →
      (chandef.width = nl80211_chan_width.NL80211_CHAN_WIDTH_20_NOHT ∨
        chandef.width = nl80211_chan_width.NL80211_CHAN_WIDTH_20 ∨
        chandef.width = nl80211_chan_width.NL80211_CHAN_WIDTH_40 ∨
        chandef.width = nl80211_chan_width.NL80211_CHAN_WIDTH_80 →
        cp.cch_by_bw K.RTW89_CHANNEL_WIDTH_20 = cp.primary_chan) ∧
      (chandef.width = nl80211_chan_width.NL80211_CHAN_WIDTH_80 →
        cp.cch_by_bw K.RTW89_CHANNEL_WIDTH_40 =
          if chandef.chan.center_freq > chandef.center_freq1
          then u8 ((cp.center_chan : Int) + 4) else u8 ((cp.center_chan : Int) - 4))) ∧
    (chandef.width = nl80211_chan_width.NL80211_CHAN_WIDTH_20_NOHT ∨
      chandef.width = nl80211_chan_width.NL80211_CHAN_WIDTH_20 →
      cp.bandwidth = K.RTW89_CHANNEL_WIDTH_20 ∧ cp.center_chan = cp.primary_chan ∧
      cp.pri_ch_idx = K.RTW89_SC_DONT_CARE) := by
  subst hcp
  refine ⟨?_, ?_, ?_, ?_⟩
  · intro i h1 h2
    simp only [rtw89_get_channel_params] at h1 ⊢
    rw [clear_cch_loop_spec]
    have h3 : (rtw89_get_channel_params_switch K chandef.width chandef.chan.center_freq
        chandef.center_freq1 (u8 ↑chandef.chan.hw_value)
        (arr_set chan_param.cch_by_bw K.RTW89_CHANNEL_WIDTH_20
          (u8 ↑chandef.chan.hw_value))).bandwidth + 1 ≤ i ∧
      i < (rtw89_get_channel_params_switch K chandef.width chandef.chan.center_freq
        chandef.center_freq1 (u8 ↑chandef.chan.hw_value)
        (arr_set chan_param.cch_by_bw K.RTW89_CHANNEL_WIDTH_20
          (u8 ↑chandef.chan.hw_value))).bandwidth + 1 +
        (K.RTW89_MAX_CHANNEL_WIDTH -
          (rtw89_get_channel_params_switch K chandef.width chandef.chan.center_freq
            chandef.center_freq1 (u8 ↑chandef.chan.hw_value)
            (arr_set chan_param.cch_by_bw K.RTW89_CHANNEL_WIDTH_20
              (u8 ↑chandef.chan.hw_value))).bandwidth) := by omega
    simp [h3]
  · simp only [rtw89_get_channel_params]
    rw [clear_cch_loop_below _ _ _ _ (Nat.lt_succ_self _), arr_set_same]
  · intro h24 h48
    have h28 : K.RTW89_CHANNEL_WIDTH_20 < K.RTW89_CHANNEL_WIDTH_80 := by omega
    refine ⟨?_, ?_⟩
    · intro hw
      rcases hw with hw | hw | hw | hw
      · simp only [rtw89_get_channel_params, rtw89_get_channel_params_switch, hw]
        rw [clear_cch_loop_below _ _ _ _ (Nat.lt_succ_self _), arr_set_same]
      · simp only [rtw89_get_channel_params, rtw89_get_channel_params_switch, hw]
        rw [clear_cch_loop_below _ _ _ _ (Nat.lt_succ_self _), arr_set_same]
      · by_cases hgt : chandef.chan.center_freq > chandef.center_freq1 <;>
          simp only [rtw89_get_channel_params, rtw89_get_channel_params_switch, hw, hgt,
            if_true, if_false] <;>
          rw [clear_cch_loop_below _ _ _ _ (by omega),
            arr_set_other _ _ _ _ (by omega), arr_set_same]
      · by_cases hgt : chandef.chan.center_freq > chandef.center_freq1 <;>
          simp only [rtw89_get_channel_params, rtw89_get_channel_params_switch, hw, hgt,
            if_true, if_false] <;>
          rw [clear_cch_loop_below _ _ _ _ (by omega),
            arr_set_other _ _ _ _ (by omega), arr_set_other _ _ _ _ (by omega), arr_set_same]
    · intro hw
      by_cases hgt : chandef.chan.center_freq > chandef.center_freq1 <;>
        simp only [rtw89_get_channel_params, rtw89_get_channel_params_switch, hw, hgt,
          if_true, if_false] <;>
        rw [clear_cch_loop_below _ _ _ _ (by omega),
          arr_set_other _ _ _ _ (by omega), arr_set_same]
  · intro hw
    rcases hw with hw | hw <;>
      simp only [rtw89_get_channel_params, rtw89_get_channel_params_switch, hw] <;>
      exact ⟨trivial, trivial, trivial⟩

/-- Witness of C10 on the same 80 MHz channel definition: the entry of the
resulting tier is `center_chan`. -/
theorem get_channel_params_cch_by_bw_witness :
    (rtw89_get_channel_params chan_consts_example chandef_5180_vht80 chan_param_garbage).cch_by_bw
      (rtw89_get_channel_params chan_consts_example chandef_5180_vht80
        chan_param_garbage).bandwidth =
    (rtw89_get_channel_params chan_consts_example chandef_5180_vht80
      chan_param_garbage).center_chan :=
  (get_channel_params_cch_by_bw chan_consts_example chandef_5180_vht80 chan_param_garbage
    _ rfl).2.1

/-! ## Physical-status sub-element walk -/

theorem parse_loop_zero (H : rtw89_phy_sts_h) (mem : List Nat) (end_ pos : Nat) :
    rtw89_core_rx_parse_phy_sts_loop H mem end_ 0 pos = none := rfl

theorem parse_loop_done (H : rtw89_phy_sts_h) (mem : List Nat) (end_ fuel pos : Nat)
    (h : ¬ pos < end_) :
    rtw89_core_rx_parse_phy_sts_loop H mem end_ (fuel + 1) pos =
      some { ret := 0, reads := [], cfo := [] } := by
  simp [rtw89_core_rx_parse_phy_sts_loop, h]

theorem parse_loop_fail (H : rtw89_phy_sts_h) (mem : List Nat) (end_ fuel pos : Nat)
    (h : pos < end_)
    (hbad : pos + rtw89_core_get_phy_status_ie_len H mem pos > end_ ∨
      rtw89_core_get_phy_status_ie_len H mem pos = 0) :
    rtw89_core_rx_parse_phy_sts_loop H mem end_ (fuel + 1) pos =
      some { ret := -EINVAL
             reads := rtw89_core_get_phy_status_ie_len_reads H mem pos ++
               (rtw89_core_process_phy_status_ie H mem pos).1
             cfo := (rtw89_core_process_phy_status_ie H mem pos).2 } := by
  simp only [rtw89_core_rx_parse_phy_sts_loop, h, if_true, hbad]

theorem parse_loop_step (H : rtw89_phy_sts_h) (mem : List Nat) (end_ fuel pos : Nat)
    (h : pos < end_)
    (hok : ¬ (pos + rtw89_core_get_phy_status_ie_len H mem pos > end_ ∨
      rtw89_core_get_phy_status_ie_len H mem pos = 0)) :
    rtw89_core_rx_parse_phy_sts_loop H mem end_ (fuel + 1) pos =
      match rtw89_core_rx_parse_phy_sts_loop H mem end_ fuel
          (pos + rtw89_core_get_phy_status_ie_len H mem pos) with
      | none => none
      | some r =>
        some { ret := r.ret
               reads := rtw89_core_get_phy_status_ie_len_reads H mem pos ++
                 (rtw89_core_process_phy_status_ie H mem pos).1 ++ r.reads
               cfo := (rtw89_core_process_phy_status_ie H mem pos).2 ++ r.cfo } := by
  simp only [rtw89_core_rx_parse_phy_sts_loop, h, if_true, hok, if_false]

/-- The loop ends within `end_ - pos + 1` iterations and returns 0 or
`-EINVAL`. -/
theorem parse_loop_terminates (H : rtw89_phy_sts_h) (mem : List Nat) (end_ : Nat) :
    ∀ fuel pos, end_ < fuel + pos → 0 < fuel →
      ∃ r, rtw89_core_rx_parse_phy_sts_loop H mem end_ fuel pos = some r ∧
        (r.ret = 0 ∨ r.ret = -EINVAL) := by
  intro fuel
  induction fuel with
  | zero => intro pos _ h; omega
  | succ n ih =>
    intro pos hf _
    by_cases h : pos < end_
    · by_cases hbad : pos + rtw89_core_get_phy_status_ie_len H mem pos > end_ ∨
          rtw89_core_get_phy_status_ie_len H mem pos = 0
      · exact ⟨_, parse_loop_fail H mem end_ n pos h hbad, Or.inr rfl⟩
      · rw [parse_loop_step H mem end_ n pos h hbad]
        have h1 : end_ < n + (pos + rtw89_core_get_phy_status_ie_len H mem pos) := by omega
        have h2 : 0 < n := by omega
        obtain ⟨r, hr, hret⟩ := ih _ h1 h2
        rw [hr]
        exact ⟨_, rfl, hret⟩
    · exact ⟨_, parse_loop_done H mem end_ n pos h, Or.inl rfl⟩

/-- A loop that returns 0 has walked sub-elements of positive length that end
exactly at `end_` (or it started at or beyond `end_`). -/
theorem parse_loop_zero_tiles (H : rtw89_phy_sts_h) (mem : List Nat) (end_ : Nat) :
    ∀ fuel pos r, rtw89_core_rx_parse_phy_sts_loop H mem end_ fuel pos = some r → r.ret = 0 →
      ∃ ls, sub_elements_from H mem pos ls ∧ (∀ l ∈ ls, 0 < l) ∧
        ((end_ ≤ pos ∧ ls = []) ∨ pos + ls.sum = end_) := by
  intro fuel
  induction fuel with
  | zero => intro pos r h; simp [parse_loop_zero] at h
  | succ n ih =>
    intro pos r hr hret
    by_cases h : pos < end_
    · by_cases hbad : pos + rtw89_core_get_phy_status_ie_len H mem pos > end_ ∨
          rtw89_core_get_phy_status_ie_len H mem pos = 0
      · rw [parse_loop_fail H mem end_ n pos h hbad] at hr
        injection hr with hr
        subst hr
        simp [EINVAL] at hret
      · rw [parse_loop_step H mem end_ n pos h hbad] at hr
        cases hrec : rtw89_core_rx_parse_phy_sts_loop H mem end_ n
            (pos + rtw89_core_get_phy_status_ie_len H mem pos) with
        | none => rw [hrec] at hr; simp at hr
        | some r' =>
          rw [hrec] at hr
          injection hr with hr
          subst hr
          obtain ⟨ls, hsub, hpos, hend⟩ := ih _ r' hrec hret
          refine ⟨rtw89_core_get_phy_status_ie_len H mem pos :: ls, ⟨rfl, hsub⟩, ?_, Or.inr ?_⟩
          · intro l hl
            rcases List.mem_cons.mp hl with hl | hl
            · subst hl; omega
            · exact hpos l hl
          · rcases hend with ⟨h1, h2⟩ | h1
            · subst h2
              simp only [List.sum_cons, List.sum_nil]
              omega
            · simp only [List.sum_cons]
              omega
    · exact ⟨[], trivial, by simp, Or.inl ⟨by omega, rfl⟩⟩

/-- A loop that, after sub-elements of positive length that stay inside the
buffer, meets a sub-element of length zero or one that ends beyond `end_`,
returns `-EINVAL`. -/
theorem parse_loop_bad_einval (H : rtw89_phy_sts_h) (mem : List Nat) (end_ : Nat) :
    ∀ ls fuel pos r, rtw89_core_rx_parse_phy_sts_loop H mem end_ fuel pos = some r →
      sub_elements_from H mem pos ls → (∀ l ∈ ls, 0 < l) → pos + ls.sum < end_ →
      (rtw89_core_get_phy_status_ie_len H mem (pos + ls.sum) = 0 ∨
        end_ < pos + ls.sum + rtw89_core_get_phy_status_ie_len H mem (pos + ls.sum)) →
      r.ret = -EINVAL := by
  intro ls
  induction ls with
  | nil =>
    intro fuel pos r hr _ _ hlt hbad
    simp only [List.sum_nil, Nat.add_zero] at hlt hbad
    cases fuel with
    | zero => simp [parse_loop_zero] at hr
    | succ n =>
      rw [parse_loop_fail H mem end_ n pos hlt (by omega)] at hr
      injection hr with hr
      subst hr
      rfl
  | cons l ls ih =>
    intro fuel pos r hr hsub hpos hlt hbad
    obtain ⟨hl, hsub'⟩ := hsub
    have hl0 : 0 < l := hpos l (List.mem_cons_self _ _)
    simp only [List.sum_cons] at hlt hbad
    cases fuel with
    | zero => simp [parse_loop_zero] at hr
    | succ n =>
      have h : pos < end_ := by omega
      have hok : ¬ (pos + rtw89_core_get_phy_status_ie_len H mem pos > end_ ∨
          rtw89_core_get_phy_status_ie_len H mem pos = 0) := by
        rw [← hl]; omega
      rw [parse_loop_step H mem end_ n pos h hok, ← hl] at hr
      cases hrec : rtw89_core_rx_parse_phy_sts_loop H mem end_ n (pos + l) with
      | none => rw [hrec] at hr; simp at hr
      | some r' =>
        rw [hrec] at hr
        injection hr with hr
        subst hr
        have h1 : pos + l + ls.sum < end_ := by omega
        have h2 : rtw89_core_get_phy_status_ie_len H mem (pos + l + ls.sum) = 0 ∨
            end_ < pos + l + ls.sum +
              rtw89_core_get_phy_status_ie_len H mem (pos + l + ls.sum) := by
          have e : pos + (l + ls.sum) = pos + l + ls.sum := by omega
          rw [e] at hbad
          exact hbad
        exact ih n (pos + l) r' hrec hsub' (fun x hx => hpos x (List.mem_cons_of_mem _ hx)) h1 h2

/-- A loop over sub-elements of positive length that end exactly at `end_`
returns 0. -/
theorem parse_loop_tiles_zero (H : rtw89_phy_sts_h) (mem : List Nat) (end_ : Nat) :
    ∀ ls fuel pos r, rtw89_core_rx_parse_phy_sts_loop H mem end_ fuel pos = some r →
      sub_elements_from H mem pos ls → (∀ l ∈ ls, 0 < l) → pos + ls.sum = end_ →
      r.ret = 0 := by
  intro ls
  induction ls with
  | nil =>
    intro fuel pos r hr _ _ hend
    simp only [List.sum_nil, Nat.add_zero] at hend
    cases fuel with
    | zero => simp [parse_loop_zero] at hr
    | succ n =>
      rw [parse_loop_done H mem end_ n pos (by omega)] at hr
      injection hr with hr
      subst hr
      rfl
  | cons l ls ih =>
    intro fuel pos r hr hsub hpos hend
    obtain ⟨hl, hsub'⟩ := hsub
    have hl0 : 0 < l := hpos l (List.mem_cons_self _ _)
    simp only [List.sum_cons] at hend
    cases fuel with
    | zero => simp [parse_loop_zero] at hr
    | succ n =>
      have h : pos < end_ := by omega
      have hok : ¬ (pos + rtw89_core_get_phy_status_ie_len H mem pos > end_ ∨
          rtw89_core_get_phy_status_ie_len H mem pos = 0) := by
        rw [← hl]; omega
      rw [parse_loop_step H mem end_ n pos h hok, ← hl] at hr
      cases hrec : rtw89_core_rx_parse_phy_sts_loop H mem end_ n (pos + l) with
      | none => rw [hrec] at hr; simp at hr
      | some r' =>
        rw [hrec] at hr
        injection hr with hr
        subst hr
        exact ih n (pos + l) r' hrec hsub' (fun x hx => hpos x (List.mem_cons_of_mem _ hx))
          (by omega)

/-- C4. On a report addressed to self `rtw89_core_rx_parse_phy_sts` terminates
with 0 or `-EINVAL`; it returns `-EINVAL` whenever the walk from
`PHY_STS_HDR_LEN`, after sub-elements of positive length inside the declared
length, meets a sub-element of length zero or one whose end lies beyond the
declared length; and it returns 0 exactly when sub-elements of positive length
tile the bytes from `PHY_STS_HDR_LEN` up to the declared length. -/
theorem rx_parse_phy_sts_result (H : rtw89_phy_sts_h) (mem : List Nat) (len : Nat) :
    ∃ r, rtw89_core_rx_parse_phy_sts H mem len true = some r ∧
      (r.ret = 0 ∨ r.ret = -EINVAL) ∧
      (∀ ls, sub_elements_from H mem H.PHY_STS_HDR_LEN ls → (∀ l ∈ ls, 0 < l) →
        H.PHY_STS_HDR_LEN + ls.sum < len →
        (rtw89_core_get_phy_status_ie_len H mem (H.PHY_STS_HDR_LEN + ls.sum) = 0 ∨
          len < H.PHY_STS_HDR_LEN + ls.sum +
            rtw89_core_get_phy_status_ie_len H mem (H.PHY_STS_HDR_LEN + ls.sum)) →
        r.ret = -EINVAL) ∧
      (r.ret = 0 ↔
        ∃ ls, sub_elements_from H mem H.PHY_STS_HDR_LEN ls ∧ (∀ l ∈ ls, 0 < l) ∧
          ∀ b, (H.PHY_STS_HDR_LEN ≤ b ∧ b < len) ↔
            (H.PHY_STS_HDR_LEN ≤ b ∧ b < H.PHY_STS_HDR_LEN + ls.sum)) := by
  obtain ⟨r, hr, hret⟩ := parse_loop_terminates H mem len (len + 1) H.PHY_STS_HDR_LEN
    (by omega) (by omega)
  have hr' : rtw89_core_rx_parse_phy_sts H mem len true = some r := by
    simp [rtw89_core_rx_parse_phy_sts, hr]
  refine ⟨r, hr', hret, ?_, ?_, ?_⟩
  · intro ls hsub hpos hlt hbad
    exact parse_loop_bad_einval H mem len ls _ _ r hr hsub hpos hlt hbad
  · intro h0
    obtain ⟨ls, hsub, hpos, hend⟩ := parse_loop_zero_tiles H mem len _ _ r hr h0
    refine ⟨ls, hsub, hpos, ?_⟩
    intro b
    rcases hend with ⟨h1, h2⟩ | h1
    · subst h2
      simp only [List.sum_nil]
      omega
    · omega
  · rintro ⟨ls, hsub, hpos, hb⟩
    by_cases hlen : len ≤ H.PHY_STS_HDR_LEN
    · have hd : rtw89_core_rx_parse_phy_sts_loop H mem len (len + 1) H.PHY_STS_HDR_LEN =
          some { ret := 0, reads := [], cfo := [] } :=
        parse_loop_done H mem len len _ (by omega)
      rw [hd] at hr
      injection hr with hr
      subst hr
      rfl
    · have hsum : H.PHY_STS_HDR_LEN + ls.sum = len := by
        have h1 := hb (len - 1)
        have h2 := hb (H.PHY_STS_HDR_LEN + ls.sum - 1)
        have h3 := hb H.PHY_STS_HDR_LEN
        omega
      exact parse_loop_tiles_zero H mem len ls _ _ r hr hsub hpos hsum

/-! ## Receive path -/

theorem per_phy_get_set_same {α : Type} (a : per_phy α) (band : rtw89_phy_idx) (v : α) :
    (a.set band v).get band = v := by
  cases band <;> rfl

theorem per_phy_get_set_other {α : Type} (a : per_phy α) (b band : rtw89_phy_idx) (v : α)
    (h : b ≠ band) : (a.set band v).get b = a.get b := by
  cases band <;> cases b <;> first | rfl | exact absurd rfl h

theorem rx_delivered_append (l1 l2 : List rx_event) :
    rx_delivered (l1 ++ l2) = rx_delivered l1 ++ rx_delivered l2 := by
  induction l1 with
  | nil => rfl
  | cons e l ih => cases e <;> simp [rx_delivered, ih]

theorem rx_delivered_map_irqsafe (l : List sk_buff) :
    rx_delivered (l.map rx_event.ieee80211_rx_irqsafe) = l := by
  induction l with
  | nil => rfl
  | cons e l ih => simp [rx_delivered, ih]

theorem rx_delivered_map_cfo (l : List Int) :
    rx_delivered (l.map rx_event.rtw89_phy_cfo_parse) = [] := by
  induction l with
  | nil => rfl
  | cons e l ih => simp [rx_delivered, ih]

/-- The call `rtw89_core_rx` on a data frame whose ppdu count is the recorded
epoch. -/
theorem rx_wifi_same_epoch (E : rtw89_rx_env) (rtwdev : rtw89_dev)
    (desc_info : rtw89_rx_desc_info) (skb : sk_buff)
    (hty : desc_info.pkt_type = rtw89_core_rx_type.RTW89_CORE_RX_TYPE_WIFI)
    (heq : rtwdev.ppdu_sts.curr_rx_ppdu_cnt.get (rx_band desc_info) = desc_info.ppdu_cnt) :
    rtw89_core_rx E rtwdev desc_info skb =
      if rx_ppdu_eligible E.C desc_info then
        ({ rtwdev with
           ppdu_sts := { rtwdev.ppdu_sts with
                         rx_queue := rtwdev.ppdu_sts.rx_queue.set (rx_band desc_info)
                           (rtwdev.ppdu_sts.rx_queue.get (rx_band desc_info) ++
                             [{ skb := rx_frame_skb E rtwdev desc_info skb
                                ppdu_cnt := desc_info.ppdu_cnt }]) } }, [])
      else
        (rtwdev, [rx_event.ieee80211_rx_irqsafe (rx_frame_skb E rtwdev desc_info skb)]) := by
  simp only [rtw89_core_rx, hty, heq, ne_eq, not_true_eq_false, if_false, rx_frame_skb,
    List.nil_append]

/-- The call `rtw89_core_rx` on a data frame whose ppdu count differs from the recorded
epoch: flush, record the new epoch, then handle the frame. -/
theorem rx_wifi_new_epoch (E : rtw89_rx_env) (rtwdev : rtw89_dev)
    (desc_info : rtw89_rx_desc_info) (skb : sk_buff)
    (hty : desc_info.pkt_type = rtw89_core_rx_type.RTW89_CORE_RX_TYPE_WIFI)
    (hne : rtwdev.ppdu_sts.curr_rx_ppdu_cnt.get (rx_band desc_info) ≠ desc_info.ppdu_cnt) :
    rtw89_core_rx E rtwdev desc_info skb =
      ((rtw89_core_rx E (rx_dev_flushed rtwdev (rx_band desc_info) desc_info.ppdu_cnt)
          desc_info skb).1,
       (rtwdev.ppdu_sts.rx_queue.get (rx_band desc_info)).map
           (fun e => rx_event.ieee80211_rx_irqsafe e.skb) ++
         (rtw89_core_rx E (rx_dev_flushed rtwdev (rx_band desc_info) desc_info.ppdu_cnt)
           desc_info skb).2) := by
  have h1 : (rx_dev_flushed rtwdev (rx_band desc_info)
      desc_info.ppdu_cnt).ppdu_sts.curr_rx_ppdu_cnt.get (rx_band desc_info) =
      desc_info.ppdu_cnt := by
    simp [rx_dev_flushed, per_phy_get_set_same]
  rw [rx_wifi_same_epoch E _ desc_info skb hty h1]
  simp only [rtw89_core_rx, hty, hne, ne_eq, not_true_eq_false, not_false_eq_true, if_true,
    if_false, rtw89_core_flush_ppdu_rx_queue, rx_dev_flushed, rx_frame_skb,
    rtw89_core_update_rx_status]
  by_cases hel : rx_ppdu_eligible E.C desc_info = true
  · simp [hel]
  · simp [hel]

theorem rx_frame_skb_flushed (E : rtw89_rx_env) (rtwdev : rtw89_dev) (band : rtw89_phy_idx)
    (n : Nat) (desc_info : rtw89_rx_desc_info) (skb : sk_buff) :
    rx_frame_skb E (rx_dev_flushed rtwdev band n) desc_info skb =
      rx_frame_skb E rtwdev desc_info skb := rfl

/-- C2. A data-frame descriptor whose ppdu count differs from the epoch of its
path first has every frame queued on that path delivered, in queue order and
as queued, which leaves the queue empty; then the ppdu count is recorded as
the epoch, and only then is the new frame handled. The other path keeps its
queue and epoch. When the ppdu count is the recorded epoch, no queued frame is
delivered and the epochs are unchanged. -/
theorem rx_data_frame_epoch (E : rtw89_rx_env) (rtwdev : rtw89_dev)
    (desc_info : rtw89_rx_desc_info) (skb : sk_buff)
    (hty : desc_info.pkt_type = rtw89_core_rx_type.RTW89_CORE_RX_TYPE_WIFI) :
    (rtwdev.ppdu_sts.curr_rx_ppdu_cnt.get (rx_band desc_info) ≠ desc_info.ppdu_cnt →
      rtw89_core_rx E rtwdev desc_info skb =
        ((rtw89_core_rx E (rx_dev_flushed rtwdev (rx_band desc_info) desc_info.ppdu_cnt)
            desc_info skb).1,
         (rtwdev.ppdu_sts.rx_queue.get (rx_band desc_info)).map
             (fun e => rx_event.ieee80211_rx_irqsafe e.skb) ++
           (rtw89_core_rx E (rx_dev_flushed rtwdev (rx_band desc_info) desc_info.ppdu_cnt)
             desc_info skb).2) ∧
      (rx_dev_flushed rtwdev (rx_band desc_info) desc_info.ppdu_cnt).ppdu_sts.rx_queue.get
        (rx_band desc_info) = [] ∧
      (rx_dev_flushed rtwdev (rx_band desc_info) desc_info.ppdu_cnt).ppdu_sts.curr_rx_ppdu_cnt.get
        (rx_band desc_info) = desc_info.ppdu_cnt ∧
      (rtw89_core_rx E rtwdev desc_info skb).2 =
        (rtwdev.ppdu_sts.rx_queue.get (rx_band desc_info)).map
            (fun e => rx_event.ieee80211_rx_irqsafe e.skb) ++
          (if rx_ppdu_eligible E.C desc_info then []
           else [rx_event.ieee80211_rx_irqsafe (rx_frame_skb E rtwdev desc_info skb)]) ∧
      (rtw89_core_rx E rtwdev desc_info skb).1.ppdu_sts.rx_queue.get (rx_band desc_info) =
        (if rx_ppdu_eligible E.C desc_info then
           [{ skb := rx_frame_skb E rtwdev desc_info skb, ppdu_cnt := desc_info.ppdu_cnt }]
         else []) ∧
      (rtw89_core_rx E rtwdev desc_info skb).1.ppdu_sts.curr_rx_ppdu_cnt.get
        (rx_band desc_info) = desc_info.ppdu_cnt) ∧
    (rtwdev.ppdu_sts.curr_rx_ppdu_cnt.get (rx_band desc_info) = desc_info.ppdu_cnt →
      (rtw89_core_rx E rtwdev desc_info skb).2 =
        (if rx_ppdu_eligible E.C desc_info then []
         else [rx_event.ieee80211_rx_irqsafe (rx_frame_skb E rtwdev desc_info skb)]) ∧
      (rtw89_core_rx E rtwdev desc_info skb).1.ppdu_sts.rx_queue.get (rx_band desc_info) =
        rtwdev.ppdu_sts.rx_queue.get (rx_band desc_info) ++
          (if rx_ppdu_eligible E.C desc_info then
             [{ skb := rx_frame_skb E rtwdev desc_info skb, ppdu_cnt := desc_info.ppdu_cnt }]
           else []) ∧
      (rtw89_core_rx E rtwdev desc_info skb).1.ppdu_sts.curr_rx_ppdu_cnt =
        rtwdev.ppdu_sts.curr_rx_ppdu_cnt) ∧
    (∀ b, b ≠ rx_band desc_info →
      (rtw89_core_rx E rtwdev desc_info skb).1.ppdu_sts.rx_queue.get b =
        rtwdev.ppdu_sts.rx_queue.get b ∧
      (rtw89_core_rx E rtwdev desc_info skb).1.ppdu_sts.curr_rx_ppdu_cnt.get b =
        rtwdev.ppdu_sts.curr_rx_ppdu_cnt.get b) := by
  have hfl : (rx_dev_flushed rtwdev (rx_band desc_info)
      desc_info.ppdu_cnt).ppdu_sts.curr_rx_ppdu_cnt.get (rx_band desc_info) =
      desc_info.ppdu_cnt := by
    simp [rx_dev_flushed, per_phy_get_set_same]
  refine ⟨?_, ?_, ?_⟩
  · intro hne
    have hstep := rx_wifi_new_epoch E rtwdev desc_info skb hty hne
    refine ⟨hstep, ?_, hfl, ?_, ?_, ?_⟩
    · simp [rx_dev_flushed, per_phy_get_set_same]
    · rw [hstep, rx_wifi_same_epoch E _ desc_info skb hty hfl]
      by_cases hel : rx_ppdu_eligible E.C desc_info = true
      · simp [hel]
      · simp [hel, rx_frame_skb_flushed]
    · rw [hstep, rx_wifi_same_epoch E _ desc_info skb hty hfl]
      simp only [rx_frame_skb_flushed]
      by_cases hel : rx_ppdu_eligible E.C desc_info = true
      · simp [hel, rx_dev_flushed, per_phy_get_set_same]
      · simp [hel, rx_dev_flushed, per_phy_get_set_same]
    · rw [hstep, rx_wifi_same_epoch E _ desc_info skb hty hfl]
      by_cases hel : rx_ppdu_eligible E.C desc_info = true
      · simp [hel, rx_dev_flushed, per_phy_get_set_same]
      · simp [hel, rx_dev_flushed, per_phy_get_set_same]
  · intro heq
    rw [rx_wifi_same_epoch E _ desc_info skb hty heq]
    by_cases hel : rx_ppdu_eligible E.C desc_info = true
    · simp [hel, per_phy_get_set_same]
    · simp [hel]
  · intro b hb
    by_cases heq : rtwdev.ppdu_sts.curr_rx_ppdu_cnt.get (rx_band desc_info) = desc_info.ppdu_cnt
    · rw [rx_wifi_same_epoch E _ desc_info skb hty heq]
      by_cases hel : rx_ppdu_eligible E.C desc_info = true
      · simp [hel, per_phy_get_set_other _ _ _ _ hb]
      · simp [hel]
    · rw [rx_wifi_new_epoch E rtwdev desc_info skb hty heq,
        rx_wifi_same_epoch E _ desc_info skb hty hfl]
      by_cases hel : rx_ppdu_eligible E.C desc_info = true
      · simp [hel, rx_dev_flushed, per_phy_get_set_other _ _ _ _ hb]
      · simp [hel, rx_dev_flushed, per_phy_get_set_other _ _ _ _ hb]

theorem rx_pending_skb_dev (E : rtw89_rx_env) (rtwdev : rtw89_dev)
    (phy_ppdu : rtw89_rx_phy_ppdu) (desc_info : rtw89_rx_desc_info) :
    (rtw89_core_rx_pending_skb E rtwdev phy_ppdu desc_info).1 =
      if rtwdev.ppdu_sts.curr_rx_ppdu_cnt.get (rx_band desc_info) > E.C.RTW89_MAX_PPDU_CNT then
        rtwdev
      else
        { rtwdev with
          ppdu_sts := { rtwdev.ppdu_sts with
                        rx_queue := rtwdev.ppdu_sts.rx_queue.set (rx_band desc_info) [] } } := by
  unfold rtw89_core_rx_pending_skb
  by_cases h : rtwdev.ppdu_sts.curr_rx_ppdu_cnt.get (rx_band desc_info) > E.C.RTW89_MAX_PPDU_CNT
  · simp [h]
  · simp [h]

/-- The device state after `rtw89_core_rx` on anything but a data frame. -/
theorem rx_report_dev (E : rtw89_rx_env) (rtwdev : rtw89_dev)
    (desc_info : rtw89_rx_desc_info) (skb : sk_buff)
    (hty : desc_info.pkt_type ≠ rtw89_core_rx_type.RTW89_CORE_RX_TYPE_WIFI) :
    (rtw89_core_rx E rtwdev desc_info skb).1 = rtwdev ∨
    (rtw89_core_rx E rtwdev desc_info skb).1 =
      { rtwdev with
        ppdu_sts := { rtwdev.ppdu_sts with
                      rx_queue := rtwdev.ppdu_sts.rx_queue.set (rx_band desc_info) [] } } := by
  simp only [rtw89_core_rx, hty, ne_eq, not_false_eq_true, if_true, rtw89_core_rx_process_report]
  cases hp : desc_info.pkt_type with
  | RTW89_CORE_RX_TYPE_WIFI => exact absurd hp hty
  | RTW89_CORE_RX_TYPE_C2H => exact Or.inl rfl
  | RTW89_CORE_RX_TYPE_OTHER => exact Or.inl rfl
  | RTW89_CORE_RX_TYPE_PPDU_STAT =>
    simp only [rtw89_core_rx_process_ppdu_sts, rx_pending_skb_dev]
    by_cases h : rtwdev.ppdu_sts.curr_rx_ppdu_cnt.get (rx_band desc_info) > E.C.RTW89_MAX_PPDU_CNT
    · simp [h]
    · simp [h]

/-- One call of `rtw89_core_rx` keeps the reassembly-queue invariant. -/
theorem rx_keeps_ppdu_queue_inv (E : rtw89_rx_env) (rtwdev : rtw89_dev)
    (desc_info : rtw89_rx_desc_info) (skb : sk_buff) (hinv : ppdu_queue_inv rtwdev) :
    ppdu_queue_inv (rtw89_core_rx E rtwdev desc_info skb).1 := by
  by_cases hty : desc_info.pkt_type = rtw89_core_rx_type.RTW89_CORE_RX_TYPE_WIFI
  · have hfl : (rx_dev_flushed rtwdev (rx_band desc_info)
        desc_info.ppdu_cnt).ppdu_sts.curr_rx_ppdu_cnt.get (rx_band desc_info) =
        desc_info.ppdu_cnt := by
      simp [rx_dev_flushed, per_phy_get_set_same]
    by_cases heq : rtwdev.ppdu_sts.curr_rx_ppdu_cnt.get (rx_band desc_info) = desc_info.ppdu_cnt
    · rw [rx_wifi_same_epoch E _ desc_info skb hty heq]
      by_cases hel : rx_ppdu_eligible E.C desc_info = true
      · simp only [hel, if_true]
        intro band e he
        by_cases hb : band = rx_band desc_info
        · subst hb
          simp only [per_phy_get_set_same, List.mem_append, List.mem_singleton] at he
          rcases he with he | he
          · exact hinv _ e he
          · subst he
            exact heq.symm
        · rw [per_phy_get_set_other _ _ _ _ hb] at he
          exact hinv band e he
      · rw [if_neg hel]
        exact hinv
    · rw [rx_wifi_new_epoch E rtwdev desc_info skb hty heq,
        rx_wifi_same_epoch E _ desc_info skb hty hfl]
      by_cases hel : rx_ppdu_eligible E.C desc_info = true
      · simp only [hel, if_true, rx_dev_flushed]
        intro band e he
        by_cases hb : band = rx_band desc_info
        · subst hb
          simp only [per_phy_get_set_same, List.nil_append, List.mem_singleton] at he ⊢
          subst he
          rfl
        · simp only [per_phy_get_set_other _ _ _ _ hb] at he ⊢
          exact hinv band e he
      · rw [if_neg hel]
        simp only [rx_dev_flushed]
        intro band e he
        by_cases hb : band = rx_band desc_info
        · subst hb
          simp [per_phy_get_set_same] at he
        · simp only [per_phy_get_set_other _ _ _ _ hb] at he ⊢
          exact hinv band e he
  · rcases rx_report_dev E rtwdev desc_info skb hty with h | h
    · rw [h]; exact hinv
    · rw [h]
      intro band e he
      by_cases hb : band = rx_band desc_info
      · subst hb
        simp [per_phy_get_set_same] at he
      · simp only [per_phy_get_set_other _ _ _ _ hb] at he
        exact hinv band e he

theorem rx_run_keeps_ppdu_queue_inv (E : rtw89_rx_env) (inputs : List rx_input) :
    ∀ rtwdev, ppdu_queue_inv rtwdev → ppdu_queue_inv (rtw89_core_rx_run E rtwdev inputs).1 := by
  induction inputs with
  | nil => intro rtwdev h; exact h
  | cons i rest ih =>
    intro rtwdev h
    simp only [rtw89_core_rx_run]
    exact ih _ (rx_keeps_ppdu_queue_inv E rtwdev i.desc_info i.skb h)

/-- C3. Reassembly-queue invariant: in every state reached from the state set
by `rtw89_core_ppdu_sts_init` (both queues empty, both epochs 255) through any
sequence of `rtw89_core_rx` calls, of any report kind, every frame held in the
queue of a radio path was enqueued from a descriptor whose ppdu count is the
epoch now recorded for that path. -/
theorem rx_ppdu_queue_invariant (E : rtw89_rx_env) (chan : ieee80211_channel)
    (inputs : List rx_input) (band : rtw89_phy_idx) (e : rx_queue_entry) :
    rtw89_core_ppdu_sts_init.rx_queue = { phy0 := [], phy1 := [] } ∧
    rtw89_core_ppdu_sts_init.curr_rx_ppdu_cnt = { phy0 := 255, phy1 := 255 } ∧
    (e ∈ (rtw89_core_rx_run E { hw_conf_chan := chan, ppdu_sts := rtw89_core_ppdu_sts_init }
        inputs).1.ppdu_sts.rx_queue.get band →
      e.ppdu_cnt =
        (rtw89_core_rx_run E { hw_conf_chan := chan, ppdu_sts := rtw89_core_ppdu_sts_init }
          inputs).1.ppdu_sts.curr_rx_ppdu_cnt.get band) := by
  refine ⟨rfl, rfl, ?_⟩
  have h0 : ppdu_queue_inv { hw_conf_chan := chan, ppdu_sts := rtw89_core_ppdu_sts_init } := by
    intro b x hx
    cases b <;> simp [rtw89_core_ppdu_sts_init, per_phy.get] at hx
  exact rx_run_keeps_ppdu_queue_inv E inputs _ h0 band e

theorem rx_run_append (E : rtw89_rx_env) (l1 l2 : List rx_input) :
    ∀ rtwdev, rtw89_core_rx_run E rtwdev (l1 ++ l2) =
      ((rtw89_core_rx_run E (rtw89_core_rx_run E rtwdev l1).1 l2).1,
       (rtw89_core_rx_run E rtwdev l1).2 ++
         (rtw89_core_rx_run E (rtw89_core_rx_run E rtwdev l1).1 l2).2) := by
  induction l1 with
  | nil => intro rtwdev; simp [rtw89_core_rx_run]
  | cons i rest ih =>
    intro rtwdev
    rw [List.cons_append]
    simp only [rtw89_core_rx_run, ih, List.append_assoc]

/-- The frames delivered by the loop of `rtw89_core_rx_pending_skb` are the
queued frames, in queue order; only their receive status may be enriched. -/
theorem rx_pending_skb_walk_delivered (E : rtw89_rx_env) (rtwdev : rtw89_dev)
    (phy_ppdu : rtw89_rx_phy_ppdu) (desc_info : rtw89_rx_desc_info) (q : List rx_queue_entry) :
    (rx_delivered (rtw89_core_rx_pending_skb_walk E rtwdev phy_ppdu desc_info q)).map
      sk_buff.data = q.map (fun e => e.skb.data) := by
  induction q with
  | nil => rfl
  | cons e rest ih =>
    simp only [rtw89_core_rx_pending_skb_walk, rx_delivered, List.map_cons, ih]
    by_cases h : rtw89_core_rx_ppdu_match E.C rtwdev desc_info e.skb.cb = true
    · simp [h]
    · simp [h]

theorem rx_delivered_process_phy_ppdu (H : rtw89_phy_sts_h) (skb : sk_buff)
    (phy_ppdu : rtw89_rx_phy_ppdu) :
    rx_delivered (rtw89_core_rx_process_phy_ppdu H skb phy_ppdu).2.2 = [] := by
  unfold rtw89_core_rx_process_phy_ppdu
  split <;> rfl

theorem rx_delivered_process_phy_sts (H : rtw89_phy_sts_h) (skb : sk_buff)
    (phy_ppdu : rtw89_rx_phy_ppdu) :
    rx_delivered (rtw89_core_rx_process_phy_sts H skb phy_ppdu).2 = [] := by
  unfold rtw89_core_rx_process_phy_sts
  split
  · exact rx_delivered_map_cfo _
  · rfl

/-- The call `rtw89_core_rx` on a physical-status report: whatever the parsing steps
find, the call ends with `rtw89_core_rx_pending_skb` on the unchanged device
state and the release of the report; the steps before deliver no frame. -/
theorem rx_report_shape (E : rtw89_rx_env) (rtwdev : rtw89_dev)
    (desc_info : rtw89_rx_desc_info) (skb : sk_buff)
    (hty : desc_info.pkt_type = rtw89_core_rx_type.RTW89_CORE_RX_TYPE_PPDU_STAT) :
    ∃ phy_ppdu pre, rx_delivered pre = [] ∧
      rtw89_core_rx E rtwdev desc_info skb =
        ((rtw89_core_rx_pending_skb E rtwdev phy_ppdu desc_info).1,
         pre ++ (rtw89_core_rx_pending_skb E rtwdev phy_ppdu desc_info).2 ++
           [rx_event.dev_kfree_skb_any skb]) := by
  have hne : desc_info.pkt_type ≠ rtw89_core_rx_type.RTW89_CORE_RX_TYPE_WIFI := by
    rw [hty]; decide
  have hrx : rtw89_core_rx E rtwdev desc_info skb =
      rtw89_core_rx_process_ppdu_sts E rtwdev desc_info skb := by
    unfold rtw89_core_rx
    rw [if_pos hne]
    unfold rtw89_core_rx_process_report
    rw [hty]
  rw [hrx]
  unfold rtw89_core_rx_process_ppdu_sts
  dsimp only
  refine ⟨_, _, ?_, rfl⟩
  rw [rx_delivered_append, rx_delivered_process_phy_ppdu, rx_delivered_process_phy_sts]
  rfl

/-- A physical-status report on a path whose queue is empty or whose epoch is
not above the ceiling: every queued frame is delivered, in queue order, and
the queue is left empty. -/
theorem rx_report_delivers (E : rtw89_rx_env) (rtwdev : rtw89_dev)
    (desc_info : rtw89_rx_desc_info) (skb : sk_buff)
    (hty : desc_info.pkt_type = rtw89_core_rx_type.RTW89_CORE_RX_TYPE_PPDU_STAT)
    (h : rtwdev.ppdu_sts.rx_queue.get (rx_band desc_info) = [] ∨
      rtwdev.ppdu_sts.curr_rx_ppdu_cnt.get (rx_band desc_info) ≤ E.C.RTW89_MAX_PPDU_CNT) :
    (rtw89_core_rx E rtwdev desc_info skb).1.ppdu_sts.rx_queue.get (rx_band desc_info) = [] ∧
    (rx_delivered (rtw89_core_rx E rtwdev desc_info skb).2).map sk_buff.data =
      (rtwdev.ppdu_sts.rx_queue.get (rx_band desc_info)).map (fun e => e.skb.data) := by
  obtain ⟨phy_ppdu, pre, hpre, heq⟩ := rx_report_shape E rtwdev desc_info skb hty
  rw [heq]
  simp only [rx_delivered_append, hpre, List.nil_append, rx_delivered, List.append_nil]
  unfold rtw89_core_rx_pending_skb
  by_cases hc : rtwdev.ppdu_sts.curr_rx_ppdu_cnt.get (rx_band desc_info) > E.C.RTW89_MAX_PPDU_CNT
  · have hq : rtwdev.ppdu_sts.rx_queue.get (rx_band desc_info) = [] := by
      rcases h with h | h
      · exact h
      · omega
    simp [hc, hq, rx_delivered]
  · simp only [hc, if_false, per_phy_get_set_same, rx_pending_skb_walk_delivered]
    exact ⟨trivial, trivial⟩

/-- One data frame of path `band` with ppdu count `n`, arriving when the queue
of the path is empty or its epoch is `n`. -/
theorem rx_frame_step (E : rtw89_rx_env) (rtwdev : rtw89_dev) (i : rx_input)
    (band : rtw89_phy_idx) (n : Nat)
    (hi : i.desc_info.pkt_type = rtw89_core_rx_type.RTW89_CORE_RX_TYPE_WIFI ∧
      rx_band i.desc_info = band ∧ i.desc_info.ppdu_cnt = n)
    (h : rtwdev.ppdu_sts.rx_queue.get band = [] ∨ rtwdev.ppdu_sts.curr_rx_ppdu_cnt.get band = n) :
    (rtw89_core_rx E rtwdev i.desc_info i.skb).1.ppdu_sts.curr_rx_ppdu_cnt.get band = n ∧
    ((rtw89_core_rx E rtwdev i.desc_info i.skb).1.ppdu_sts.rx_queue.get band).map
        (fun e => e.skb.data) =
      (rtwdev.ppdu_sts.rx_queue.get band).map (fun e => e.skb.data) ++
        (if rx_ppdu_eligible E.C i.desc_info then [i.skb.data] else []) ∧
    (rx_delivered (rtw89_core_rx E rtwdev i.desc_info i.skb).2).map sk_buff.data =
      (if rx_ppdu_eligible E.C i.desc_info then [] else [i.skb.data]) := by
  obtain ⟨hty, hb, hn⟩ := hi
  subst hb hn
  have hfl : (rx_dev_flushed rtwdev (rx_band i.desc_info)
      i.desc_info.ppdu_cnt).ppdu_sts.curr_rx_ppdu_cnt.get (rx_band i.desc_info) =
      i.desc_info.ppdu_cnt := by
    simp [rx_dev_flushed, per_phy_get_set_same]
  by_cases heq : rtwdev.ppdu_sts.curr_rx_ppdu_cnt.get (rx_band i.desc_info) = i.desc_info.ppdu_cnt
  · rw [rx_wifi_same_epoch E _ _ _ hty heq]
    by_cases hel : rx_ppdu_eligible E.C i.desc_info = true
    · simp [hel, per_phy_get_set_same, heq, rx_delivered, rx_frame_skb]
    · simp [hel, heq, rx_delivered, rx_frame_skb]
  · have hq : rtwdev.ppdu_sts.rx_queue.get (rx_band i.desc_info) = [] := by
      rcases h with h | h
      · exact h
      · exact absurd h heq
    rw [rx_wifi_new_epoch E _ _ _ hty heq, rx_wifi_same_epoch E _ _ _ hty hfl, hq]
    by_cases hel : rx_ppdu_eligible E.C i.desc_info = true
    · simp [hel, rx_dev_flushed, per_phy_get_set_same, rx_delivered, rx_frame_skb]
    · simp [hel, rx_dev_flushed, per_phy_get_set_same, rx_delivered, rx_frame_skb]

/-- A run of data frames of one path that all carry ppdu count `n`, arriving
when the queue of the path is empty or its epoch is `n`: the frames that are
not held are delivered at once in arrival order, the held ones are appended to
the queue in arrival order. -/
theorem rx_frames_run (E : rtw89_rx_env) (band : rtw89_phy_idx) (n : Nat)
    (frames : List rx_input) :
    ∀ rtwdev,
      (∀ i ∈ frames, i.desc_info.pkt_type = rtw89_core_rx_type.RTW89_CORE_RX_TYPE_WIFI ∧
        rx_band i.desc_info = band ∧ i.desc_info.ppdu_cnt = n) →
      (rtwdev.ppdu_sts.rx_queue.get band = [] ∨
        rtwdev.ppdu_sts.curr_rx_ppdu_cnt.get band = n) →
      ((rtw89_core_rx_run E rtwdev frames).1.ppdu_sts.rx_queue.get band = [] ∨
        (rtw89_core_rx_run E rtwdev frames).1.ppdu_sts.curr_rx_ppdu_cnt.get band = n) ∧
      ((rtw89_core_rx_run E rtwdev frames).1.ppdu_sts.rx_queue.get band).map
          (fun e => e.skb.data) =
        (rtwdev.ppdu_sts.rx_queue.get band).map (fun e => e.skb.data) ++
          (frames.filter (fun i => rx_ppdu_eligible E.C i.desc_info)).map
            (fun i => i.skb.data) ∧
      (rx_delivered (rtw89_core_rx_run E rtwdev frames).2).map sk_buff.data =
        (frames.filter (fun i => !rx_ppdu_eligible E.C i.desc_info)).map
          (fun i => i.skb.data) := by
  induction frames with
  | nil =>
    intro rtwdev _ h
    exact ⟨h, by simp [rtw89_core_rx_run], by simp [rtw89_core_rx_run, rx_delivered]⟩
  | cons i rest ih =>
    intro rtwdev hall h
    have hi := hall i (List.mem_cons_self _ _)
    obtain ⟨h1, h2, h3⟩ := rx_frame_step E rtwdev i band n hi h
    obtain ⟨g1, g2, g3⟩ := ih (rtw89_core_rx E rtwdev i.desc_info i.skb).1
      (fun x hx => hall x (List.mem_cons_of_mem _ hx)) (Or.inr h1)
    refine ⟨g1, ?_, ?_⟩
    · simp only [rtw89_core_rx_run, g2, h2]
      by_cases hel : rx_ppdu_eligible E.C i.desc_info = true
      · simp [hel, List.filter_cons]
      · simp [hel, List.filter_cons]
    · simp only [rtw89_core_rx_run, rx_delivered_append, List.map_append, g3, h3]
      by_cases hel : rx_ppdu_eligible E.C i.desc_info = true
      · simp [hel, List.filter_cons]
      · simp [hel, List.filter_cons]

/-- Witness of C2: a frame of epoch 4 arrives while a frame of epoch 3 is
held; the held frame is delivered first. -/
theorem rx_data_frame_epoch_witness :
    rx_input_next_epoch.desc_info.pkt_type = rtw89_core_rx_type.RTW89_CORE_RX_TYPE_WIFI ∧
    (rtw89_core_rx rx_env_example rtw89_dev_holding rx_input_next_epoch.desc_info
      rx_input_next_epoch.skb).2 =
      (rtw89_dev_holding.ppdu_sts.rx_queue.get (rx_band rx_input_next_epoch.desc_info)).map
          (fun e => rx_event.ieee80211_rx_irqsafe e.skb) ++
        (if rx_ppdu_eligible rx_env_example.C rx_input_next_epoch.desc_info then []
         else [rx_event.ieee80211_rx_irqsafe (rx_frame_skb rx_env_example rtw89_dev_holding
           rx_input_next_epoch.desc_info rx_input_next_epoch.skb)]) :=
  ⟨rfl, ((rx_data_frame_epoch rx_env_example rtw89_dev_holding rx_input_next_epoch.desc_info
    rx_input_next_epoch.skb rfl).1 (by decide)).2.2.2.1⟩

/-- C1, as the code has it. From an empty queue of a path, after `N` data
frames of that path that all carry ppdu count `n`, with `n` not above
`RTW89_MAX_PPDU_CNT`, and one physical-status report of that path: every one
of the `N` frames has been delivered exactly once and the queue is empty. The
frames that `rtw89_core_rx` does not hold are delivered at once, in arrival
order, and the held ones at the report, in arrival order; so the deliveries
are in arrival order when all frames are held or none is. -/
theorem rx_epoch_burst_delivery (E : rtw89_rx_env) (rtwdev : rtw89_dev) (band : rtw89_phy_idx)
    (n : Nat) (frames : List rx_input) (report : rx_input)
    (hq : rtwdev.ppdu_sts.rx_queue.get band = [])
    (hn : n ≤ E.C.RTW89_MAX_PPDU_CNT)
    (hframes : ∀ i ∈ frames,
      i.desc_info.pkt_type = rtw89_core_rx_type.RTW89_CORE_RX_TYPE_WIFI ∧
      rx_band i.desc_info = band ∧ i.desc_info.ppdu_cnt = n)
    (hreport : report.desc_info.pkt_type = rtw89_core_rx_type.RTW89_CORE_RX_TYPE_PPDU_STAT ∧
      rx_band report.desc_info = band) :
    (rx_delivered (rtw89_core_rx_run E rtwdev (frames ++ [report])).2).map sk_buff.data =
      (frames.filter (fun i => !rx_ppdu_eligible E.C i.desc_info)).map (fun i => i.skb.data) ++
        (frames.filter (fun i => rx_ppdu_eligible E.C i.desc_info)).map (fun i => i.skb.data) ∧
    List.Perm ((rx_delivered (rtw89_core_rx_run E rtwdev (frames ++ [report])).2).map sk_buff.data)
      (frames.map (fun i => i.skb.data)) ∧
    (rtw89_core_rx_run E rtwdev (frames ++ [report])).1.ppdu_sts.rx_queue.get band = [] ∧
    ((∀ i ∈ frames, rx_ppdu_eligible E.C i.desc_info = true) ∨
      (∀ i ∈ frames, rx_ppdu_eligible E.C i.desc_info = false) →
      (rx_delivered (rtw89_core_rx_run E rtwdev (frames ++ [report])).2).map sk_buff.data =
        frames.map (fun i => i.skb.data)) := by
  obtain ⟨hty, hb⟩ := hreport
  obtain ⟨g1, g2, g3⟩ := rx_frames_run E band n frames rtwdev hframes (Or.inl hq)
  have hpre : (rtw89_core_rx_run E rtwdev frames).1.ppdu_sts.rx_queue.get (rx_band report.desc_info)
      = [] ∨ (rtw89_core_rx_run E rtwdev frames).1.ppdu_sts.curr_rx_ppdu_cnt.get
        (rx_band report.desc_info) ≤ E.C.RTW89_MAX_PPDU_CNT := by
    rw [hb]
    rcases g1 with g1 | g1
    · exact Or.inl g1
    · exact Or.inr (by omega)
  obtain ⟨r1, r2⟩ := rx_report_delivers E (rtw89_core_rx_run E rtwdev frames).1
    report.desc_info report.skb hty hpre
  rw [hb] at r1 r2
  have hdel : (rx_delivered (rtw89_core_rx_run E rtwdev (frames ++ [report])).2).map sk_buff.data =
      (frames.filter (fun i => !rx_ppdu_eligible E.C i.desc_info)).map (fun i => i.skb.data) ++
        (frames.filter (fun i => rx_ppdu_eligible E.C i.desc_info)).map
          (fun i => i.skb.data) := by
    rw [rx_run_append]
    simp only [rtw89_core_rx_run, rx_delivered_append, List.map_append, List.append_nil, g3, r2,
      g2, hq, List.map_nil, List.nil_append]
  refine ⟨hdel, ?_, ?_, ?_⟩
  · rw [hdel, ← List.map_append]
    apply List.Perm.map
    exact (List.perm_append_comm).trans (List.filter_append_perm _ frames)
  · rw [rx_run_append]
    simp only [rtw89_core_rx_run]
    exact r1
  · intro hall
    rw [hdel]
    rcases hall with hall | hall
    · have e1 : frames.filter (fun i => !rx_ppdu_eligible E.C i.desc_info) = [] := by
        rw [List.filter_eq_nil_iff]
        intro i hi
        simp [hall i hi]
      have e2 : frames.filter (fun i => rx_ppdu_eligible E.C i.desc_info) = frames := by
        rw [List.filter_eq_self]
        intro i hi
        exact hall i hi
      rw [e1, e2]
      rfl
    · have e1 : frames.filter (fun i => !rx_ppdu_eligible E.C i.desc_info) = frames := by
        rw [List.filter_eq_self]
        intro i hi
        simp [hall i hi]
      have e2 : frames.filter (fun i => rx_ppdu_eligible E.C i.desc_info) = [] := by
        rw [List.filter_eq_nil_iff]
        intro i hi
        simp [hall i hi]
      rw [e1, e2]
      simp

/-- Witness of C1 as amended: a held frame, a frame delivered at once and the
report, from the initial state. -/
theorem rx_epoch_burst_delivery_witness :
    rtw89_dev_init.ppdu_sts.rx_queue.get rtw89_phy_idx.RTW89_PHY_0 = [] ∧
    3 ≤ rx_env_example.C.RTW89_MAX_PPDU_CNT ∧
    List.Perm
      ((rx_delivered (rtw89_core_rx_run rx_env_example rtw89_dev_init
        ([rx_input_held, rx_input_direct] ++ [rx_input_report])).2).map sk_buff.data)
      ([rx_input_held, rx_input_direct].map (fun i => i.skb.data)) ∧
    (rtw89_core_rx_run rx_env_example rtw89_dev_init
      ([rx_input_held, rx_input_direct] ++ [rx_input_report])).1.ppdu_sts.rx_queue.get
        rtw89_phy_idx.RTW89_PHY_0 = [] :=
  ⟨rfl, by decide,
    (rx_epoch_burst_delivery rx_env_example rtw89_dev_init rtw89_phy_idx.RTW89_PHY_0 3
      [rx_input_held, rx_input_direct] rx_input_report rfl (by decide) (by decide)
      (by decide)).2.1,
    (rx_epoch_burst_delivery rx_env_example rtw89_dev_init rtw89_phy_idx.RTW89_PHY_0 3
      [rx_input_held, rx_input_direct] rx_input_report rfl (by decide) (by decide)
      (by decide)).2.2.1⟩

/-- C1 fails as stated: a held frame followed by a frame that is delivered at
once, both with ppdu count 3, and then the report with ppdu count 3, from the
initial state. The second frame is delivered before the first. -/
theorem rx_epoch_burst_out_of_order :
    (rx_delivered (rtw89_core_rx_run rx_env_example rtw89_dev_init
      [rx_input_held, rx_input_direct, rx_input_report]).2).map sk_buff.data =
      [rx_input_direct.skb.data, rx_input_held.skb.data] ∧
    (rx_delivered (rtw89_core_rx_run rx_env_example rtw89_dev_init
      [rx_input_held, rx_input_direct, rx_input_report]).2).map sk_buff.data ≠
      [rx_input_held.skb.data, rx_input_direct.skb.data] := by
  decide

/-- The walk of C5's failing input: the loop is entered at offset 8, below the
declared length 12; the CFO of the type-1 sub-element is loaded from the word
at offset 12, outside the declared buffer, before the bound is checked. -/
theorem rx_parse_phy_sts_reads_past_len :
    rtw89_core_rx_parse_phy_sts phy_sts_h_example phy_sts_short_report 12 true =
      some { ret := -EINVAL, reads := [8, 8, 12], cfo := [0] } ∧
    phy_sts_short_report.length = 12 ∧ ¬ (12 + 4 ≤ 12) := by
  decide

/-- Whatever the positions of the fields, a report addressed to self whose
declared length is one byte more than the header makes the parser load a
32-bit word that does not lie inside the declared buffer. -/
theorem rx_parse_phy_sts_overread_any_layout (H : rtw89_phy_sts_h) (mem : List Nat) :
    ∃ r, rtw89_core_rx_parse_phy_sts H mem (H.PHY_STS_HDR_LEN + 1) true = some r ∧
      ∃ off ∈ r.reads, H.PHY_STS_HDR_LEN + 1 < off + 4 := by
  obtain ⟨r, hr, _⟩ := parse_loop_terminates H mem (H.PHY_STS_HDR_LEN + 1)
    (H.PHY_STS_HDR_LEN + 1 + 1) H.PHY_STS_HDR_LEN (by omega) (by omega)
  refine ⟨r, by simp [rtw89_core_rx_parse_phy_sts, hr], ?_⟩
  have hlt : H.PHY_STS_HDR_LEN < H.PHY_STS_HDR_LEN + 1 := by omega
  have hfirst : le32_field_addr H.RTW89_GET_PHY_STS_IE_TYPE H.PHY_STS_HDR_LEN ∈
      rtw89_core_get_phy_status_ie_len_reads H mem H.PHY_STS_HDR_LEN := by
    unfold rtw89_core_get_phy_status_ie_len_reads
    dsimp only
    split <;> simp
  have hoff : H.PHY_STS_HDR_LEN + 1 <
      le32_field_addr H.RTW89_GET_PHY_STS_IE_TYPE H.PHY_STS_HDR_LEN + 4 := by
    unfold le32_field_addr
    omega
  refine ⟨_, ?_, hoff⟩
  by_cases hbad : H.PHY_STS_HDR_LEN + rtw89_core_get_phy_status_ie_len H mem H.PHY_STS_HDR_LEN >
      H.PHY_STS_HDR_LEN + 1 ∨ rtw89_core_get_phy_status_ie_len H mem H.PHY_STS_HDR_LEN = 0
  · rw [parse_loop_fail H mem _ _ _ hlt hbad] at hr
    injection hr with hr
    subst hr
    simp [hfirst]
  · rw [parse_loop_step H mem _ _ _ hlt hbad] at hr
    cases hrec : rtw89_core_rx_parse_phy_sts_loop H mem (H.PHY_STS_HDR_LEN + 1)
        (H.PHY_STS_HDR_LEN + 1)
        (H.PHY_STS_HDR_LEN + rtw89_core_get_phy_status_ie_len H mem H.PHY_STS_HDR_LEN) with
    | none => rw [hrec] at hr; simp at hr
    | some r' =>
      rw [hrec] at hr
      injection hr with hr
      subst hr
      simp [hfirst]

/-! ## Transmit scheduler -/

theorem check_agg_txqs {σ : Type} (rtwdev : rtw89_tx_dev σ) (q : Nat) (skb : tx_skb) :
    (rtw89_core_txq_check_agg rtwdev q skb).1.txqs = rtwdev.txqs ∧
    (rtw89_core_txq_check_agg rtwdev q skb).1.ext = rtwdev.ext ∧
    (rtw89_core_txq_check_agg rtwdev q skb).2.1.data = skb.data := by
  unfold rtw89_core_txq_check_agg
  dsimp only
  split_ifs <;> exact ⟨rfl, rfl, rfl⟩

theorem tx_dequeued_append (l1 l2 : List tx_event) :
    tx_dequeued (l1 ++ l2) = tx_dequeued l1 ++ tx_dequeued l2 := by
  induction l1 with
  | nil => rfl
  | cons e l ih => cases e <;> simp [tx_dequeued, ih]

theorem tx_submitted_append (l1 l2 : List tx_event) :
    tx_submitted (l1 ++ l2) = tx_submitted l1 ++ tx_submitted l2 := by
  induction l1 with
  | nil => rfl
  | cons e l ih =>
    cases e with
    | rtw89_hci_tx_write skb ret =>
      by_cases h : ret = 0 <;> simp [tx_submitted, ih, h]
    | _ => simp [tx_submitted, ih]

theorem check_agg_events {σ : Type} (rtwdev : rtw89_tx_dev σ) (q : Nat) (skb : tx_skb) :
    tx_dequeued (rtw89_core_txq_check_agg rtwdev q skb).2.2 = [] ∧
    tx_submitted (rtw89_core_txq_check_agg rtwdev q skb).2.2 = [] := by
  unfold rtw89_core_txq_check_agg
  dsimp only
  split_ifs <;> exact ⟨rfl, rfl⟩

/-- The loop of `rtw89_core_txq_push` dequeues at most `frame_cnt` frames. -/
theorem txq_push_dequeued_le {σ : Type} (ops : rtw89_tx_ops σ) (q : Nat) :
    ∀ frame_cnt (rtwdev : rtw89_tx_dev σ),
      (tx_dequeued (rtw89_core_txq_push ops q frame_cnt rtwdev).2).length ≤ frame_cnt := by
  intro frame_cnt
  induction frame_cnt with
  | zero => intro rtwdev; simp [rtw89_core_txq_push, tx_dequeued]
  | succ n ih =>
    intro rtwdev
    unfold rtw89_core_txq_push
    dsimp only
    split
    · simp [tx_dequeued]
    · rename_i skb rest hfr
      split
      · simp only [tx_dequeued_append, (check_agg_events _ _ _).1, rtw89_core_tx_write,
          tx_dequeued, List.nil_append, List.length_cons, List.length_nil, List.length_append]
        omega
      · simp only [tx_dequeued_append, (check_agg_events _ _ _).1, rtw89_core_tx_write,
          tx_dequeued, List.nil_append, List.length_cons, List.length_nil, List.length_append,
          List.singleton_append]
        have := ih (rtw89_core_tx_write ops
          (rtw89_core_txq_check_agg (rtwdev.set_txq q { rtwdev.txqs q with frames := rest })
            q skb).1 (rtwdev.txqs q).vif (rtwdev.txqs q).sta
          (rtw89_core_txq_check_agg (rtwdev.set_txq q { rtwdev.txqs q with frames := rest })
            q skb).2.1).2.1
        simp only [rtw89_core_tx_write] at this
        omega

/-- When the bus accepts every frame, the loop of `rtw89_core_txq_push` with
`frame_cnt` not above the number of queued frames submits the first
`frame_cnt` frames, in order, and leaves the others in the queue. -/
theorem txq_push_all_ok {σ : Type} (ops : rtw89_tx_ops σ) (q : Nat)
    (hok : ∀ s v st k, (ops.rtw89_hci_tx_write s v st k).1 = 0) :
    ∀ frame_cnt (rtwdev : rtw89_tx_dev σ), frame_cnt ≤ (rtwdev.txqs q).frames.length →
      ((rtw89_core_txq_push ops q frame_cnt rtwdev).1.txqs q).frames =
        (rtwdev.txqs q).frames.drop frame_cnt ∧
      (tx_submitted (rtw89_core_txq_push ops q frame_cnt rtwdev).2).map tx_skb.data =
        ((rtwdev.txqs q).frames.take frame_cnt).map tx_skb.data := by
  intro frame_cnt
  induction frame_cnt with
  | zero => intro rtwdev _; simp [rtw89_core_txq_push, tx_submitted]
  | succ n ih =>
    intro rtwdev hlen
    unfold rtw89_core_txq_push
    dsimp only
    split
    · rename_i hfr
      rw [hfr] at hlen
      simp at hlen
    · rename_i skb rest hfr
      have hw : (rtw89_core_tx_write ops
          (rtw89_core_txq_check_agg (rtwdev.set_txq q { rtwdev.txqs q with frames := rest })
            q skb).1 (rtwdev.txqs q).vif (rtwdev.txqs q).sta
          (rtw89_core_txq_check_agg (rtwdev.set_txq q { rtwdev.txqs q with frames := rest })
            q skb).2.1).1 = 0 := by
        simp only [rtw89_core_tx_write]
        exact hok _ _ _ _
      rw [if_neg (by rw [hw]; simp)]
      have hq : ((rtw89_core_tx_write ops
          (rtw89_core_txq_check_agg (rtwdev.set_txq q { rtwdev.txqs q with frames := rest })
            q skb).1 (rtwdev.txqs q).vif (rtwdev.txqs q).sta
          (rtw89_core_txq_check_agg (rtwdev.set_txq q { rtwdev.txqs q with frames := rest })
            q skb).2.1).2.1.txqs q).frames = rest := by
        simp [rtw89_core_tx_write, (check_agg_txqs _ _ _).1, rtw89_tx_dev.set_txq]
      have hlen' : n ≤ rest.length := by
        rw [hfr] at hlen
        simp at hlen
        omega
      obtain ⟨i1, i2⟩ := ih _ (by rw [hq]; exact hlen')
      rw [hq] at i1 i2
      refine ⟨by rw [i1, hfr]; rfl, ?_⟩
      simp only [tx_submitted_append, (check_agg_events _ _ _).2, List.nil_append, List.map_append,
        i2, hfr, List.take_succ_cons, List.map_cons]
      simp only [rtw89_core_tx_write, tx_submitted, hok, if_true, List.map_cons, List.map_nil,
        (check_agg_txqs _ _ _).2.2, List.singleton_append]

theorem check_and_reclaim_txqs {σ : Type} (ops : rtw89_tx_ops σ) (rtwdev : rtw89_tx_dev σ)
    (tid : Nat) : (rtw89_check_and_reclaim_tx_resource ops rtwdev tid).2.txqs = rtwdev.txqs := rfl

/-- One pass of `rtw89_core_txq_schedule` over a single queue: the events and
the queues on return, in terms of the loop of `rtw89_core_txq_push`. -/
theorem txq_schedule_single {σ : Type} (ops : rtw89_tx_ops σ) (rtwdev : rtw89_tx_dev σ)
    (q : Nat) :
    (rtw89_core_txq_schedule ops [q] rtwdev).2 =
      (rtw89_core_txq_push ops q
        (min (rtwdev.txqs q).frames.length
          (rtw89_check_and_reclaim_tx_resource ops rtwdev (rtwdev.txqs q).tid).1)
        (rtw89_check_and_reclaim_tx_resource ops rtwdev (rtwdev.txqs q).tid).2).2 ++
      (if min (rtwdev.txqs q).frames.length
          (rtw89_check_and_reclaim_tx_resource ops rtwdev (rtwdev.txqs q).tid).1 ≠ 0 then
        [tx_event.rtw89_hci_tx_kick_off
          (ops.rtw89_core_get_ch_dma (ops.rtw89_core_get_qsel (rtwdev.txqs q).tid))]
       else []) ∧
    (rtw89_core_txq_schedule ops [q] rtwdev).1.txqs =
      (rtw89_core_txq_push ops q
        (min (rtwdev.txqs q).frames.length
          (rtw89_check_and_reclaim_tx_resource ops rtwdev (rtwdev.txqs q).tid).1)
        (rtw89_check_and_reclaim_tx_resource ops rtwdev (rtwdev.txqs q).tid).2).1.txqs := by
  simp only [rtw89_core_txq_schedule, check_and_reclaim_txqs, List.append_nil]
  split_ifs <;> simp [rtw89_core_tx_kick_off]

/-- C6. One pass of `rtw89_core_txq_schedule` over a queue that holds `K`
frames while the bus reports `C` free credits admits `min K C` frames: the
loop of `rtw89_core_txq_push` is run for `min K C` iterations and dequeues no
more than that. When every submission succeeds, the first `min K C` frames are
dequeued and submitted, in order, and the others stay queued; in particular
for `C < K` exactly `C` frames are submitted and `K - C` remain. -/
theorem txq_schedule_admits {σ : Type} (ops : rtw89_tx_ops σ) (rtwdev : rtw89_tx_dev σ)
    (q K C : Nat)
    (hK : K = (rtwdev.txqs q).frames.length)
    (hC : C = (rtw89_check_and_reclaim_tx_resource ops rtwdev (rtwdev.txqs q).tid).1) :
    (rtw89_core_txq_schedule ops [q] rtwdev).2 =
      (rtw89_core_txq_push ops q (min K C)
        (rtw89_check_and_reclaim_tx_resource ops rtwdev (rtwdev.txqs q).tid).2).2 ++
      (if min K C ≠ 0 then
        [tx_event.rtw89_hci_tx_kick_off
          (ops.rtw89_core_get_ch_dma (ops.rtw89_core_get_qsel (rtwdev.txqs q).tid))]
       else []) ∧
    (tx_dequeued (rtw89_core_txq_schedule ops [q] rtwdev).2).length ≤ min K C ∧
    ((∀ s v st k, (ops.rtw89_hci_tx_write s v st k).1 = 0) →
      (tx_submitted (rtw89_core_txq_schedule ops [q] rtwdev).2).map tx_skb.data =
        ((rtwdev.txqs q).frames.take (min K C)).map tx_skb.data ∧
      (tx_submitted (rtw89_core_txq_schedule ops [q] rtwdev).2).length = min K C ∧
      ((rtw89_core_txq_schedule ops [q] rtwdev).1.txqs q).frames =
        (rtwdev.txqs q).frames.drop (min K C) ∧
      (C < K →
        (tx_submitted (rtw89_core_txq_schedule ops [q] rtwdev).2).length = C ∧
        ((rtw89_core_txq_schedule ops [q] rtwdev).1.txqs q).frames.length = K - C)) := by
  subst hK hC
  obtain ⟨hev, htx⟩ := txq_schedule_single ops rtwdev q
  have hkick : ∀ c : Nat,
      tx_dequeued (if min (rtwdev.txqs q).frames.length
          (rtw89_check_and_reclaim_tx_resource ops rtwdev (rtwdev.txqs q).tid).1 ≠ 0 then
        [tx_event.rtw89_hci_tx_kick_off c] else []) = [] ∧
      tx_submitted (if min (rtwdev.txqs q).frames.length
          (rtw89_check_and_reclaim_tx_resource ops rtwdev (rtwdev.txqs q).tid).1 ≠ 0 then
        [tx_event.rtw89_hci_tx_kick_off c] else []) = [] := by
    intro c
    split_ifs <;> exact ⟨rfl, rfl⟩
  refine ⟨hev, ?_, ?_⟩
  · rw [hev, tx_dequeued_append, (hkick _).1, List.append_nil]
    exact txq_push_dequeued_le ops q _ _
  · intro hok
    have hle : min (rtwdev.txqs q).frames.length
        (rtw89_check_and_reclaim_tx_resource ops rtwdev (rtwdev.txqs q).tid).1 ≤
        (((rtw89_check_and_reclaim_tx_resource ops rtwdev (rtwdev.txqs q).tid).2).txqs
          q).frames.length := by
      rw [check_and_reclaim_txqs]
      exact Nat.min_le_left _ _
    obtain ⟨p1, p2⟩ := txq_push_all_ok ops q hok _ _ hle
    rw [check_and_reclaim_txqs] at p1 p2
    have hsub : (tx_submitted (rtw89_core_txq_schedule ops [q] rtwdev).2).map tx_skb.data =
        ((rtwdev.txqs q).frames.take (min (rtwdev.txqs q).frames.length
          (rtw89_check_and_reclaim_tx_resource ops rtwdev (rtwdev.txqs q).tid).1)).map
          tx_skb.data := by
      rw [hev, tx_submitted_append, (hkick _).2, List.append_nil]
      exact p2
    have hlen : (tx_submitted (rtw89_core_txq_schedule ops [q] rtwdev).2).length =
        min (rtwdev.txqs q).frames.length
          (rtw89_check_and_reclaim_tx_resource ops rtwdev (rtwdev.txqs q).tid).1 := by
      have := congrArg List.length hsub
      simp only [List.length_map, List.length_take] at this
      omega
    have hrem : ((rtw89_core_txq_schedule ops [q] rtwdev).1.txqs q).frames =
        (rtwdev.txqs q).frames.drop (min (rtwdev.txqs q).frames.length
          (rtw89_check_and_reclaim_tx_resource ops rtwdev (rtwdev.txqs q).tid).1) := by
      rw [htx]
      exact p1
    refine ⟨hsub, hlen, hrem, ?_⟩
    intro hlt
    refine ⟨by omega, ?_⟩
    rw [hrem, List.length_drop]
    omega

/-- Witness of C6: a queue of three frames while the bus reports two credits
and accepts every frame: two frames are submitted, one remains. -/
theorem txq_schedule_admits_witness :
    3 = (tx_dev_example.txqs 0).frames.length ∧
    2 = (rtw89_check_and_reclaim_tx_resource tx_ops_accepting tx_dev_example
      (tx_dev_example.txqs 0).tid).1 ∧
    (tx_submitted (rtw89_core_txq_schedule tx_ops_accepting [0] tx_dev_example).2).length = 2 ∧
    ((rtw89_core_txq_schedule tx_ops_accepting [0] tx_dev_example).1.txqs 0).frames.length =
      3 - 2 :=
  ⟨by decide, by decide,
    ((txq_schedule_admits tx_ops_accepting tx_dev_example 0 3 2 (by decide) (by decide)).2.2
      (fun _ _ _ _ => rfl)).2.2.2 (by decide)⟩

/-! ## Block-ack negotiation -/

theorem mem_list_del_init (l : List Nat) (q j : Nat) :
    j ∈ list_del_init l q ↔ j ∈ l ∧ j ≠ q := by
  simp [list_del_init, List.mem_filter]

/-- The walk of `rtw89_core_ba_work` removes every visited entry from the
list, adds none, and clears no blocked flag. -/
theorem ba_work_walk_spec {σ : Type} (ops : rtw89_tx_ops σ) :
    ∀ (l : List Nat) (rtwdev : rtw89_tx_dev σ),
      (∀ j, j ∈ (rtw89_core_ba_work_walk ops l rtwdev).1.ba_list → j ∈ rtwdev.ba_list ∧ j ∉ l) ∧
      (∀ j, (rtwdev.txqs j).RTW89_TXQ_F_BLOCK_BA = true →
        ((rtw89_core_ba_work_walk ops l rtwdev).1.txqs j).RTW89_TXQ_F_BLOCK_BA = true) := by
  intro l
  induction l with
  | nil =>
    intro rtwdev
    exact ⟨fun j hj => ⟨hj, by simp⟩, fun j hj => hj⟩
  | cons q rest ih =>
    intro rtwdev
    unfold rtw89_core_ba_work_walk
    dsimp only
    split
    · obtain ⟨i1, i2⟩ := ih { rtwdev with ba_list := list_del_init rtwdev.ba_list q }
      refine ⟨?_, i2⟩
      intro j hj
      obtain ⟨h1, h2⟩ := i1 j hj
      rw [mem_list_del_init] at h1
      exact ⟨h1.1, by simp [h1.2, h2]⟩
    · rename_i sta hsta
      by_cases hret : (ops.ieee80211_start_tx_ba_session rtwdev.ext sta (rtwdev.txqs q).tid).1 ≠ 0 ∧
          (ops.ieee80211_start_tx_ba_session rtwdev.ext sta (rtwdev.txqs q).tid).1 = -EINVAL
      · rw [if_pos hret]
        obtain ⟨i1, i2⟩ := ih { ({ rtwdev with
            ext := (ops.ieee80211_start_tx_ba_session rtwdev.ext sta
              (rtwdev.txqs q).tid).2 } : rtw89_tx_dev σ).set_txq q
              { rtwdev.txqs q with RTW89_TXQ_F_BLOCK_BA := true } with
            ba_list := list_del_init rtwdev.ba_list q }
        refine ⟨?_, ?_⟩
        · intro j hj
          obtain ⟨h1, h2⟩ := i1 j hj
          simp only [rtw89_tx_dev.set_txq] at h1
          rw [mem_list_del_init] at h1
          exact ⟨h1.1, by simp [h1.2, h2]⟩
        · intro j hj
          apply i2
          simp only [rtw89_tx_dev.set_txq]
          by_cases hjq : j = q
          · simp [hjq]
          · simp [hjq, hj]
      · rw [if_neg hret]
        obtain ⟨i1, i2⟩ := ih { ({ rtwdev with
            ext := (ops.ieee80211_start_tx_ba_session rtwdev.ext sta
              (rtwdev.txqs q).tid).2 } : rtw89_tx_dev σ) with
            ba_list := list_del_init rtwdev.ba_list q }
        refine ⟨?_, i2⟩
        intro j hj
        obtain ⟨h1, h2⟩ := i1 j hj
        rw [mem_list_del_init] at h1
        exact ⟨h1.1, by simp [h1.2, h2]⟩

/-- The walk of `rtw89_core_free_sta_pending_ba` adds no entry to the list and
leaves the queues as they are. -/
theorem free_sta_pending_ba_walk_spec {σ : Type} (sta : Nat) :
    ∀ (l : List Nat) (rtwdev : rtw89_tx_dev σ),
      (∀ j, j ∈ (rtw89_core_free_sta_pending_ba_walk sta l rtwdev).ba_list → j ∈ rtwdev.ba_list) ∧
      (rtw89_core_free_sta_pending_ba_walk sta l rtwdev).txqs = rtwdev.txqs := by
  intro l
  induction l with
  | nil => intro rtwdev; exact ⟨fun j hj => hj, rfl⟩
  | cons q rest ih =>
    intro rtwdev
    unfold rtw89_core_free_sta_pending_ba_walk
    split
    · obtain ⟨i1, i2⟩ := ih { rtwdev with ba_list := list_del_init rtwdev.ba_list q }
      refine ⟨?_, i2⟩
      intro j hj
      have h1 := i1 j hj
      rw [mem_list_del_init] at h1
      exact h1.1
    · exact ih rtwdev

/-- A step of the negotiation machinery keeps "a blocked queue is not on the
pending list" and clears no blocked flag. -/
theorem ba_step_spec {σ : Type} (ops : rtw89_tx_ops σ) (rtwdev : rtw89_tx_dev σ) (a : ba_action)
    (hinv : ∀ j, (rtwdev.txqs j).RTW89_TXQ_F_BLOCK_BA = true → j ∉ rtwdev.ba_list) :
    (∀ j, ((ba_step ops rtwdev a).txqs j).RTW89_TXQ_F_BLOCK_BA = true →
      j ∉ (ba_step ops rtwdev a).ba_list) ∧
    (∀ j, (rtwdev.txqs j).RTW89_TXQ_F_BLOCK_BA = true →
      ((ba_step ops rtwdev a).txqs j).RTW89_TXQ_F_BLOCK_BA = true) := by
  cases a with
  | check_agg q skb =>
    simp only [ba_step]
    unfold rtw89_core_txq_check_agg
    dsimp only
    split_ifs with h1 h2 h3 h4 h5 h6
    all_goals first
      | exact ⟨hinv, fun j hj => hj⟩
      | skip
    refine ⟨?_, fun j hj => hj⟩
    intro j hj hmem
    rcases List.mem_append.mp hmem with hm | hm
    · exact hinv j hj hm
    · have hjq : j = q := by simpa using hm
      subst hjq
      exact h4 hj
  | ba_work =>
    simp only [ba_step, rtw89_core_ba_work]
    obtain ⟨i1, i2⟩ := ba_work_walk_spec ops rtwdev.ba_list rtwdev
    refine ⟨?_, i2⟩
    intro j _ hmem
    obtain ⟨h1, h2⟩ := i1 j hmem
    exact h2 h1
  | free_sta_pending_ba sta =>
    simp only [ba_step, rtw89_core_free_sta_pending_ba]
    obtain ⟨i1, i2⟩ := free_sta_pending_ba_walk_spec sta rtwdev.ba_list rtwdev
    rw [i2]
    exact ⟨fun j hj hmem => hinv j hj (i1 j hmem), fun j hj => hj⟩

theorem ba_run_spec {σ : Type} (ops : rtw89_tx_ops σ) (acts : List ba_action) :
    ∀ (rtwdev : rtw89_tx_dev σ),
      (∀ j, (rtwdev.txqs j).RTW89_TXQ_F_BLOCK_BA = true → j ∉ rtwdev.ba_list) →
      (∀ j, ((ba_run ops rtwdev acts).txqs j).RTW89_TXQ_F_BLOCK_BA = true →
        j ∉ (ba_run ops rtwdev acts).ba_list) ∧
      (∀ j, (rtwdev.txqs j).RTW89_TXQ_F_BLOCK_BA = true →
        ((ba_run ops rtwdev acts).txqs j).RTW89_TXQ_F_BLOCK_BA = true) := by
  induction acts with
  | nil => intro rtwdev h; exact ⟨h, fun j hj => hj⟩
  | cons a rest ih =>
    intro rtwdev h
    obtain ⟨s1, s2⟩ := ba_step_spec ops rtwdev a h
    obtain ⟨r1, r2⟩ := ih (ba_step ops rtwdev a) s1
    exact ⟨r1, fun j hj => r2 j (s2 j hj)⟩

/-- C7. In every state reached from an empty pending-negotiation list through
whole `rtw89_core_txq_check_agg`, `rtw89_core_ba_work` and
`rtw89_core_free_sta_pending_ba` steps, a queue whose `RTW89_TXQ_F_BLOCK_BA`
flag is set is not on the list; no later step clears the flag, so the queue
never appears on the list again. -/
theorem ba_blocked_never_pending {σ : Type} (ops : rtw89_tx_ops σ) (rtwdev : rtw89_tx_dev σ)
    (acts later : List ba_action) (q : Nat)
    (h0 : rtwdev.ba_list = [])
    (hb : ((ba_run ops rtwdev acts).txqs q).RTW89_TXQ_F_BLOCK_BA = true) :
    q ∉ (ba_run ops rtwdev acts).ba_list ∧
    ((ba_run ops (ba_run ops rtwdev acts) later).txqs q).RTW89_TXQ_F_BLOCK_BA = true ∧
    q ∉ (ba_run ops (ba_run ops rtwdev acts) later).ba_list := by
  have hinit : ∀ j, (rtwdev.txqs j).RTW89_TXQ_F_BLOCK_BA = true → j ∉ rtwdev.ba_list := by
    intro j _
    rw [h0]
    simp
  obtain ⟨a1, _⟩ := ba_run_spec ops acts rtwdev hinit
  obtain ⟨b1, b2⟩ := ba_run_spec ops later (ba_run ops rtwdev acts) a1
  exact ⟨a1 q hb, b2 q hb, b1 q (b2 q hb)⟩

/-- Witness of C7: queue 0 is refused with `-EINVAL` by the negotiation task;
later eligibility checks do not put it back on the list. -/
theorem ba_blocked_never_pending_witness :
    tx_dev_example.ba_list = [] ∧
    ((ba_run tx_ops_example tx_dev_example
      [ba_action.check_agg 0 tx_skb_example, ba_action.ba_work]).txqs 0).RTW89_TXQ_F_BLOCK_BA
        = true ∧
    0 ∉ (ba_run tx_ops_example (ba_run tx_ops_example tx_dev_example
      [ba_action.check_agg 0 tx_skb_example, ba_action.ba_work])
      [ba_action.check_agg 0 tx_skb_example, ba_action.check_agg 1 tx_skb_example]).ba_list :=
  ⟨rfl, by decide,
    (ba_blocked_never_pending tx_ops_example tx_dev_example
      [ba_action.check_agg 0 tx_skb_example, ba_action.ba_work]
      [ba_action.check_agg 0 tx_skb_example, ba_action.check_agg 1 tx_skb_example] 0 rfl
      (by decide)).2.2⟩

/-! ## Eligibility check, submission failure and kick-off -/

/-- C20. For a frame mapped to the voice access category, a key-exchange
(EAPOL) frame, a queue without peer or a queue whose blocked flag is set,
`rtw89_core_txq_check_agg` returns the device and the frame as they were and
causes no event: the aggregation tag, the pending-negotiation list and the
queue's flags are unchanged and no negotiation work is scheduled. A voice-class
frame therefore never puts its queue on the pending-negotiation list. -/
theorem txq_check_agg_ineligible {σ : Type} (rtwdev : rtw89_tx_dev σ) (q : Nat) (skb : tx_skb)
    (h : skb.queue_mapping = IEEE80211_AC_VO ∨ skb.protocol = ETH_P_PAE ∨
      (rtwdev.txqs q).sta = none ∨ (rtwdev.txqs q).RTW89_TXQ_F_BLOCK_BA = true) :
    rtw89_core_txq_check_agg rtwdev q skb = (rtwdev, skb, []) ∧
    (rtw89_core_txq_check_agg rtwdev q skb).2.1.flags = skb.flags ∧
    (rtw89_core_txq_check_agg rtwdev q skb).1.ba_list = rtwdev.ba_list ∧
    (rtw89_core_txq_check_agg rtwdev q skb).1.txqs q = rtwdev.txqs q ∧
    (rtw89_core_txq_check_agg rtwdev q skb).2.2 = [] ∧
    (skb.queue_mapping = IEEE80211_AC_VO → q ∉ rtwdev.ba_list →
      q ∉ (rtw89_core_txq_check_agg rtwdev q skb).1.ba_list) := by
  have hmain : rtw89_core_txq_check_agg rtwdev q skb = (rtwdev, skb, []) := by
    unfold rtw89_core_txq_check_agg
    dsimp only
    by_cases h1 : skb.queue_mapping = IEEE80211_AC_VO
    · rw [if_pos h1]
    · rw [if_neg h1]
      by_cases h2 : skb.protocol = ETH_P_PAE
      · rw [if_pos h2]
      · rw [if_neg h2]
        by_cases h3 : (rtwdev.txqs q).sta = none
        · rw [if_pos h3]
        · rw [if_neg h3]
          have h4 : (rtwdev.txqs q).RTW89_TXQ_F_BLOCK_BA = true := by
            rcases h with h | h | h | h
            · exact absurd h h1
            · exact absurd h h2
            · exact absurd h h3
            · exact h
          rw [if_pos h4]
  rw [hmain]
  exact ⟨rfl, rfl, rfl, rfl, rfl, fun _ hq => hq⟩

/-- Witness of C20: a voice-class frame on queue 0 of the example device. -/
theorem txq_check_agg_ineligible_witness :
    (tx_skb_voice.queue_mapping = IEEE80211_AC_VO ∨ tx_skb_voice.protocol = ETH_P_PAE ∨
      (tx_dev_example.txqs 0).sta = none ∨
      (tx_dev_example.txqs 0).RTW89_TXQ_F_BLOCK_BA = true) ∧
    (rtw89_core_txq_check_agg tx_dev_example 0 tx_skb_voice).1.ba_list =
      tx_dev_example.ba_list ∧
    (rtw89_core_txq_check_agg tx_dev_example 0 tx_skb_voice).2.2 = [] :=
  ⟨Or.inl rfl,
    (txq_check_agg_ineligible tx_dev_example 0 tx_skb_voice (Or.inl rfl)).2.2.1,
    (txq_check_agg_ineligible tx_dev_example 0 tx_skb_voice (Or.inl rfl)).2.2.2.2.1⟩

theorem check_agg_events_clean {σ : Type} (rtwdev : rtw89_tx_dev σ) (q : Nat) (skb : tx_skb) :
    (∀ e ∈ (rtw89_core_txq_check_agg rtwdev q skb).2.2, tx_event_clean e = true) ∧
    (∀ e ∈ (rtw89_core_txq_check_agg rtwdev q skb).2.2, ∀ c,
      e ≠ tx_event.rtw89_hci_tx_kick_off c) := by
  unfold rtw89_core_txq_check_agg
  dsimp only
  split_ifs <;> simp [tx_event_clean]

/-- One iteration of the loop of `rtw89_core_txq_push` on a queue whose head
is `skb`, in terms of the results `a` of the eligibility check and `w` of the
submission. -/
theorem txq_push_step {σ : Type} (ops : rtw89_tx_ops σ) (q n : Nat) (rtwdev : rtw89_tx_dev σ)
    (skb : tx_skb) (rest : List tx_skb) (a : rtw89_tx_dev σ × tx_skb × List tx_event)
    (w : Int × rtw89_tx_dev σ × List tx_event)
    (hfr : (rtwdev.txqs q).frames = skb :: rest)
    (ha : a = rtw89_core_txq_check_agg
      (rtwdev.set_txq q { rtwdev.txqs q with frames := rest }) q skb)
    (hw : w = rtw89_core_tx_write ops a.1 (rtwdev.txqs q).vif (rtwdev.txqs q).sta a.2.1) :
    rtw89_core_txq_push ops q (n + 1) rtwdev =
      if w.1 ≠ 0 then
        (w.2.1, a.2.2 ++ w.2.2 ++ [tx_event.ieee80211_free_txskb a.2.1])
      else
        ((rtw89_core_txq_push ops q n w.2.1).1,
         a.2.2 ++ w.2.2 ++ (rtw89_core_txq_push ops q n w.2.1).2) := by
  subst hw ha
  conv_lhs => unfold rtw89_core_txq_push
  dsimp only
  split
  · rename_i h
    rw [hfr] at h
    exact absurd h (by simp)
  · rename_i s r h
    rw [hfr] at h
    injection h with h1 h2
    subst h1 h2
    rfl

theorem txq_push_empty {σ : Type} (ops : rtw89_tx_ops σ) (q n : Nat) (rtwdev : rtw89_tx_dev σ)
    (hfr : (rtwdev.txqs q).frames = []) :
    rtw89_core_txq_push ops q n rtwdev = (rtwdev, []) := by
  cases n with
  | zero => rfl
  | succ n =>
    unfold rtw89_core_txq_push
    dsimp only
    split
    · rfl
    · rename_i s r h
      rw [hfr] at h
      exact absurd h (by simp)

/-- The loop of `rtw89_core_txq_push`: the frames behind the dequeued ones
stay queued, the other queues are untouched, a refused frame is freed and is
the last one dequeued, and no kick-off is issued by the loop itself. -/
theorem txq_push_spec {σ : Type} (ops : rtw89_tx_ops σ) (q : Nat) :
    ∀ frame_cnt (rtwdev : rtw89_tx_dev σ),
      ((rtw89_core_txq_push ops q frame_cnt rtwdev).1.txqs q).frames =
        (rtwdev.txqs q).frames.drop
          (tx_dequeued (rtw89_core_txq_push ops q frame_cnt rtwdev).2).length ∧
      (∀ j, j ≠ q → (rtw89_core_txq_push ops q frame_cnt rtwdev).1.txqs j = rtwdev.txqs j) ∧
      ((∀ e ∈ (rtw89_core_txq_push ops q frame_cnt rtwdev).2, tx_event_clean e = true) ∨
        ∃ pre skb ret,
          (rtw89_core_txq_push ops q frame_cnt rtwdev).2 =
            pre ++ [tx_event.rtw89_hci_tx_write skb ret, tx_event.ieee80211_free_txskb skb] ∧
          ret ≠ 0 ∧ ∀ e ∈ pre, tx_event_clean e = true) ∧
      (∀ e ∈ (rtw89_core_txq_push ops q frame_cnt rtwdev).2, ∀ c,
        e ≠ tx_event.rtw89_hci_tx_kick_off c) := by
  intro frame_cnt
  induction frame_cnt with
  | zero =>
    intro rtwdev
    simp [rtw89_core_txq_push, tx_dequeued]
  | succ n ih =>
    intro rtwdev
    cases hfr : (rtwdev.txqs q).frames with
    | nil =>
      rw [txq_push_empty ops q (n + 1) rtwdev hfr]
      simp [tx_dequeued, hfr]
    | cons skb rest =>
      obtain ⟨a, ha⟩ : ∃ a, a = rtw89_core_txq_check_agg
        (rtwdev.set_txq q { rtwdev.txqs q with frames := rest }) q skb := ⟨_, rfl⟩
      obtain ⟨w, hw⟩ : ∃ w, w = rtw89_core_tx_write ops a.1 (rtwdev.txqs q).vif
        (rtwdev.txqs q).sta a.2.1 := ⟨_, rfl⟩
      rw [txq_push_step ops q n rtwdev skb rest a w hfr ha hw]
      obtain ⟨c1, c2⟩ := check_agg_events_clean
        (rtwdev.set_txq q { rtwdev.txqs q with frames := rest }) q skb
      have hdq := (check_agg_events
        (rtwdev.set_txq q { rtwdev.txqs q with frames := rest }) q skb).1
      have htx := (check_agg_txqs
        (rtwdev.set_txq q { rtwdev.txqs q with frames := rest }) q skb).1
      rw [← ha] at c1 c2 hdq htx
      have hwev : w.2.2 = [tx_event.rtw89_hci_tx_write a.2.1 w.1] := by
        rw [hw]; rfl
      have hwtx : w.2.1.txqs = a.1.txqs := by
        rw [hw]; rfl
      have hq : (w.2.1.txqs q).frames = rest := by
        rw [hwtx, htx]
        simp [rtw89_tx_dev.set_txq]
      have hoth : ∀ j, j ≠ q → w.2.1.txqs j = rtwdev.txqs j := by
        intro j hj
        rw [hwtx, htx]
        simp [rtw89_tx_dev.set_txq, hj]
      by_cases hfail : w.1 ≠ 0
      · rw [if_pos hfail]
        refine ⟨?_, hoth, Or.inr ⟨a.2.2, a.2.1, w.1, ?_, hfail, c1⟩, ?_⟩
        · simp [tx_dequeued_append, hdq, hwev, tx_dequeued, hq]
        · simp [hwev]
        · intro e he c
          simp only [hwev, List.mem_append, List.mem_singleton] at he
          rcases he with (he | he) | he
          · exact c2 e he c
          · rw [he]; simp
          · rw [he]; simp
      · rw [if_neg hfail]
        have hret : w.1 = 0 := by
          by_contra hne
          exact hfail hne
        obtain ⟨i1, i2, i3, i4⟩ := ih w.2.1
        have hwclean : ∀ e ∈ w.2.2, tx_event_clean e = true ∧
            ∀ c, e ≠ tx_event.rtw89_hci_tx_kick_off c := by
          intro e he
          rw [hwev, List.mem_singleton] at he
          rw [he]
          simp [tx_event_clean, hret]
        refine ⟨?_, ?_, ?_, ?_⟩
        · rw [i1, hq, tx_dequeued_append, tx_dequeued_append, hdq, hwev]
          simp [tx_dequeued]
        · intro j hj
          rw [i2 j hj]
          exact hoth j hj
        · rcases i3 with i3 | ⟨pre, s, r, e1, e2, e3⟩
          · left
            intro e he
            rcases List.mem_append.mp he with he | he
            · rcases List.mem_append.mp he with he | he
              · exact c1 e he
              · exact (hwclean e he).1
            · exact i3 e he
          · right
            refine ⟨a.2.2 ++ w.2.2 ++ pre, s, r, ?_, e2, ?_⟩
            · rw [e1]
              simp [List.append_assoc]
            · intro e he
              rcases List.mem_append.mp he with he | he
              · rcases List.mem_append.mp he with he | he
                · exact c1 e he
                · exact (hwclean e he).1
              · exact e3 e he
        · intro e he c
          rcases List.mem_append.mp he with he | he
          · rcases List.mem_append.mp he with he | he
            · exact c2 e he c
            · exact (hwclean e he).2 c
          · exact i4 e he c

/-- A pass over several queues is the pass over the first queue followed by
the pass over the others, whatever happened on the first. -/
theorem txq_schedule_cons {σ : Type} (ops : rtw89_tx_ops σ) (q : Nat) (rest : List Nat)
    (rtwdev : rtw89_tx_dev σ) :
    rtw89_core_txq_schedule ops (q :: rest) rtwdev =
      ((rtw89_core_txq_schedule ops rest (rtw89_core_txq_schedule ops [q] rtwdev).1).1,
       (rtw89_core_txq_schedule ops [q] rtwdev).2 ++
         (rtw89_core_txq_schedule ops rest (rtw89_core_txq_schedule ops [q] rtwdev).1).2) := by
  simp only [rtw89_core_txq_schedule, List.append_nil]

theorem txq_schedule_single_others {σ : Type} (ops : rtw89_tx_ops σ) (rtwdev : rtw89_tx_dev σ)
    (q j : Nat) (hj : j ≠ q) :
    (rtw89_core_txq_schedule ops [q] rtwdev).1.txqs j = rtwdev.txqs j := by
  rw [(txq_schedule_single ops rtwdev q).2, (txq_push_spec ops q _ _).2.1 j hj]
  rfl

/-- C18. When `rtw89_hci_tx_write` refuses a frame dequeued by
`rtw89_core_txq_push`, that frame is freed at once and nothing more happens in
the loop: no further frame is dequeued, the frames behind the dequeued ones
stay in the queue and the other queues are untouched. A pass of
`rtw89_core_txq_schedule` over several queues goes on with the other queues
whatever happened on the first. -/
theorem txq_push_submission_failure {σ : Type} (ops : rtw89_tx_ops σ) (q frame_cnt : Nat)
    (rtwdev : rtw89_tx_dev σ) (skb : tx_skb) (ret : Int)
    (hmem : tx_event.rtw89_hci_tx_write skb ret ∈ (rtw89_core_txq_push ops q frame_cnt rtwdev).2)
    (hret : ret ≠ 0) :
    (∃ pre, (rtw89_core_txq_push ops q frame_cnt rtwdev).2 =
        pre ++ [tx_event.rtw89_hci_tx_write skb ret, tx_event.ieee80211_free_txskb skb] ∧
      ∀ e ∈ pre, tx_event_clean e = true) ∧
    ((rtw89_core_txq_push ops q frame_cnt rtwdev).1.txqs q).frames =
      (rtwdev.txqs q).frames.drop
        (tx_dequeued (rtw89_core_txq_push ops q frame_cnt rtwdev).2).length ∧
    (∀ j, j ≠ q → (rtw89_core_txq_push ops q frame_cnt rtwdev).1.txqs j = rtwdev.txqs j) ∧
    (∀ (rest : List Nat) (d : rtw89_tx_dev σ),
      rtw89_core_txq_schedule ops (q :: rest) d =
        ((rtw89_core_txq_schedule ops rest (rtw89_core_txq_schedule ops [q] d).1).1,
         (rtw89_core_txq_schedule ops [q] d).2 ++
           (rtw89_core_txq_schedule ops rest (rtw89_core_txq_schedule ops [q] d).1).2) ∧
      ∀ j, j ≠ q → (rtw89_core_txq_schedule ops [q] d).1.txqs j = d.txqs j) := by
  obtain ⟨p1, p2, p3, _⟩ := txq_push_spec ops q frame_cnt rtwdev
  refine ⟨?_, p1, p2, fun rest d =>
    ⟨txq_schedule_cons ops q rest d, fun j hj => txq_schedule_single_others ops d q j hj⟩⟩
  rcases p3 with p3 | ⟨pre, s, r, e1, e2, e3⟩
  · have := p3 _ hmem
    simp [tx_event_clean, hret] at this
  · rw [e1] at hmem
    rcases List.mem_append.mp hmem with h | h
    · have := e3 _ h
      simp [tx_event_clean, hret] at this
    · simp only [List.mem_cons, List.mem_singleton, List.not_mem_nil, or_false] at h
      rcases h with h | h
      · injection h with h1 h2
        subst h1 h2
        exact ⟨pre, e1, e3⟩
      · exact absurd h (by simp)

/-- Witness of C18: three iterations on the queue of three frames while the
bus has two credits; the third frame is refused. -/
theorem txq_push_submission_failure_witness :
    tx_event.rtw89_hci_tx_write { queue_mapping := 2, data := [3] } (-1) ∈
      (rtw89_core_txq_push tx_ops_example 0 3 tx_dev_example).2 ∧
    (-1 : Int) ≠ 0 ∧
    ∃ pre, (rtw89_core_txq_push tx_ops_example 0 3 tx_dev_example).2 =
        pre ++ [tx_event.rtw89_hci_tx_write { queue_mapping := 2, data := [3] } (-1),
          tx_event.ieee80211_free_txskb { queue_mapping := 2, data := [3] }] ∧
      ∀ e ∈ pre, tx_event_clean e = true :=
  ⟨by decide, by decide,
    (txq_push_submission_failure tx_ops_example 0 3 tx_dev_example
      { queue_mapping := 2, data := [3] } (-1) (by decide) (by decide)).1⟩

theorem tx_submitted_length_le (l : List tx_event) :
    (tx_submitted l).length ≤ (tx_dequeued l).length := by
  induction l with
  | nil => simp [tx_submitted, tx_dequeued]
  | cons e l ih =>
    cases e with
    | rtw89_hci_tx_write skb ret =>
      by_cases h : ret = 0
      · simp [tx_submitted, tx_dequeued, h, ih]
      · simp only [tx_submitted, tx_dequeued, h, if_false, List.length_cons]
        omega
    | _ => simpa [tx_submitted, tx_dequeued] using ih

/-- C19, as the code has it. For a queue processed in a scheduling pass,
`rtw89_core_txq_schedule` issues the kick-off for the queue's DMA channel if
and only if at least one frame was admitted, that is when neither the number
of queued frames nor the number of credits is 0; no other kick-off is issued
for the queue. In particular the kick-off is issued whenever a frame of the
queue was submitted. Every queue of a pass is processed this way. -/
theorem txq_schedule_kick_off {σ : Type} (ops : rtw89_tx_ops σ) (rtwdev : rtw89_tx_dev σ)
    (q : Nat) :
    (tx_event.rtw89_hci_tx_kick_off
        (ops.rtw89_core_get_ch_dma (ops.rtw89_core_get_qsel (rtwdev.txqs q).tid)) ∈
        (rtw89_core_txq_schedule ops [q] rtwdev).2 ↔
      min (rtwdev.txqs q).frames.length
        (rtw89_check_and_reclaim_tx_resource ops rtwdev (rtwdev.txqs q).tid).1 ≠ 0) ∧
    (∀ c, tx_event.rtw89_hci_tx_kick_off c ∈ (rtw89_core_txq_schedule ops [q] rtwdev).2 →
      c = ops.rtw89_core_get_ch_dma (ops.rtw89_core_get_qsel (rtwdev.txqs q).tid)) ∧
    (tx_submitted (rtw89_core_txq_schedule ops [q] rtwdev).2 ≠ [] →
      tx_event.rtw89_hci_tx_kick_off
        (ops.rtw89_core_get_ch_dma (ops.rtw89_core_get_qsel (rtwdev.txqs q).tid)) ∈
        (rtw89_core_txq_schedule ops [q] rtwdev).2) ∧
    (∀ (rest : List Nat),
      rtw89_core_txq_schedule ops (q :: rest) rtwdev =
        ((rtw89_core_txq_schedule ops rest (rtw89_core_txq_schedule ops [q] rtwdev).1).1,
         (rtw89_core_txq_schedule ops [q] rtwdev).2 ++
           (rtw89_core_txq_schedule ops rest (rtw89_core_txq_schedule ops [q] rtwdev).1).2)) := by
  obtain ⟨hev, _⟩ := txq_schedule_single ops rtwdev q
  have hnk := (txq_push_spec ops q
    (min (rtwdev.txqs q).frames.length
      (rtw89_check_and_reclaim_tx_resource ops rtwdev (rtwdev.txqs q).tid).1)
    (rtw89_check_and_reclaim_tx_resource ops rtwdev (rtwdev.txqs q).tid).2).2.2.2
  have hiff : tx_event.rtw89_hci_tx_kick_off
        (ops.rtw89_core_get_ch_dma (ops.rtw89_core_get_qsel (rtwdev.txqs q).tid)) ∈
        (rtw89_core_txq_schedule ops [q] rtwdev).2 ↔
      min (rtwdev.txqs q).frames.length
        (rtw89_check_and_reclaim_tx_resource ops rtwdev (rtwdev.txqs q).tid).1 ≠ 0 := by
    rw [hev]
    constructor
    · intro h
      rcases List.mem_append.mp h with h | h
      · exact absurd rfl (hnk _ h _)
      · intro h0
        rw [if_neg (not_not.mpr h0)] at h
        simp at h
    · intro h
      rw [if_pos h]
      simp
  refine ⟨hiff, ?_, ?_, fun rest => txq_schedule_cons ops q rest rtwdev⟩
  · intro c h
    rw [hev] at h
    rcases List.mem_append.mp h with h | h
    · exact absurd rfl (hnk _ h _)
    · split_ifs at h with h0
      · simpa using h
      · simp at h
  · intro hsub
    rw [hiff]
    intro h0
    apply hsub
    have hle := tx_submitted_length_le (rtw89_core_txq_schedule ops [q] rtwdev).2
    have hdq : (tx_dequeued (rtw89_core_txq_schedule ops [q] rtwdev).2).length ≤
        min (rtwdev.txqs q).frames.length
          (rtw89_check_and_reclaim_tx_resource ops rtwdev (rtwdev.txqs q).tid).1 := by
      rw [hev, tx_dequeued_append, if_neg (not_not.mpr h0)]
      simpa [tx_dequeued] using txq_push_dequeued_le ops q
        (min (rtwdev.txqs q).frames.length
          (rtw89_check_and_reclaim_tx_resource ops rtwdev (rtwdev.txqs q).tid).1)
        (rtw89_check_and_reclaim_tx_resource ops rtwdev (rtwdev.txqs q).tid).2
    rw [h0] at hdq
    exact List.length_eq_zero.mp (by omega)

/-- C19 fails as stated: the queue holds three frames, the bus reports two
credits and refuses the first frame. No frame is submitted, yet the kick-off
for the queue's DMA channel is issued. -/
theorem txq_schedule_kick_off_without_submission :
    tx_submitted (rtw89_core_txq_schedule tx_ops_failing [0] tx_dev_example).2 = [] ∧
    tx_event.rtw89_hci_tx_kick_off 5 ∈
      (rtw89_core_txq_schedule tx_ops_failing [0] tx_dev_example).2 := by
  decide

/-! ## Sign conversion of the carrier frequency offset -/

theorem sign_extend32_s12 (x : Nat) (hx : x < 4096) :
    s16 (sign_extend32 x 11) = if x < 2048 then (x : Int) else (x : Int) - 4096 := by
  unfold s16 sign_extend32
  have h20 : (31 - 11 : Nat) = 20 := rfl
  simp only [h20]
  have hv : (x * 2 ^ 20) % 2 ^ 32 = x * 2 ^ 20 := Nat.mod_eq_of_lt (by omega)
  rw [hv]
  by_cases h : x < 2048
  · have h1 : x * 2 ^ 20 < 2 ^ 31 := by omega
    rw [if_pos h1, if_pos h]
    push_cast
    omega
  · have h1 : ¬ x * 2 ^ 20 < 2 ^ 31 := by omega
    rw [if_neg h1, if_neg h]
    push_cast
    omega

/-- C12. For every raw value `x` of the 12-bit carrier-frequency-offset field
(`0 ≤ x < 4096`), `rtw89_core_parse_phy_status_ie01` hands the two's-complement
value of `x` to `rtw89_phy_cfo_parse`: `x` when `x < 2048`, `x - 4096`
otherwise; the field value `0xFFE` gives `-2`. -/
theorem parse_phy_status_ie01_sign_conversion (H : rtw89_phy_sts_h) (mem : List Nat)
    (addr x : Nat) (hx : x < 4096)
    (hfield : le32_get_bits H.RTW89_GET_PHY_STS_IE0_CFO mem addr = x) :
    rtw89_core_parse_phy_status_ie01 H mem addr =
      (if x < 2048 then (x : Int) else (x : Int) - 4096) ∧
    (x = 0xFFE → rtw89_core_parse_phy_status_ie01 H mem addr = -2) := by
  have h := sign_extend32_s12 x hx
  unfold rtw89_core_parse_phy_status_ie01
  rw [hfield]
  refine ⟨h, fun hx2 => ?_⟩
  rw [h, hx2]
  decide

/-- Witness of C12: the second word of the sub-element holds `0xFFE` in its
bits 19..8. -/
theorem parse_phy_status_ie01_sign_conversion_witness :
    le32_get_bits phy_sts_h_example.RTW89_GET_PHY_STS_IE0_CFO [0, 0, 0, 0, 0, 0xFE, 0x0F, 0] 0 =
      0xFFE ∧
    rtw89_core_parse_phy_status_ie01 phy_sts_h_example [0, 0, 0, 0, 0, 0xFE, 0x0F, 0] 0 = -2 :=
  ⟨by decide,
    (parse_phy_status_ie01_sign_conversion phy_sts_h_example [0, 0, 0, 0, 0, 0xFE, 0x0F, 0] 0
      0xFFE (by decide) (by decide)).2 rfl⟩

/-! ## Status reports of another epoch -/

theorem rx_ppdu_match_epoch (C : rtw89_rx_consts) (rtwdev : rtw89_dev)
    (desc_info : rtw89_rx_desc_info) (status : ieee80211_rx_status)
    (hne : rtwdev.ppdu_sts.curr_rx_ppdu_cnt.get (rx_band desc_info) ≠ desc_info.ppdu_cnt) :
    rtw89_core_rx_ppdu_match C rtwdev desc_info status = false := by
  unfold rtw89_core_rx_ppdu_match
  simp [hne]

theorem rx_pending_skb_walk_other_epoch (E : rtw89_rx_env) (rtwdev : rtw89_dev)
    (phy_ppdu : rtw89_rx_phy_ppdu) (desc_info : rtw89_rx_desc_info)
    (hne : rtwdev.ppdu_sts.curr_rx_ppdu_cnt.get (rx_band desc_info) ≠ desc_info.ppdu_cnt)
    (q : List rx_queue_entry) :
    rtw89_core_rx_pending_skb_walk E rtwdev phy_ppdu desc_info q =
      q.map (fun e => rx_event.ieee80211_rx_irqsafe e.skb) := by
  induction q with
  | nil => rfl
  | cons e rest ih =>
    simp only [rtw89_core_rx_pending_skb_walk, ih, List.map_cons,
      rx_ppdu_match_epoch E.C rtwdev desc_info e.skb.cb hne]
    rfl

/-- One data frame of path `band` with ppdu count `n`: when every queued frame
of the path has ppdu count `n`, so has every frame queued afterwards. -/
theorem rx_frame_step_epoch (E : rtw89_rx_env) (rtwdev : rtw89_dev) (i : rx_input)
    (band : rtw89_phy_idx) (n : Nat)
    (hi : i.desc_info.pkt_type = rtw89_core_rx_type.RTW89_CORE_RX_TYPE_WIFI ∧
      rx_band i.desc_info = band ∧ i.desc_info.ppdu_cnt = n)
    (h : ∀ e ∈ rtwdev.ppdu_sts.rx_queue.get band, e.ppdu_cnt = n) :
    ∀ e ∈ (rtw89_core_rx E rtwdev i.desc_info i.skb).1.ppdu_sts.rx_queue.get band,
      e.ppdu_cnt = n := by
  obtain ⟨hty, hb, hn⟩ := hi
  subst hb hn
  have hfl : (rx_dev_flushed rtwdev (rx_band i.desc_info)
      i.desc_info.ppdu_cnt).ppdu_sts.curr_rx_ppdu_cnt.get (rx_band i.desc_info) =
      i.desc_info.ppdu_cnt := by
    simp [rx_dev_flushed, per_phy_get_set_same]
  by_cases heq : rtwdev.ppdu_sts.curr_rx_ppdu_cnt.get (rx_band i.desc_info) = i.desc_info.ppdu_cnt
  · rw [rx_wifi_same_epoch E _ _ _ hty heq]
    by_cases hel : rx_ppdu_eligible E.C i.desc_info = true
    · rw [if_pos hel]
      intro e he
      simp only [per_phy_get_set_same, List.mem_append, List.mem_singleton] at he
      rcases he with he | he
      · exact h e he
      · subst he
        rfl
    · rw [if_neg hel]
      exact h
  · rw [rx_wifi_new_epoch E _ _ _ hty heq, rx_wifi_same_epoch E _ _ _ hty hfl]
    by_cases hel : rx_ppdu_eligible E.C i.desc_info = true
    · rw [if_pos hel]
      intro e he
      simp only [rx_dev_flushed, per_phy_get_set_same, List.nil_append,
        List.mem_singleton] at he
      subst he
      rfl
    · rw [if_neg hel]
      intro e he
      simp [rx_dev_flushed, per_phy_get_set_same] at he

theorem rx_frames_run_epoch (E : rtw89_rx_env) (band : rtw89_phy_idx) (n : Nat)
    (frames : List rx_input) :
    ∀ rtwdev,
      (∀ i ∈ frames, i.desc_info.pkt_type = rtw89_core_rx_type.RTW89_CORE_RX_TYPE_WIFI ∧
        rx_band i.desc_info = band ∧ i.desc_info.ppdu_cnt = n) →
      (∀ e ∈ rtwdev.ppdu_sts.rx_queue.get band, e.ppdu_cnt = n) →
      ∀ e ∈ (rtw89_core_rx_run E rtwdev frames).1.ppdu_sts.rx_queue.get band,
        e.ppdu_cnt = n := by
  induction frames with
  | nil => intro rtwdev _ h; exact h
  | cons i rest ih =>
    intro rtwdev hall h
    simp only [rtw89_core_rx_run]
    exact ih _ (fun j hj => hall j (List.mem_cons_of_mem _ hj))
      (rx_frame_step_epoch E rtwdev i band n (hall i (List.mem_cons_self _ _)) h)

/-- C14. A physical-status report whose ppdu count differs from the epoch
recorded for its path, the recorded epoch not being above
`RTW89_MAX_PPDU_CNT`: `rtw89_core_rx_pending_skb` delivers every frame queued
on the path, in queue order and exactly as queued (no frame is passed to
`rtw89_chip_query_ppdu`), and leaves the queue empty. Data frames of the
report's ppdu count that arrive on the path afterwards then make up a queue
holding those frames only: every queued entry has that ppdu count, and the
queue is the held ones among the new frames, in arrival order. -/
theorem rx_pending_skb_other_epoch (E : rtw89_rx_env) (rtwdev : rtw89_dev)
    (phy_ppdu : rtw89_rx_phy_ppdu) (desc_info : rtw89_rx_desc_info)
    (hne : rtwdev.ppdu_sts.curr_rx_ppdu_cnt.get (rx_band desc_info) ≠ desc_info.ppdu_cnt)
    (hle : rtwdev.ppdu_sts.curr_rx_ppdu_cnt.get (rx_band desc_info) ≤ E.C.RTW89_MAX_PPDU_CNT) :
    (rtw89_core_rx_pending_skb E rtwdev phy_ppdu desc_info).2 =
      (rtwdev.ppdu_sts.rx_queue.get (rx_band desc_info)).map
        (fun e => rx_event.ieee80211_rx_irqsafe e.skb) ∧
    rx_delivered (rtw89_core_rx_pending_skb E rtwdev phy_ppdu desc_info).2 =
      (rtwdev.ppdu_sts.rx_queue.get (rx_band desc_info)).map (fun e => e.skb) ∧
    (rtw89_core_rx_pending_skb E rtwdev phy_ppdu desc_info).1.ppdu_sts.rx_queue.get
      (rx_band desc_info) = [] ∧
    (∀ frames : List rx_input,
      (∀ i ∈ frames, i.desc_info.pkt_type = rtw89_core_rx_type.RTW89_CORE_RX_TYPE_WIFI ∧
        rx_band i.desc_info = rx_band desc_info ∧ i.desc_info.ppdu_cnt = desc_info.ppdu_cnt) →
      (∀ e ∈ (rtw89_core_rx_run E (rtw89_core_rx_pending_skb E rtwdev phy_ppdu desc_info).1
          frames).1.ppdu_sts.rx_queue.get (rx_band desc_info),
        e.ppdu_cnt = desc_info.ppdu_cnt) ∧
      ((rtw89_core_rx_run E (rtw89_core_rx_pending_skb E rtwdev phy_ppdu desc_info).1
          frames).1.ppdu_sts.rx_queue.get (rx_band desc_info)).map (fun e => e.skb.data) =
        (frames.filter (fun i => rx_ppdu_eligible E.C i.desc_info)).map
          (fun i => i.skb.data)) := by
  have hgt : ¬ rtwdev.ppdu_sts.curr_rx_ppdu_cnt.get (rx_band desc_info) >
      E.C.RTW89_MAX_PPDU_CNT := by omega
  have hev : (rtw89_core_rx_pending_skb E rtwdev phy_ppdu desc_info).2 =
      (rtwdev.ppdu_sts.rx_queue.get (rx_band desc_info)).map
        (fun e => rx_event.ieee80211_rx_irqsafe e.skb) := by
    unfold rtw89_core_rx_pending_skb
    dsimp only
    rw [if_neg hgt]
    exact rx_pending_skb_walk_other_epoch E rtwdev phy_ppdu desc_info hne _
  have hq : (rtw89_core_rx_pending_skb E rtwdev phy_ppdu desc_info).1.ppdu_sts.rx_queue.get
      (rx_band desc_info) = [] := by
    rw [rx_pending_skb_dev, if_neg hgt]
    exact per_phy_get_set_same _ _ _
  refine ⟨hev, ?_, hq, fun frames hall => ⟨?_, ?_⟩⟩
  · rw [hev]
    generalize rtwdev.ppdu_sts.rx_queue.get (rx_band desc_info) = q
    induction q with
    | nil => rfl
    | cons e l ih => simp [rx_delivered, ih]
  · exact rx_frames_run_epoch E (rx_band desc_info) desc_info.ppdu_cnt frames _ hall
      (by rw [hq]; intro e he; cases he)
  · have h := (rx_frames_run E (rx_band desc_info) desc_info.ppdu_cnt frames _ hall
      (Or.inl hq)).2.1
    rw [h, hq]
    rfl

/-- Witness of C14: the frame of epoch 3 is held on path 0 when a report of
epoch 4 arrives. -/
theorem rx_pending_skb_other_epoch_witness :
    rtw89_dev_holding.ppdu_sts.curr_rx_ppdu_cnt.get (rx_band rx_desc_report_next_epoch) ≠
      rx_desc_report_next_epoch.ppdu_cnt ∧
    rtw89_dev_holding.ppdu_sts.curr_rx_ppdu_cnt.get (rx_band rx_desc_report_next_epoch) ≤
      rx_env_example.C.RTW89_MAX_PPDU_CNT ∧
    (rtw89_core_rx_pending_skb rx_env_example rtw89_dev_holding {}
        rx_desc_report_next_epoch).2 =
      (rtw89_dev_holding.ppdu_sts.rx_queue.get (rx_band rx_desc_report_next_epoch)).map
        (fun e => rx_event.ieee80211_rx_irqsafe e.skb) :=
  ⟨by decide, by decide,
    (rx_pending_skb_other_epoch rx_env_example rtw89_dev_holding {} rx_desc_report_next_epoch
      (by decide) (by decide)).1⟩

/-! ## Matching a queued frame against a status report -/

theorem update_rx_status_band (C : rtw89_rx_consts) (rtwdev : rtw89_dev)
    (D : rtw89_rx_desc_info) (st : ieee80211_rx_status) :
    (rtw89_core_update_rx_status C rtwdev D st).band = rtwdev.hw_conf_chan.band := by
  unfold rtw89_core_update_rx_status
  lift_lets
  intro s0 s1 s2 s3 dr drm idx s4 s5
  show s5.band = _
  have h0 : s0.band = rtwdev.hw_conf_chan.band := rfl
  have h1 : s1.band = s0.band := by simp only [s1]; split_ifs <;> rfl
  have h2 : s2.band = s1.band := by simp only [s2]; split_ifs <;> rfl
  have h3 : s3.band = s2.band := rfl
  have h4 : s4.band = s3.band := by simp only [s4]; split_ifs <;> rfl
  have h5 : s5.band = s4.band := by simp only [s5]; split_ifs <;> rfl
  rw [h5, h4, h3, h2, h1, h0]

theorem update_rx_status_bw (C : rtw89_rx_consts) (rtwdev : rtw89_dev)
    (D : rtw89_rx_desc_info) (st : ieee80211_rx_status) :
    (rtw89_core_update_rx_status C rtwdev D st).bw =
      (if D.bw = C.RTW89_CHANNEL_WIDTH_80 then C.RATE_INFO_BW_80
       else if D.bw = C.RTW89_CHANNEL_WIDTH_40 then C.RATE_INFO_BW_40
       else C.RATE_INFO_BW_20) % 8 := by
  unfold rtw89_core_update_rx_status
  lift_lets
  intro s0 s1 s2 s3 dr drm idx s4 s5
  show s5.bw = _
  have h3 : s3.bw = (if D.bw = C.RTW89_CHANNEL_WIDTH_80 then C.RATE_INFO_BW_80
       else if D.bw = C.RTW89_CHANNEL_WIDTH_40 then C.RATE_INFO_BW_40
       else C.RATE_INFO_BW_20) % 8 := rfl
  have h4 : s4.bw = s3.bw := by clear_value s3; simp only [s4]; split_ifs <;> rfl
  have h5 : s5.bw = s4.bw := by simp only [s5]; split_ifs <;> rfl
  rw [h5, h4, h3]

theorem update_rx_status_he_gi (C : rtw89_rx_consts) (rtwdev : rtw89_dev)
    (D : rtw89_rx_desc_info) (st : ieee80211_rx_status) :
    (rtw89_core_update_rx_status C rtwdev D st).he_gi =
      if D.gi_ltf = C.RTW89_GILTF_SGI_4XHE08 ∨ D.gi_ltf = C.RTW89_GILTF_2XHE08 ∨
          D.gi_ltf = C.RTW89_GILTF_1XHE08 then C.NL80211_RATE_INFO_HE_GI_0_8 % 4
      else if D.gi_ltf = C.RTW89_GILTF_2XHE16 ∨ D.gi_ltf = C.RTW89_GILTF_1XHE16 then
        C.NL80211_RATE_INFO_HE_GI_1_6 % 4
      else if D.gi_ltf = C.RTW89_GILTF_LGI_4XHE32 then C.NL80211_RATE_INFO_HE_GI_3_2 % 4
      else st.he_gi := by
  unfold rtw89_core_update_rx_status
  lift_lets
  intro s0 s1 s2 s3 dr drm idx s4 s5
  show s5.he_gi = _
  have h0 : s0.he_gi = st.he_gi := rfl
  have h1 : s1.he_gi = s0.he_gi := by simp only [s1]; split_ifs <;> rfl
  have h2 : s2.he_gi = s1.he_gi := by simp only [s2]; split_ifs <;> rfl
  have h3 : s3.he_gi = s2.he_gi := rfl
  have h4 : s4.he_gi = s3.he_gi := by simp only [s4]; split_ifs <;> rfl
  rw [← h0, ← h1, ← h2, ← h3, ← h4]
  clear_value s4
  simp only [s5]
  split_ifs <;> rfl

theorem update_rx_status_rate_idx (C : rtw89_rx_consts) (rtwdev : rtw89_dev)
    (D : rtw89_rx_desc_info) (st : ieee80211_rx_status) :
    (rtw89_core_update_rx_status C rtwdev D st).rate_idx =
      if rx_data_rate_mode C D = C.DATA_RATE_MODE_NON_HT then
        (if rtwdev.hw_conf_chan.band = C.NL80211_BAND_5GHZ then
           u8 (((C.GET_DATA_RATE_NOT_HT_IDX D.data_rate % 256 : Nat) : Int) - 4)
         else C.GET_DATA_RATE_NOT_HT_IDX D.data_rate % 256)
      else if rx_data_rate_mode C D = C.DATA_RATE_MODE_HT then
        C.GET_DATA_RATE_HT_IDX D.data_rate % 256
      else if rx_data_rate_mode C D = C.DATA_RATE_MODE_VHT then
        C.GET_DATA_RATE_VHT_HE_IDX D.data_rate % 256
      else if rx_data_rate_mode C D = C.DATA_RATE_MODE_HE then
        C.GET_DATA_RATE_VHT_HE_IDX D.data_rate % 256
      else st.rate_idx := by
  unfold rtw89_core_update_rx_status rx_data_rate_mode
  lift_lets
  intro s0 s1 s2 s3 dr drm idx s4 s5
  show s5.rate_idx = _
  have h0 : s0.rate_idx = st.rate_idx := rfl
  have h1 : s1.rate_idx = s0.rate_idx := by simp only [s1]; split_ifs <;> rfl
  have h2 : s2.rate_idx = s1.rate_idx := by simp only [s2]; split_ifs <;> rfl
  have h3 : s3.rate_idx = s2.rate_idx := rfl
  have b0 : s0.band = rtwdev.hw_conf_chan.band := rfl
  have b1 : s1.band = s0.band := by simp only [s1]; split_ifs <;> rfl
  have b2 : s2.band = s1.band := by simp only [s2]; split_ifs <;> rfl
  have b3 : s3.band = s2.band := rfl
  have h5 : s5.rate_idx = s4.rate_idx := by simp only [s5]; split_ifs <;> rfl
  rw [h5, ← h0, ← h1, ← h2, ← h3, ← b0, ← b1, ← b2, ← b3]
  clear_value s3
  simp only [s4]
  split_ifs <;> rfl

/-- The four comparisons `rtw89_core_rx_ppdu_match` makes. -/
theorem rx_ppdu_match_iff (C : rtw89_rx_consts) (rtwdev : rtw89_dev)
    (R : rtw89_rx_desc_info) (status : ieee80211_rx_status) :
    rtw89_core_rx_ppdu_match C rtwdev R status = true ↔
      (rtwdev.ppdu_sts.curr_rx_ppdu_cnt.get (rx_band R) = R.ppdu_cnt ∧
       status.rate_idx =
         (if rx_data_rate_mode C R = C.DATA_RATE_MODE_NON_HT then
            (if status.band = C.NL80211_BAND_5GHZ then
               u8 (((C.GET_DATA_RATE_NOT_HT_IDX R.data_rate % 256 : Nat) : Int) - 4)
             else C.GET_DATA_RATE_NOT_HT_IDX R.data_rate % 256)
          else if rx_data_rate_mode C R = C.DATA_RATE_MODE_HT then
            C.GET_DATA_RATE_HT_IDX R.data_rate % 256
          else if rx_data_rate_mode C R = C.DATA_RATE_MODE_VHT then
            C.GET_DATA_RATE_VHT_HE_IDX R.data_rate % 256
          else if rx_data_rate_mode C R = C.DATA_RATE_MODE_HE then
            C.GET_DATA_RATE_VHT_HE_IDX R.data_rate % 256
          else MASKBYTE0) ∧
       status.he_gi =
         (if R.gi_ltf = C.RTW89_GILTF_SGI_4XHE08 ∨ R.gi_ltf = C.RTW89_GILTF_2XHE08 ∨
              R.gi_ltf = C.RTW89_GILTF_1XHE08 then C.NL80211_RATE_INFO_HE_GI_0_8
          else if R.gi_ltf = C.RTW89_GILTF_2XHE16 ∨ R.gi_ltf = C.RTW89_GILTF_1XHE16 then
            C.NL80211_RATE_INFO_HE_GI_1_6
          else if R.gi_ltf = C.RTW89_GILTF_LGI_4XHE32 then C.NL80211_RATE_INFO_HE_GI_3_2
          else U8_MAX) % 256 ∧
       status.bw =
         (if R.bw = C.RTW89_CHANNEL_WIDTH_80 then C.RATE_INFO_BW_80
          else if R.bw = C.RTW89_CHANNEL_WIDTH_40 then C.RATE_INFO_BW_40
          else C.RATE_INFO_BW_20) % 256) := by
  unfold rtw89_core_rx_ppdu_match rx_data_rate_mode
  simp only [decide_eq_true_eq]

theorem rx_pending_skb_walk_mem (E : rtw89_rx_env) (rtwdev : rtw89_dev)
    (phy_ppdu : rtw89_rx_phy_ppdu) (R : rtw89_rx_desc_info) (e : rx_queue_entry)
    (hm : rtw89_core_rx_ppdu_match E.C rtwdev R e.skb.cb = true) (q : List rx_queue_entry)
    (he : e ∈ q) :
    rx_event.ieee80211_rx_irqsafe { e.skb with cb := E.rtw89_chip_query_ppdu phy_ppdu e.skb.cb } ∈
      rtw89_core_rx_pending_skb_walk E rtwdev phy_ppdu R q := by
  induction q with
  | nil => cases he
  | cons x rest ih =>
    simp only [rtw89_core_rx_pending_skb_walk, List.mem_cons]
    rcases List.mem_cons.mp he with h | h
    · subst h
      left
      rw [if_pos hm]
    · exact Or.inr (ih h)

theorem rx_pending_skb_walk_mem_unmatched (E : rtw89_rx_env) (rtwdev : rtw89_dev)
    (phy_ppdu : rtw89_rx_phy_ppdu) (R : rtw89_rx_desc_info) (e : rx_queue_entry)
    (hm : rtw89_core_rx_ppdu_match E.C rtwdev R e.skb.cb = false) (q : List rx_queue_entry)
    (he : e ∈ q) :
    rx_event.ieee80211_rx_irqsafe e.skb ∈ rtw89_core_rx_pending_skb_walk E rtwdev phy_ppdu R q := by
  induction q with
  | nil => cases he
  | cons x rest ih =>
    simp only [rtw89_core_rx_pending_skb_walk, List.mem_cons]
    rcases List.mem_cons.mp he with h | h
    · subst h
      left
      rw [hm]
      rfl
    · exact Or.inr (ih h)

/-- The match fails on a status built on the cleared status from a descriptor
whose guard-interval code is none of the six decoded ones: `he_gi` stays 0 and
is compared with `U8_MAX`. -/
theorem rx_ppdu_match_gi_ltf_unknown_fails (C : rtw89_rx_consts) (rtwdev rtwdev0 : rtw89_dev)
    (D R : rtw89_rx_desc_info) (hgi : D.gi_ltf = R.gi_ltf) (hcode : ¬ rx_gi_ltf_known C D) :
    rtw89_core_rx_ppdu_match C rtwdev R (rtw89_core_update_rx_status C rtwdev0 D {}) = false := by
  apply Bool.eq_false_iff.mpr
  intro hm
  rw [rx_ppdu_match_iff] at hm
  obtain ⟨_, _, hhe, _⟩ := hm
  rw [update_rx_status_he_gi] at hhe
  unfold rx_gi_ltf_known at hcode
  rw [hgi] at hcode hhe
  have h1 : ¬ (R.gi_ltf = C.RTW89_GILTF_SGI_4XHE08 ∨ R.gi_ltf = C.RTW89_GILTF_2XHE08 ∨
      R.gi_ltf = C.RTW89_GILTF_1XHE08) := by
    rintro (h | h | h)
    · exact hcode (Or.inl h)
    · exact hcode (Or.inr (Or.inl h))
    · exact hcode (Or.inr (Or.inr (Or.inl h)))
  have h2 : ¬ (R.gi_ltf = C.RTW89_GILTF_2XHE16 ∨ R.gi_ltf = C.RTW89_GILTF_1XHE16) := by
    rintro (h | h)
    · exact hcode (Or.inr (Or.inr (Or.inr (Or.inl h))))
    · exact hcode (Or.inr (Or.inr (Or.inr (Or.inr (Or.inl h)))))
  have h3 : ¬ R.gi_ltf = C.RTW89_GILTF_LGI_4XHE32 := fun h =>
    hcode (Or.inr (Or.inr (Or.inr (Or.inr (Or.inr h)))))
  rw [if_neg h1, if_neg h2, if_neg h3, if_neg h1, if_neg h2, if_neg h3] at hhe
  exact absurd hhe (by decide)

/-- The match fails on a status built on the cleared status from a descriptor
whose rate mode is none of the four decoded ones: `rate_idx` stays 0 and is
compared with `MASKBYTE0`. -/
theorem rx_ppdu_match_rate_mode_unknown_fails (C : rtw89_rx_consts) (rtwdev rtwdev0 : rtw89_dev)
    (D R : rtw89_rx_desc_info) (hrate : D.data_rate = R.data_rate)
    (hmode : ¬ rx_rate_mode_known C D) :
    rtw89_core_rx_ppdu_match C rtwdev R (rtw89_core_update_rx_status C rtwdev0 D {}) = false := by
  apply Bool.eq_false_iff.mpr
  intro hm
  rw [rx_ppdu_match_iff] at hm
  obtain ⟨_, hri, _, _⟩ := hm
  rw [update_rx_status_rate_idx] at hri
  have hRD : rx_data_rate_mode C R = rx_data_rate_mode C D := by
    unfold rx_data_rate_mode
    rw [hrate]
  unfold rx_rate_mode_known at hmode
  rw [hRD] at hri
  have h1 : ¬ rx_data_rate_mode C D = C.DATA_RATE_MODE_NON_HT := fun h => hmode (Or.inl h)
  have h2 : ¬ rx_data_rate_mode C D = C.DATA_RATE_MODE_HT := fun h => hmode (Or.inr (Or.inl h))
  have h3 : ¬ rx_data_rate_mode C D = C.DATA_RATE_MODE_VHT := fun h =>
    hmode (Or.inr (Or.inr (Or.inl h)))
  have h4 : ¬ rx_data_rate_mode C D = C.DATA_RATE_MODE_HE := fun h =>
    hmode (Or.inr (Or.inr (Or.inr h)))
  rw [if_neg h1, if_neg h2, if_neg h3, if_neg h4, if_neg h1, if_neg h2, if_neg h3,
    if_neg h4] at hri
  exact absurd hri (by decide)

/-- C13, as the code has it. A frame whose receive status was built by
`rtw89_core_update_rx_status` from descriptor `D`, and a report descriptor `R`
of the same path whose ppdu count is the recorded epoch, with the same
data-rate, bandwidth and guard-interval codes as `D`. When the rate mode is one
of the four decoded modes, the guard-interval code is one of the six decoded
codes and the kernel constants fit the bit-fields `bw` and `he_gi`,
`rtw89_core_rx_ppdu_match` returns true; the loop of
`rtw89_core_rx_pending_skb` then passes the frame's status to
`rtw89_chip_query_ppdu` before it delivers the frame. When the rate mode is
none of the four decoded modes or the guard-interval code is none of the six
decoded codes, and the status was built on the cleared status (as
`rtw89_core_rx` builds it, line 951), `rtw89_core_rx_ppdu_match` returns false
although the codes are equal; the loop then delivers the frame as it was
queued. -/
theorem rx_ppdu_match_same_codes (E : rtw89_rx_env) (rtwdev rtwdev0 : rtw89_dev)
    (D R : rtw89_rx_desc_info) (st0 : ieee80211_rx_status) (phy_ppdu : rtw89_rx_phy_ppdu)
    (hepoch : rtwdev.ppdu_sts.curr_rx_ppdu_cnt.get (rx_band R) = R.ppdu_cnt)
    (hrate : D.data_rate = R.data_rate) (hbw : D.bw = R.bw) (hgi : D.gi_ltf = R.gi_ltf) :
    (rx_rate_mode_known E.C D → rx_gi_ltf_known E.C D → rx_status_consts_fit E.C →
      rtw89_core_rx_ppdu_match E.C rtwdev R (rtw89_core_update_rx_status E.C rtwdev0 D st0) =
        true ∧
      (rtwdev.ppdu_sts.curr_rx_ppdu_cnt.get (rx_band R) ≤ E.C.RTW89_MAX_PPDU_CNT →
        ∀ e ∈ rtwdev.ppdu_sts.rx_queue.get (rx_band R),
          e.skb.cb = rtw89_core_update_rx_status E.C rtwdev0 D st0 →
          rx_event.ieee80211_rx_irqsafe
              { e.skb with cb := E.rtw89_chip_query_ppdu phy_ppdu e.skb.cb } ∈
            (rtw89_core_rx_pending_skb E rtwdev phy_ppdu R).2)) ∧
    (¬ rx_rate_mode_known E.C D ∨ ¬ rx_gi_ltf_known E.C D →
      rtw89_core_rx_ppdu_match E.C rtwdev R (rtw89_core_update_rx_status E.C rtwdev0 D {}) =
        false ∧
      (rtwdev.ppdu_sts.curr_rx_ppdu_cnt.get (rx_band R) ≤ E.C.RTW89_MAX_PPDU_CNT →
        ∀ e ∈ rtwdev.ppdu_sts.rx_queue.get (rx_band R),
          e.skb.cb = rtw89_core_update_rx_status E.C rtwdev0 D {} →
          rx_event.ieee80211_rx_irqsafe e.skb ∈
            (rtw89_core_rx_pending_skb E rtwdev phy_ppdu R).2)) := by
  refine ⟨fun hmode hcode hfit => ?_, fun hunknown => ?_⟩
  · have hm : rtw89_core_rx_ppdu_match E.C rtwdev R
        (rtw89_core_update_rx_status E.C rtwdev0 D st0) = true := by
      obtain ⟨f1, f2, f3, f4, f5, f6⟩ := hfit
      rw [rx_ppdu_match_iff]
      refine ⟨hepoch, ?_, ?_, ?_⟩
      · rw [update_rx_status_rate_idx, update_rx_status_band]
        unfold rx_rate_mode_known at hmode
        unfold rx_data_rate_mode at *
        rw [hrate] at hmode ⊢
        split_ifs <;> first | rfl | (exfalso; rcases hmode with h | h | h | h <;> contradiction)
      · rw [update_rx_status_he_gi]
        unfold rx_gi_ltf_known at hcode
        rw [hgi] at hcode ⊢
        split_ifs with h1 h2 h3
        · omega
        · omega
        · omega
        · exfalso
          rcases hcode with h | h | h | h | h | h
          · exact h1 (Or.inl h)
          · exact h1 (Or.inr (Or.inl h))
          · exact h1 (Or.inr (Or.inr h))
          · exact h2 (Or.inl h)
          · exact h2 (Or.inr h)
          · exact h3 h
      · rw [update_rx_status_bw, hbw]
        split_ifs <;> omega
    refine ⟨hm, fun hle e he hcb => ?_⟩
    have hgt : ¬ rtwdev.ppdu_sts.curr_rx_ppdu_cnt.get (rx_band R) > E.C.RTW89_MAX_PPDU_CNT := by
      omega
    unfold rtw89_core_rx_pending_skb
    dsimp only
    rw [if_neg hgt]
    exact rx_pending_skb_walk_mem E rtwdev phy_ppdu R e (by rw [hcb]; exact hm) _ he
  · have hm : rtw89_core_rx_ppdu_match E.C rtwdev R
        (rtw89_core_update_rx_status E.C rtwdev0 D {}) = false := by
      rcases hunknown with h | h
      · exact rx_ppdu_match_rate_mode_unknown_fails E.C rtwdev rtwdev0 D R hrate h
      · exact rx_ppdu_match_gi_ltf_unknown_fails E.C rtwdev rtwdev0 D R hgi h
    refine ⟨hm, fun hle e he hcb => ?_⟩
    have hgt : ¬ rtwdev.ppdu_sts.curr_rx_ppdu_cnt.get (rx_band R) > E.C.RTW89_MAX_PPDU_CNT := by
      omega
    unfold rtw89_core_rx_pending_skb
    dsimp only
    rw [if_neg hgt]
    exact rx_pending_skb_walk_mem_unmatched E rtwdev phy_ppdu R e (by rw [hcb]; exact hm) _ he

/-- Witness of C13: the held frame of epoch 3 (legacy rate 0, guard-interval
code 0) and the report of epoch 3 match; a held frame and a report with the
guard-interval code 6 do not; with a 3-bit rate-mode field, a held frame and a
report with the rate mode 4 do not. -/
theorem rx_ppdu_match_same_codes_witness :
    rtw89_dev_holding.ppdu_sts.curr_rx_ppdu_cnt.get (rx_band rx_input_report.desc_info) =
      rx_input_report.desc_info.ppdu_cnt ∧
    rx_rate_mode_known rx_env_example.C rx_input_held.desc_info ∧
    rx_gi_ltf_known rx_env_example.C rx_input_held.desc_info ∧
    rx_status_consts_fit rx_env_example.C ∧
    rtw89_core_rx_ppdu_match rx_env_example.C rtw89_dev_holding rx_input_report.desc_info
      (rtw89_core_update_rx_status rx_env_example.C rtw89_dev_init rx_input_held.desc_info {}) =
      true ∧
    ¬ rx_gi_ltf_known rx_env_example.C rx_input_gi_ltf_unknown.desc_info ∧
    rtw89_core_rx_ppdu_match rx_env_example.C rtw89_dev_holding rx_desc_report_gi_ltf_unknown
      (rtw89_core_update_rx_status rx_env_example.C rtw89_dev_init
        rx_input_gi_ltf_unknown.desc_info {}) = false ∧
    ¬ rx_rate_mode_known rx_env_wide_mode.C rx_input_mode_unknown.desc_info ∧
    rtw89_core_rx_ppdu_match rx_env_wide_mode.C rtw89_dev_holding rx_desc_report_mode_unknown
      (rtw89_core_update_rx_status rx_env_wide_mode.C rtw89_dev_init
        rx_input_mode_unknown.desc_info {}) = false :=
  ⟨by decide, by decide, by decide, by decide,
    ((rx_ppdu_match_same_codes rx_env_example rtw89_dev_holding rtw89_dev_init
      rx_input_held.desc_info rx_input_report.desc_info {} {} (by decide) (by decide) (by decide)
      (by decide)).1 (by decide) (by decide) (by decide)).1,
    by decide,
    ((rx_ppdu_match_same_codes rx_env_example rtw89_dev_holding rtw89_dev_init
      rx_input_gi_ltf_unknown.desc_info rx_desc_report_gi_ltf_unknown {} {} (by decide)
      (by decide) (by decide) (by decide)).2 (Or.inr (by decide))).1,
    by decide,
    ((rx_ppdu_match_same_codes rx_env_wide_mode rtw89_dev_holding rtw89_dev_init
      rx_input_mode_unknown.desc_info rx_desc_report_mode_unknown {} {} (by decide)
      (by decide) (by decide) (by decide)).2 (Or.inl (by decide))).1⟩

/-- C13 fails as stated: the held frame and the report of its epoch carry the
same data-rate, bandwidth and guard-interval codes, the guard-interval code 6
being none of the six decoded ones. `rtw89_core_update_rx_status` then leaves
`he_gi` 0 while `rtw89_core_rx_ppdu_match` compares it with `U8_MAX`: the match
fails and the frame is delivered as queued, without the telemetry of the
report. -/
theorem rx_ppdu_match_unknown_gi_ltf :
    (rtw89_core_rx rx_env_example rtw89_dev_init rx_input_gi_ltf_unknown.desc_info
        rx_input_gi_ltf_unknown.skb).1.ppdu_sts.rx_queue.get rtw89_phy_idx.RTW89_PHY_0 =
      [{ skb := { data := [1]
                  cb := rtw89_core_update_rx_status rx_consts_example rtw89_dev_init
                    rx_input_gi_ltf_unknown.desc_info {} }
         ppdu_cnt := 3 }] ∧
    (rtw89_core_rx rx_env_example rtw89_dev_init rx_input_gi_ltf_unknown.desc_info
        rx_input_gi_ltf_unknown.skb).1.ppdu_sts.curr_rx_ppdu_cnt.get
        (rx_band rx_desc_report_gi_ltf_unknown) = rx_desc_report_gi_ltf_unknown.ppdu_cnt ∧
    rx_input_gi_ltf_unknown.desc_info.data_rate = rx_desc_report_gi_ltf_unknown.data_rate ∧
    rx_input_gi_ltf_unknown.desc_info.bw = rx_desc_report_gi_ltf_unknown.bw ∧
    rx_input_gi_ltf_unknown.desc_info.gi_ltf = rx_desc_report_gi_ltf_unknown.gi_ltf ∧
    rtw89_core_rx_ppdu_match rx_consts_example
      (rtw89_core_rx rx_env_example rtw89_dev_init rx_input_gi_ltf_unknown.desc_info
        rx_input_gi_ltf_unknown.skb).1 rx_desc_report_gi_ltf_unknown
      (rtw89_core_update_rx_status rx_consts_example rtw89_dev_init
        rx_input_gi_ltf_unknown.desc_info {}) = false ∧
    (rtw89_core_rx_pending_skb rx_env_example
      (rtw89_core_rx rx_env_example rtw89_dev_init rx_input_gi_ltf_unknown.desc_info
        rx_input_gi_ltf_unknown.skb).1 { rssi_avg := 50 } rx_desc_report_gi_ltf_unknown).2 =
      [rx_event.ieee80211_rx_irqsafe
        { data := [1]
          cb := rtw89_core_update_rx_status rx_consts_example rtw89_dev_init
            rx_input_gi_ltf_unknown.desc_info {} }] := by
  decide

/-! ## Unsupported channel widths -/

theorem get_channel_params_unsupported (K : rtw89_chan_consts) (chandef : cfg80211_chan_def)
    (chan_param : rtw89_channel_params)
    (hw : chandef.width ≠ nl80211_chan_width.NL80211_CHAN_WIDTH_20_NOHT ∧
      chandef.width ≠ nl80211_chan_width.NL80211_CHAN_WIDTH_20 ∧
      chandef.width ≠ nl80211_chan_width.NL80211_CHAN_WIDTH_40 ∧
      chandef.width ≠ nl80211_chan_width.NL80211_CHAN_WIDTH_80) :
    (rtw89_get_channel_params K chandef chan_param).center_chan = 0 := by
  obtain ⟨h1, h2, h3, h4⟩ := hw
  unfold rtw89_get_channel_params
  dsimp only
  cases hwd : chandef.width <;>
    first
    | exact absurd hwd h1
    | exact absurd hwd h2
    | exact absurd hwd h3
    | exact absurd hwd h4
    | rfl

/-- C11. For a channel definition whose width is none of 20 MHz non-HT,
20 MHz, 40 MHz and 80 MHz, `rtw89_get_channel_params` yields `center_chan = 0`
whatever the caller's record held, and `rtw89_set_channel` returns at once:
`current_band_width`, `current_channel`, `current_primary_channel`,
`current_band_type`, `current_subband` and every `cch_by_bw` entry of the
driver state are unchanged, and no call is made, in particular not the chip
operation `set_channel`. -/
theorem set_channel_unsupported_width (K : rtw89_chan_consts) (B : rtw89_band_consts)
    (chandef : cfg80211_chan_def) (ch_param : rtw89_channel_params) (hal : rtw89_hal)
    (hw : chandef.width ≠ nl80211_chan_width.NL80211_CHAN_WIDTH_20_NOHT ∧
      chandef.width ≠ nl80211_chan_width.NL80211_CHAN_WIDTH_20 ∧
      chandef.width ≠ nl80211_chan_width.NL80211_CHAN_WIDTH_40 ∧
      chandef.width ≠ nl80211_chan_width.NL80211_CHAN_WIDTH_80) :
    (rtw89_get_channel_params K chandef ch_param).center_chan = 0 ∧
    rtw89_set_channel K B chandef ch_param hal = (hal, []) ∧
    (rtw89_set_channel K B chandef ch_param hal).1.current_band_width =
      hal.current_band_width ∧
    (rtw89_set_channel K B chandef ch_param hal).1.current_channel = hal.current_channel ∧
    (rtw89_set_channel K B chandef ch_param hal).1.current_primary_channel =
      hal.current_primary_channel ∧
    (rtw89_set_channel K B chandef ch_param hal).1.current_band_type =
      hal.current_band_type ∧
    (rtw89_set_channel K B chandef ch_param hal).1.current_subband = hal.current_subband ∧
    (∀ i, (rtw89_set_channel K B chandef ch_param hal).1.cch_by_bw i = hal.cch_by_bw i) ∧
    (∀ e ∈ (rtw89_set_channel K B chandef ch_param hal).2, e.is_chip_set_channel = false) := by
  have hc := get_channel_params_unsupported K chandef ch_param hw
  have hs : rtw89_set_channel K B chandef ch_param hal = (hal, []) := by
    unfold rtw89_set_channel
    dsimp only
    rw [if_pos hc]
  rw [hs]
  exact ⟨hc, rfl, rfl, rfl, rfl, rfl, rfl, fun _ => rfl, fun e he => by cases he⟩

/-- Witness of C11: a 160 MHz channel definition. -/
theorem set_channel_unsupported_width_witness :
    (chandef_5180_160.width ≠ nl80211_chan_width.NL80211_CHAN_WIDTH_20_NOHT ∧
      chandef_5180_160.width ≠ nl80211_chan_width.NL80211_CHAN_WIDTH_20 ∧
      chandef_5180_160.width ≠ nl80211_chan_width.NL80211_CHAN_WIDTH_40 ∧
      chandef_5180_160.width ≠ nl80211_chan_width.NL80211_CHAN_WIDTH_80) ∧
    (rtw89_get_channel_params chan_consts_example chandef_5180_160
      chan_param_garbage).center_chan = 0 ∧
    rtw89_set_channel chan_consts_example band_consts_example chandef_5180_160
      chan_param_garbage hal_example = (hal_example, []) :=
  ⟨by decide,
    (set_channel_unsupported_width chan_consts_example band_consts_example chandef_5180_160
      chan_param_garbage hal_example (by decide)).1,
    (set_channel_unsupported_width chan_consts_example band_consts_example chandef_5180_160
      chan_param_garbage hal_example (by decide)).2.1⟩

/-! ## Payload offset of a receive descriptor -/

/-- The payload offset `rtw89_core_query_rxdesc` stores: the header-extension
length is the one found in the caller's record on entry, which the function
leaves as it is; the descriptor only contributes the driver-info size. -/
theorem query_rxdesc_offset (H : rtw89_rxwd_h) (desc_info : rtw89_rx_desc_info)
    (data : List Nat) (data_offset : Nat) :
    (rtw89_core_query_rxdesc H desc_info data data_offset).offset =
      ((data_offset + (desc_info.shift * 2) % 256 +
        (le32_get_bits H.RTW89_GET_RXWD_DRV_INFO_SIZE data data_offset * 8) % 256) % 2 ^ 32) %
        2 ^ H.DESC_INFO_OFFSET_BITS ∧
    (rtw89_core_query_rxdesc H desc_info data data_offset).shift = desc_info.shift := by
  unfold rtw89_core_query_rxdesc
  dsimp only
  split_ifs <;> exact ⟨rfl, rfl⟩

/-- C17 does not hold of the code. The descriptor `rxdesc_shift_one` at offset
0 declares a header extension of one 2-byte unit and no driver info, so the
payload starts at offset 2; `rtw89_core_query_rxdesc`, called on a cleared
record, stores the offset 0. -/
theorem query_rxdesc_offset_misses_declared_shift :
    le32_get_bits rxwd_h_example.RTW89_GET_RXWD_SHIFT rxdesc_shift_one 0 = 1 ∧
    le32_get_bits rxwd_h_example.RTW89_GET_RXWD_DRV_INFO_SIZE rxdesc_shift_one 0 = 0 ∧
    (rtw89_core_query_rxdesc rxwd_h_example {} rxdesc_shift_one 0).offset = 0 ∧
    (rtw89_core_query_rxdesc rxwd_h_example {} rxdesc_shift_one 0).offset ≠
      0 + 2 * le32_get_bits rxwd_h_example.RTW89_GET_RXWD_SHIFT rxdesc_shift_one 0 +
        8 * le32_get_bits rxwd_h_example.RTW89_GET_RXWD_DRV_INFO_SIZE rxdesc_shift_one 0 := by
  decide

/-! ## Frames whose key uses an unsupported cipher -/

theorem tx_update_sec_key_switch_unsupported (C : rtw89_tx_consts) (cipher : Nat)
    (h : ¬ tx_cipher_supported cipher) :
    rtw89_core_tx_update_sec_key_switch C cipher = none := by
  unfold tx_cipher_supported at h
  unfold rtw89_core_tx_update_sec_key_switch
  split_ifs with h1 h2 h3 h4
  · exact absurd (Or.inl h1) h
  · exact absurd (Or.inr (Or.inl h2)) h
  · exact absurd (Or.inr (Or.inr (Or.inl h3))) h
  · exact absurd (Or.inr (Or.inr (Or.inr h4))) h
  · rfl

theorem tx_update_sec_key_unsupported (C : rtw89_tx_consts) (P : rtw89_tx_peers)
    (tx_req : rtw89_core_tx_request) (key : ieee80211_key_conf)
    (h : ¬ tx_cipher_supported key.cipher) :
    rtw89_core_tx_update_sec_key C P tx_req key = tx_req := by
  unfold rtw89_core_tx_update_sec_key
  rw [tx_update_sec_key_switch_unsupported C key.cipher h]
  split
  · rfl
  · split <;> rfl

theorem tx_update_ampdu_info_sec (P : rtw89_tx_peers) (tx_req : rtw89_core_tx_request)
    (tid : Nat) :
    (rtw89_core_tx_update_ampdu_info P tx_req tid).desc_info.sec_en = tx_req.desc_info.sec_en ∧
    (rtw89_core_tx_update_ampdu_info P tx_req tid).desc_info.sec_type =
      tx_req.desc_info.sec_type ∧
    (rtw89_core_tx_update_ampdu_info P tx_req tid).desc_info.sec_cam_idx =
      tx_req.desc_info.sec_cam_idx := by
  unfold rtw89_core_tx_update_ampdu_info
  split <;> exact ⟨rfl, rfl, rfl⟩

theorem tx_update_data_info_unsupported {σ : Type} (C : rtw89_tx_consts) (P : rtw89_tx_peers)
    (ops : rtw89_tx_ops σ) (tx_req : rtw89_core_tx_request) (key : ieee80211_key_conf)
    (hkey : tx_req.skb.hw_key = some key) (h : ¬ tx_cipher_supported key.cipher) :
    (rtw89_core_tx_update_data_info C P ops tx_req).desc_info.sec_en =
      tx_req.desc_info.sec_en ∧
    (rtw89_core_tx_update_data_info C P ops tx_req).desc_info.sec_type =
      tx_req.desc_info.sec_type ∧
    (rtw89_core_tx_update_data_info C P ops tx_req).desc_info.sec_cam_idx =
      tx_req.desc_info.sec_cam_idx := by
  unfold rtw89_core_tx_update_data_info
  dsimp only
  rw [hkey]
  dsimp only
  rw [tx_update_sec_key_unsupported C P _ key h]
  split_ifs
  · exact tx_update_ampdu_info_sec P _ _
  · exact ⟨rfl, rfl, rfl⟩

/-- C15, as the code has it. For every frame whose key uses a cipher suite
other than WEP40, WEP104, TKIP and CCMP, the request `rtw89_core_tx_write`
builds has `sec_en` false and `sec_type` and `sec_cam_idx` 0, as in the zeroed
request; the frame is not dropped: `rtw89_core_tx_write` passes it to
`rtw89_hci_tx_write` once and returns the result of that call. -/
theorem tx_write_unsupported_cipher {σ : Type} (C : rtw89_tx_consts) (P : rtw89_tx_peers)
    (ops : rtw89_tx_ops σ) (rtwdev : rtw89_tx_dev σ) (vif : Nat) (sta : Option Nat)
    (skb : tx_skb) (key : ieee80211_key_conf)
    (hkey : skb.hw_key = some key) (hcipher : ¬ tx_cipher_supported key.cipher) :
    (rtw89_core_tx_write_request C P ops vif sta skb).desc_info.sec_en = false ∧
    (rtw89_core_tx_write_request C P ops vif sta skb).desc_info.sec_type = 0 ∧
    (rtw89_core_tx_write_request C P ops vif sta skb).desc_info.sec_cam_idx = 0 ∧
    (rtw89_core_tx_write ops rtwdev vif sta skb).2.2 =
      [tx_event.rtw89_hci_tx_write skb (ops.rtw89_hci_tx_write rtwdev.ext vif sta skb).1] ∧
    (rtw89_core_tx_write ops rtwdev vif sta skb).1 =
      (ops.rtw89_hci_tx_write rtwdev.ext vif sta skb).1 := by
  refine ⟨?_, ?_, ?_, rfl, rfl⟩ <;>
  · unfold rtw89_core_tx_write_request rtw89_core_tx_update_desc_info
    dsimp only
    split_ifs <;>
      first
      | rfl
      | (first
          | exact (tx_update_data_info_unsupported C P ops _ key hkey hcipher).1
          | exact (tx_update_data_info_unsupported C P ops _ key hkey hcipher).2.1
          | exact (tx_update_data_info_unsupported C P ops _ key hkey hcipher).2.2)

/-- Witness of C15: the unicast data frame whose key uses GCMP. -/
theorem tx_write_unsupported_cipher_witness :
    tx_skb_gcmp.hw_key = some { cipher := WLAN_CIPHER_SUITE_GCMP, hw_key_idx := 0 } ∧
    ¬ tx_cipher_supported WLAN_CIPHER_SUITE_GCMP ∧
    (rtw89_core_tx_write_request tx_consts_example tx_peers_example tx_ops_example 0 (some 7)
      tx_skb_gcmp).desc_info.sec_en = false ∧
    (rtw89_core_tx_write tx_ops_example tx_dev_example 0 (some 7) tx_skb_gcmp).2.2 =
      [tx_event.rtw89_hci_tx_write tx_skb_gcmp
        (tx_ops_example.rtw89_hci_tx_write tx_dev_example.ext 0 (some 7) tx_skb_gcmp).1] :=
  ⟨rfl, by decide,
    (tx_write_unsupported_cipher tx_consts_example tx_peers_example tx_ops_example
      tx_dev_example 0 (some 7) tx_skb_gcmp { cipher := WLAN_CIPHER_SUITE_GCMP, hw_key_idx := 0 }
      rfl (by decide)).1,
    (tx_write_unsupported_cipher tx_consts_example tx_peers_example tx_ops_example
      tx_dev_example 0 (some 7) tx_skb_gcmp { cipher := WLAN_CIPHER_SUITE_GCMP, hw_key_idx := 0 }
      rfl (by decide)).2.2.2.1⟩

/-- C15 fails as stated: the data frame `tx_skb_gcmp`, whose key uses GCMP, is
handed to `rtw89_hci_tx_write`, which accepts it; `rtw89_core_tx_write`
returns 0. -/
theorem tx_write_submits_unsupported_cipher :
    tx_skb_gcmp.hw_key = some { cipher := WLAN_CIPHER_SUITE_GCMP, hw_key_idx := 0 } ∧
    ¬ tx_cipher_supported WLAN_CIPHER_SUITE_GCMP ∧
    rtw89_core_get_tx_type tx_consts_example tx_skb_gcmp =
      tx_consts_example.RTW89_CORE_TX_TYPE_DATA ∧
    (rtw89_core_tx_write tx_ops_accepting tx_dev_example 0 (some 7) tx_skb_gcmp).2.2 =
      [tx_event.rtw89_hci_tx_write tx_skb_gcmp 0] ∧
    (rtw89_core_tx_write tx_ops_accepting tx_dev_example 0 (some 7) tx_skb_gcmp).1 = 0 ∧
    tx_submitted (rtw89_core_tx_write tx_ops_accepting tx_dev_example 0 (some 7)
      tx_skb_gcmp).2.2 = [tx_skb_gcmp] := by
  decide

/-! ## Round trip of the transmit descriptor -/

theorem testBit_field_mask (f : le32_field) (j : Nat) :
    f.mask.testBit j = (decide (f.lo ≤ j) && decide (j - f.lo < f.width)) := by
  unfold le32_field.mask
  rw [Nat.testBit_shiftLeft, Nat.testBit_two_pow_sub_one]

theorem testBit_replace_word (f : le32_field) (v w j : Nat) :
    (((w &&& (0xFFFFFFFF ^^^ (f.mask % 2 ^ 32))) ||| ((v <<< f.lo) &&& f.mask)) % 2 ^ 32).testBit j =
      (decide (j < 32) &&
        (if f.lo ≤ j ∧ j - f.lo < f.width then v.testBit (j - f.lo) else w.testBit j)) := by
  have h32 : (0xFFFFFFFF : Nat) = 2 ^ 32 - 1 := by norm_num
  rw [h32, Nat.testBit_mod_two_pow, Nat.testBit_or, Nat.testBit_and, Nat.testBit_and,
    Nat.testBit_xor, Nat.testBit_two_pow_sub_one, Nat.testBit_mod_two_pow, testBit_field_mask,
    Nat.testBit_shiftLeft]
  by_cases h1 : j < 32 <;> by_cases h2 : f.lo ≤ j <;> by_cases h3 : j - f.lo < f.width <;>
    simp [h1, h2, h3]

theorem testBit_txwd_get_bits (f : le32_field) (t : Nat → Nat) (i : Nat) :
    (txwd_get_bits f t).testBit i = (decide (i < f.width) && (t f.dword).testBit (f.lo + i)) := by
  unfold txwd_get_bits
  rw [Nat.testBit_mod_two_pow, ← Nat.shiftRight_eq_div_pow, Nat.testBit_shiftRight]

theorem txwd_get_replace_same (f : le32_field) (v : Nat) (t : Nat → Nat) (hf : f.valid) :
    txwd_get_bits f (le32p_replace_bits f v t) = v % 2 ^ f.width := by
  unfold le32_field.valid at hf
  apply Nat.eq_of_testBit_eq
  intro i
  rw [testBit_txwd_get_bits, Nat.testBit_mod_two_pow]
  unfold le32p_replace_bits
  rw [if_pos rfl, testBit_replace_word]
  by_cases h : i < f.width
  · have h1 : f.lo + i < 32 := by omega
    have h2 : f.lo ≤ f.lo + i ∧ f.lo + i - f.lo < f.width := by omega
    have h3 : f.lo + i - f.lo = i := by omega
    simp [h, h1, h2, h3]
  · simp [h]

theorem txwd_get_replace_other (f g : le32_field) (v : Nat) (t : Nat → Nat)
    (hd : f.disjoint g) (hg : g.valid) :
    txwd_get_bits g (le32p_replace_bits f v t) = txwd_get_bits g t := by
  unfold le32_field.valid at hg
  unfold le32_field.disjoint at hd
  apply Nat.eq_of_testBit_eq
  intro i
  rw [testBit_txwd_get_bits, testBit_txwd_get_bits]
  unfold le32p_replace_bits
  by_cases hw : g.dword = f.dword
  · rw [if_pos hw, testBit_replace_word]
    by_cases h : i < g.width
    · have h1 : g.lo + i < 32 := by omega
      have h2 : ¬ (f.lo ≤ g.lo + i ∧ g.lo + i - f.lo < f.width) := by
        rcases hd with hd | hd | hd
        · exact absurd hw.symm hd
        · omega
        · omega
      simp [h, h1, h2]
    · simp [h]
  · rw [if_neg hw]


theorem le32_field_disjoint_symm (f g : le32_field) (h : f.disjoint g) : g.disjoint f := by
  unfold le32_field.disjoint at *
  rcases h with h | h | h
  · exact Or.inl (Ne.symm h)
  · exact Or.inr (Or.inr h)
  · exact Or.inr (Or.inl h)

theorem txwd_get_bits_zero (f : le32_field) : txwd_get_bits f txdesc_zero = 0 := by
  simp [txwd_get_bits, txdesc_zero]

/-- A field that shares no bit with the fields written keeps its value. -/
theorem txwd_apply_writes_other (g : le32_field) (hg : g.valid) :
    ∀ (ws : List (le32_field × Nat)) (t : Nat → Nat),
      (∀ w ∈ ws, w.1.disjoint g) →
      txwd_get_bits g (txwd_apply_writes ws t) = txwd_get_bits g t := by
  intro ws
  induction ws with
  | nil => intro t _; rfl
  | cons w rest ih =>
    intro t h
    show txwd_get_bits g (txwd_apply_writes rest (le32p_replace_bits w.1 w.2 t)) = _
    rw [ih _ (fun x hx => h x (List.mem_cons_of_mem _ hx)),
      txwd_get_replace_other w.1 g w.2 t (h w (List.mem_cons_self _ _)) hg]

/-- After a sequence of writes to fields that lie within their words and share
no bit, each field holds the value written to it, reduced to the field's
width. -/
theorem txwd_apply_writes_mem :
    ∀ (ws : List (le32_field × Nat)) (t : Nat → Nat),
      (ws.map Prod.fst).Pairwise le32_field.disjoint →
      (∀ f ∈ ws.map Prod.fst, f.valid) →
      ∀ p ∈ ws, txwd_get_bits p.1 (txwd_apply_writes ws t) = p.2 % 2 ^ p.1.width := by
  intro ws
  induction ws with
  | nil => intro t _ _ p hp; cases hp
  | cons w rest ih =>
    intro t hpw hv p hp
    rw [List.map_cons, List.pairwise_cons] at hpw
    have hvw : w.1.valid := hv w.1 (by simp)
    have hvr : ∀ f ∈ rest.map Prod.fst, f.valid := fun f hf =>
      hv f (by rw [List.map_cons]; exact List.mem_cons_of_mem _ hf)
    show txwd_get_bits p.1 (txwd_apply_writes rest (le32p_replace_bits w.1 w.2 t)) = _
    rcases List.mem_cons.mp hp with h | h
    · subst h
      rw [txwd_apply_writes_other p.1 hvw rest _
        (fun x hx => le32_field_disjoint_symm _ _
          (hpw.1 x.1 (List.mem_map_of_mem Prod.fst hx))),
        txwd_get_replace_same p.1 p.2 t hvw]
    · exact ih _ hpw.2 hvr p h

theorem fill_txdesc_eq_writes (H : rtw89_txwd_h) (d : rtw89_tx_desc_info) (t : Nat → Nat) :
    rtw89_core_fill_txdesc H d t =
      if ¬ d.en_wd_info then txwd_apply_writes (txwd_body_writes H d) t
      else txwd_apply_writes (txwd_body_writes H d ++ txwd_info_writes H d) t := by
  unfold rtw89_core_fill_txdesc
  split_ifs <;> rfl

/-- C16, as the code has it. When the 19 fields of the `RTW89_SET_TXWD_*`
macros lie within their words and no two of them share a bit, the descriptor
written by `rtw89_core_fill_txdesc` into a zeroed buffer holds, in each field
written before the test of `en_wd_info`, the value of the descriptor info
reduced to the width of the field (the value itself when it fits); the same
holds of the eight fields written after the test when `en_wd_info` is set,
and these read 0 when it is not. The field `is_bmc` of the descriptor info is
not written to the descriptor: the descriptor does not depend on it. -/
theorem fill_txdesc_round_trip (H : rtw89_txwd_h) (d : rtw89_tx_desc_info)
    (hH : txwd_layout_ok H) :
    (∀ p ∈ txwd_body_writes H d,
      txwd_get_bits p.1 (rtw89_core_fill_txdesc H d txdesc_zero) = p.2 % 2 ^ p.1.width ∧
      (p.2 < 2 ^ p.1.width →
        txwd_get_bits p.1 (rtw89_core_fill_txdesc H d txdesc_zero) = p.2)) ∧
    (d.en_wd_info = true → ∀ p ∈ txwd_info_writes H d,
      txwd_get_bits p.1 (rtw89_core_fill_txdesc H d txdesc_zero) = p.2 % 2 ^ p.1.width ∧
      (p.2 < 2 ^ p.1.width →
        txwd_get_bits p.1 (rtw89_core_fill_txdesc H d txdesc_zero) = p.2)) ∧
    (d.en_wd_info = false → ∀ p ∈ txwd_info_writes H d,
      txwd_get_bits p.1 (rtw89_core_fill_txdesc H d txdesc_zero) = 0) ∧
    (∀ (b : Bool) (txdesc : Nat → Nat),
      rtw89_core_fill_txdesc H { d with is_bmc := b } txdesc =
        rtw89_core_fill_txdesc H d txdesc) := by
  obtain ⟨hpw0, hv0⟩ := hH
  have hmap : (txwd_body_writes H d ++ txwd_info_writes H d).map Prod.fst =
      (txwd_body_writes H {} ++ txwd_info_writes H {}).map Prod.fst := rfl
  have hpw : ((txwd_body_writes H d ++ txwd_info_writes H d).map Prod.fst).Pairwise
      le32_field.disjoint := by rw [hmap]; exact hpw0
  have hv : ∀ f ∈ (txwd_body_writes H d ++ txwd_info_writes H d).map Prod.fst, f.valid := by
    rw [hmap]; exact hv0
  have hall : ∀ p ∈ txwd_body_writes H d ++ txwd_info_writes H d,
      ∀ t, txwd_get_bits p.1 (txwd_apply_writes (txwd_body_writes H d ++ txwd_info_writes H d) t) =
        p.2 % 2 ^ p.1.width := fun p hp t =>
    txwd_apply_writes_mem _ t hpw hv p hp
  have hpwb : ((txwd_body_writes H d).map Prod.fst).Pairwise le32_field.disjoint :=
    (List.pairwise_append.mp (by rw [← List.map_append]; exact hpw)).1
  have hvb : ∀ f ∈ (txwd_body_writes H d).map Prod.fst, f.valid := fun f hf =>
    hv f (by
      show f ∈ (txwd_body_writes H d ++ txwd_info_writes H d).map Prod.fst
      rw [List.map_append]
      exact List.mem_append_left _ hf)
  have hbody : ∀ p ∈ txwd_body_writes H d,
      txwd_get_bits p.1 (rtw89_core_fill_txdesc H d txdesc_zero) = p.2 % 2 ^ p.1.width := by
    intro p hp
    rw [fill_txdesc_eq_writes]
    split_ifs
    · exact hall p (List.mem_append_left _ hp) _
    · exact txwd_apply_writes_mem _ _ hpwb hvb p hp
  have hinfo : d.en_wd_info = true → ∀ p ∈ txwd_info_writes H d,
      txwd_get_bits p.1 (rtw89_core_fill_txdesc H d txdesc_zero) = p.2 % 2 ^ p.1.width := by
    intro hen p hp
    rw [fill_txdesc_eq_writes, if_neg (by simp [hen])]
    exact hall p (List.mem_append_right _ hp) _
  refine ⟨fun p hp => ⟨hbody p hp, fun hlt => ?_⟩,
    fun hen p hp => ⟨hinfo hen p hp, fun hlt => ?_⟩, ?_, fun b txdesc => rfl⟩
  · rw [hbody p hp, Nat.mod_eq_of_lt hlt]
  · rw [hinfo hen p hp, Nat.mod_eq_of_lt hlt]
  · intro hen p hp
    rw [fill_txdesc_eq_writes, if_pos (by simp [hen])]
    have hpv : p.1.valid := hv p.1 (by
      show p.1 ∈ (txwd_body_writes H d ++ txwd_info_writes H d).map Prod.fst
      exact List.mem_map_of_mem Prod.fst (List.mem_append_right _ hp))
    rw [txwd_apply_writes_other p.1 hpv _ _ ?_, txwd_get_bits_zero]
    intro w hw
    have hpw2 := List.pairwise_append.mp (by rw [← List.map_append]; exact hpw)
    exact hpw2.2.2 w.1 (List.mem_map_of_mem Prod.fst hw) p.1 (List.mem_map_of_mem Prod.fst hp)

/-- Witness of C16: the descriptor of the unicast data frame under the example
layout; the queue selector 5 is read back. -/
theorem fill_txdesc_round_trip_witness :
    txwd_layout_ok txwd_h_example ∧
    txwd_get_bits txwd_h_example.RTW89_SET_TXWD_BODY_QSEL
      (rtw89_core_fill_txdesc txwd_h_example tx_desc_info_unicast txdesc_zero) = 5 :=
  ⟨by decide,
    ((fill_txdesc_round_trip txwd_h_example tx_desc_info_unicast (by decide)).1
      (txwd_h_example.RTW89_SET_TXWD_BODY_QSEL, tx_desc_info_unicast.qsel) (by decide)).2
      (by decide)⟩

/-- C16 fails as stated: the descriptor infos built for the unicast and for
the broadcast data frame differ in `is_bmc`, yet under every layout of the
fields `rtw89_core_fill_txdesc` writes the same descriptor for both, so that
no accessor reads `is_bmc` back. -/
theorem fill_txdesc_drops_is_bmc :
    tx_desc_info_unicast.is_bmc = false ∧ tx_desc_info_broadcast.is_bmc = true ∧
    ∀ (H : rtw89_txwd_h) (txdesc : Nat → Nat),
      rtw89_core_fill_txdesc H tx_desc_info_unicast txdesc =
        rtw89_core_fill_txdesc H tx_desc_info_broadcast txdesc := by
  have e : tx_desc_info_broadcast = { tx_desc_info_unicast with is_bmc := true } := by decide
  refine ⟨by decide, by decide, fun H txdesc => ?_⟩
  rw [e]
  rfl

/-! ## Pending-negotiation list: no duplicates, exact content after the walks -/

theorem filter_filter_ne_notin (l : List Nat) (q : Nat) (rest : List Nat) :
    (list_del_init l q).filter (fun j => decide (j ∉ rest)) =
      l.filter (fun j => decide (j ∉ q :: rest)) := by
  unfold list_del_init
  rw [List.filter_filter]
  apply List.filter_congr
  intro j _
  simp only [List.mem_cons, not_or, ne_eq, decide_not, Bool.decide_and, Bool.and_comm]

/-- The pending list after the walk of `rtw89_core_ba_work` over `l`: the
entries that are not in `l`, in their order. -/
theorem ba_work_walk_ba_list {σ : Type} (ops : rtw89_tx_ops σ) :
    ∀ (l : List Nat) (rtwdev : rtw89_tx_dev σ),
      (rtw89_core_ba_work_walk ops l rtwdev).1.ba_list =
        rtwdev.ba_list.filter (fun j => decide (j ∉ l)) := by
  intro l
  induction l with
  | nil => intro rtwdev; simp [rtw89_core_ba_work_walk]
  | cons q rest ih =>
    intro rtwdev
    unfold rtw89_core_ba_work_walk
    dsimp only
    split
    · rw [ih]
      exact filter_filter_ne_notin _ _ _
    · rw [ih]
      split_ifs
      · exact filter_filter_ne_notin _ _ _
      · exact filter_filter_ne_notin _ _ _

/-- The walk of `rtw89_core_ba_work` changes no field of a queue but
`RTW89_TXQ_F_BLOCK_BA`, and no queue outside the entries it visits. -/
theorem ba_work_walk_txqs {σ : Type} (ops : rtw89_tx_ops σ) :
    ∀ (l : List Nat) (rtwdev : rtw89_tx_dev σ) (j : Nat),
      ((rtw89_core_ba_work_walk ops l rtwdev).1.txqs j).sta = (rtwdev.txqs j).sta ∧
      ((rtw89_core_ba_work_walk ops l rtwdev).1.txqs j).tid = (rtwdev.txqs j).tid ∧
      ((rtw89_core_ba_work_walk ops l rtwdev).1.txqs j).vif = (rtwdev.txqs j).vif ∧
      ((rtw89_core_ba_work_walk ops l rtwdev).1.txqs j).frames = (rtwdev.txqs j).frames ∧
      ((rtw89_core_ba_work_walk ops l rtwdev).1.txqs j).RTW89_TXQ_F_AMPDU =
        (rtwdev.txqs j).RTW89_TXQ_F_AMPDU ∧
      (j ∉ l → (rtw89_core_ba_work_walk ops l rtwdev).1.txqs j = rtwdev.txqs j) := by
  intro l
  induction l with
  | nil => intro rtwdev j; exact ⟨rfl, rfl, rfl, rfl, rfl, fun _ => rfl⟩
  | cons q rest ih =>
    intro rtwdev j
    unfold rtw89_core_ba_work_walk
    dsimp only
    split
    · obtain ⟨a1, a2, a3, a4, a5, a6⟩ :=
        ih { rtwdev with ba_list := list_del_init rtwdev.ba_list q } j
      exact ⟨a1, a2, a3, a4, a5, fun hj => a6 (fun h => hj (List.mem_cons_of_mem _ h))⟩
    · rename_i sta hsta
      split_ifs with hret
      · obtain ⟨a1, a2, a3, a4, a5, a6⟩ := ih { ({ rtwdev with
            ext := (ops.ieee80211_start_tx_ba_session rtwdev.ext sta
              (rtwdev.txqs q).tid).2 } : rtw89_tx_dev σ).set_txq q
              { rtwdev.txqs q with RTW89_TXQ_F_BLOCK_BA := true } with
            ba_list := list_del_init rtwdev.ba_list q } j
        by_cases hjq : j = q
        · subst hjq
          simp only [rtw89_tx_dev.set_txq, if_true] at a1 a2 a3 a4 a5
          exact ⟨a1, a2, a3, a4, a5, fun hj => absurd (List.mem_cons_self _ _) hj⟩
        · simp only [rtw89_tx_dev.set_txq, if_neg hjq] at a1 a2 a3 a4 a5 a6
          exact ⟨a1, a2, a3, a4, a5, fun hj => a6 (fun h => hj (List.mem_cons_of_mem _ h))⟩
      · obtain ⟨a1, a2, a3, a4, a5, a6⟩ := ih { ({ rtwdev with
            ext := (ops.ieee80211_start_tx_ba_session rtwdev.ext sta
              (rtwdev.txqs q).tid).2 } : rtw89_tx_dev σ) with
            ba_list := list_del_init rtwdev.ba_list q } j
        exact ⟨a1, a2, a3, a4, a5, fun hj => a6 (fun h => hj (List.mem_cons_of_mem _ h))⟩

/-- The pending list after the walk of `rtw89_core_free_sta_pending_ba` over
`l`: the entries that are not both in `l` and queues of the peer. -/
theorem free_sta_pending_ba_walk_ba_list {σ : Type} (sta : Nat) :
    ∀ (l : List Nat) (rtwdev : rtw89_tx_dev σ),
      (rtw89_core_free_sta_pending_ba_walk sta l rtwdev).ba_list =
        rtwdev.ba_list.filter
          (fun j => decide (¬ (j ∈ l ∧ (rtwdev.txqs j).sta = some sta))) := by
  intro l
  induction l with
  | nil => intro rtwdev; simp [rtw89_core_free_sta_pending_ba_walk]
  | cons q rest ih =>
    intro rtwdev
    unfold rtw89_core_free_sta_pending_ba_walk
    split
    · rename_i hq
      rw [ih]
      unfold list_del_init
      rw [List.filter_filter]
      apply List.filter_congr
      intro j _
      by_cases hjq : j = q
      · subst hjq
        simp [hq]
      · simp [hjq]
    · rename_i hq
      rw [ih]
      apply List.filter_congr
      intro j _
      by_cases hjq : j = q
      · subst hjq
        simp [hq]
      · simp [hjq]

theorem check_agg_nodup {σ : Type} (rtwdev : rtw89_tx_dev σ) (q : Nat) (skb : tx_skb)
    (h : rtwdev.ba_list.Nodup) : (rtw89_core_txq_check_agg rtwdev q skb).1.ba_list.Nodup := by
  unfold rtw89_core_txq_check_agg
  dsimp only
  split_ifs with h1 h2 h3 h4 h5 h6
  all_goals first
    | exact h
    | skip
  rw [List.nodup_append]
  refine ⟨h, List.nodup_singleton q, ?_⟩
  intro a ha hb
  have : a = q := by simpa using hb
  subst this
  exact h6 ha

theorem ba_step_nodup {σ : Type} (ops : rtw89_tx_ops σ) (rtwdev : rtw89_tx_dev σ)
    (a : ba_action) (h : rtwdev.ba_list.Nodup) : (ba_step ops rtwdev a).ba_list.Nodup := by
  cases a with
  | check_agg q skb => exact check_agg_nodup rtwdev q skb h
  | ba_work =>
    simp only [ba_step, rtw89_core_ba_work, ba_work_walk_ba_list]
    exact h.filter _
  | free_sta_pending_ba sta =>
    simp only [ba_step, rtw89_core_free_sta_pending_ba, free_sta_pending_ba_walk_ba_list]
    exact h.filter _

theorem ba_run_nodup {σ : Type} (ops : rtw89_tx_ops σ) (acts : List ba_action) :
    ∀ (rtwdev : rtw89_tx_dev σ), rtwdev.ba_list.Nodup → (ba_run ops rtwdev acts).ba_list.Nodup := by
  induction acts with
  | nil => intro rtwdev h; exact h
  | cons a rest ih => intro rtwdev h; exact ih _ (ba_step_nodup ops rtwdev a h)

theorem check_agg_twice {σ : Type} (rtwdev : rtw89_tx_dev σ) (q : Nat) (skb skb2 : tx_skb)
    (h : skb.queue_mapping ≠ IEEE80211_AC_VO ∧ skb.protocol ≠ ETH_P_PAE ∧
      (rtwdev.txqs q).sta ≠ none ∧ (rtwdev.txqs q).RTW89_TXQ_F_BLOCK_BA = false) :
    (rtw89_core_txq_check_agg (rtw89_core_txq_check_agg rtwdev q skb).1 q skb2).1.ba_list =
      (rtw89_core_txq_check_agg rtwdev q skb).1.ba_list := by
  obtain ⟨h1, h2, h3, h4⟩ := h
  have hfirst : (rtw89_core_txq_check_agg rtwdev q skb).1.txqs = rtwdev.txqs :=
    (check_agg_txqs rtwdev q skb).1
  have hmem : (rtwdev.txqs q).RTW89_TXQ_F_AMPDU = false →
      q ∈ (rtw89_core_txq_check_agg rtwdev q skb).1.ba_list := by
    intro ha
    unfold rtw89_core_txq_check_agg
    dsimp only
    rw [if_neg h1, if_neg h2, if_neg h3, if_neg (by simp [h4]), if_neg (by simp [ha])]
    split_ifs with h6
    · exact h6
    · simp
  generalize hd : (rtw89_core_txq_check_agg rtwdev q skb).1 = d at hfirst hmem
  unfold rtw89_core_txq_check_agg
  dsimp only
  rw [hfirst]
  by_cases g1 : skb2.queue_mapping = IEEE80211_AC_VO
  · rw [if_pos g1]
  rw [if_neg g1]
  by_cases g2 : skb2.protocol = ETH_P_PAE
  · rw [if_pos g2]
  rw [if_neg g2, if_neg h3, if_neg (by simp [h4])]
  by_cases g5 : (rtwdev.txqs q).RTW89_TXQ_F_AMPDU = true
  · rw [if_pos g5]
  rw [if_neg g5, if_neg (not_not.mpr (hmem (by simpa using g5)))]

/-- C21. For an eligible frame (not mapped to `IEEE80211_AC_VO`, not an EAPOL
frame, queue with a peer and not blocked): when the queue has
`RTW89_TXQ_F_AMPDU` set, `rtw89_core_txq_check_agg` sets
`IEEE80211_TX_CTL_AMPDU` in the frame's flags and leaves the pending list as
it is; otherwise it appends the queue to the tail of the pending list and
queues the negotiation work when the queue is not on the list, and does
nothing when it is. A list without duplicates stays without duplicates under
this call and under every sequence of `rtw89_core_txq_check_agg`,
`rtw89_core_ba_work` and `rtw89_core_free_sta_pending_ba` steps, and a second
call for the same queue leaves the list the first call left. -/
theorem txq_check_agg_eligible {σ : Type} (ops : rtw89_tx_ops σ) (rtwdev : rtw89_tx_dev σ)
    (q : Nat) (skb : tx_skb)
    (h : skb.queue_mapping ≠ IEEE80211_AC_VO ∧ skb.protocol ≠ ETH_P_PAE ∧
      (rtwdev.txqs q).sta ≠ none ∧ (rtwdev.txqs q).RTW89_TXQ_F_BLOCK_BA = false) :
    ((rtwdev.txqs q).RTW89_TXQ_F_AMPDU = true →
      rtw89_core_txq_check_agg rtwdev q skb =
        (rtwdev, { skb with flags := skb.flags ||| IEEE80211_TX_CTL_AMPDU }, []) ∧
      (skb.flags ||| IEEE80211_TX_CTL_AMPDU).testBit 6 = true) ∧
    ((rtwdev.txqs q).RTW89_TXQ_F_AMPDU = false → q ∉ rtwdev.ba_list →
      rtw89_core_txq_check_agg rtwdev q skb =
        ({ rtwdev with ba_list := rtwdev.ba_list ++ [q] }, skb,
         [tx_event.ieee80211_queue_work_ba_work])) ∧
    ((rtwdev.txqs q).RTW89_TXQ_F_AMPDU = false → q ∈ rtwdev.ba_list →
      rtw89_core_txq_check_agg rtwdev q skb = (rtwdev, skb, [])) ∧
    (rtwdev.ba_list.Nodup → (rtw89_core_txq_check_agg rtwdev q skb).1.ba_list.Nodup) ∧
    (∀ skb2 : tx_skb,
      (rtw89_core_txq_check_agg (rtw89_core_txq_check_agg rtwdev q skb).1 q skb2).1.ba_list =
        (rtw89_core_txq_check_agg rtwdev q skb).1.ba_list) ∧
    (∀ (acts : List ba_action) (d : rtw89_tx_dev σ),
      d.ba_list.Nodup → (ba_run ops d acts).ba_list.Nodup) := by
  obtain ⟨h1, h2, h3, h4⟩ := h
  have hb : ¬ ((rtwdev.txqs q).RTW89_TXQ_F_BLOCK_BA = true) := by simp [h4]
  refine ⟨fun ha => ⟨?_, ?_⟩, fun ha hq => ?_, fun ha hq => ?_,
    check_agg_nodup rtwdev q skb, fun skb2 => check_agg_twice rtwdev q skb skb2 ⟨h1, h2, h3, h4⟩,
    fun acts d hd => ba_run_nodup ops acts d hd⟩
  · unfold rtw89_core_txq_check_agg
    dsimp only
    rw [if_neg h1, if_neg h2, if_neg h3, if_neg hb, if_pos ha]
  · rw [Nat.testBit_or]
    have : IEEE80211_TX_CTL_AMPDU.testBit 6 = true := by decide
    rw [this, Bool.or_true]
  · have ha2 : ¬ ((rtwdev.txqs q).RTW89_TXQ_F_AMPDU = true) := by simp [ha]
    unfold rtw89_core_txq_check_agg
    dsimp only
    rw [if_neg h1, if_neg h2, if_neg h3, if_neg hb, if_neg ha2, if_pos hq]
  · have ha2 : ¬ ((rtwdev.txqs q).RTW89_TXQ_F_AMPDU = true) := by simp [ha]
    unfold rtw89_core_txq_check_agg
    dsimp only
    rw [if_neg h1, if_neg h2, if_neg h3, if_neg hb, if_neg ha2, if_neg (not_not.mpr hq)]

/-- Witness of C21: queue 0 of the example device is not running aggregation
and not on the empty pending list; the check puts it there. -/
theorem txq_check_agg_eligible_witness :
    (tx_skb_example.queue_mapping ≠ IEEE80211_AC_VO ∧ tx_skb_example.protocol ≠ ETH_P_PAE ∧
      (tx_dev_example.txqs 0).sta ≠ none ∧
      (tx_dev_example.txqs 0).RTW89_TXQ_F_BLOCK_BA = false) ∧
    (rtw89_core_txq_check_agg tx_dev_example 0 tx_skb_example).1.ba_list = [0] ∧
    (rtw89_core_txq_check_agg (rtw89_core_txq_check_agg tx_dev_example 0 tx_skb_example).1 0
      tx_skb_example).1.ba_list = (rtw89_core_txq_check_agg tx_dev_example 0 tx_skb_example).1.ba_list :=
  ⟨by decide, by decide,
    (txq_check_agg_eligible tx_ops_example tx_dev_example 0 tx_skb_example
      (by decide)).2.2.2.2.1 tx_skb_example⟩

/-! ## The negotiation task -/

theorem ba_session_starts_cons_start (sta tid : Nat) (ret : Int) (l : List tx_event) :
    ba_session_starts (tx_event.ieee80211_start_tx_ba_session sta tid ret :: l) =
      (sta, tid) :: ba_session_starts l := rfl

/-- The events of the walk of `rtw89_core_ba_work`: one session start for each
visited entry with a peer, in order, and nothing else. -/
theorem ba_work_walk_events {σ : Type} (ops : rtw89_tx_ops σ) :
    ∀ (l : List Nat) (rtwdev : rtw89_tx_dev σ),
      ba_session_starts (rtw89_core_ba_work_walk ops l rtwdev).2 =
        l.filterMap (fun q => (rtwdev.txqs q).sta.map (fun s => (s, (rtwdev.txqs q).tid))) ∧
      (∀ e ∈ (rtw89_core_ba_work_walk ops l rtwdev).2,
        ∃ s t r, e = tx_event.ieee80211_start_tx_ba_session s t r) := by
  intro l
  induction l with
  | nil => intro rtwdev; exact ⟨rfl, fun e he => by cases he⟩
  | cons q rest ih =>
    intro rtwdev
    have hstep : ∀ d : rtw89_tx_dev σ,
        (∀ j, (d.txqs j).sta = (rtwdev.txqs j).sta ∧ (d.txqs j).tid = (rtwdev.txqs j).tid) →
        ba_session_starts (rtw89_core_ba_work_walk ops rest d).2 =
          rest.filterMap (fun q => (rtwdev.txqs q).sta.map (fun s => (s, (rtwdev.txqs q).tid))) := by
      intro d hd
      rw [(ih d).1]
      congr 1
      funext j
      rw [(hd j).1, (hd j).2]
    unfold rtw89_core_ba_work_walk
    dsimp only
    split
    · rename_i hsta
      rw [List.filterMap_cons, hsta]
      exact ⟨hstep _ (fun j => ⟨rfl, rfl⟩), (ih _).2⟩
    · rename_i sta hsta
      rw [List.filterMap_cons, hsta]
      dsimp only [Option.map]
      rw [ba_session_starts_cons_start]
      refine ⟨?_, ?_⟩
      · congr 1
        apply hstep
        intro j
        split_ifs
        · by_cases hjq : j = q
          · subst hjq
            simp [rtw89_tx_dev.set_txq, hsta]
          · simp [rtw89_tx_dev.set_txq, hjq]
        · exact ⟨rfl, rfl⟩
      · intro e he
        rcases List.mem_cons.mp he with he | he
        · exact ⟨_, _, _, he⟩
        · exact (ih _).2 e he

/-- C22. Whatever the pending list holds and whatever each negotiation
returns, the list is empty after `rtw89_core_ba_work`; the task calls
`ieee80211_start_tx_ba_session` once for every entry whose queue has a peer,
in list order, with that peer and the queue's traffic identifier, not at all
for an entry without a peer, and makes no other call. -/
theorem ba_work_empties_list {σ : Type} (ops : rtw89_tx_ops σ) (rtwdev : rtw89_tx_dev σ) :
    (rtw89_core_ba_work ops rtwdev).1.ba_list = [] ∧
    ba_session_starts (rtw89_core_ba_work ops rtwdev).2 =
      rtwdev.ba_list.filterMap
        (fun q => (rtwdev.txqs q).sta.map (fun s => (s, (rtwdev.txqs q).tid))) ∧
    (rtw89_core_ba_work ops rtwdev).2.length =
      (rtwdev.ba_list.filter (fun q => (rtwdev.txqs q).sta.isSome)).length ∧
    (∀ e ∈ (rtw89_core_ba_work ops rtwdev).2,
      ∃ s t r, e = tx_event.ieee80211_start_tx_ba_session s t r) := by
  obtain ⟨e1, e2⟩ := ba_work_walk_events ops rtwdev.ba_list rtwdev
  have hlen : ∀ l : List tx_event,
      (∀ e ∈ l, ∃ s t r, e = tx_event.ieee80211_start_tx_ba_session s t r) →
      l.length = (ba_session_starts l).length := by
    intro l
    induction l with
    | nil => intro _; rfl
    | cons e l ih =>
      intro h
      obtain ⟨s, t, r, he⟩ := h e (List.mem_cons_self _ _)
      subst he
      rw [ba_session_starts_cons_start, List.length_cons, List.length_cons,
        ih (fun x hx => h x (List.mem_cons_of_mem _ hx))]
  have hfm : ∀ l : List Nat,
      (l.filterMap (fun q => (rtwdev.txqs q).sta.map (fun s => (s, (rtwdev.txqs q).tid)))).length =
        (l.filter (fun q => (rtwdev.txqs q).sta.isSome)).length := by
    intro l
    induction l with
    | nil => rfl
    | cons q l ih =>
      rw [List.filterMap_cons, List.filter_cons]
      cases hs : (rtwdev.txqs q).sta with
      | none => simpa using ih
      | some s => simpa using ih
  refine ⟨?_, e1, ?_, e2⟩
  · unfold rtw89_core_ba_work
    rw [ba_work_walk_ba_list]
    simp
  · unfold rtw89_core_ba_work at *
    rw [hlen _ e2, e1, hfm]

theorem ba_work_walk_cons_none {σ : Type} (ops : rtw89_tx_ops σ) (q : Nat) (rest : List Nat)
    (rtwdev : rtw89_tx_dev σ) (hsta : (rtwdev.txqs q).sta = none) :
    rtw89_core_ba_work_walk ops (q :: rest) rtwdev =
      rtw89_core_ba_work_walk ops rest
        { rtwdev with ba_list := list_del_init rtwdev.ba_list q } := by
  simp only [rtw89_core_ba_work_walk, hsta]

theorem ba_work_walk_cons_some {σ : Type} (ops : rtw89_tx_ops σ) (q : Nat) (rest : List Nat)
    (rtwdev : rtw89_tx_dev σ) (sta : Nat) (hsta : (rtwdev.txqs q).sta = some sta) :
    rtw89_core_ba_work_walk ops (q :: rest) rtwdev =
      ((rtw89_core_ba_work_walk ops rest (rtw89_core_ba_work_iter ops rtwdev q sta)).1,
       tx_event.ieee80211_start_tx_ba_session sta (rtwdev.txqs q).tid
           (ops.ieee80211_start_tx_ba_session rtwdev.ext sta (rtwdev.txqs q).tid).1 ::
         (rtw89_core_ba_work_walk ops rest (rtw89_core_ba_work_iter ops rtwdev q sta)).2) := by
  simp only [rtw89_core_ba_work_walk, hsta, rtw89_core_ba_work_iter]

theorem ba_work_walk_append {σ : Type} (ops : rtw89_tx_ops σ) (l1 l2 : List Nat) :
    ∀ rtwdev : rtw89_tx_dev σ,
      rtw89_core_ba_work_walk ops (l1 ++ l2) rtwdev =
        ((rtw89_core_ba_work_walk ops l2 (rtw89_core_ba_work_walk ops l1 rtwdev).1).1,
         (rtw89_core_ba_work_walk ops l1 rtwdev).2 ++
           (rtw89_core_ba_work_walk ops l2 (rtw89_core_ba_work_walk ops l1 rtwdev).1).2) := by
  induction l1 with
  | nil => intro rtwdev; simp [rtw89_core_ba_work_walk]
  | cons q rest ih =>
    intro rtwdev
    rw [List.cons_append]
    cases hsta : (rtwdev.txqs q).sta with
    | none =>
      rw [ba_work_walk_cons_none ops q _ rtwdev hsta, ba_work_walk_cons_none ops q _ rtwdev hsta,
        ih]
    | some sta =>
      rw [ba_work_walk_cons_some ops q _ rtwdev sta hsta,
        ba_work_walk_cons_some ops q _ rtwdev sta hsta, ih]
      rfl

/-- One iteration of the loop of `rtw89_core_ba_work` on an entry whose queue
has a peer: the session start is attempted in the current state of the
collaborators, the queue's `RTW89_TXQ_F_BLOCK_BA` becomes set when the call
returns `-EINVAL` and is left as it is otherwise, and the walk goes on. -/
theorem ba_work_walk_cons_peer {σ : Type} (ops : rtw89_tx_ops σ) (q : Nat) (rest : List Nat)
    (rtwdev : rtw89_tx_dev σ) (sta : Nat) (hsta : (rtwdev.txqs q).sta = some sta)
    (hq : q ∉ rest) :
    (rtw89_core_ba_work_walk ops (q :: rest) rtwdev).2.head? =
      some (tx_event.ieee80211_start_tx_ba_session sta (rtwdev.txqs q).tid
        (ops.ieee80211_start_tx_ba_session rtwdev.ext sta (rtwdev.txqs q).tid).1) ∧
    ((rtw89_core_ba_work_walk ops (q :: rest) rtwdev).1.txqs q).RTW89_TXQ_F_BLOCK_BA =
      ((rtwdev.txqs q).RTW89_TXQ_F_BLOCK_BA ||
        decide ((ops.ieee80211_start_tx_ba_session rtwdev.ext sta (rtwdev.txqs q).tid).1 =
          -EINVAL)) := by
  rw [ba_work_walk_cons_some ops q rest rtwdev sta hsta]
  refine ⟨rfl, ?_⟩
  dsimp only
  rw [(ba_work_walk_txqs ops rest _ q).2.2.2.2.2 hq]
  unfold rtw89_core_ba_work_iter
  dsimp only
  by_cases hret : (ops.ieee80211_start_tx_ba_session rtwdev.ext sta (rtwdev.txqs q).tid).1 =
      -EINVAL
  · have hne : (ops.ieee80211_start_tx_ba_session rtwdev.ext sta (rtwdev.txqs q).tid).1 ≠ 0 := by
      rw [hret]; decide
    rw [if_pos ⟨hne, hret⟩]
    simp [rtw89_tx_dev.set_txq, hret]
  · rw [if_neg (fun h => hret h.2)]
    simp [hret]

theorem ba_work_walk_cons_no_peer {σ : Type} (ops : rtw89_tx_ops σ) (q : Nat) (rest : List Nat)
    (rtwdev : rtw89_tx_dev σ) (hsta : (rtwdev.txqs q).sta = none) (hq : q ∉ rest) :
    (rtw89_core_ba_work_walk ops (q :: rest) rtwdev).1.txqs q = rtwdev.txqs q := by
  rw [ba_work_walk_cons_none ops q rest rtwdev hsta]
  exact (ba_work_walk_txqs ops rest _ q).2.2.2.2.2 hq

/-- C23. `rtw89_core_ba_work` on a pending list without duplicates: for every
entry `q`, reached after the entries `pre` before it have been processed, the
queue's `RTW89_TXQ_F_BLOCK_BA` is set after the task exactly when it was set
before or the session start attempted for `q` returned `-EINVAL`; on success,
on any other error code and for a queue without peer the flag keeps its value.
The task changes `RTW89_TXQ_F_AMPDU` of no queue, and changes nothing of a
queue that is not on the list. -/
theorem ba_work_block_flag {σ : Type} (ops : rtw89_tx_ops σ) (rtwdev : rtw89_tx_dev σ)
    (hnd : rtwdev.ba_list.Nodup) :
    (∀ j, ((rtw89_core_ba_work ops rtwdev).1.txqs j).RTW89_TXQ_F_AMPDU =
      (rtwdev.txqs j).RTW89_TXQ_F_AMPDU) ∧
    (∀ j, j ∉ rtwdev.ba_list → (rtw89_core_ba_work ops rtwdev).1.txqs j = rtwdev.txqs j) ∧
    (∀ pre q post, rtwdev.ba_list = pre ++ q :: post →
      (∀ s, (rtwdev.txqs q).sta = some s →
        (∃ tail, (rtw89_core_ba_work ops rtwdev).2 =
          (rtw89_core_ba_work_walk ops pre rtwdev).2 ++
            tx_event.ieee80211_start_tx_ba_session s (rtwdev.txqs q).tid
              (ops.ieee80211_start_tx_ba_session (rtw89_core_ba_work_walk ops pre rtwdev).1.ext s
                (rtwdev.txqs q).tid).1 :: tail) ∧
        (((rtw89_core_ba_work ops rtwdev).1.txqs q).RTW89_TXQ_F_BLOCK_BA = true ↔
          (rtwdev.txqs q).RTW89_TXQ_F_BLOCK_BA = true ∨
          (ops.ieee80211_start_tx_ba_session (rtw89_core_ba_work_walk ops pre rtwdev).1.ext s
            (rtwdev.txqs q).tid).1 = -EINVAL)) ∧
      ((rtwdev.txqs q).sta = none →
        (rtw89_core_ba_work ops rtwdev).1.txqs q = rtwdev.txqs q)) := by
  refine ⟨fun j => (ba_work_walk_txqs ops _ rtwdev j).2.2.2.2.1,
    fun j hj => (ba_work_walk_txqs ops _ rtwdev j).2.2.2.2.2 hj, ?_⟩
  intro pre q post hl
  have hnd2 : (pre ++ q :: post).Nodup := hl ▸ hnd
  have hqpre : q ∉ pre := by
    intro h
    have := (List.nodup_append.mp hnd2).2.2
    exact this h (List.mem_cons_self _ _)
  have hqpost : q ∉ post := by
    have := (List.nodup_append.mp hnd2).2.1
    exact (List.nodup_cons.mp this).1
  have hmid : (rtw89_core_ba_work_walk ops pre rtwdev).1.txqs q = rtwdev.txqs q :=
    (ba_work_walk_txqs ops pre rtwdev q).2.2.2.2.2 hqpre
  have hw : rtw89_core_ba_work ops rtwdev =
      ((rtw89_core_ba_work_walk ops (q :: post) (rtw89_core_ba_work_walk ops pre rtwdev).1).1,
       (rtw89_core_ba_work_walk ops pre rtwdev).2 ++
         (rtw89_core_ba_work_walk ops (q :: post)
           (rtw89_core_ba_work_walk ops pre rtwdev).1).2) := by
    unfold rtw89_core_ba_work
    rw [hl, ba_work_walk_append]
  refine ⟨fun s hs => ?_, fun hs => ?_⟩
  · have hs2 : ((rtw89_core_ba_work_walk ops pre rtwdev).1.txqs q).sta = some s := by
      rw [hmid]; exact hs
    obtain ⟨c1, c2⟩ := ba_work_walk_cons_peer ops q post
      (rtw89_core_ba_work_walk ops pre rtwdev).1 s hs2 hqpost
    rw [hmid] at c1 c2
    rw [hw]
    dsimp only
    refine ⟨?_, ?_⟩
    · cases hev : (rtw89_core_ba_work_walk ops (q :: post)
          (rtw89_core_ba_work_walk ops pre rtwdev).1).2 with
      | nil => rw [hev] at c1; cases c1
      | cons e tail =>
        rw [hev] at c1
        simp only [List.head?_cons, Option.some.injEq] at c1
        exact ⟨tail, by rw [c1]⟩
    · rw [c2]
      simp
  · rw [hw]
    dsimp only
    rw [ba_work_walk_cons_no_peer ops q post _ (by rw [hmid]; exact hs) hqpost, hmid]

/-- Witness of C23: queues 0 and 1 are on the pending list; the session start
for queue 0 (traffic identifier 5) is refused with `-EINVAL`. -/
theorem ba_work_block_flag_witness :
    tx_dev_pending.ba_list.Nodup ∧
    ((rtw89_core_ba_work tx_ops_example tx_dev_pending).1.txqs 0).RTW89_TXQ_F_BLOCK_BA = true ∧
    ((rtw89_core_ba_work tx_ops_example tx_dev_pending).1.txqs 1).RTW89_TXQ_F_BLOCK_BA = false ∧
    ∀ j, ((rtw89_core_ba_work tx_ops_example tx_dev_pending).1.txqs j).RTW89_TXQ_F_AMPDU =
      (tx_dev_pending.txqs j).RTW89_TXQ_F_AMPDU :=
  ⟨by decide, by decide, by decide,
    (ba_work_block_flag tx_ops_example tx_dev_pending (by decide)).1⟩

/-! ## Purge of a peer's queues from the pending list -/

theorem free_sta_pending_ba_spec {σ : Type} (rtwdev : rtw89_tx_dev σ) (sta : Nat) :
    (rtw89_core_free_sta_pending_ba rtwdev sta).ba_list =
      rtwdev.ba_list.filter (fun q => decide ((rtwdev.txqs q).sta ≠ some sta)) ∧
    (rtw89_core_free_sta_pending_ba rtwdev sta).txqs = rtwdev.txqs := by
  unfold rtw89_core_free_sta_pending_ba
  refine ⟨?_, (free_sta_pending_ba_walk_spec sta rtwdev.ba_list rtwdev).2⟩
  rw [free_sta_pending_ba_walk_ba_list]
  apply List.filter_congr
  intro j hj
  simp [hj]

theorem free_sta_pending_ba_walk_ext {σ : Type} (sta : Nat) :
    ∀ (l : List Nat) (rtwdev : rtw89_tx_dev σ),
      (rtw89_core_free_sta_pending_ba_walk sta l rtwdev).ext = rtwdev.ext := by
  intro l
  induction l with
  | nil => intro rtwdev; rfl
  | cons q rest ih =>
    intro rtwdev
    unfold rtw89_core_free_sta_pending_ba_walk
    split
    · rw [ih]
    · rw [ih]

/-- C24. After `rtw89_core_free_sta_pending_ba` the pending list holds the
entries whose queue is not of the given peer, in their order, and only these;
the queues themselves are untouched. `rtw89_core_sta_disconnect` makes this
purge first: the firmware command `rtw89_fw_h2c_assoc_cmac_tbl` is sent in the
state the collaborators had on entry, and whatever the firmware commands
return, the device on return has the purged list and the queues as they
were. -/
theorem free_sta_pending_ba_purges {σ : Type} (rtwdev : rtw89_tx_dev σ) (sta : Nat) :
    (rtw89_core_free_sta_pending_ba rtwdev sta).ba_list =
      rtwdev.ba_list.filter (fun q => decide ((rtwdev.txqs q).sta ≠ some sta)) ∧
    (∀ q ∈ (rtw89_core_free_sta_pending_ba rtwdev sta).ba_list,
      (rtwdev.txqs q).sta ≠ some sta) ∧
    (∀ q ∈ rtwdev.ba_list, (rtwdev.txqs q).sta ≠ some sta →
      q ∈ (rtw89_core_free_sta_pending_ba rtwdev sta).ba_list) ∧
    List.Sublist (rtw89_core_free_sta_pending_ba rtwdev sta).ba_list rtwdev.ba_list ∧
    (rtw89_core_free_sta_pending_ba rtwdev sta).txqs = rtwdev.txqs ∧
    (∀ (F : rtw89_fw_ops σ) (vif : Nat),
      (rtw89_core_sta_disconnect F rtwdev vif sta).2.1.ba_list =
        rtwdev.ba_list.filter (fun q => decide ((rtwdev.txqs q).sta ≠ some sta)) ∧
      (rtw89_core_sta_disconnect F rtwdev vif sta).2.1.txqs = rtwdev.txqs ∧
      (rtw89_core_sta_disconnect F rtwdev vif sta).2.2.take 2 =
        [sta_event.rtw89_vif_type_mapping vif false,
         sta_event.rtw89_fw_h2c_assoc_cmac_tbl vif sta
           (F.rtw89_fw_h2c_assoc_cmac_tbl rtwdev.ext vif sta).1]) := by
  obtain ⟨h1, h2⟩ := free_sta_pending_ba_spec rtwdev sta
  have hext : (rtw89_core_free_sta_pending_ba rtwdev sta).ext = rtwdev.ext :=
    free_sta_pending_ba_walk_ext sta rtwdev.ba_list rtwdev
  refine ⟨h1, ?_, ?_, ?_, h2, ?_⟩
  · intro q hq
    rw [h1, List.mem_filter] at hq
    simpa using hq.2
  · intro q hq hne
    rw [h1, List.mem_filter]
    exact ⟨hq, by simpa using hne⟩
  · rw [h1]
    exact List.filter_sublist _
  · intro F vif
    unfold rtw89_core_sta_disconnect
    dsimp only
    rw [hext]
    split_ifs <;> exact ⟨h1, h2, rfl⟩

/-! ## Length of a sub-element, offset of the physical-status segment, signal levels -/

/-- C25. For a sub-element whose type code is `t`, `t` in 0..31,
`rtw89_core_get_phy_status_ie_len` returns entry `t` of the table
`physts_ie_len_tab`, which is the table of the claim, when that entry is not
`VAR_LEN` (0xff), and otherwise the declared length field times
`VAR_LEN_UNIT` (8), as a `u16`: exactly that product when it is below
65536. -/
theorem get_phy_status_ie_len_table (H : rtw89_phy_sts_h) (mem : List Nat) (addr t : Nat)
    (ht : t < 32) (htype : le32_get_bits H.RTW89_GET_PHY_STS_IE_TYPE mem addr = t) :
    physts_ie_len_tab =
      [16, 32, 24, 24, 8, 8, 8, 8, 0xff, 8, 0xff, 176, 0xff, 0xff, 0xff, 0xff, 0xff, 0xff, 16, 24,
       0xff, 0xff, 0xff, 0, 24, 24, 24, 24, 32, 32, 32, 32] ∧
    VAR_LEN = 0xff ∧ VAR_LEN_UNIT = 8 ∧
    (physts_ie_len_tab.getD t 0 ≠ 0xff →
      rtw89_core_get_phy_status_ie_len H mem addr = physts_ie_len_tab.getD t 0) ∧
    (physts_ie_len_tab.getD t 0 = 0xff →
      rtw89_core_get_phy_status_ie_len H mem addr =
        (le32_get_bits H.RTW89_GET_PHY_STS_IE_LEN mem addr * 8) % 65536 ∧
      (le32_get_bits H.RTW89_GET_PHY_STS_IE_LEN mem addr * 8 < 65536 →
        rtw89_core_get_phy_status_ie_len H mem addr =
          le32_get_bits H.RTW89_GET_PHY_STS_IE_LEN mem addr * 8)) := by
  have hmod : t % 256 = t := Nat.mod_eq_of_lt (by omega)
  have hres : rtw89_core_get_phy_status_ie_len H mem addr =
      if physts_ie_len_tab.getD t 0 ≠ 0xff then physts_ie_len_tab.getD t 0
      else (le32_get_bits H.RTW89_GET_PHY_STS_IE_LEN mem addr * 8) % 65536 := by
    unfold rtw89_core_get_phy_status_ie_len
    dsimp only
    rw [htype, hmod]
    rfl
  refine ⟨rfl, rfl, rfl, fun h => ?_, fun h => ⟨?_, fun hlt => ?_⟩⟩
  · rw [hres, if_pos h]
  · rw [hres, if_neg (not_not.mpr h)]
  · rw [hres, if_neg (not_not.mpr h)]
    exact Nat.mod_eq_of_lt hlt

/-- Witness of C25: a sub-element of type 8, a variable-length type, that
declares 3 units has length 24. -/
theorem get_phy_status_ie_len_table_witness :
    (8 : Nat) < 32 ∧
    le32_get_bits phy_sts_h_example.RTW89_GET_PHY_STS_IE_TYPE phy_sts_ie_var_len 0 = 8 ∧
    physts_ie_len_tab.getD 8 0 = 0xff ∧
    rtw89_core_get_phy_status_ie_len phy_sts_h_example phy_sts_ie_var_len 0 =
      (le32_get_bits phy_sts_h_example.RTW89_GET_PHY_STS_IE_LEN phy_sts_ie_var_len 0 * 8) %
        65536 :=
  ⟨by decide, by decide, by decide,
    ((get_phy_status_ie_len_table phy_sts_h_example phy_sts_ie_var_len 0 8 (by decide)
      (by decide)).2.2.2.2 (by decide)).1⟩

/-- The offset and length `rtw89_core_rx_process_mac_ppdu` stores: the PLCP
length enters as `plcp_size`, an 8-bit local, that is as 8 times the declared
PLCP length reduced modulo 256. -/
theorem rx_process_mac_ppdu_offset (R : rtw89_rxinfo_h) (skb : sk_buff)
    (phy_ppdu : rtw89_rx_phy_ppdu) :
    (le32_get_bits R.RTW89_GET_RXINFO_USR_NUM skb.data 0 % 256 > R.RTW89_PPDU_MAX_USR →
      rtw89_core_rx_process_mac_ppdu R skb phy_ppdu = (-EINVAL, phy_ppdu)) ∧
    (le32_get_bits R.RTW89_GET_RXINFO_USR_NUM skb.data 0 % 256 ≤ R.RTW89_PPDU_MAX_USR →
      (rtw89_core_rx_process_mac_ppdu R skb phy_ppdu).1 = 0 ∧
      (rtw89_core_rx_process_mac_ppdu R skb phy_ppdu).2.buf =
        R.RTW89_PPDU_MAC_INFO_SIZE +
          R.RTW89_PPDU_MAC_INFO_USR_SIZE *
            (le32_get_bits R.RTW89_GET_RXINFO_USR_NUM skb.data 0 % 256 +
              le32_get_bits R.RTW89_GET_RXINFO_USR_NUM skb.data 0 % 256 % 2) +
          (if le32_get_bits R.RTW89_GET_RXINFO_RX_CNT_VLD skb.data 0 ≠ 0 then
            R.RTW89_PPDU_MAC_RX_CNT_SIZE else 0) +
          (le32_get_bits R.RTW89_GET_RXINFO_PLCP_LEN skb.data 0 * 8) % 256 ∧
      (rtw89_core_rx_process_mac_ppdu R skb phy_ppdu).2.len =
        (((skb.len : Int) - ((rtw89_core_rx_process_mac_ppdu R skb phy_ppdu).2.buf : Int)) %
          2 ^ R.PHY_PPDU_LEN_BITS).toNat) := by
  refine ⟨fun h => ?_, fun h => ?_⟩
  · unfold rtw89_core_rx_process_mac_ppdu
    dsimp only
    rw [if_pos h]
  · have h2 : ¬ le32_get_bits R.RTW89_GET_RXINFO_USR_NUM skb.data 0 % 256 >
        R.RTW89_PPDU_MAX_USR := by omega
    unfold rtw89_core_rx_process_mac_ppdu
    dsimp only
    rw [if_neg h2]
    refine ⟨rfl, ?_, rfl⟩
    dsimp only
    obtain ⟨u, hu⟩ : ∃ u, u = le32_get_bits R.RTW89_GET_RXINFO_USR_NUM skb.data 0 % 256 :=
      ⟨_, rfl⟩
    rw [← hu]
    have hpar : u % 2 = 0 ∨ u % 2 = 1 := by omega
    rcases hpar with hp | hp
    · have h01 : ¬ (0 : Nat) = 1 := by decide
      by_cases hc : le32_get_bits R.RTW89_GET_RXINFO_RX_CNT_VLD skb.data 0 ≠ 0
      · simp only [hp, h01, hc, if_true, if_false, ne_eq, not_false_eq_true]
        ring
      · simp only [hp, h01, hc, if_true, if_false, ne_eq, not_false_eq_true]
        ring
    · by_cases hc : le32_get_bits R.RTW89_GET_RXINFO_RX_CNT_VLD skb.data 0 ≠ 0
      · simp only [hp, hc, if_true, if_false, ne_eq, not_false_eq_true]
        ring
      · simp only [hp, hc, if_true, if_false, ne_eq, not_false_eq_true]
        ring

set_option maxRecDepth 8000 in
/-- C26 does not hold of the code. The report `rx_skb_plcp_32` declares no
user, no receive-count block and a PLCP length of 32 units, so that the
physical-status segment starts at offset 8 + 8 x 32 = 264 and is 36 bytes
long; `rtw89_core_rx_process_mac_ppdu` stores the offset 8 and the length
292. -/
theorem rx_process_mac_ppdu_plcp_wraps :
    rx_skb_plcp_32.len = 300 ∧
    le32_get_bits rxinfo_h_example.RTW89_GET_RXINFO_USR_NUM rx_skb_plcp_32.data 0 = 0 ∧
    le32_get_bits rxinfo_h_example.RTW89_GET_RXINFO_RX_CNT_VLD rx_skb_plcp_32.data 0 = 0 ∧
    le32_get_bits rxinfo_h_example.RTW89_GET_RXINFO_PLCP_LEN rx_skb_plcp_32.data 0 = 32 ∧
    (rtw89_core_rx_process_mac_ppdu rxinfo_h_example rx_skb_plcp_32 {}).1 = 0 ∧
    (rtw89_core_rx_process_mac_ppdu rxinfo_h_example rx_skb_plcp_32 {}).2.buf = 8 ∧
    (rtw89_core_rx_process_mac_ppdu rxinfo_h_example rx_skb_plcp_32 {}).2.len = 292 ∧
    (rtw89_core_rx_process_mac_ppdu rxinfo_h_example rx_skb_plcp_32 {}).2.buf ≠
      rxinfo_h_example.RTW89_PPDU_MAC_INFO_SIZE +
        rxinfo_h_example.RTW89_PPDU_MAC_INFO_USR_SIZE * 0 + 0 +
        8 * le32_get_bits rxinfo_h_example.RTW89_GET_RXINFO_PLCP_LEN rx_skb_plcp_32.data 0 := by
  decide

theorem s8_of_range (x : Int) (h1 : -128 ≤ x) (h2 : x ≤ 127) : s8 x = x := by
  unfold s8
  omega

theorem update_phy_ppdu_path (raw maxr : Nat) (hraw : raw < 256) (hmax : maxr ≤ 128) :
    s8 (s8 ((raw / 2 : Nat) : Int) - (maxr : Int)) = ((raw / 2 : Nat) : Int) - (maxr : Int) ∧
    -128 ≤ ((raw / 2 : Nat) : Int) - (maxr : Int) ∧
    ((raw / 2 : Nat) : Int) - (maxr : Int) ≤ 127 := by
  have h1 : s8 ((raw / 2 : Nat) : Int) = ((raw / 2 : Nat) : Int) :=
    s8_of_range _ (by omega) (by omega)
  rw [h1]
  exact ⟨s8_of_range _ (by omega) (by omega), by omega, by omega⟩

/-- C27. When the raw fields are 8 bits wide and `MAX_RSSI` is at most 128,
`rtw89_core_update_phy_ppdu` stores for each of the paths A to D the signed
level `(raw >> 1) - MAX_RSSI`, which lies within the range of `s8`, and stores
the average as the raw field value; the other fields of the report record are
unchanged. -/
theorem update_phy_ppdu_levels (H : rtw89_phy_sts_h) (skb : sk_buff)
    (phy_ppdu : rtw89_rx_phy_ppdu) (hmax : H.MAX_RSSI ≤ 128)
    (havg : le32_get_bits H.RTW89_GET_PHY_STS_RSSI_AVG skb.data phy_ppdu.buf < 256)
    (hraw : ∀ f ∈ [H.RTW89_GET_PHY_STS_RSSI_A, H.RTW89_GET_PHY_STS_RSSI_B,
      H.RTW89_GET_PHY_STS_RSSI_C, H.RTW89_GET_PHY_STS_RSSI_D],
      le32_get_bits f skb.data phy_ppdu.buf < 256) :
    (rtw89_core_update_phy_ppdu H skb phy_ppdu).rssi =
      [H.RTW89_GET_PHY_STS_RSSI_A, H.RTW89_GET_PHY_STS_RSSI_B, H.RTW89_GET_PHY_STS_RSSI_C,
       H.RTW89_GET_PHY_STS_RSSI_D].map
        (fun f => ((le32_get_bits f skb.data phy_ppdu.buf / 2 : Nat) : Int) -
          (H.MAX_RSSI : Int)) ∧
    (∀ x ∈ (rtw89_core_update_phy_ppdu H skb phy_ppdu).rssi, -128 ≤ x ∧ x ≤ 127) ∧
    (rtw89_core_update_phy_ppdu H skb phy_ppdu).rssi_avg =
      le32_get_bits H.RTW89_GET_PHY_STS_RSSI_AVG skb.data phy_ppdu.buf ∧
    (rtw89_core_update_phy_ppdu H skb phy_ppdu).buf = phy_ppdu.buf ∧
    (rtw89_core_update_phy_ppdu H skb phy_ppdu).len = phy_ppdu.len ∧
    (rtw89_core_update_phy_ppdu H skb phy_ppdu).valid = phy_ppdu.valid := by
  have ha := update_phy_ppdu_path _ _ (hraw H.RTW89_GET_PHY_STS_RSSI_A (by simp)) hmax
  have hb := update_phy_ppdu_path _ _ (hraw H.RTW89_GET_PHY_STS_RSSI_B (by simp)) hmax
  have hc := update_phy_ppdu_path _ _ (hraw H.RTW89_GET_PHY_STS_RSSI_C (by simp)) hmax
  have hd := update_phy_ppdu_path _ _ (hraw H.RTW89_GET_PHY_STS_RSSI_D (by simp)) hmax
  have hr : (rtw89_core_update_phy_ppdu H skb phy_ppdu).rssi =
      [H.RTW89_GET_PHY_STS_RSSI_A, H.RTW89_GET_PHY_STS_RSSI_B, H.RTW89_GET_PHY_STS_RSSI_C,
       H.RTW89_GET_PHY_STS_RSSI_D].map
        (fun f => ((le32_get_bits f skb.data phy_ppdu.buf / 2 : Nat) : Int) -
          (H.MAX_RSSI : Int)) := by
    unfold rtw89_core_update_phy_ppdu
    dsimp only
    rw [ha.1, hb.1, hc.1, hd.1]
    rfl
  refine ⟨hr, ?_, ?_, rfl, rfl, rfl⟩
  · rw [hr]
    intro x hx
    simp only [List.map_cons, List.map_nil, List.mem_cons, List.mem_singleton,
      List.not_mem_nil, or_false] at hx
    rcases hx with hx | hx | hx | hx
    · rw [hx]; exact ha.2
    · rw [hx]; exact hb.2
    · rw [hx]; exact hc.2
    · rw [hx]; exact hd.2
  · unfold rtw89_core_update_phy_ppdu
    dsimp only
    exact Nat.mod_eq_of_lt havg

/-- Witness of C27: raw levels 120, 130, 0 and 255 with `MAX_RSSI` 110 give
-50, -45, -110 and 17. -/
theorem update_phy_ppdu_levels_witness :
    phy_sts_h_example.MAX_RSSI ≤ 128 ∧
    (rtw89_core_update_phy_ppdu phy_sts_h_example rx_skb_rssi {}).rssi = [-50, -45, -110, 17] ∧
    (rtw89_core_update_phy_ppdu phy_sts_h_example rx_skb_rssi {}).rssi_avg = 100 ∧
    ∀ x ∈ (rtw89_core_update_phy_ppdu phy_sts_h_example rx_skb_rssi {}).rssi,
      -128 ≤ x ∧ x ≤ 127 :=
  ⟨by decide, by decide, by decide,
    (update_phy_ppdu_levels phy_sts_h_example rx_skb_rssi {} (by decide) (by decide)
      (by decide)).2.1⟩

/-! ## Transmit request of each frame kind -/

theorem get_tx_type_mgmt (C : rtw89_tx_consts) (skb : tx_skb)
    (hfc : ieee80211_is_mgmt (le16_at skb.data 0) = true ∨
      ieee80211_is_nullfunc (le16_at skb.data 0) = true) :
    rtw89_core_get_tx_type C skb = C.RTW89_CORE_TX_TYPE_MGMT := by
  unfold rtw89_core_get_tx_type
  dsimp only
  rw [if_pos (by simpa using hfc)]

/-- C28. For a zero-initialised request that is not a firmware command and
whose frame control is that of a management frame or of a null-function frame,
`rtw89_core_tx_update_desc_info` sets the type `RTW89_CORE_TX_TYPE_MGMT` and
leaves the descriptor info with `qsel = RTW89_TX_QSEL_B0_MGMT`, `ch_dma` the
channel `rtw89_core_get_ch_dma` gives for that queue (both through `u8`
locals), `en_wd_info`, `use_rate` and `dis_data_fb` true and `data_rate` 0;
besides the sequence number, the size, `is_bmc` and `wd_page` every other
field, in particular the aggregation and security attributes, stays
cleared. -/
theorem tx_update_desc_info_mgmt {σ : Type} (C : rtw89_tx_consts) (P : rtw89_tx_peers)
    (ops : rtw89_tx_ops σ) (tx_req : rtw89_core_tx_request)
    (hzero : tx_req.desc_info = {})
    (hnf : tx_req.tx_type ≠ C.RTW89_CORE_TX_TYPE_FWCMD)
    (hfc : ieee80211_is_mgmt (le16_at tx_req.skb.data 0) = true ∨
      ieee80211_is_nullfunc (le16_at tx_req.skb.data 0) = true) :
    (rtw89_core_tx_update_desc_info C P ops tx_req).tx_type = C.RTW89_CORE_TX_TYPE_MGMT ∧
    (rtw89_core_tx_update_desc_info C P ops tx_req).desc_info =
      { seq := (le16_at tx_req.skb.data hdr_seq_ctrl &&& IEEE80211_SCTL_SEQ) >>> 4
        pkt_size := tx_req.skb.data.length
        is_bmc := is_broadcast_ether_addr tx_req.skb.data hdr_addr1 ||
          is_multicast_ether_addr tx_req.skb.data hdr_addr1
        wd_page := true
        qsel := C.RTW89_TX_QSEL_B0_MGMT
        ch_dma := ops.rtw89_core_get_ch_dma (C.RTW89_TX_QSEL_B0_MGMT % 256) % 256
        en_wd_info := true
        use_rate := true
        dis_data_fb := true
        data_rate := 0 } ∧
    (C.RTW89_TX_QSEL_B0_MGMT < 256 → ops.rtw89_core_get_ch_dma C.RTW89_TX_QSEL_B0_MGMT < 256 →
      (rtw89_core_tx_update_desc_info C P ops tx_req).desc_info.ch_dma =
        ops.rtw89_core_get_ch_dma C.RTW89_TX_QSEL_B0_MGMT) ∧
    (rtw89_core_tx_update_desc_info C P ops tx_req).desc_info.agg_en = false ∧
    (rtw89_core_tx_update_desc_info C P ops tx_req).desc_info.sec_en = false := by
  have hres : rtw89_core_tx_update_desc_info C P ops tx_req =
      rtw89_core_tx_update_mgmt_info C ops
        { tx_req with
          tx_type := C.RTW89_CORE_TX_TYPE_MGMT
          desc_info :=
            { seq := (le16_at tx_req.skb.data hdr_seq_ctrl &&& IEEE80211_SCTL_SEQ) >>> 4
              pkt_size := tx_req.skb.data.length
              is_bmc := is_broadcast_ether_addr tx_req.skb.data hdr_addr1 ||
                is_multicast_ether_addr tx_req.skb.data hdr_addr1
              wd_page := true } } := by
    unfold rtw89_core_tx_update_desc_info
    dsimp only
    rw [if_pos hnf]
    dsimp only
    rw [get_tx_type_mgmt C tx_req.skb hfc, if_pos rfl, hzero]
  rw [hres]
  refine ⟨rfl, rfl, fun h1 h2 => ?_, rfl, rfl⟩
  show ops.rtw89_core_get_ch_dma (C.RTW89_TX_QSEL_B0_MGMT % 256) % 256 = _
  rw [Nat.mod_eq_of_lt h1, Nat.mod_eq_of_lt h2]

/-- Witness of C28: the request `rtw89_core_tx_write` builds for a beacon. -/
theorem tx_update_desc_info_mgmt_witness :
    ieee80211_is_mgmt (le16_at tx_skb_beacon.data 0) = true ∧
    (rtw89_core_tx_write_request tx_consts_example tx_peers_example tx_ops_example 0 none
      tx_skb_beacon).tx_type = tx_consts_example.RTW89_CORE_TX_TYPE_MGMT ∧
    (rtw89_core_tx_write_request tx_consts_example tx_peers_example tx_ops_example 0 none
      tx_skb_beacon).desc_info.qsel = 18 :=
  ⟨by decide,
    (tx_update_desc_info_mgmt tx_consts_example tx_peers_example tx_ops_example
      { skb := tx_skb_beacon, sta := none, vif := some 0 } rfl (by decide)
      (Or.inl (by decide))).1,
    by decide⟩

/-- C29. For a request of type `RTW89_CORE_TX_TYPE_FWCMD`, zero-initialised but
for `fw_dl`, `rtw89_core_tx_update_desc_info` keeps the type whatever the
bytes of the frame are, and leaves the descriptor info with `ch_dma =
RTW89_DMA_H2C`, `is_bmc` and `wd_page` false, and `agg_en`, `sec_en` and
`en_wd_info` false; besides the sequence number and the size every other
field stays as it was. The three type constants are distinct, as the case
labels of one `switch`. -/
theorem tx_update_desc_info_fwcmd {σ : Type} (C : rtw89_tx_consts) (P : rtw89_tx_peers)
    (ops : rtw89_tx_ops σ) (tx_req : rtw89_core_tx_request) (fwdl : Bool)
    (hzero : tx_req.desc_info = { fw_dl := fwdl })
    (hty : tx_req.tx_type = C.RTW89_CORE_TX_TYPE_FWCMD)
    (hdist : C.RTW89_CORE_TX_TYPE_FWCMD ≠ C.RTW89_CORE_TX_TYPE_MGMT ∧
      C.RTW89_CORE_TX_TYPE_FWCMD ≠ C.RTW89_CORE_TX_TYPE_DATA) :
    (rtw89_core_tx_update_desc_info C P ops tx_req).tx_type = C.RTW89_CORE_TX_TYPE_FWCMD ∧
    (rtw89_core_tx_update_desc_info C P ops tx_req).desc_info =
      { seq := (le16_at tx_req.skb.data hdr_seq_ctrl &&& IEEE80211_SCTL_SEQ) >>> 4
        pkt_size := tx_req.skb.data.length
        is_bmc := false
        wd_page := false
        ch_dma := C.RTW89_DMA_H2C
        fw_dl := fwdl } ∧
    (rtw89_core_tx_update_desc_info C P ops tx_req).desc_info.agg_en = false ∧
    (rtw89_core_tx_update_desc_info C P ops tx_req).desc_info.sec_en = false ∧
    (rtw89_core_tx_update_desc_info C P ops tx_req).desc_info.en_wd_info = false := by
  have hres : rtw89_core_tx_update_desc_info C P ops tx_req =
      rtw89_core_tx_update_h2c_info C
        { tx_req with
          desc_info :=
            { seq := (le16_at tx_req.skb.data hdr_seq_ctrl &&& IEEE80211_SCTL_SEQ) >>> 4
              pkt_size := tx_req.skb.data.length
              is_bmc := is_broadcast_ether_addr tx_req.skb.data hdr_addr1 ||
                is_multicast_ether_addr tx_req.skb.data hdr_addr1
              wd_page := true
              fw_dl := fwdl } } := by
    unfold rtw89_core_tx_update_desc_info
    dsimp only
    rw [if_neg (not_not.mpr hty)]
    rw [hty, if_neg hdist.1, if_neg hdist.2, if_pos rfl, hzero]
  rw [hres]
  exact ⟨hty, rfl, rfl, rfl, rfl⟩

/-- Witness of C29: the request `rtw89_h2c_tx` builds for a firmware download
whose bytes happen to be those of a broadcast data frame. -/
theorem tx_update_desc_info_fwcmd_witness :
    (tx_consts_example.RTW89_CORE_TX_TYPE_FWCMD ≠ tx_consts_example.RTW89_CORE_TX_TYPE_MGMT ∧
      tx_consts_example.RTW89_CORE_TX_TYPE_FWCMD ≠ tx_consts_example.RTW89_CORE_TX_TYPE_DATA) ∧
    (rtw89_h2c_tx_request tx_consts_example tx_peers_example tx_ops_example tx_skb_broadcast
      true).tx_type = tx_consts_example.RTW89_CORE_TX_TYPE_FWCMD ∧
    (rtw89_h2c_tx_request tx_consts_example tx_peers_example tx_ops_example tx_skb_broadcast
      true).desc_info.is_bmc = false :=
  ⟨by decide,
    (tx_update_desc_info_fwcmd tx_consts_example tx_peers_example tx_ops_example
      { skb := tx_skb_broadcast, tx_type := tx_consts_example.RTW89_CORE_TX_TYPE_FWCMD
        desc_info := { fw_dl := true } } true rfl rfl (by decide)).1,
    by decide⟩

theorem tx_update_sec_key_agg (C : rtw89_tx_consts) (P : rtw89_tx_peers)
    (tx_req : rtw89_core_tx_request) (key : ieee80211_key_conf) :
    (rtw89_core_tx_update_sec_key C P tx_req key).desc_info.agg_en = tx_req.desc_info.agg_en ∧
    (rtw89_core_tx_update_sec_key C P tx_req key).desc_info.ampdu_density =
      tx_req.desc_info.ampdu_density ∧
    (rtw89_core_tx_update_sec_key C P tx_req key).desc_info.ampdu_num =
      tx_req.desc_info.ampdu_num := by
  unfold rtw89_core_tx_update_sec_key
  split
  · exact ⟨rfl, rfl, rfl⟩
  · split
    · exact ⟨rfl, rfl, rfl⟩
    · split <;> exact ⟨rfl, rfl, rfl⟩

/-- The aggregation attributes after `rtw89_core_tx_update_data_info`. -/
theorem tx_update_data_info_agg {σ : Type} (C : rtw89_tx_consts) (P : rtw89_tx_peers)
    (ops : rtw89_tx_ops σ) (tx_req : rtw89_core_tx_request) :
    (tx_req.skb.flags &&& IEEE80211_TX_CTL_AMPDU ≠ 0 → ∀ s, tx_req.sta = some s →
      (rtw89_core_tx_update_data_info C P ops tx_req).desc_info.agg_en = true ∧
      (rtw89_core_tx_update_data_info C P ops tx_req).desc_info.ampdu_density =
        P.ampdu_density s ∧
      (rtw89_core_tx_update_data_info C P ops tx_req).desc_info.ampdu_num =
        u8 (((if P.agg_num s ((tx_req.skb.priority &&& IEEE80211_QOS_CTL_TAG1D_MASK) % 256) ≠ 0
              then P.agg_num s ((tx_req.skb.priority &&& IEEE80211_QOS_CTL_TAG1D_MASK) % 256)
              else 4 <<< P.ampdu_factor s : Nat) : Int) - 1)) ∧
    (¬ (tx_req.skb.flags &&& IEEE80211_TX_CTL_AMPDU ≠ 0 ∧ tx_req.sta ≠ none) →
      (rtw89_core_tx_update_data_info C P ops tx_req).desc_info.agg_en =
        tx_req.desc_info.agg_en ∧
      (rtw89_core_tx_update_data_info C P ops tx_req).desc_info.ampdu_density =
        tx_req.desc_info.ampdu_density ∧
      (rtw89_core_tx_update_data_info C P ops tx_req).desc_info.ampdu_num =
        tx_req.desc_info.ampdu_num) := by
  refine ⟨fun hf s hs => ?_, fun hn => ?_⟩
  · unfold rtw89_core_tx_update_data_info
    dsimp only
    rw [if_pos hf]
    have ha : ∀ r : rtw89_core_tx_request, r.sta = some s →
        (rtw89_core_tx_update_ampdu_info P r
          ((tx_req.skb.priority &&& IEEE80211_QOS_CTL_TAG1D_MASK) % 256)).desc_info.agg_en = true ∧
        (rtw89_core_tx_update_ampdu_info P r
          ((tx_req.skb.priority &&& IEEE80211_QOS_CTL_TAG1D_MASK) % 256)).desc_info.ampdu_density =
          P.ampdu_density s ∧
        (rtw89_core_tx_update_ampdu_info P r
          ((tx_req.skb.priority &&& IEEE80211_QOS_CTL_TAG1D_MASK) % 256)).desc_info.ampdu_num =
          u8 (((if P.agg_num s ((tx_req.skb.priority &&& IEEE80211_QOS_CTL_TAG1D_MASK) % 256) ≠ 0
              then P.agg_num s ((tx_req.skb.priority &&& IEEE80211_QOS_CTL_TAG1D_MASK) % 256)
              else 4 <<< P.ampdu_factor s : Nat) : Int) - 1) := by
      intro r hr
      unfold rtw89_core_tx_update_ampdu_info
      rw [hr]
      exact ⟨rfl, rfl, rfl⟩
    split
    · rename_i key _
      obtain ⟨k1, k2, k3⟩ := tx_update_sec_key_agg C P
        (rtw89_core_tx_update_ampdu_info P
          { tx_req with
            desc_info := { tx_req.desc_info with
                           ch_dma := ops.rtw89_core_get_ch_dma (ops.rtw89_core_get_qsel
                             ((tx_req.skb.priority &&& IEEE80211_QOS_CTL_TAG1D_MASK) % 256) % 256) %
                             256
                           tid_indicate := C.rtw89_core_get_tid_indicate
                             ((tx_req.skb.priority &&& IEEE80211_QOS_CTL_TAG1D_MASK) % 256) % 256
                           qsel := ops.rtw89_core_get_qsel
                             ((tx_req.skb.priority &&& IEEE80211_QOS_CTL_TAG1D_MASK) % 256) % 256
                           en_wd_info := true } }
          ((tx_req.skb.priority &&& IEEE80211_QOS_CTL_TAG1D_MASK) % 256)) key
      rw [k1, k2, k3]
      exact ha _ hs
    · exact ha _ hs
  · unfold rtw89_core_tx_update_data_info
    dsimp only
    have hb : ∀ r : rtw89_core_tx_request, r.sta = tx_req.sta →
        r.desc_info.agg_en = tx_req.desc_info.agg_en →
        r.desc_info.ampdu_density = tx_req.desc_info.ampdu_density →
        r.desc_info.ampdu_num = tx_req.desc_info.ampdu_num →
        ((if tx_req.skb.flags &&& IEEE80211_TX_CTL_AMPDU ≠ 0 then
            rtw89_core_tx_update_ampdu_info P r
              ((tx_req.skb.priority &&& IEEE80211_QOS_CTL_TAG1D_MASK) % 256)
          else r).desc_info.agg_en = tx_req.desc_info.agg_en ∧
         (if tx_req.skb.flags &&& IEEE80211_TX_CTL_AMPDU ≠ 0 then
            rtw89_core_tx_update_ampdu_info P r
              ((tx_req.skb.priority &&& IEEE80211_QOS_CTL_TAG1D_MASK) % 256)
          else r).desc_info.ampdu_density = tx_req.desc_info.ampdu_density ∧
         (if tx_req.skb.flags &&& IEEE80211_TX_CTL_AMPDU ≠ 0 then
            rtw89_core_tx_update_ampdu_info P r
              ((tx_req.skb.priority &&& IEEE80211_QOS_CTL_TAG1D_MASK) % 256)
          else r).desc_info.ampdu_num = tx_req.desc_info.ampdu_num) := by
      intro r hr h1 h2 h3
      by_cases hf : tx_req.skb.flags &&& IEEE80211_TX_CTL_AMPDU ≠ 0
      · rw [if_pos hf]
        have hsta : tx_req.sta = none := by
          by_contra hne
          exact hn ⟨hf, hne⟩
        unfold rtw89_core_tx_update_ampdu_info
        rw [hr, hsta]
        exact ⟨h1, h2, h3⟩
      · rw [if_neg hf]
        exact ⟨h1, h2, h3⟩
    split
    · rename_i key _
      obtain ⟨k1, k2, k3⟩ := tx_update_sec_key_agg C P
        (if tx_req.skb.flags &&& IEEE80211_TX_CTL_AMPDU ≠ 0 then
          rtw89_core_tx_update_ampdu_info P
            { tx_req with
              desc_info := { tx_req.desc_info with
                             ch_dma := ops.rtw89_core_get_ch_dma (ops.rtw89_core_get_qsel
                               ((tx_req.skb.priority &&& IEEE80211_QOS_CTL_TAG1D_MASK) % 256) %
                               256) % 256
                             tid_indicate := C.rtw89_core_get_tid_indicate
                               ((tx_req.skb.priority &&& IEEE80211_QOS_CTL_TAG1D_MASK) % 256) % 256
                             qsel := ops.rtw89_core_get_qsel
                               ((tx_req.skb.priority &&& IEEE80211_QOS_CTL_TAG1D_MASK) % 256) % 256
                             en_wd_info := true } }
            ((tx_req.skb.priority &&& IEEE80211_QOS_CTL_TAG1D_MASK) % 256)
         else
            { tx_req with
              desc_info := { tx_req.desc_info with
                             ch_dma := ops.rtw89_core_get_ch_dma (ops.rtw89_core_get_qsel
                               ((tx_req.skb.priority &&& IEEE80211_QOS_CTL_TAG1D_MASK) % 256) %
                               256) % 256
                             tid_indicate := C.rtw89_core_get_tid_indicate
                               ((tx_req.skb.priority &&& IEEE80211_QOS_CTL_TAG1D_MASK) % 256) % 256
                             qsel := ops.rtw89_core_get_qsel
                               ((tx_req.skb.priority &&& IEEE80211_QOS_CTL_TAG1D_MASK) % 256) % 256
                             en_wd_info := true } }) key
      rw [k1, k2, k3]
      exact hb _ rfl rfl rfl rfl
    · exact hb _ rfl rfl rfl rfl

theorem u8_pred (x : Nat) (hx : 1 ≤ x) : u8 ((x : Int) - 1) = (x - 1) % 256 := by
  unfold u8
  omega

/-- C30. For a data frame whose request has the aggregation attributes
cleared, after `rtw89_core_tx_update_data_info` `agg_en` is true exactly when
the frame carries `IEEE80211_TX_CTL_AMPDU` and the request has a peer. In that
case `ampdu_density` is the peer's `ht_cap.ampdu_density` and `ampdu_num` is
the peer's `agg_num` for the frame's traffic identifier when that is not 0,
else `4 << ampdu_factor`, minus 1 and reduced modulo 256; otherwise `agg_en`
is false and `ampdu_density` and `ampdu_num` are 0. -/
theorem tx_update_data_info_ampdu {σ : Type} (C : rtw89_tx_consts) (P : rtw89_tx_peers)
    (ops : rtw89_tx_ops σ) (tx_req : rtw89_core_tx_request)
    (hz : tx_req.desc_info.agg_en = false ∧ tx_req.desc_info.ampdu_density = 0 ∧
      tx_req.desc_info.ampdu_num = 0) :
    ((rtw89_core_tx_update_data_info C P ops tx_req).desc_info.agg_en = true ↔
      (tx_req.skb.flags &&& IEEE80211_TX_CTL_AMPDU ≠ 0 ∧ tx_req.sta ≠ none)) ∧
    (tx_req.skb.flags &&& IEEE80211_TX_CTL_AMPDU ≠ 0 → ∀ s, tx_req.sta = some s →
      (rtw89_core_tx_update_data_info C P ops tx_req).desc_info.ampdu_density =
        P.ampdu_density s ∧
      (rtw89_core_tx_update_data_info C P ops tx_req).desc_info.ampdu_num =
        ((if P.agg_num s ((tx_req.skb.priority &&& IEEE80211_QOS_CTL_TAG1D_MASK) % 256) ≠ 0
          then P.agg_num s ((tx_req.skb.priority &&& IEEE80211_QOS_CTL_TAG1D_MASK) % 256)
          else 4 <<< P.ampdu_factor s) - 1) % 256) ∧
    (¬ (tx_req.skb.flags &&& IEEE80211_TX_CTL_AMPDU ≠ 0 ∧ tx_req.sta ≠ none) →
      (rtw89_core_tx_update_data_info C P ops tx_req).desc_info.agg_en = false ∧
      (rtw89_core_tx_update_data_info C P ops tx_req).desc_info.ampdu_density = 0 ∧
      (rtw89_core_tx_update_data_info C P ops tx_req).desc_info.ampdu_num = 0) := by
  obtain ⟨z1, z2, z3⟩ := hz
  obtain ⟨a1, a2⟩ := tx_update_data_info_agg C P ops tx_req
  have hoff : ¬ (tx_req.skb.flags &&& IEEE80211_TX_CTL_AMPDU ≠ 0 ∧ tx_req.sta ≠ none) →
      (rtw89_core_tx_update_data_info C P ops tx_req).desc_info.agg_en = false ∧
      (rtw89_core_tx_update_data_info C P ops tx_req).desc_info.ampdu_density = 0 ∧
      (rtw89_core_tx_update_data_info C P ops tx_req).desc_info.ampdu_num = 0 := by
    intro hn
    obtain ⟨b1, b2, b3⟩ := a2 hn
    exact ⟨b1.trans z1, b2.trans z2, b3.trans z3⟩
  refine ⟨⟨fun h => ?_, fun h => ?_⟩, fun hf s hs => ?_, hoff⟩
  · by_contra hn
    rw [(hoff hn).1] at h
    cases h
  · obtain ⟨hf, hs⟩ := h
    cases hsta : tx_req.sta with
    | none => exact absurd hsta hs
    | some s => exact (a1 hf s hsta).1
  · obtain ⟨_, c2, c3⟩ := a1 hf s hs
    refine ⟨c2, ?_⟩
    rw [c3]
    apply u8_pred
    split_ifs with hg
    · omega
    · have : 4 <<< P.ampdu_factor s = 4 * 2 ^ P.ampdu_factor s := Nat.shiftLeft_eq _ _
      rw [this]
      have : 0 < 2 ^ P.ampdu_factor s := Nat.two_pow_pos _
      omega

/-- Witness of C30: a frame flagged `IEEE80211_TX_CTL_AMPDU` to peer 7, whose
aggregation size is not agreed and whose `ampdu_factor` is 3: `ampdu_num` is
`(4 << 3) - 1 = 31`. -/
theorem tx_update_data_info_ampdu_witness :
    (rtw89_core_tx_update_data_info tx_consts_example tx_peers_example tx_ops_example
      { skb := tx_skb_ampdu, sta := some 7, vif := some 0 }).desc_info.agg_en = true ∧
    (rtw89_core_tx_update_data_info tx_consts_example tx_peers_example tx_ops_example
      { skb := tx_skb_ampdu, sta := some 7, vif := some 0 }).desc_info.ampdu_num = 31 ∧
    ((rtw89_core_tx_update_data_info tx_consts_example tx_peers_example tx_ops_example
      { skb := tx_skb_ampdu, sta := some 7, vif := some 0 }).desc_info.agg_en = true ↔
      (tx_skb_ampdu.flags &&& IEEE80211_TX_CTL_AMPDU ≠ 0 ∧ (some 7 : Option Nat) ≠ none)) :=
  ⟨by decide, by decide,
    (tx_update_data_info_ampdu tx_consts_example tx_peers_example tx_ops_example
      { skb := tx_skb_ampdu, sta := some 7, vif := some 0 } ⟨rfl, rfl, rfl⟩).1⟩

/-! ## Reports above the epoch ceiling -/

/-- C33. For every physical-status report that arrives while the epoch
recorded for its path is above `RTW89_MAX_PPDU_CNT`,
`rtw89_core_rx_pending_skb` returns at once: no frame is delivered (the loop
that matches and delivers is not entered) and the device state, with the
reassembly queue of the path, is as before; the whole call
`rtw89_core_rx_process_ppdu_sts` then delivers no frame and leaves the device
state unchanged. The epoch 255 that `rtw89_core_ppdu_sts_init` records for
both paths is such an epoch whenever `RTW89_MAX_PPDU_CNT` is below 255. -/
theorem rx_pending_skb_above_ceiling (E : rtw89_rx_env) (rtwdev : rtw89_dev)
    (phy_ppdu : rtw89_rx_phy_ppdu) (desc_info : rtw89_rx_desc_info) (skb : sk_buff)
    (hgt : rtwdev.ppdu_sts.curr_rx_ppdu_cnt.get (rx_band desc_info) > E.C.RTW89_MAX_PPDU_CNT) :
    rtw89_core_rx_pending_skb E rtwdev phy_ppdu desc_info = (rtwdev, []) ∧
    (rtw89_core_rx_pending_skb E rtwdev phy_ppdu desc_info).1.ppdu_sts.rx_queue.get
        (rx_band desc_info) = rtwdev.ppdu_sts.rx_queue.get (rx_band desc_info) ∧
    (rtw89_core_rx_process_ppdu_sts E rtwdev desc_info skb).1 = rtwdev ∧
    rx_delivered (rtw89_core_rx_process_ppdu_sts E rtwdev desc_info skb).2 = [] ∧
    (E.C.RTW89_MAX_PPDU_CNT < 255 →
      ∀ band, rtw89_core_ppdu_sts_init.curr_rx_ppdu_cnt.get band > E.C.RTW89_MAX_PPDU_CNT) := by
  have h1 : ∀ p, rtw89_core_rx_pending_skb E rtwdev p desc_info = (rtwdev, []) := by
    intro p
    unfold rtw89_core_rx_pending_skb
    simp only [hgt, if_true]
  refine ⟨h1 _, by rw [h1], ?_, ?_, ?_⟩
  · unfold rtw89_core_rx_process_ppdu_sts
    simp only [h1]
  · unfold rtw89_core_rx_process_ppdu_sts
    simp only [h1, rx_delivered_append, rx_delivered_process_phy_ppdu,
      rx_delivered_process_phy_sts, List.append_nil, List.nil_append, rx_delivered]
  · intro hlt band
    cases band <;> exact hlt

theorem rx_pending_skb_above_ceiling_witness :
    rtw89_dev_init.ppdu_sts.curr_rx_ppdu_cnt.get (rx_band rx_input_report.desc_info) >
      rx_env_example.C.RTW89_MAX_PPDU_CNT ∧
    rtw89_core_rx_pending_skb rx_env_example rtw89_dev_init {} rx_input_report.desc_info =
      (rtw89_dev_init, []) ∧
    (rtw89_core_rx_process_ppdu_sts rx_env_example rtw89_dev_init rx_input_report.desc_info
      rx_input_report.skb).1 = rtw89_dev_init :=
  ⟨by decide,
    (rx_pending_skb_above_ceiling rx_env_example rtw89_dev_init {} rx_input_report.desc_info
      rx_input_report.skb (by decide)).1,
    (rx_pending_skb_above_ceiling rx_env_example rtw89_dev_init {} rx_input_report.desc_info
      rx_input_report.skb (by decide)).2.2.1⟩

/-! ## Malformed reports -/

/-- The call `rtw89_core_rx_process_ppdu_sts` ends with
`rtw89_core_rx_pending_skb` on the unchanged device state, with the record
`rx_report_phy_ppdu`, and with the release of the report; the steps before
deliver no frame. -/
theorem rx_process_ppdu_sts_shape (E : rtw89_rx_env) (rtwdev : rtw89_dev)
    (desc_info : rtw89_rx_desc_info) (skb : sk_buff) :
    rtw89_core_rx_process_ppdu_sts E rtwdev desc_info skb =
      ((rtw89_core_rx_pending_skb E rtwdev (rx_report_phy_ppdu E desc_info skb) desc_info).1,
       (rtw89_core_rx_process_phy_ppdu E.H skb (rx_report_mac_ppdu E desc_info skb)).2.2 ++
         (rtw89_core_rx_process_phy_sts E.H skb
           (rtw89_core_rx_process_phy_ppdu E.H skb (rx_report_mac_ppdu E desc_info skb)).2.1).2 ++
         (rtw89_core_rx_pending_skb E rtwdev (rx_report_phy_ppdu E desc_info skb) desc_info).2 ++
         [rx_event.dev_kfree_skb_any skb]) := rfl

theorem rx_process_ppdu_sts_delivered (E : rtw89_rx_env) (rtwdev : rtw89_dev)
    (desc_info : rtw89_rx_desc_info) (skb : sk_buff) :
    rx_delivered (rtw89_core_rx_process_ppdu_sts E rtwdev desc_info skb).2 =
      rx_delivered
        (rtw89_core_rx_pending_skb E rtwdev (rx_report_phy_ppdu E desc_info skb) desc_info).2 := by
  rw [rx_process_ppdu_sts_shape]
  simp only [rx_delivered_append, rx_delivered_process_phy_ppdu,
    rx_delivered_process_phy_sts, List.append_nil, List.nil_append, rx_delivered]

/-- C35. For every physical-status report on a path whose recorded epoch is
not above `RTW89_MAX_PPDU_CNT`, whatever the descriptor and the bytes of the
report are (hence whatever `rtw89_core_rx_process_mac_ppdu`,
`rtw89_core_rx_process_phy_ppdu` and `rtw89_core_rx_parse_phy_sts` return),
`rtw89_core_rx_process_ppdu_sts` leaves the queue of the path empty and
delivers every frame that was pending on it, once and in queue order: each as
it was queued, or with the status `rtw89_chip_query_ppdu` writes when it
matches the report. The report itself is released. -/
theorem rx_process_ppdu_sts_delivers_pending (E : rtw89_rx_env) (rtwdev : rtw89_dev)
    (desc_info : rtw89_rx_desc_info) (skb : sk_buff)
    (hle : rtwdev.ppdu_sts.curr_rx_ppdu_cnt.get (rx_band desc_info) ≤ E.C.RTW89_MAX_PPDU_CNT) :
    (rtw89_core_rx_process_ppdu_sts E rtwdev desc_info skb).1.ppdu_sts.rx_queue.get
        (rx_band desc_info) = [] ∧
    rx_delivered (rtw89_core_rx_process_ppdu_sts E rtwdev desc_info skb).2 =
      (rtwdev.ppdu_sts.rx_queue.get (rx_band desc_info)).map (fun e =>
        if rtw89_core_rx_ppdu_match E.C rtwdev desc_info e.skb.cb then
          { e.skb with
            cb := E.rtw89_chip_query_ppdu (rx_report_phy_ppdu E desc_info skb) e.skb.cb }
        else e.skb) ∧
    (rx_delivered (rtw89_core_rx_process_ppdu_sts E rtwdev desc_info skb).2).map sk_buff.data =
      (rtwdev.ppdu_sts.rx_queue.get (rx_band desc_info)).map (fun e => e.skb.data) ∧
    rx_event.dev_kfree_skb_any skb ∈ (rtw89_core_rx_process_ppdu_sts E rtwdev desc_info skb).2 := by
  have hc : ¬ rtwdev.ppdu_sts.curr_rx_ppdu_cnt.get (rx_band desc_info) >
      E.C.RTW89_MAX_PPDU_CNT := by omega
  have hp : ∀ p, rtw89_core_rx_pending_skb E rtwdev p desc_info =
      ({ rtwdev with
         ppdu_sts := { rtwdev.ppdu_sts with
                       rx_queue := rtwdev.ppdu_sts.rx_queue.set (rx_band desc_info) [] } },
       rtw89_core_rx_pending_skb_walk E rtwdev p desc_info
         (rtwdev.ppdu_sts.rx_queue.get (rx_band desc_info))) := by
    intro p
    unfold rtw89_core_rx_pending_skb
    simp only [hc, if_false]
  have hw : ∀ p q, rx_delivered (rtw89_core_rx_pending_skb_walk E rtwdev p desc_info q) =
      q.map (fun e =>
        if rtw89_core_rx_ppdu_match E.C rtwdev desc_info e.skb.cb then
          { e.skb with cb := E.rtw89_chip_query_ppdu p e.skb.cb }
        else e.skb) := by
    intro p q
    induction q with
    | nil => rfl
    | cons e q ih =>
      simp only [rtw89_core_rx_pending_skb_walk, rx_delivered, ih, List.map_cons]
  refine ⟨?_, ?_, ?_, ?_⟩
  · rw [rx_process_ppdu_sts_shape, hp]
    simp only [per_phy_get_set_same]
  · rw [rx_process_ppdu_sts_delivered, hp, hw]
  · rw [rx_process_ppdu_sts_delivered, hp, rx_pending_skb_walk_delivered]
  · rw [rx_process_ppdu_sts_shape]
    simp

theorem rx_process_ppdu_sts_delivers_pending_witness :
    rtw89_dev_holding.ppdu_sts.curr_rx_ppdu_cnt.get (rx_band rx_input_malformed_report.desc_info) ≤
      rx_env_example.C.RTW89_MAX_PPDU_CNT ∧
    (rtw89_core_rx_process_mac_ppdu rx_env_example.R rx_input_malformed_report.skb
      { len := 12, to_self := true }).1 = -EINVAL ∧
    (rtw89_core_rx_process_phy_ppdu rx_env_example.H rx_input_malformed_report.skb
      (rx_report_mac_ppdu rx_env_example rx_input_malformed_report.desc_info
        rx_input_malformed_report.skb)).1 = -EINVAL ∧
    (rtw89_core_rx_parse_phy_sts rx_env_example.H rx_input_malformed_report.skb.data 12 true).map
      (fun r => r.ret) = some (-EINVAL) ∧
    rtw89_dev_holding.ppdu_sts.rx_queue.get rtw89_phy_idx.RTW89_PHY_0 ≠ [] ∧
    (rtw89_core_rx_process_ppdu_sts rx_env_example rtw89_dev_holding
      rx_input_malformed_report.desc_info
      rx_input_malformed_report.skb).1.ppdu_sts.rx_queue.get
        (rx_band rx_input_malformed_report.desc_info) = [] ∧
    (rx_delivered (rtw89_core_rx_process_ppdu_sts rx_env_example rtw89_dev_holding
      rx_input_malformed_report.desc_info rx_input_malformed_report.skb).2).map sk_buff.data =
      (rtw89_dev_holding.ppdu_sts.rx_queue.get
        (rx_band rx_input_malformed_report.desc_info)).map (fun e => e.skb.data) :=
  ⟨by decide, by decide, by decide, by decide, by decide,
    (rx_process_ppdu_sts_delivers_pending rx_env_example rtw89_dev_holding
      rx_input_malformed_report.desc_info rx_input_malformed_report.skb (by decide)).1,
    (rx_process_ppdu_sts_delivers_pending rx_env_example rtw89_dev_holding
      rx_input_malformed_report.desc_info rx_input_malformed_report.skb (by decide)).2.2.1⟩

/-! ## The `valid` flag of a report -/

/-- The function `rtw89_core_rx_parse_phy_sts` returns, with 0 or `-EINVAL`. -/
theorem rx_parse_phy_sts_total (H : rtw89_phy_sts_h) (mem : List Nat) (len : Nat)
    (to_self : Bool) :
    ∃ r, rtw89_core_rx_parse_phy_sts H mem len to_self = some r ∧
      (r.ret = 0 ∨ r.ret = -EINVAL) := by
  cases to_self with
  | false => exact ⟨_, rfl, Or.inl rfl⟩
  | true =>
    obtain ⟨r, hr, hret⟩ := parse_loop_terminates H mem len (len + 1) H.PHY_STS_HDR_LEN
      (by omega) (by omega)
    exact ⟨r, by simp [rtw89_core_rx_parse_phy_sts, hr], hret⟩

/-- The declared-length check and `rtw89_core_update_phy_ppdu` leave `buf`,
`len`, `to_self` and `valid` of the record as they are. -/
theorem rx_process_phy_ppdu_keeps (H : rtw89_phy_sts_h) (skb : sk_buff)
    (phy_ppdu : rtw89_rx_phy_ppdu) :
    (rtw89_core_rx_process_phy_ppdu H skb phy_ppdu).2.1.buf = phy_ppdu.buf ∧
    (rtw89_core_rx_process_phy_ppdu H skb phy_ppdu).2.1.len = phy_ppdu.len ∧
    (rtw89_core_rx_process_phy_ppdu H skb phy_ppdu).2.1.to_self = phy_ppdu.to_self ∧
    (rtw89_core_rx_process_phy_ppdu H skb phy_ppdu).2.1.valid = phy_ppdu.valid := by
  unfold rtw89_core_rx_process_phy_ppdu
  by_cases h : (le32_get_bits H.RTW89_GET_PHY_STS_LEN skb.data phy_ppdu.buf * 8) % 2 ^ 32 ≠
      phy_ppdu.len
  · rw [if_pos h]
    exact ⟨rfl, rfl, rfl, rfl⟩
  · rw [if_neg h]
    exact ⟨rfl, rfl, rfl, rfl⟩

/-- The record before the declared-length check is not valid and has the
`to_self` of the descriptor. -/
theorem rx_report_mac_ppdu_flags (E : rtw89_rx_env) (desc_info : rtw89_rx_desc_info)
    (skb : sk_buff) :
    (rx_report_mac_ppdu E desc_info skb).valid = false ∧
    (rx_report_mac_ppdu E desc_info skb).to_self = desc_info.addr1_match := by
  unfold rx_report_mac_ppdu rtw89_core_rx_process_mac_ppdu
  dsimp only
  split_ifs <;> exact ⟨rfl, rfl⟩

/-- The flag `valid` after `rtw89_core_rx_process_phy_sts` on a record that was
not valid: set exactly when the walk returned 0. -/
theorem rx_process_phy_sts_valid (H : rtw89_phy_sts_h) (skb : sk_buff)
    (phy_ppdu : rtw89_rx_phy_ppdu) (hv : phy_ppdu.valid = false) (r : phy_sts_parse)
    (hr : rtw89_core_rx_parse_phy_sts H (skb.data.drop phy_ppdu.buf) phy_ppdu.len
      phy_ppdu.to_self = some r) :
    (rtw89_core_rx_process_phy_sts H skb phy_ppdu).1.valid = true ↔ r.ret = 0 := by
  unfold rtw89_core_rx_process_phy_sts
  rw [hr]
  dsimp only
  by_cases h0 : r.ret = 0
  · rw [if_neg (not_not.mpr h0)]
    exact ⟨fun _ => h0, fun _ => rfl⟩
  · rw [if_pos h0, hv]
    exact ⟨fun h => absurd h (by decide), fun h => absurd h h0⟩

/-- C36. The record `phy_ppdu` that `rtw89_core_rx_process_ppdu_sts` hands to
`rtw89_core_rx_pending_skb` (and through it to `rtw89_chip_query_ppdu`) has
`valid` true exactly when `rtw89_core_rx_parse_phy_sts`, which always returns,
returned 0 on the bytes from `buf`, the length `len` and the `to_self` the
record had before the declared-length check of
`rtw89_core_rx_process_phy_ppdu`; the result of that check does not enter.
Hence every report not addressed to self has `valid` true, and so has every
report whose sub-elements of positive length tile the bytes from
`PHY_STS_HDR_LEN` to `len`, whether the declared-length check failed or not. -/
theorem rx_process_ppdu_sts_valid (E : rtw89_rx_env) (rtwdev : rtw89_dev)
    (desc_info : rtw89_rx_desc_info) (skb : sk_buff) :
    (rtw89_core_rx_process_ppdu_sts E rtwdev desc_info skb).1 =
      (rtw89_core_rx_pending_skb E rtwdev (rx_report_phy_ppdu E desc_info skb) desc_info).1 ∧
    rx_delivered (rtw89_core_rx_process_ppdu_sts E rtwdev desc_info skb).2 =
      rx_delivered
        (rtw89_core_rx_pending_skb E rtwdev (rx_report_phy_ppdu E desc_info skb) desc_info).2 ∧
    (∃ r, rtw89_core_rx_parse_phy_sts E.H
        (skb.data.drop (rx_report_mac_ppdu E desc_info skb).buf)
        (rx_report_mac_ppdu E desc_info skb).len desc_info.addr1_match = some r ∧
      (r.ret = 0 ∨ r.ret = -EINVAL) ∧
      ((rx_report_phy_ppdu E desc_info skb).valid = true ↔ r.ret = 0)) ∧
    (desc_info.addr1_match = false → (rx_report_phy_ppdu E desc_info skb).valid = true) ∧
    (∀ ls, sub_elements_from E.H (skb.data.drop (rx_report_mac_ppdu E desc_info skb).buf)
        E.H.PHY_STS_HDR_LEN ls → (∀ l ∈ ls, 0 < l) →
      E.H.PHY_STS_HDR_LEN + ls.sum = (rx_report_mac_ppdu E desc_info skb).len →
      (rx_report_phy_ppdu E desc_info skb).valid = true) := by
  obtain ⟨hbuf, hlen, hself, hval⟩ := rx_process_phy_ppdu_keeps E.H skb
    (rx_report_mac_ppdu E desc_info skb)
  obtain ⟨hv0, hs0⟩ := rx_report_mac_ppdu_flags E desc_info skb
  obtain ⟨r, hr, hret⟩ := rx_parse_phy_sts_total E.H
    (skb.data.drop (rx_report_mac_ppdu E desc_info skb).buf)
    (rx_report_mac_ppdu E desc_info skb).len desc_info.addr1_match
  have hr' : rtw89_core_rx_parse_phy_sts E.H
      (skb.data.drop
        (rtw89_core_rx_process_phy_ppdu E.H skb (rx_report_mac_ppdu E desc_info skb)).2.1.buf)
      (rtw89_core_rx_process_phy_ppdu E.H skb (rx_report_mac_ppdu E desc_info skb)).2.1.len
      (rtw89_core_rx_process_phy_ppdu E.H skb (rx_report_mac_ppdu E desc_info skb)).2.1.to_self =
      some r := by
    rw [hbuf, hlen, hself, hs0]
    exact hr
  have hiff : (rx_report_phy_ppdu E desc_info skb).valid = true ↔ r.ret = 0 :=
    rx_process_phy_sts_valid E.H skb _ (by rw [hval, hv0]) r hr'
  refine ⟨?_, rx_process_ppdu_sts_delivered E rtwdev desc_info skb, ⟨r, hr, hret, hiff⟩, ?_, ?_⟩
  · rw [rx_process_ppdu_sts_shape]
  · intro hns
    rw [hns] at hr
    have : r = { ret := 0, reads := [], cfo := [] } := by
      simp only [rtw89_core_rx_parse_phy_sts, Bool.not_false, if_true] at hr
      exact (Option.some.inj hr).symm
    exact hiff.mpr (by rw [this])
  · intro ls hsub hpos hend
    apply hiff.mpr
    cases hs : desc_info.addr1_match with
    | false =>
      rw [hs] at hr
      have : r = { ret := 0, reads := [], cfo := [] } := by
        simp only [rtw89_core_rx_parse_phy_sts, Bool.not_false, if_true] at hr
        exact (Option.some.inj hr).symm
      rw [this]
    | true =>
      rw [hs] at hr
      have hl : rtw89_core_rx_parse_phy_sts_loop E.H
          (skb.data.drop (rx_report_mac_ppdu E desc_info skb).buf)
          (rx_report_mac_ppdu E desc_info skb).len
          ((rx_report_mac_ppdu E desc_info skb).len + 1) E.H.PHY_STS_HDR_LEN = some r := by
        simpa [rtw89_core_rx_parse_phy_sts] using hr
      exact parse_loop_tiles_zero E.H _ _ ls _ _ r hl hsub hpos hend

/-- Two reports that fail the declared-length check and are marked valid: one
not addressed to self, and one addressed to self whose single sub-element ends
where the buffer ends. -/
theorem rx_report_valid_after_failed_length_check :
    (rtw89_core_rx_process_phy_ppdu rx_env_example.H rx_input_malformed_report.skb
      (rx_report_mac_ppdu rx_env_example
        { rx_input_malformed_report.desc_info with addr1_match := false }
        rx_input_malformed_report.skb)).1 = -EINVAL ∧
    (rx_report_phy_ppdu rx_env_example
      { rx_input_malformed_report.desc_info with addr1_match := false }
      rx_input_malformed_report.skb).valid = true ∧
    (rtw89_core_rx_process_phy_ppdu rx_env_example.H rx_input_undeclared_report.skb
      (rx_report_mac_ppdu rx_env_example rx_input_undeclared_report.desc_info
        rx_input_undeclared_report.skb)).1 = -EINVAL ∧
    (rx_report_phy_ppdu rx_env_example rx_input_undeclared_report.desc_info
      rx_input_undeclared_report.skb).valid = true ∧
    (rx_report_phy_ppdu rx_env_example rx_input_malformed_report.desc_info
      rx_input_malformed_report.skb).valid = false := by
  decide

/-! ## Data frames: held or delivered -/

/-- C32, as the code has it. For every data-frame descriptor `rtw89_core_rx`,
after the flush that a change of epoch causes, does exactly one of two things
with the frame. When the descriptor is a long one and its frame type is in
`PPDU_FILTER_BITMAP`, the frame is appended to the tail of the queue of its
path and no event delivers it. Otherwise (a short descriptor, or a frame type
outside the bitmap) the frame is delivered to the receive interface as the
last event and the queue does not receive it. -/
theorem rx_queue_xor_deliver (E : rtw89_rx_env) (rtwdev : rtw89_dev)
    (desc_info : rtw89_rx_desc_info) (skb : sk_buff)
    (hty : desc_info.pkt_type = rtw89_core_rx_type.RTW89_CORE_RX_TYPE_WIFI) :
    (desc_info.long_rxdesc = true ∧ BIT desc_info.frame_type &&& E.C.PPDU_FILTER_BITMAP ≠ 0 →
      (rtw89_core_rx E rtwdev desc_info skb).1.ppdu_sts.rx_queue.get (rx_band desc_info) =
        (if rtwdev.ppdu_sts.curr_rx_ppdu_cnt.get (rx_band desc_info) = desc_info.ppdu_cnt
          then rtwdev.ppdu_sts.rx_queue.get (rx_band desc_info) else []) ++
          [{ skb := rx_frame_skb E rtwdev desc_info skb, ppdu_cnt := desc_info.ppdu_cnt }] ∧
      (rtw89_core_rx E rtwdev desc_info skb).2 =
        (if rtwdev.ppdu_sts.curr_rx_ppdu_cnt.get (rx_band desc_info) = desc_info.ppdu_cnt
          then []
          else (rtwdev.ppdu_sts.rx_queue.get (rx_band desc_info)).map
            (fun e => rx_event.ieee80211_rx_irqsafe e.skb))) ∧
    (¬ (desc_info.long_rxdesc = true ∧
        BIT desc_info.frame_type &&& E.C.PPDU_FILTER_BITMAP ≠ 0) →
      (rtw89_core_rx E rtwdev desc_info skb).1.ppdu_sts.rx_queue.get (rx_band desc_info) =
        (if rtwdev.ppdu_sts.curr_rx_ppdu_cnt.get (rx_band desc_info) = desc_info.ppdu_cnt
          then rtwdev.ppdu_sts.rx_queue.get (rx_band desc_info) else []) ∧
      (rtw89_core_rx E rtwdev desc_info skb).2 =
        (if rtwdev.ppdu_sts.curr_rx_ppdu_cnt.get (rx_band desc_info) = desc_info.ppdu_cnt
          then []
          else (rtwdev.ppdu_sts.rx_queue.get (rx_band desc_info)).map
            (fun e => rx_event.ieee80211_rx_irqsafe e.skb)) ++
          [rx_event.ieee80211_rx_irqsafe (rx_frame_skb E rtwdev desc_info skb)]) := by
  have hel : rx_ppdu_eligible E.C desc_info = true ↔
      (desc_info.long_rxdesc = true ∧ BIT desc_info.frame_type &&& E.C.PPDU_FILTER_BITMAP ≠ 0) := by
    simp [rx_ppdu_eligible]
  have hfl : (rx_dev_flushed rtwdev (rx_band desc_info)
      desc_info.ppdu_cnt).ppdu_sts.curr_rx_ppdu_cnt.get (rx_band desc_info) =
      desc_info.ppdu_cnt := by
    simp [rx_dev_flushed, per_phy_get_set_same]
  have hq : (rx_dev_flushed rtwdev (rx_band desc_info)
      desc_info.ppdu_cnt).ppdu_sts.rx_queue.get (rx_band desc_info) = [] := by
    simp [rx_dev_flushed, per_phy_get_set_same]
  by_cases heq : rtwdev.ppdu_sts.curr_rx_ppdu_cnt.get (rx_band desc_info) = desc_info.ppdu_cnt
  · rw [rx_wifi_same_epoch E rtwdev desc_info skb hty heq]
    simp only [heq, if_true]
    refine ⟨fun h => ?_, fun h => ?_⟩
    · rw [if_pos (hel.mpr h)]
      simp only [per_phy_get_set_same]
      exact ⟨trivial, trivial⟩
    · rw [if_neg (fun he => h (hel.mp he))]
      simp
  · rw [rx_wifi_new_epoch E rtwdev desc_info skb hty heq,
      rx_wifi_same_epoch E _ desc_info skb hty hfl]
    simp only [heq, if_false, rx_frame_skb_flushed]
    refine ⟨fun h => ?_, fun h => ?_⟩
    · rw [if_pos (hel.mpr h)]
      simp only [per_phy_get_set_same, hq, List.nil_append, List.append_nil]
      exact ⟨trivial, trivial⟩
    · rw [if_neg (fun he => h (hel.mp he))]
      simp only [hq]
      exact ⟨trivial, trivial⟩

theorem rx_queue_xor_deliver_witness :
    rx_input_held.desc_info.pkt_type = rtw89_core_rx_type.RTW89_CORE_RX_TYPE_WIFI ∧
    (rx_input_held.desc_info.long_rxdesc = true ∧
      BIT rx_input_held.desc_info.frame_type &&& rx_env_example.C.PPDU_FILTER_BITMAP ≠ 0) ∧
    (rtw89_core_rx rx_env_example rtw89_dev_init rx_input_held.desc_info
      rx_input_held.skb).1.ppdu_sts.rx_queue.get (rx_band rx_input_held.desc_info) =
      [{ skb := rx_frame_skb rx_env_example rtw89_dev_init rx_input_held.desc_info
                  rx_input_held.skb
         ppdu_cnt := 3 }] ∧
    (rtw89_core_rx rx_env_example rtw89_dev_init rx_input_held.desc_info
      rx_input_held.skb).2 = [] ∧
    ¬ (rx_input_short_listed.desc_info.long_rxdesc = true ∧
      BIT rx_input_short_listed.desc_info.frame_type &&&
        rx_env_example.C.PPDU_FILTER_BITMAP ≠ 0) ∧
    (rtw89_core_rx rx_env_example rtw89_dev_init rx_input_short_listed.desc_info
      rx_input_short_listed.skb).1.ppdu_sts.rx_queue.get
        (rx_band rx_input_short_listed.desc_info) = [] ∧
    (rtw89_core_rx rx_env_example rtw89_dev_init rx_input_short_listed.desc_info
      rx_input_short_listed.skb).2 =
      [rx_event.ieee80211_rx_irqsafe
        (rx_frame_skb rx_env_example rtw89_dev_init rx_input_short_listed.desc_info
          rx_input_short_listed.skb)] :=
  ⟨rfl, by decide,
    ((rx_queue_xor_deliver rx_env_example rtw89_dev_init rx_input_held.desc_info
      rx_input_held.skb rfl).1 (by decide)).1,
    ((rx_queue_xor_deliver rx_env_example rtw89_dev_init rx_input_held.desc_info
      rx_input_held.skb rfl).1 (by decide)).2,
    by decide,
    ((rx_queue_xor_deliver rx_env_example rtw89_dev_init rx_input_short_listed.desc_info
      rx_input_short_listed.skb rfl).2 (by decide)).1,
    ((rx_queue_xor_deliver rx_env_example rtw89_dev_init rx_input_short_listed.desc_info
      rx_input_short_listed.skb rfl).2 (by decide)).2⟩

/-- C32 fails as stated: a data frame with a short descriptor whose frame type
2 is in the allow-list (`PPDU_FILTER_BITMAP` = `BIT(2)`), arriving in the
initial state. The frame is not appended to the queue of its path, which stays
empty; it is delivered at once. -/
theorem rx_short_desc_listed_type_not_queued :
    rx_input_short_listed.desc_info.pkt_type = rtw89_core_rx_type.RTW89_CORE_RX_TYPE_WIFI ∧
    BIT rx_input_short_listed.desc_info.frame_type &&& rx_env_example.C.PPDU_FILTER_BITMAP ≠ 0 ∧
    rx_input_short_listed.desc_info.long_rxdesc = false ∧
    (rtw89_core_rx rx_env_example rtw89_dev_init rx_input_short_listed.desc_info
      rx_input_short_listed.skb).1.ppdu_sts.rx_queue.get
        (rx_band rx_input_short_listed.desc_info) = [] ∧
    (rtw89_core_rx rx_env_example rtw89_dev_init rx_input_short_listed.desc_info
      rx_input_short_listed.skb).2 =
      [rx_event.ieee80211_rx_irqsafe
        (rx_frame_skb rx_env_example rtw89_dev_init rx_input_short_listed.desc_info
          rx_input_short_listed.skb)] := by
  decide

/-! ## Security attributes of a data frame -/

/-- The value the `switch` of `rtw89_core_tx_update_sec_key` gives for each of
the four cipher suites it knows. -/
theorem tx_update_sec_key_switch_supported (C : rtw89_tx_consts) (cipher : Nat)
    (h : tx_cipher_supported cipher) :
    ∃ t, rtw89_core_tx_update_sec_key_switch C cipher = some t ∧
      (cipher = WLAN_CIPHER_SUITE_WEP40 → t = C.RTW89_SEC_KEY_TYPE_WEP40 % 256) ∧
      (cipher = WLAN_CIPHER_SUITE_WEP104 → t = C.RTW89_SEC_KEY_TYPE_WEP104 % 256) ∧
      (cipher = WLAN_CIPHER_SUITE_TKIP → t = C.RTW89_SEC_KEY_TYPE_TKIP % 256) ∧
      (cipher = WLAN_CIPHER_SUITE_CCMP → t = C.RTW89_SEC_KEY_TYPE_CCMP128 % 256) := by
  unfold tx_cipher_supported at h
  unfold rtw89_core_tx_update_sec_key_switch
  rcases h with h | h | h | h <;> subst h <;> refine ⟨_, rfl, ?_, ?_, ?_, ?_⟩ <;> intro hh <;>
    first
    | rfl
    | exact absurd hh (by decide)

/-- The security attributes after `rtw89_core_tx_update_sec_key`. -/
theorem tx_update_sec_key_sec (C : rtw89_tx_consts) (P : rtw89_tx_peers)
    (tx_req : rtw89_core_tx_request) (key : ieee80211_key_conf) :
    (∀ vif idx t, tx_req.vif = some vif → P.sec_entries vif key.hw_key_idx = some idx →
      rtw89_core_tx_update_sec_key_switch C key.cipher = some t →
      (rtw89_core_tx_update_sec_key C P tx_req key).desc_info.sec_en = true ∧
      (rtw89_core_tx_update_sec_key C P tx_req key).desc_info.sec_type = t ∧
      (rtw89_core_tx_update_sec_key C P tx_req key).desc_info.sec_cam_idx = idx) ∧
    (¬ (∃ vif idx, tx_req.vif = some vif ∧ P.sec_entries vif key.hw_key_idx = some idx ∧
        tx_cipher_supported key.cipher) →
      rtw89_core_tx_update_sec_key C P tx_req key = tx_req) := by
  refine ⟨fun vif idx t hv he ht => ?_, fun hn => ?_⟩
  · unfold rtw89_core_tx_update_sec_key
    rw [hv]
    dsimp only
    rw [he]
    dsimp only
    rw [ht]
    exact ⟨rfl, rfl, rfl⟩
  · by_cases hc : tx_cipher_supported key.cipher
    · unfold rtw89_core_tx_update_sec_key
      cases hv : tx_req.vif with
      | none => rfl
      | some vif =>
        dsimp only
        cases he : P.sec_entries vif key.hw_key_idx with
        | none => rfl
        | some idx => exact absurd ⟨vif, idx, hv, he, hc⟩ hn
    · exact tx_update_sec_key_unsupported C P tx_req key hc

/-- The request `rtw89_core_tx_update_data_info` passes to, or returns instead
of, `rtw89_core_tx_update_sec_key` has the security attributes it was given. -/
theorem tx_update_data_info_split {σ : Type} (C : rtw89_tx_consts) (P : rtw89_tx_peers)
    (ops : rtw89_tx_ops σ) (tx_req : rtw89_core_tx_request) :
    ∃ r : rtw89_core_tx_request,
      r.vif = tx_req.vif ∧ r.desc_info.sec_en = tx_req.desc_info.sec_en ∧
      r.desc_info.sec_type = tx_req.desc_info.sec_type ∧
      r.desc_info.sec_cam_idx = tx_req.desc_info.sec_cam_idx ∧
      rtw89_core_tx_update_data_info C P ops tx_req =
        match tx_req.skb.hw_key with
        | some key => rtw89_core_tx_update_sec_key C P r key
        | none => r := by
  unfold rtw89_core_tx_update_data_info
  dsimp only
  by_cases hf : tx_req.skb.flags &&& IEEE80211_TX_CTL_AMPDU ≠ 0
  · rw [if_pos hf]
    refine ⟨_, ?_, ?_, ?_, ?_, rfl⟩
    · unfold rtw89_core_tx_update_ampdu_info
      split <;> rfl
    · exact (tx_update_ampdu_info_sec P _ _).1
    · exact (tx_update_ampdu_info_sec P _ _).2.1
    · exact (tx_update_ampdu_info_sec P _ _).2.2
  · rw [if_neg hf]
    refine ⟨_, ?_, ?_, ?_, ?_, rfl⟩ <;> rfl

/-- C31. For every request whose security attributes are clear on entry (as in
the zeroed request), after `rtw89_core_tx_update_data_info` the attribute
`sec_en` is true if and only if the frame has a key (`hw_key`), the request
has a virtual interface, that interface has a security entry for the key's
index, and the cipher suite of the key is WEP40, WEP104, TKIP or CCMP. In that
case `sec_type` is (as `u8`) `RTW89_SEC_KEY_TYPE_WEP40`,
`RTW89_SEC_KEY_TYPE_WEP104`, `RTW89_SEC_KEY_TYPE_TKIP` or
`RTW89_SEC_KEY_TYPE_CCMP128` respectively and `sec_cam_idx` is the entry's
`sec_cam_idx`; otherwise `sec_en` is false and `sec_type` and `sec_cam_idx`
are 0. -/
theorem tx_update_data_info_sec {σ : Type} (C : rtw89_tx_consts) (P : rtw89_tx_peers)
    (ops : rtw89_tx_ops σ) (tx_req : rtw89_core_tx_request)
    (hz : tx_req.desc_info.sec_en = false ∧ tx_req.desc_info.sec_type = 0 ∧
      tx_req.desc_info.sec_cam_idx = 0) :
    ((rtw89_core_tx_update_data_info C P ops tx_req).desc_info.sec_en = true ↔
      ∃ key vif idx, tx_req.skb.hw_key = some key ∧ tx_req.vif = some vif ∧
        P.sec_entries vif key.hw_key_idx = some idx ∧ tx_cipher_supported key.cipher) ∧
    (∀ key vif idx, tx_req.skb.hw_key = some key → tx_req.vif = some vif →
      P.sec_entries vif key.hw_key_idx = some idx → tx_cipher_supported key.cipher →
      (rtw89_core_tx_update_data_info C P ops tx_req).desc_info.sec_cam_idx = idx ∧
      (key.cipher = WLAN_CIPHER_SUITE_WEP40 →
        (rtw89_core_tx_update_data_info C P ops tx_req).desc_info.sec_type =
          C.RTW89_SEC_KEY_TYPE_WEP40 % 256) ∧
      (key.cipher = WLAN_CIPHER_SUITE_WEP104 →
        (rtw89_core_tx_update_data_info C P ops tx_req).desc_info.sec_type =
          C.RTW89_SEC_KEY_TYPE_WEP104 % 256) ∧
      (key.cipher = WLAN_CIPHER_SUITE_TKIP →
        (rtw89_core_tx_update_data_info C P ops tx_req).desc_info.sec_type =
          C.RTW89_SEC_KEY_TYPE_TKIP % 256) ∧
      (key.cipher = WLAN_CIPHER_SUITE_CCMP →
        (rtw89_core_tx_update_data_info C P ops tx_req).desc_info.sec_type =
          C.RTW89_SEC_KEY_TYPE_CCMP128 % 256)) ∧
    ((rtw89_core_tx_update_data_info C P ops tx_req).desc_info.sec_en = false →
      (rtw89_core_tx_update_data_info C P ops tx_req).desc_info.sec_type = 0 ∧
      (rtw89_core_tx_update_data_info C P ops tx_req).desc_info.sec_cam_idx = 0) := by
  obtain ⟨r, hvif, hen, hty, hidx, heq⟩ := tx_update_data_info_split C P ops tx_req
  have hpos : ∀ key vif idx, tx_req.skb.hw_key = some key → tx_req.vif = some vif →
      P.sec_entries vif key.hw_key_idx = some idx → tx_cipher_supported key.cipher →
      ∃ t, rtw89_core_tx_update_sec_key_switch C key.cipher = some t ∧
        (rtw89_core_tx_update_data_info C P ops tx_req).desc_info.sec_en = true ∧
        (rtw89_core_tx_update_data_info C P ops tx_req).desc_info.sec_type = t ∧
        (rtw89_core_tx_update_data_info C P ops tx_req).desc_info.sec_cam_idx = idx := by
    intro key vif idx hk hv he hc
    obtain ⟨t, ht, _⟩ := tx_update_sec_key_switch_supported C key.cipher hc
    rw [heq, hk]
    exact ⟨t, ht, (tx_update_sec_key_sec C P r key).1 vif idx t (hvif.trans hv) he ht⟩
  have hneg : ¬ (∃ key vif idx, tx_req.skb.hw_key = some key ∧ tx_req.vif = some vif ∧
      P.sec_entries vif key.hw_key_idx = some idx ∧ tx_cipher_supported key.cipher) →
      (rtw89_core_tx_update_data_info C P ops tx_req).desc_info.sec_en = false ∧
      (rtw89_core_tx_update_data_info C P ops tx_req).desc_info.sec_type = 0 ∧
      (rtw89_core_tx_update_data_info C P ops tx_req).desc_info.sec_cam_idx = 0 := by
    intro hn
    rw [heq]
    cases hk : tx_req.skb.hw_key with
    | none => exact ⟨hen.trans hz.1, hty.trans hz.2.1, hidx.trans hz.2.2⟩
    | some key =>
      dsimp only
      rw [(tx_update_sec_key_sec C P r key).2 (fun ⟨vif, idx, hv, he, hc⟩ =>
        hn ⟨key, vif, idx, hk, hvif.symm.trans hv, he, hc⟩)]
      exact ⟨hen.trans hz.1, hty.trans hz.2.1, hidx.trans hz.2.2⟩
  refine ⟨⟨fun h => ?_, fun ⟨key, vif, idx, hk, hv, he, hc⟩ => ?_⟩, ?_, ?_⟩
  · by_contra hn
    rw [(hneg hn).1] at h
    exact absurd h (by decide)
  · obtain ⟨t, _, h, _⟩ := hpos key vif idx hk hv he hc
    exact h
  · intro key vif idx hk hv he hc
    obtain ⟨t, ht, _, hst, hsi⟩ := hpos key vif idx hk hv he hc
    obtain ⟨t', ht', h1, h2, h3, h4⟩ := tx_update_sec_key_switch_supported C key.cipher hc
    have htt : t' = t := Option.some.inj (ht'.symm.trans ht)
    subst htt
    rw [hst]
    exact ⟨hsi, h1, h2, h3, h4⟩
  · intro hf
    by_cases hn : ∃ key vif idx, tx_req.skb.hw_key = some key ∧ tx_req.vif = some vif ∧
        P.sec_entries vif key.hw_key_idx = some idx ∧ tx_cipher_supported key.cipher
    · obtain ⟨key, vif, idx, hk, hv, he, hc⟩ := hn
      obtain ⟨t, _, h, _⟩ := hpos key vif idx hk hv he hc
      rw [h] at hf
      exact absurd hf (by decide)
    · exact (hneg hn).2

theorem tx_update_data_info_sec_witness :
    (({ skb := tx_skb_ccmp, vif := some 0 } : rtw89_core_tx_request).desc_info.sec_en = false ∧
      ({ skb := tx_skb_ccmp, vif := some 0 } : rtw89_core_tx_request).desc_info.sec_type = 0 ∧
      ({ skb := tx_skb_ccmp, vif := some 0 } : rtw89_core_tx_request).desc_info.sec_cam_idx = 0) ∧
    (rtw89_core_tx_update_data_info tx_consts_example tx_peers_example tx_ops_example
      { skb := tx_skb_ccmp, vif := some 0 }).desc_info.sec_en = true ∧
    (rtw89_core_tx_update_data_info tx_consts_example tx_peers_example tx_ops_example
      { skb := tx_skb_ccmp, vif := some 0 }).desc_info.sec_cam_idx = 9 ∧
    (rtw89_core_tx_update_data_info tx_consts_example tx_peers_example tx_ops_example
      { skb := tx_skb_ccmp, vif := some 0 }).desc_info.sec_type = 6 :=
  ⟨by decide,
    (tx_update_data_info_sec tx_consts_example tx_peers_example tx_ops_example
      { skb := tx_skb_ccmp, vif := some 0 } (by decide)).1.mpr
      ⟨_, 0, 9, rfl, rfl, rfl, by decide⟩,
    ((tx_update_data_info_sec tx_consts_example tx_peers_example tx_ops_example
      { skb := tx_skb_ccmp, vif := some 0 } (by decide)).2.1 _ 0 9 rfl rfl rfl (by decide)).1,
    ((tx_update_data_info_sec tx_consts_example tx_peers_example tx_ops_example
      { skb := tx_skb_ccmp, vif := some 0 } (by decide)).2.1 _ 0 9 rfl rfl rfl
        (by decide)).2.2.2.2 rfl⟩

/-! ## Center channel of the table channels -/

theorem get_channel_params_center_chan_40 (K : rtw89_chan_consts) (chan : ieee80211_channel)
    (cf1 : Nat) (cp : rtw89_channel_params) :
    (rtw89_get_channel_params K
      { chan := chan, width := nl80211_chan_width.NL80211_CHAN_WIDTH_40, center_freq1 := cf1 }
      cp).center_chan =
      if chan.center_freq > cf1 then u8 ((u8 (chan.hw_value : Int) : Int) - 2)
      else u8 ((u8 (chan.hw_value : Int) : Int) + 2) := by
  simp only [rtw89_get_channel_params, rtw89_get_channel_params_switch]
  split_ifs <;> rfl

theorem get_channel_params_center_chan_80 (K : rtw89_chan_consts) (chan : ieee80211_channel)
    (cf1 : Nat) (cp : rtw89_channel_params) :
    (rtw89_get_channel_params K
      { chan := chan, width := nl80211_chan_width.NL80211_CHAN_WIDTH_80, center_freq1 := cf1 }
      cp).center_chan =
      if chan.center_freq > cf1 then
        if chan.center_freq - cf1 = 10 then u8 ((u8 (chan.hw_value : Int) : Int) - 2)
        else u8 ((u8 (chan.hw_value : Int) : Int) - 6)
      else
        if cf1 - chan.center_freq = 10 then u8 ((u8 (chan.hw_value : Int) : Int) + 2)
        else u8 ((u8 (chan.hw_value : Int) : Int) + 6) := by
  simp only [rtw89_get_channel_params, rtw89_get_channel_params_switch]
  split_ifs <;> rfl

/-- Every entry of `rtw89_channels_5ghz` has the channel number
(`center_freq` - 5000) / 5, between 36 and 165. -/
theorem channels_5ghz_numbering :
    ∀ c ∈ rtw89_channels_5ghz,
      c.center_freq = 5000 + 5 * c.hw_value ∧ 36 ≤ c.hw_value ∧ c.hw_value ≤ 165 := by
  decide

/-- Every entry of `rtw89_channels_2ghz` but channel 14 has the channel number
(`center_freq` - 2407) / 5, which is at least 1. -/
theorem channels_2ghz_numbering :
    ∀ c ∈ rtw89_channels_2ghz, c.hw_value ≤ 13 →
      c.center_freq = 2407 + 5 * c.hw_value ∧ 1 ≤ c.hw_value := by
  decide

/-- C34. For every channel of `rtw89_channels_5ghz`, at width 40 MHz with
`center_freq1` 10 MHz above or below the primary frequency and at width 80 MHz
with `center_freq1` 10 or 30 MHz above or below it, the `center_chan` that
`rtw89_get_channel_params` computes is (`center_freq1` - 5000) / 5. For every
channel 1 to 13 of `rtw89_channels_2ghz`, at width 40 MHz with `center_freq1`
10 MHz above or below the primary frequency, it is (`center_freq1` - 2407) / 5
whenever that number is at least 1. -/
theorem get_channel_params_center_chan_table (K : rtw89_chan_consts)
    (cp : rtw89_channel_params) (chan : ieee80211_channel) (cf1 : Nat) :
    (chan ∈ rtw89_channels_5ghz →
      ((cf1 = chan.center_freq + 10 ∨ cf1 + 10 = chan.center_freq) →
        ((rtw89_get_channel_params K
          { chan := chan, width := nl80211_chan_width.NL80211_CHAN_WIDTH_40, center_freq1 := cf1 }
          cp).center_chan : Int) = ((cf1 : Int) - 5000) / 5) ∧
      ((cf1 = chan.center_freq + 10 ∨ cf1 + 10 = chan.center_freq ∨
          cf1 = chan.center_freq + 30 ∨ cf1 + 30 = chan.center_freq) →
        ((rtw89_get_channel_params K
          { chan := chan, width := nl80211_chan_width.NL80211_CHAN_WIDTH_80, center_freq1 := cf1 }
          cp).center_chan : Int) = ((cf1 : Int) - 5000) / 5)) ∧
    (chan ∈ rtw89_channels_2ghz → 1 ≤ chan.hw_value → chan.hw_value ≤ 13 →
      (cf1 = chan.center_freq + 10 ∨ cf1 + 10 = chan.center_freq) →
      1 ≤ ((cf1 : Int) - 2407) / 5 →
      ((rtw89_get_channel_params K
        { chan := chan, width := nl80211_chan_width.NL80211_CHAN_WIDTH_40, center_freq1 := cf1 }
        cp).center_chan : Int) = ((cf1 : Int) - 2407) / 5) := by
  refine ⟨fun hmem => ?_, fun hmem h1 h13 hcf hge => ?_⟩
  · obtain ⟨hfreq, hlo, hhi⟩ := channels_5ghz_numbering chan hmem
    have hu : u8 (chan.hw_value : Int) = chan.hw_value := u8_of_nat_lt _ (by omega)
    refine ⟨fun hcf => ?_, fun hcf => ?_⟩
    · rw [get_channel_params_center_chan_40, hu]
      rcases hcf with h | h
      · rw [if_neg (by omega)]
        unfold u8
        omega
      · rw [if_pos (by omega)]
        unfold u8
        omega
    · rw [get_channel_params_center_chan_80, hu]
      rcases hcf with h | h | h | h
      · rw [if_neg (by omega), if_pos (by omega)]
        unfold u8
        omega
      · rw [if_pos (by omega), if_pos (by omega)]
        unfold u8
        omega
      · rw [if_neg (by omega), if_neg (by omega)]
        unfold u8
        omega
      · rw [if_pos (by omega), if_neg (by omega)]
        unfold u8
        omega
  · obtain ⟨hfreq, _⟩ := channels_2ghz_numbering chan hmem h13
    have hu : u8 (chan.hw_value : Int) = chan.hw_value := u8_of_nat_lt _ (by omega)
    rw [get_channel_params_center_chan_40, hu]
    rcases hcf with h | h
    · rw [if_neg (by omega)]
      unfold u8
      omega
    · rw [if_pos (by omega)]
      unfold u8
      omega

/-- Witness of C34: channel 149 (5745 MHz) at 40 MHz centered at 5755 MHz gives
151; channel 36 (5180 MHz) at 80 MHz centered at 5210 MHz gives 42; channel 100
(5500 MHz) at 80 MHz centered at 5530 MHz gives 106; channel 6 (2437 MHz) at
40 MHz centered at 2427 MHz gives 4. -/
theorem get_channel_params_center_chan_table_witness :
    ((rtw89_get_channel_params chan_consts_example
        { chan := { center_freq := 5745, hw_value := 149 }
          width := nl80211_chan_width.NL80211_CHAN_WIDTH_40, center_freq1 := 5755 }
        chan_param_garbage).center_chan : Int) = 151 ∧
    ((rtw89_get_channel_params chan_consts_example
        { chan := { center_freq := 5180, hw_value := 36 }
          width := nl80211_chan_width.NL80211_CHAN_WIDTH_80, center_freq1 := 5210 }
        chan_param_garbage).center_chan : Int) = 42 ∧
    ((rtw89_get_channel_params chan_consts_example
        { chan := { center_freq := 5500, hw_value := 100 }
          width := nl80211_chan_width.NL80211_CHAN_WIDTH_80, center_freq1 := 5530 }
        chan_param_garbage).center_chan : Int) = 106 ∧
    ((rtw89_get_channel_params chan_consts_example
        { chan := { center_freq := 2437, hw_value := 6 }
          width := nl80211_chan_width.NL80211_CHAN_WIDTH_40, center_freq1 := 2427 }
        chan_param_garbage).center_chan : Int) = 4 :=
  ⟨((get_channel_params_center_chan_table chan_consts_example chan_param_garbage
      { center_freq := 5745, hw_value := 149 } 5755).1 (by decide)).1 (by decide),
    ((get_channel_params_center_chan_table chan_consts_example chan_param_garbage
      { center_freq := 5180, hw_value := 36 } 5210).1 (by decide)).2 (by decide),
    ((get_channel_params_center_chan_table chan_consts_example chan_param_garbage
      { center_freq := 5500, hw_value := 100 } 5530).1 (by decide)).2 (by decide),
    (get_channel_params_center_chan_table chan_consts_example chan_param_garbage
      { center_freq := 2437, hw_value := 6 } 2427).2 (by decide) (by decide) (by decide)
      (by decide) (by decide)⟩

/-- The two cases the provisos of C34 leave out. Channel 1 (2412 MHz) with the
40 MHz block centered 10 MHz below it: the `u8` center channel wraps to 255,
while (2402 - 2407) / 5 is -1. Channel 14 (2484 MHz) with the block centered
10 MHz above it: the center channel is 16, while (2494 - 2407) / 5 is 17. -/
theorem get_channel_params_center_chan_outside_table_rule :
    (rtw89_get_channel_params chan_consts_example chandef_2412_ht40_minus
      chan_param_garbage).center_chan = 255 ∧
    ((chandef_2412_ht40_minus.center_freq1 : Int) - 2407) / 5 = -1 ∧
    (rtw89_get_channel_params chan_consts_example
      { chan := { center_freq := 2484, hw_value := 14 }
        width := nl80211_chan_width.NL80211_CHAN_WIDTH_40, center_freq1 := 2494 }
      chan_param_garbage).center_chan = 16 ∧
    ((2494 : Int) - 2407) / 5 = 17 := by
  decide

end Rtw89
